import Mathlib

/-!
# i1Display3 sensor driver: shallow embedding and verified properties

Embedding of `src/DisplayCalibration_with_i1d3/i1d3_api.c` (and of the parts
of the earlier driver `src/i1d3_linux/11d3.c` that it is compared with), in
the namespace `I1D3`, of the gamut solver and the gamma table builder of
`src/DisplayCalibration/TV_gamut_gamma_calibration.c`, in the namespace
`TVCalibration`, and of the closed-loop calibrator of
`src/DisplayCalibration_with_i1d3/display_calibration_api.c`, in
the namespace `Calibration`.  The definitions of all three come first,
the theorems after.

Conventions of the embedding

* `uint8_t` and `uint32_t` values are natural numbers; every store into such a
  variable is reduced `% 256` resp. `% 2 ^ 32`.
* `int` / `ssize_t` values are integers; where a computed value can leave the
  range of `int` (the gain increments of the calibrator), the model is
  described with the definitions concerned.
* `double` values are elements of an arbitrary linearly ordered field `α`
  (exact arithmetic); `pow (t, 1.0/3.0)` is a parameter `cbrt`, and
  `pow (n, 3)`, `pow (n, 2)` are `n ^ 3`, `n ^ 2`.
* The HID transport (`write` / `read` on the file descriptor) is external.
  A `World` carries the script of the results of the successive `write` and
  `read` system calls together with the chronological trace of the system
  calls the driver has issued.
* Pointer arguments that the source tests against `NULL` are `Option` values
  (`none` is the null pointer).
* Output on `stdout` (`printf`) is not part of the model, except for the
  line by which `Calibrator_set_tv_gain` stands in for the TV.
-/

namespace I1D3

/-! ## Data model (`i1d3_api.h`) -/

/-- Error codes returned by the driver functions. -/
inductive i1d3_error_t where
  | I1D3_SUCCESS
  | I1D3_ERROR_OPEN_FAILED
  | I1D3_ERROR_PERMISSION_DENIED
  | I1D3_ERROR_DEVICE_NOT_FOUND
  | I1D3_ERROR_INVALID_RESPONSE
  | I1D3_ERROR_TIMEOUT
  | I1D3_ERROR_UNLOCK_FAILED
  | I1D3_ERROR_MEASUREMENT_FAILED
  | I1D3_ERROR_INVALID_PARAMETER
  | I1D3_ERROR_NOT_INITIALIZED
  deriving DecidableEq

open i1d3_error_t

/-- Numeric value of an error code (the enumerator values of the header). -/
def i1d3_error_t.toInt : i1d3_error_t → Int
  | I1D3_SUCCESS => 0
  | I1D3_ERROR_OPEN_FAILED => -1
  | I1D3_ERROR_PERMISSION_DENIED => -2
  | I1D3_ERROR_DEVICE_NOT_FOUND => -3
  | I1D3_ERROR_INVALID_RESPONSE => -4
  | I1D3_ERROR_TIMEOUT => -5
  | I1D3_ERROR_UNLOCK_FAILED => -6
  | I1D3_ERROR_MEASUREMENT_FAILED => -7
  | I1D3_ERROR_INVALID_PARAMETER => -8
  | I1D3_ERROR_NOT_INITIALIZED => -9

/-- Device connection states. -/
inductive i1d3_state_t where
  | I1D3_STATE_DISCONNECTED
  | I1D3_STATE_CONNECTED
  | I1D3_STATE_INITIALIZED
  | I1D3_STATE_UNLOCKED
  deriving DecidableEq

open i1d3_state_t

/-- Colour measurement results (`double` fields, here over the field `α`). -/
structure i1d3_color_results (α : Type) where
  X : α
  Y : α
  Z : α
  x : α
  y : α
  CCT : α
  L : α
  a : α
  b : α

/-! ## The external world: transport script and system-call trace -/

/-- System calls issued by the driver, in chronological order. -/
inductive Event where
  | write (fd : Int) (pkt : List Nat)
  | read (fd : Int) (maxlen : Int)
  | usleep (us : Nat)
  deriving DecidableEq

/-- Process state seen by the driver: the static table `device_states`, the
results the transport will give to the successive `write` and `read` calls
(`readRes k = none` is a failing `read`, `some data` delivers `data`), the
number of calls already made, and the trace of calls. -/
structure World where
  device_states : Nat → i1d3_state_t
  writeRes : Nat → Int
  readRes : Nat → Option (List Nat)
  nWrites : Nat
  nReads : Nat
  trace : List Event

/-- The packets handed to `write`, in order. -/
def sentPackets : List Event → List (List Nat)
  | [] => []
  | Event.write _ pkt :: es => pkt :: sentPackets es
  | _ :: es => sentPackets es

/-- The number of `read` calls in a trace. -/
def readCalls : List Event → Nat
  | [] => 0
  | Event.read _ _ :: es => readCalls es + 1
  | _ :: es => readCalls es

/-- Return value of `read (fd, buf, maxlen)` for a scripted result. -/
def sys_read_ret (r : Option (List Nat)) (maxlen : Int) : Int :=
  match r with
  | none => -1
  | some data => ((min data.length maxlen.toNat : Nat) : Int)

/-- Contents of `buf` after `read (fd, buf, maxlen)` for a scripted result. -/
def sys_read_buf (r : Option (List Nat)) (maxlen : Int) (buf : List Nat) : List Nat :=
  match r with
  | none => buf
  | some data =>
    ((data.take (min data.length maxlen.toNat)).map (fun b => b % 256))
      ++ buf.drop (min data.length maxlen.toNat)

/-- The call `usleep (us)`: only recorded in the trace. -/
def usleep (us : Nat) (w : World) : World :=
  { w with trace := w.trace ++ [Event.usleep us] }

/-- The world after a call `write (fd, pkt, _)`: the call is recorded and the
next `write` gets the next scripted result. -/
def World.afterWrite (w : World) (fd : Int) (pkt : List Nat) : World :=
  { w with nWrites := w.nWrites + 1, trace := w.trace ++ [Event.write fd pkt] }

/-- The world after a call `read (fd, _, maxlen)`. -/
def World.afterRead (w : World) (fd : Int) (maxlen : Int) : World :=
  { w with nReads := w.nReads + 1, trace := w.trace ++ [Event.read fd maxlen] }

/-! ## Constants of `i1d3_api.c` -/

def I1D3_TIMEOUT_INIT : Nat := 150000
def I1D3_TIMEOUT_UNLOCK : Nat := 400000
def I1D3_TIMEOUT_MEASURE : Nat := 500000

/-- Entry of the key catalog. -/
structure i1d3_key_entry where
  name : String
  key : Nat × Nat
  deriving DecidableEq

/-- The 11 master keys. -/
def I1D3_CODES : List i1d3_key_entry :=
  [ ⟨"Retail", (0xe9622e9f, 0x8d63e133)⟩, ⟨"Munki", (0xe01e6e0a, 0x257462de)⟩,
    ⟨"OEM", (0xcaa62b2c, 0x30815b61)⟩, ⟨"NEC", (0xa9119479, 0x5b168761)⟩,
    ⟨"Quato", (0x160eb6ae, 0x14440e70)⟩, ⟨"HP", (0x291e41d7, 0x51937bdd)⟩,
    ⟨"Wacom", (0x1abfae03, 0xf25ac8e8)⟩, ⟨"TPA", (0x828c43e9, 0xcbb8a8ed)⟩,
    ⟨"Barco", (0xe8d1a980, 0xd146f7ad)⟩, ⟨"Crysta", (0x171ae295, 0x2e5c7664)⟩,
    ⟨"Viewsonic", (0x64d8c546, 0x4b24b4a7)⟩ ]

/-! ## Helper functions -/

/-- The helper `static uint8_t keySum (uint32_t v)`: the sum of the four bytes
of `v`, truncated by the `uint8_t` return type. -/
def keySum (v : Nat) : Nat :=
  ((v &&& 0xFF) + ((v >>> 8) &&& 0xFF) + ((v >>> 16) &&& 0xFF) + ((v >>> 24) &&& 0xFF)) % 256

/-- The lambda `keySum` of the earlier driver `11d3.c`: the same sum with the
deduced return type `unsigned int`. -/
def keySum_linux (v : Nat) : Nat :=
  ((v &&& 0xFF) + ((v >>> 8) &&& 0xFF) + ((v >>> 16) &&& 0xFF) + ((v >>> 24) &&& 0xFF)) % 2 ^ 32

section Colour

variable {α : Type} [LinearOrderedField α]

/-- The helper `toHz (cnt, clk)`. -/
def toHz (cnt clk : Nat) : α :=
  if cnt ≤ 1 then 0 else (((cnt - 1 : Nat) : α) * 0.25) / ((clk : α) / 48000000.0)

/-- The helper `labFunction (t)`; `cbrt` stands for `pow (t, 1.0/3.0)`. -/
def labFunction (cbrt : α → α) (t : α) : α :=
  if t > 0.008856 then cbrt t else 7.787 * t + 16.0 / 116.0

/-- The emissive matrix `MATRIX[i][j]`. -/
def MATRIX (i j : Nat) : α :=
  match i, j with
  | 0, 0 => 0.035814
  | 0, 1 => -0.021980
  | 0, 2 => 0.016668
  | 1, 0 => 0.014015
  | 1, 1 => 0.016946
  | 1, 2 => 0.000451
  | 2, 0 => -0.000407
  | 2, 1 => 0.000830
  | 2, 2 => 0.078830
  | _, _ => 0

end Colour

/-! ## State management -/

/-- The function `i1d3_get_state (fd)`. -/
def i1d3_get_state (w : World) (fd : Int) : i1d3_state_t :=
  if fd < 0 ∨ fd ≥ 256 then I1D3_STATE_DISCONNECTED else w.device_states fd.toNat

/-- The function `i1d3_set_state (fd, state)`. -/
def i1d3_set_state (fd : Int) (state : i1d3_state_t) (w : World) : World :=
  if fd ≥ 0 ∧ fd < 256 then
    { w with device_states := fun i => if i = fd.toNat then state else w.device_states i }
  else w

/-! ## Transport access -/

/-- The function `i1d3_send (fd, buf, len)`; returns the `int` result and the
new world.  The packet handed to `write` is the first `len` bytes of `buf`. -/
def i1d3_send (fd : Int) (buf : Option (List Nat)) (len : Int) (w : World) : Int × World :=
  match buf with
  | none => (I1D3_ERROR_INVALID_PARAMETER.toInt, w)
  | some b =>
    if fd < 0 ∨ len ≤ 0 then (I1D3_ERROR_INVALID_PARAMETER.toInt, w)
    else if i1d3_get_state w fd = I1D3_STATE_DISCONNECTED then
      (I1D3_ERROR_NOT_INITIALIZED.toInt, w)
    else
      let written := w.writeRes w.nWrites
      let w1 := w.afterWrite fd (b.take len.toNat)
      if written ≠ len then (I1D3_ERROR_OPEN_FAILED.toInt, w1)
      else (I1D3_SUCCESS.toInt, w1)

/-- The function `i1d3_recv (fd, buf, maxlen)`; returns the `int` result, the
contents of `buf` afterwards and the new world (for a null `buf` the returned
contents are the empty list). -/
def i1d3_recv (fd : Int) (buf : Option (List Nat)) (maxlen : Int) (w : World) :
    Int × List Nat × World :=
  match buf with
  | none => (I1D3_ERROR_INVALID_PARAMETER.toInt, [], w)
  | some b =>
    if fd < 0 ∨ maxlen ≤ 0 then (I1D3_ERROR_INVALID_PARAMETER.toInt, b, w)
    else if i1d3_get_state w fd = I1D3_STATE_DISCONNECTED then
      (I1D3_ERROR_NOT_INITIALIZED.toInt, b, w)
    else
      let r := w.readRes w.nReads
      let received := sys_read_ret r maxlen
      let w1 := w.afterRead fd maxlen
      if received < 0 then (I1D3_ERROR_OPEN_FAILED.toInt, sys_read_buf r maxlen b, w1)
      else (received, sys_read_buf r maxlen b, w1)

/-! ## Initialisation sequence -/

/-- The table `cmds` of `i1d3_init_sequence`. -/
def init_cmds : List (Nat × Nat) :=
  [(0x00, 0x01), (0x00, 0x10), (0x00, 0x11), (0x00, 0x12),
   (0x10, 0x00), (0x00, 0x31), (0x00, 0x13), (0x00, 0x20)]

/-- The packet built in one iteration: `memset (buf, 0, 64)`, then the two
opcode bytes. -/
def init_packet (c : Nat × Nat) : List Nat :=
  ((List.replicate 64 0).set 0 (c.1 % 256)).set 1 (c.2 % 256)

/-- The `for` loop of `i1d3_init_sequence` over the remaining commands;
`some e` is an early `return e`, `none` means the loop ran to its end. -/
def i1d3_init_sequence_loop (fd : Int) : List (Nat × Nat) → World → Option i1d3_error_t × World
  | [], w => (none, w)
  | c :: cs, w =>
    let buf := init_packet c
    let s := i1d3_send fd (some buf) 64 w
    if s.1 ≠ I1D3_SUCCESS.toInt then (some I1D3_ERROR_OPEN_FAILED, s.2)
    else
      let w2 := usleep I1D3_TIMEOUT_INIT s.2
      let r := i1d3_recv fd (some buf) 64 w2
      if r.1 < 64 then (some I1D3_ERROR_INVALID_RESPONSE, r.2.2)
      else i1d3_init_sequence_loop fd cs r.2.2

/-- The function `i1d3_init_sequence (fd)`. -/
def i1d3_init_sequence (fd : Int) (w : World) : i1d3_error_t × World :=
  if fd < 0 then (I1D3_ERROR_INVALID_PARAMETER, w)
  else if i1d3_get_state w fd ≠ I1D3_STATE_CONNECTED then (I1D3_ERROR_NOT_INITIALIZED, w)
  else
    let l := i1d3_init_sequence_loop fd (init_cmds.take 8) w
    match l.1 with
    | some e => (e, l.2)
    | none => (I1D3_SUCCESS, i1d3_set_state fd I1D3_STATE_INITIALIZED l.2)

/-! ## Unlock -/

/-- Local variables of `i1d3_unlock` between the challenge and the response. -/
structure unlock_locals where
  c2 : Nat
  c3 : Nat
  sc : List Nat
  ci0 : Nat
  ci1 : Nat
  nK0 : Nat
  nK1 : Nat
  co : List Nat
  sum : Nat
  s0 : Nat
  s1 : Nat
  sr : List Nat
  deriving DecidableEq

/-- The 16 assignments to `sr[0..15]` (each stored into a `uint8_t`). -/
def unlock_sr (co : List Nat) (s0 s1 : Nat) : List Nat :=
  let co0 := co.getD 0 0
  let co1 := co.getD 1 0
  let co2 := co.getD 2 0
  let co3 := co.getD 3 0
  [ (((co0 >>> 16) &&& 0xFF) + s0) % 256,
    (((co2 >>> 8) &&& 0xFF) + 256 - s1) % 256,
    ((co3 &&& 0xFF) + s1) % 256,
    (((co1 >>> 16) &&& 0xFF) + s0) % 256,
    (((co2 >>> 16) &&& 0xFF) + 256 - s1) % 256,
    (((co3 >>> 16) &&& 0xFF) + 256 - s0) % 256,
    (((co1 >>> 24) &&& 0xFF) + 256 - s0) % 256,
    ((co0 &&& 0xFF) + 256 - s1) % 256,
    (((co3 >>> 8) &&& 0xFF) + s0) % 256,
    (((co2 >>> 24) &&& 0xFF) + 256 - s1) % 256,
    (((co0 >>> 8) &&& 0xFF) + s0) % 256,
    (((co1 >>> 8) &&& 0xFF) + 256 - s1) % 256,
    ((co1 &&& 0xFF) + s1) % 256,
    (((co3 >>> 24) &&& 0xFF) + s1) % 256,
    ((co2 &&& 0xFF) + s0) % 256,
    (((co0 >>> 24) &&& 0xFF) + 256 - s0) % 256 ]

/-- The computation of `i1d3_unlock` from the challenge response `buf` and the
key to the response vector `sr`; `ks` is the `keySum` in scope (the `uint8_t`
helper in `i1d3_api.c`, the lambda in `11d3.c`). -/
def unlock_compute_with (ks : Nat → Nat) (buf : List Nat) (key : Nat × Nat) : unlock_locals :=
  let c2 := buf.getD 2 0
  let c3 := buf.getD 3 0
  let sc := (List.range 8).map (fun i => (c3 ^^^ buf.getD (35 + i) 0) % 256)
  let ci0 := ((sc.getD 3 0 <<< 24) ||| (sc.getD 0 0 <<< 16) ||| (sc.getD 4 0 <<< 8)
    ||| sc.getD 6 0) % 2 ^ 32
  let ci1 := ((sc.getD 1 0 <<< 24) ||| (sc.getD 7 0 <<< 16) ||| (sc.getD 2 0 <<< 8)
    ||| sc.getD 5 0) % 2 ^ 32
  let nK0 := ((2 ^ 32 - 1 - key.1 % 2 ^ 32) + 1) % 2 ^ 32
  let nK1 := ((2 ^ 32 - 1 - key.2 % 2 ^ 32) + 1) % 2 ^ 32
  let co := [ (nK0 + 2 ^ 32 - ci1) % 2 ^ 32, (nK1 + 2 ^ 32 - ci0) % 2 ^ 32,
              (ci1 * nK0) % 2 ^ 32, (ci0 * nK1) % 2 ^ 32 ]
  let sum0 := sc.foldl (fun acc b => (acc + b) % 2 ^ 32) 0
  let sum := (sum0 + (ks nK0 + ks nK1)) % 2 ^ 32
  let s0 := (sum &&& 0xFF) % 256
  let s1 := ((sum >>> 8) &&& 0xFF) % 256
  { c2 := c2, c3 := c3, sc := sc, ci0 := ci0, ci1 := ci1, nK0 := nK0, nK1 := nK1,
    co := co, sum := sum, s0 := s0, s1 := s1, sr := unlock_sr co s0 s1 }

/-- The computation as done in `i1d3_api.c`. -/
def unlock_compute (buf : List Nat) (key : Nat × Nat) : unlock_locals :=
  unlock_compute_with keySum buf key

/-- The response packet: `memset (buf, 0, 64)`, `buf[0] = 0x9A`, and
`buf[24 + i] = c2 ^ sr[i]` for `i < 16`. -/
def unlock_response_packet (l : unlock_locals) : List Nat :=
  (List.range 16).foldl (fun b i => b.set (24 + i) ((l.c2 ^^^ l.sr.getD i 0) % 256))
    ((List.replicate 64 0).set 0 0x9A)

/-- The challenge packet: `buf[64] = {0}`, `buf[0] = 0x99`, `buf[1] = 0x00`. -/
def unlock_challenge_packet : List Nat :=
  ((List.replicate 64 0).set 0 0x99).set 1 0x00

/-- The function `i1d3_unlock (fd, key)`. -/
def i1d3_unlock (fd : Int) (key : Option (Nat × Nat)) (w : World) : i1d3_error_t × World :=
  match key with
  | none => (I1D3_ERROR_INVALID_PARAMETER, w)
  | some k =>
    if fd < 0 then (I1D3_ERROR_INVALID_PARAMETER, w)
    else if i1d3_get_state w fd ≠ I1D3_STATE_INITIALIZED then (I1D3_ERROR_NOT_INITIALIZED, w)
    else
      let buf := unlock_challenge_packet
      let s := i1d3_send fd (some buf) 64 w
      if s.1 ≠ I1D3_SUCCESS.toInt then (I1D3_ERROR_OPEN_FAILED, s.2)
      else
        let r := i1d3_recv fd (some buf) 64 s.2
        if r.1 < 64 ∨ r.2.1.getD 1 0 ≠ 0x99 then (I1D3_ERROR_INVALID_RESPONSE, r.2.2)
        else
          let buf2 := unlock_response_packet (unlock_compute r.2.1 k)
          let s2 := i1d3_send fd (some buf2) 64 r.2.2
          if s2.1 ≠ I1D3_SUCCESS.toInt then (I1D3_ERROR_OPEN_FAILED, s2.2)
          else
            let r2 := i1d3_recv fd (some buf2) 64 s2.2
            if r2.1 < 64 then (I1D3_ERROR_INVALID_RESPONSE, r2.2.2)
            else if r2.2.1.getD 2 0 = 0x77 then
              (I1D3_SUCCESS, i1d3_set_state fd I1D3_STATE_UNLOCKED r2.2.2)
            else (I1D3_ERROR_UNLOCK_FAILED, r2.2.2)

/-- The `for` loop of `i1d3_auto_find_unlock` over the remaining catalog
entries; `some e` is an early `return e`. -/
def i1d3_auto_find_unlock_loop (fd : Int) :
    List i1d3_key_entry → World → Option i1d3_error_t × World
  | [], w => (none, w)
  | e :: es, w =>
    let result := i1d3_unlock fd (some e.key) w
    if result.1 = I1D3_SUCCESS then (some I1D3_SUCCESS, result.2)
    else i1d3_auto_find_unlock_loop fd es (usleep I1D3_TIMEOUT_UNLOCK result.2)

/-- The function `i1d3_auto_find_unlock (fd)`. -/
def i1d3_auto_find_unlock (fd : Int) (w : World) : i1d3_error_t × World :=
  if fd < 0 then (I1D3_ERROR_INVALID_PARAMETER, w)
  else if i1d3_get_state w fd ≠ I1D3_STATE_INITIALIZED then (I1D3_ERROR_NOT_INITIALIZED, w)
  else
    let l := i1d3_auto_find_unlock_loop fd (I1D3_CODES.take 11) w
    match l.1 with
    | some e => (e, l.2)
    | none => (I1D3_ERROR_UNLOCK_FAILED, l.2)

/-! ## Measurement -/

/-- The read `*(uint32_t*)&buf[off]` on a little-endian host. -/
def load_u32 (buf : List Nat) (off : Nat) : Nat :=
  (buf.getD off 0 + 2 ^ 8 * buf.getD (off + 1) 0 + 2 ^ 16 * buf.getD (off + 2) 0
    + 2 ^ 24 * buf.getD (off + 3) 0) % 2 ^ 32

/-- The measurement command: `buf[64] = {0x04, 0x00, 0x9F, 0x24, 0x00, 0x00,
0x07, 0xE8, 0x03}`. -/
def measure_packet : List Nat :=
  [0x04, 0x00, 0x9F, 0x24, 0x00, 0x00, 0x07, 0xE8, 0x03] ++ List.replicate 55 0

section Colour

variable {α : Type} [LinearOrderedField α]

/-- The conversion of an accepted measurement response into the result record,
as done in `i1d3_api.c` (lines 257-274). -/
def measure_compute (cbrt : α → α) (buf : List Nat) : i1d3_color_results α :=
  let rCnt := load_u32 buf 2
  let gCnt := load_u32 buf 6
  let rClk := load_u32 buf 14
  let gClk := load_u32 buf 18
  let bClk := load_u32 buf 22
  let R : α := toHz rCnt rClk
  let G : α := toHz gCnt gClk
  let B : α := toHz 0 bClk
  let X := MATRIX 0 0 * R + MATRIX 0 1 * G + MATRIX 0 2 * B
  let Y := MATRIX 1 0 * R + MATRIX 1 1 * G + MATRIX 1 2 * B
  let Z := MATRIX 2 0 * R + MATRIX 2 1 * G + MATRIX 2 2 * B
  let sum := X + Y + Z
  let x := if sum > 0 then X / sum else 0
  let y := if sum > 0 then Y / sum else 0
  let n := (x - 0.3320) / (0.1858 - y)
  let CCT := 449.0 * n ^ 3 + 3525.0 * n ^ 2 + 6823.3 * n + 5524.33
  let fX := labFunction cbrt (X / 96.42)
  let fY := labFunction cbrt (Y / 100.0)
  let fZ := labFunction cbrt (Z / 82.49)
  { X := X, Y := Y, Z := Z, x := x, y := y, CCT := CCT,
    L := 116.0 * fY - 16.0, a := 500.0 * (fX - fY), b := 200.0 * (fY - fZ) }

/-- The same conversion in the earlier driver `11d3.c` (lines 114-133). -/
def measure_compute_linux (cbrt : α → α) (buf : List Nat) : i1d3_color_results α :=
  let rCnt := load_u32 buf 2
  let gCnt := load_u32 buf 6
  let bCnt := load_u32 buf 10
  let rClk := load_u32 buf 14
  let gClk := load_u32 buf 18
  let bClk := load_u32 buf 22
  let R : α := toHz rCnt rClk
  let G : α := toHz gCnt gClk
  let B : α := toHz bCnt bClk
  let X := MATRIX 0 0 * R + MATRIX 0 1 * G + MATRIX 0 2 * B
  let Y := MATRIX 1 0 * R + MATRIX 1 1 * G + MATRIX 1 2 * B
  let Z := MATRIX 2 0 * R + MATRIX 2 1 * G + MATRIX 2 2 * B
  let sum := X + Y + Z
  let x := if sum > 0 then X / sum else 0
  let y := if sum > 0 then Y / sum else 0
  let n := (x - 0.3320) / (0.1858 - y)
  let CCT := 449.0 * n ^ 3 + 3525.0 * n ^ 2 + 6823.3 * n + 5524.33
  let fX := labFunction cbrt (X / 96.42)
  let fY := labFunction cbrt (Y / 100.0)
  let fZ := labFunction cbrt (Z / 82.49)
  { X := X, Y := Y, Z := Z, x := x, y := y, CCT := CCT,
    L := 116.0 * fY - 16.0, a := 500.0 * (fX - fY), b := 200.0 * (fY - fZ) }

/-- The function `i1d3_aio_measure (fd, res)`; returns the error code, the
contents of `*res` afterwards and the new world. -/
def i1d3_aio_measure (cbrt : α → α) (fd : Int) (res : Option (i1d3_color_results α))
    (w : World) : i1d3_error_t × Option (i1d3_color_results α) × World :=
  match res with
  | none => (I1D3_ERROR_INVALID_PARAMETER, none, w)
  | some r0 =>
    if fd < 0 then (I1D3_ERROR_INVALID_PARAMETER, some r0, w)
    else if i1d3_get_state w fd ≠ I1D3_STATE_UNLOCKED then
      (I1D3_ERROR_NOT_INITIALIZED, some r0, w)
    else
      let buf := measure_packet
      let s := i1d3_send fd (some buf) 64 w
      if s.1 ≠ I1D3_SUCCESS.toInt then (I1D3_ERROR_OPEN_FAILED, some r0, s.2)
      else
        let w2 := usleep I1D3_TIMEOUT_MEASURE s.2
        let r := i1d3_recv fd (some buf) 64 w2
        if r.1 < 64 ∨ r.2.1.getD 1 0 ≠ 0x04 then (I1D3_ERROR_INVALID_RESPONSE, some r0, r.2.2)
        else (I1D3_SUCCESS, some (measure_compute cbrt r.2.1), r.2.2)

end Colour


/-! ## Concrete worlds used to instantiate the theorems -/

/-- A world in which descriptor 3 is in state `st` (every other descriptor is
disconnected), nothing has been sent yet, and the transport answers with
`writes` and `reads`. -/
def mkWorld (st : i1d3_state_t) (writes : Nat → Int) (reads : Nat → Option (List Nat)) : World where
  device_states := fun i => if i = 3 then st else I1D3_STATE_DISCONNECTED
  writeRes := writes
  readRes := reads
  nWrites := 0
  nReads := 0
  trace := []

/-- A 64-byte response of zeros. -/
def zeroReport : List Nat := List.replicate 64 0

/-- A freshly started process: descriptor 3 not opened. -/
def closedWorld : World :=
  mkWorld I1D3_STATE_DISCONNECTED (fun _ => 64) (fun _ => some zeroReport)

/-- Descriptor 3 connected; the third read fails. -/
def thirdReadFails : World :=
  mkWorld I1D3_STATE_CONNECTED (fun _ => 64) (fun k => if k = 2 then none else some zeroReport)

/-- Descriptor 3 initialised; the device answers every read with zeros, so no
challenge is ever accepted. -/
def deafWorld : World :=
  mkWorld I1D3_STATE_INITIALIZED (fun _ => 64) (fun _ => some zeroReport)

/-- An arbitrary previous content of the result record. -/
def zeroResults : i1d3_color_results ℚ :=
  { X := 0, Y := 0, Z := 0, x := 0, y := 0, CCT := 0, L := 0, a := 0, b := 0 }


/-- A challenge response as in boundary scenario 1: byte 1 is `0x99`, the
nonces `c2` and `c3` are zero and bytes 35..42 are 1, 2, ..., 8. -/
def scenarioChallenge : List Nat :=
  [0, 0x99, 0, 0] ++ List.replicate 31 0 ++ [1, 2, 3, 4, 5, 6, 7, 8] ++ List.replicate 21 0

/-- The Retail key of the catalog. -/
def retailKey : Nat × Nat := (0xe9622e9f, 0x8d63e133)

/-- A final response of the device that reports success: byte 2 is `0x77`. -/
def unlockAck : List Nat := [0, 0, 0x77] ++ List.replicate 61 0

/-- Descriptor 3 initialised; the device answers the challenge request with
`scenarioChallenge` and every later read with `unlockAck`. -/
def acceptingWorld : World :=
  mkWorld I1D3_STATE_INITIALIZED (fun _ => 64)
    (fun k => if k = 0 then some scenarioChallenge else some unlockAck)

/-- The world after the keys `ks` have been tried in order and have all
failed: each failed `i1d3_unlock` is followed by `usleep (I1D3_TIMEOUT_UNLOCK)`. -/
def failedAttempts (fd : Int) (ks : List (Nat × Nat)) (w : World) : World :=
  ks.foldl (fun v k => usleep I1D3_TIMEOUT_UNLOCK (i1d3_unlock fd (some k) v).2) w

/-- The `j`-th unlock attempt of a search through the keys `ks` starting in
`w`, made after the attempts with the keys before it have failed. -/
def attempt (fd : Int) (ks : List (Nat × Nat)) (w : World) (j : Nat) : i1d3_error_t × World :=
  i1d3_unlock fd (some (ks.getD j (0, 0))) (failedAttempts fd (ks.take j) w)

/-- Descriptor 3 initialised; every challenge request is answered with
`scenarioChallenge`; the final responses of the first two attempts carry
byte 2 = 0 (refused), the one of the third attempt is `unlockAck`. -/
def thirdKeyWorld : World :=
  mkWorld I1D3_STATE_INITIALIZED (fun _ => 64)
    (fun k => if k % 2 = 0 then some scenarioChallenge
      else if k = 5 then some unlockAck else some zeroReport)

/-- One completed round of the initialisation loop for the command `c`: the
packet is written, the driver sleeps, and a response is read. -/
def initRound (fd : Int) (c : Nat × Nat) (w : World) : World :=
  (usleep I1D3_TIMEOUT_INIT (w.afterWrite fd (init_packet c))).afterRead fd 64

/-- The three system calls of one round of the initialisation loop. -/
def initRoundEvents (fd : Int) (c : Nat × Nat) : List Event :=
  [Event.write fd ([c.1, c.2] ++ List.replicate 62 0), Event.usleep 150000, Event.read fd 64]

/-- Descriptor 3 connected; every write succeeds and every read delivers 64
bytes. -/
def healthyWorld : World :=
  mkWorld I1D3_STATE_CONNECTED (fun _ => 64) (fun _ => some zeroReport)

/-- An accepted measurement response (byte 1 = 0x04) with `rCnt = 0`,
`gCnt = 0`, `bCnt = 3` and all three clock counts equal to 48000000
(`0x02DC6C00`, little-endian). -/
def blueReport : List Nat :=
  [0, 0x04] ++ [0, 0, 0, 0] ++ [0, 0, 0, 0] ++ [3, 0, 0, 0]
    ++ [0x00, 0x6C, 0xDC, 0x02] ++ [0x00, 0x6C, 0xDC, 0x02] ++ [0x00, 0x6C, 0xDC, 0x02]
    ++ List.replicate 38 0

/-- Descriptor 3 unlocked; the device answers the measurement request with
`blueReport`. -/
def blueWorld : World :=
  mkWorld I1D3_STATE_UNLOCKED (fun _ => 64) (fun _ => some blueReport)

/-! ## Opening and closing the device -/

/-- The value of `ENOENT` in `errno.h` (Linux). -/
def ENOENT : Int := 2

/-- The value of `EACCES` in `errno.h` (Linux). -/
def EACCES : Int := 13

/-- The function `i1d3_open (path)`.  The calls `system` and `open` are
external: `openRes` is the value returned by `open (path, O_RDWR)` and
`errno` the error number it leaves behind when it fails. -/
def i1d3_open (path : Option String) (openRes : Int) (errno : Int) (w : World) : Int × World :=
  match path with
  | none => (I1D3_ERROR_INVALID_PARAMETER.toInt, w)
  | some _ =>
    if openRes < 0 then
      if errno = ENOENT then (I1D3_ERROR_DEVICE_NOT_FOUND.toInt, w)
      else if errno = EACCES then (I1D3_ERROR_PERMISSION_DENIED.toInt, w)
      else (I1D3_ERROR_OPEN_FAILED.toInt, w)
    else (openRes, i1d3_set_state openRes I1D3_STATE_CONNECTED w)

/-- The function `i1d3_close (fd)`.  The call `close` is external: `closeRes`
is the value it returns. -/
def i1d3_close (fd : Int) (closeRes : Int) (w : World) : Int × World :=
  if fd < 0 then (I1D3_ERROR_INVALID_PARAMETER.toInt, w)
  else if closeRes = 0 then (closeRes, i1d3_set_state fd I1D3_STATE_DISCONNECTED w)
  else (closeRes, w)

/-! ## Sequences of driver calls on one handle -/

/-- The enumerator value of a state (`i1d3_api.h`). -/
def i1d3_state_t.toNat : i1d3_state_t → Nat
  | I1D3_STATE_DISCONNECTED => 0
  | I1D3_STATE_CONNECTED => 1
  | I1D3_STATE_INITIALIZED => 2
  | I1D3_STATE_UNLOCKED => 3

/-- A call of one of the driver functions that take the handle, `i1d3_close`
excepted, with its arguments other than the handle. -/
inductive Call (α : Type) where
  | init_sequence
  | unlock (key : Option (Nat × Nat))
  | auto_find_unlock
  | aio_measure (res : Option (i1d3_color_results α))
  | send (buf : Option (List Nat)) (len : Int)
  | recv (buf : Option (List Nat)) (maxlen : Int)

/-- The call is `i1d3_init_sequence`. -/
def Call.isInit {α : Type} : Call α → Bool
  | Call.init_sequence => true
  | _ => false

/-- The call is `i1d3_unlock` or `i1d3_auto_find_unlock` (which unlocks through
`i1d3_unlock`). -/
def Call.isUnlock {α : Type} : Call α → Bool
  | Call.unlock _ => true
  | Call.auto_find_unlock => true
  | _ => false

/-- The call is `i1d3_aio_measure`. -/
def Call.isMeasure {α : Type} : Call α → Bool
  | Call.aio_measure _ => true
  | _ => false

section Colour

variable {α : Type} [LinearOrderedField α]

/-- One driver call on the handle `fd`: its return value and the new world. -/
def call_step (cbrt : α → α) (fd : Int) (c : Call α) (w : World) : Int × World :=
  match c with
  | Call.init_sequence => ((i1d3_init_sequence fd w).1.toInt, (i1d3_init_sequence fd w).2)
  | Call.unlock key => ((i1d3_unlock fd key w).1.toInt, (i1d3_unlock fd key w).2)
  | Call.auto_find_unlock =>
    ((i1d3_auto_find_unlock fd w).1.toInt, (i1d3_auto_find_unlock fd w).2)
  | Call.aio_measure res =>
    ((i1d3_aio_measure cbrt fd res w).1.toInt, (i1d3_aio_measure cbrt fd res w).2.2)
  | Call.send buf len => i1d3_send fd buf len w
  | Call.recv buf maxlen => ((i1d3_recv fd buf maxlen w).1, (i1d3_recv fd buf maxlen w).2.2)

/-- The world after the first `n` calls of the sequence `cs` started in `w`. -/
def worldAt (cbrt : α → α) (fd : Int) (cs : List (Call α)) (w : World) : Nat → World
  | 0 => w
  | n + 1 =>
    match cs[n]? with
    | some c => (call_step cbrt fd c (worldAt cbrt fd cs w n)).2
    | none => worldAt cbrt fd cs w n

/-- The state of the handle after the first `n` calls. -/
def stateAt (cbrt : α → α) (fd : Int) (cs : List (Call α)) (w : World) (n : Nat) :
    i1d3_state_t :=
  i1d3_get_state (worldAt cbrt fd cs w n) fd

/-- The return value of call number `n` (counted from 0) of the sequence. -/
def resultAt (cbrt : α → α) (fd : Int) (cs : List (Call α)) (w : World) (n : Nat) :
    Option Int :=
  match cs[n]? with
  | some c => some (call_step cbrt fd c (worldAt cbrt fd cs w n)).1
  | none => none

end Colour

/-- An accepted measurement response with `rCnt = 3`, `gCnt = 0`, `bCnt = 0`
and all clock counts 48000000. -/
def redReport : List Nat :=
  [0, 0x04] ++ [3, 0, 0, 0] ++ [0, 0, 0, 0] ++ [0, 0, 0, 0]
    ++ [0x00, 0x6C, 0xDC, 0x02] ++ [0x00, 0x6C, 0xDC, 0x02] ++ [0x00, 0x6C, 0xDC, 0x02]
    ++ List.replicate 38 0

/-- Descriptor 3 unlocked; the device answers the measurement request with
`redReport`. -/
def redWorld : World :=
  mkWorld I1D3_STATE_UNLOCKED (fun _ => 64) (fun _ => some redReport)

/-- Descriptor 3 unlocked; the device answers with zeros (byte 1 is not 0x04). -/
def wrongOpcodeWorld : World :=
  mkWorld I1D3_STATE_UNLOCKED (fun _ => 64) (fun _ => some zeroReport)

/-- Descriptor 3 connected; the device answers the eight initialisation
commands with zeros, the challenge request with `scenarioChallenge`, the
unlock response with `unlockAck` and the measurement request with
`redReport`. -/
def sessionWorld : World :=
  mkWorld I1D3_STATE_CONNECTED (fun _ => 64)
    (fun k => if k < 8 then some zeroReport else if k = 8 then some scenarioChallenge
      else if k = 9 then some unlockAck else some redReport)

/-- The session `init_sequence`, `auto_find_unlock`, `aio_measure`. -/
def sessionCalls : List (Call ℚ) :=
  [Call.init_sequence, Call.auto_find_unlock, Call.aio_measure (some zeroResults)]

/-- An accepted measurement response with `rCnt = 857679`, `gCnt = 808580`
and all clock counts 48000000, for which the driver obtains `x = 0.3320`. -/
def neutralReport : List Nat :=
  [0, 0x04] ++ [79, 22, 13, 0] ++ [132, 86, 12, 0] ++ [0, 0, 0, 0]
    ++ [0x00, 0x6C, 0xDC, 0x02] ++ [0x00, 0x6C, 0xDC, 0x02] ++ [0x00, 0x6C, 0xDC, 0x02]
    ++ List.replicate 38 0

/-- Descriptor 3 unlocked; the device answers the measurement request with
`neutralReport`. -/
def neutralWorld : World :=
  mkWorld I1D3_STATE_UNLOCKED (fun _ => 64) (fun _ => some neutralReport)

/-- An accepted measurement response with `rCnt = 968`, `gCnt = 11369` and
all clock counts 48000000, for which the driver obtains
`X + Y + Z = 1/2000000` and `x = -107618251`. -/
def tinySumReport : List Nat :=
  [0, 0x04] ++ [0xC8, 0x03, 0, 0] ++ [0x69, 0x2C, 0, 0] ++ [0, 0, 0, 0]
    ++ [0x00, 0x6C, 0xDC, 0x02] ++ [0x00, 0x6C, 0xDC, 0x02] ++ [0x00, 0x6C, 0xDC, 0x02]
    ++ List.replicate 38 0

/-- Descriptor 3 unlocked; the device answers the measurement request with
`tinySumReport`. -/
def tinySumWorld : World :=
  mkWorld I1D3_STATE_UNLOCKED (fun _ => 64) (fun _ => some tinySumReport)

end I1D3

/-!
# Gamut correction: `src/DisplayCalibration/TV_gamut_gamma_calibration.c`

`float` and `double` values are elements of an arbitrary linearly ordered
field `α` (exact arithmetic, the casts `(float)` are the identity);
`float m[3][3]` is a `Matrix (Fin 3) (Fin 3) α` and `float v[3]` a function
`Fin 3 → α`.
-/

namespace TVCalibration

/-- The record `typedef struct { double x, y, Y; } Measurement;`. -/
structure Measurement (α : Type) where
  x : α
  y : α
  Y : α

/-- The record `typedef struct { float matrix[3][3]; } GamutTable;`. -/
structure GamutTable (α : Type) where
  matrix : Matrix (Fin 3) (Fin 3) α

section Gamut

variable {α : Type} [LinearOrderedField α]

/-- The local `det` of `invert_matrix_3x3`. -/
def det_3x3 (m : Matrix (Fin 3) (Fin 3) α) : α :=
  m 0 0 * (m 1 1 * m 2 2 - m 1 2 * m 2 1) -
  m 0 1 * (m 1 0 * m 2 2 - m 1 2 * m 2 0) +
  m 0 2 * (m 1 0 * m 2 1 - m 1 1 * m 2 0)

/-- The function `invert_matrix_3x3 (m, inv)`: `none` is the return value 0
(`inv` is not written), `some inv` the return value 1 with the contents of
`inv`. -/
def invert_matrix_3x3 (m : Matrix (Fin 3) (Fin 3) α) : Option (Matrix (Fin 3) (Fin 3) α) :=
  if |det_3x3 m| < 1e-12 then none
  else
    some (Matrix.of ![
      ![(m 1 1 * m 2 2 - m 1 2 * m 2 1) * (1 / det_3x3 m),
        (m 0 2 * m 2 1 - m 0 1 * m 2 2) * (1 / det_3x3 m),
        (m 0 1 * m 1 2 - m 0 2 * m 1 1) * (1 / det_3x3 m)],
      ![(m 1 2 * m 2 0 - m 1 0 * m 2 2) * (1 / det_3x3 m),
        (m 0 0 * m 2 2 - m 0 2 * m 2 0) * (1 / det_3x3 m),
        (m 1 0 * m 0 2 - m 0 0 * m 1 2) * (1 / det_3x3 m)],
      ![(m 1 0 * m 2 1 - m 1 1 * m 2 0) * (1 / det_3x3 m),
        (m 2 0 * m 0 1 - m 0 0 * m 2 1) * (1 / det_3x3 m),
        (m 0 0 * m 1 1 - m 1 0 * m 0 1) * (1 / det_3x3 m)]])

/-- The local `M_target` of `set_tv_gamut` (BT.709). -/
def M_target : Matrix (Fin 3) (Fin 3) α :=
  Matrix.of ![![0.4124, 0.3576, 0.1805], ![0.2126, 0.7152, 0.0722], ![0.0193, 0.1192, 0.9505]]

/-- Step (1) of `set_tv_gamut`: the matrix `M_primaries`, whose column `i` is
built from `measured[i]`, `i < 3`. -/
def gamut_primaries (measured : Fin 4 → Measurement α) : Matrix (Fin 3) (Fin 3) α :=
  Matrix.of ![
    fun i => (measured i.castSucc).x / (measured i.castSucc).y,
    fun _ => 1,
    fun i => (1 - (measured i.castSucc).x - (measured i.castSucc).y) / (measured i.castSucc).y]

/-- Step (2) of `set_tv_gamut`: the vector `W_XYZ` built from `measured[3]`. -/
def gamut_white (measured : Fin 4 → Measurement α) : Fin 3 → α :=
  ![((measured 3).x * (measured 3).Y) / (measured 3).y,
    (measured 3).Y,
    (1 - (measured 3).x - (measured 3).y) * (measured 3).Y / (measured 3).y]

/-- Step (3): `S[i] = 0; for j: S[i] += M_inv[i][j] * W_XYZ[j]`. -/
def gamut_scaling (M_inv : Matrix (Fin 3) (Fin 3) α) (W_XYZ : Fin 3 → α) : Fin 3 → α :=
  fun i => 0 + M_inv i 0 * W_XYZ 0 + M_inv i 1 * W_XYZ 1 + M_inv i 2 * W_XYZ 2

/-- Step (4): `M_curr[r][j] = M_primaries[r][j] * S[j]`. -/
def gamut_current (M_primaries : Matrix (Fin 3) (Fin 3) α) (S : Fin 3 → α) :
    Matrix (Fin 3) (Fin 3) α :=
  Matrix.of fun r j => M_primaries r j * S j

/-- Step (5): `result.matrix[i][j] += M_target[i][k] * M_curr_inv[k][j]` for
`k < 3`, starting from the zero of `GamutTable result = {0}`. -/
def gamut_product (T M_curr_inv : Matrix (Fin 3) (Fin 3) α) : Matrix (Fin 3) (Fin 3) α :=
  Matrix.of fun i j => 0 + T i 0 * M_curr_inv 0 j + T i 1 * M_curr_inv 1 j + T i 2 * M_curr_inv 2 j

/-- The function `set_tv_gamut (measured)`. -/
def set_tv_gamut (measured : Fin 4 → Measurement α) : GamutTable α :=
  match invert_matrix_3x3 (gamut_primaries measured) with
  | none => ⟨0⟩
  | some M_inv =>
    match invert_matrix_3x3
        (gamut_current (gamut_primaries measured) (gamut_scaling M_inv (gamut_white measured))) with
    | none => ⟨0⟩
    | some M_curr_inv => ⟨gamut_product M_target M_curr_inv⟩

end Gamut

/-- The example data of `main`: BT.709 primaries and D65 white. -/
def gamut_meas : Fin 4 → Measurement ℚ :=
  ![⟨0.640, 0.330, 21.26⟩, ⟨0.300, 0.600, 71.52⟩, ⟨0.150, 0.060, 7.22⟩, ⟨0.3127, 0.3290, 100.0⟩]

/-- An input whose scaling factors are all 1: the BT.709 primaries with the
white `(163/705, 33/235, 3)`. -/
def unit_scaling_meas : Fin 4 → Measurement ℚ :=
  ![⟨0.640, 0.330, 1⟩, ⟨0.300, 0.600, 1⟩, ⟨0.150, 0.060, 1⟩, ⟨163 / 705, 33 / 235, 3⟩]

/-- The input `measured` with the luminance `Y` of the white measurement
`measured[3]` multiplied by `k`. -/
def scale_white {α : Type} [LinearOrderedField α] (k : α) (measured : Fin 4 → Measurement α) :
    Fin 4 → Measurement α :=
  fun i => if i = 3 then ⟨(measured 3).x, (measured 3).y, k * (measured 3).Y⟩ else measured i

/-- The example data of `main` with the luminance of the three primaries set
to 0. -/
def dark_primaries_meas : Fin 4 → Measurement ℚ :=
  ![⟨0.640, 0.330, 0⟩, ⟨0.300, 0.600, 0⟩, ⟨0.150, 0.060, 0⟩, ⟨0.3127, 0.3290, 100.0⟩]

/-! ## Gamma table (`set_tv_gamma`)

`double` is the ordered field `α` with its floor function; `pow` of `math.h`
is a parameter, instantiated with the real power function in the theorems
that depend on its values. `Measurement steps[11]` is a function
`Fin 11 → Measurement α`.
-/

/-- The record `typedef struct { int entries[256]; } GammaTable;`. -/
structure GammaTable where
  entries : Fin 256 → Int

section Gamma

variable {α : Type} [LinearOrderedField α] [FloorRing α]

/-- The conversion `(int) v` of a `double`: the fractional part is discarded
(truncation toward zero). -/
def double_to_int (v : α) : Int :=
  if 0 ≤ v then ⌊v⌋ else ⌈v⌉

/-- The expression `pow((double)i / 255.0, target_gamma) * L_max` with
`target_gamma = 2.2` and `L_max = steps[10].Y`. -/
def gamma_target_Y (pow : α → α → α) (steps : Fin 11 → Measurement α) (i : Nat) : α :=
  pow ((i : α) / 255.0) 2.2 * (steps 10).Y

/-- The inner loop of `set_tv_gamma`: `seg` starts at 0 and becomes the first
`j < 10` with `target_Y >= steps[j].Y && target_Y <= steps[j+1].Y`, where the
loop stops (`break`). -/
def gamma_find_seg (steps : Fin 11 → Measurement α) (target_Y : α) : Fin 10 :=
  (Fin.find fun j : Fin 10 =>
    target_Y ≥ (steps j.castSucc).Y ∧ target_Y ≤ (steps j.succ).Y).getD 0

/-- The local `corrected_val` of `set_tv_gamma` for the segment `seg`, with
`x0 = seg * 25.5`, `x1 = (seg + 1) * 25.5`, `y0 = steps[seg].Y` and
`y1 = steps[seg + 1].Y`. -/
def gamma_corrected_val (steps : Fin 11 → Measurement α) (seg : Fin 10) (target_Y : α) : α :=
  if |(steps seg.succ).Y - (steps seg.castSucc).Y| < 1e-9 then ((seg : Nat) : α) * 25.5
  else
    ((seg : Nat) : α) * 25.5 +
      (target_Y - (steps seg.castSucc).Y) *
        ((((seg : Nat) + 1 : Nat) : α) * 25.5 - ((seg : Nat) : α) * 25.5) /
        ((steps seg.succ).Y - (steps seg.castSucc).Y)

/-- The value stored in `lut.entries[i]`:
`(int)fmax(0, fmin(255, corrected_val))`. -/
def gamma_entry (pow : α → α → α) (steps : Fin 11 → Measurement α) (i : Nat) : Int :=
  double_to_int (max 0 (min 255
    (gamma_corrected_val steps (gamma_find_seg steps (gamma_target_Y pow steps i))
      (gamma_target_Y pow steps i))))

/-- The function `set_tv_gamma (steps)`. -/
def set_tv_gamma (pow : α → α → α) (steps : Fin 11 → Measurement α) : GammaTable :=
  ⟨fun i => gamma_entry pow steps i⟩

/-- The 11-step ramp built by `main`:
`gamma_meas[i] = {0.3127, 0.3290, pow(i / 10.0, 2.2) * 100.0}`. -/
def gamma_meas (pow : α → α → α) : Fin 11 → Measurement α :=
  fun i => ⟨0.3127, 0.3290, pow (((i : Nat) : α) / 10.0) 2.2 * 100.0⟩

/-- An input in which all eleven samples have `Y = 100`. -/
def flat_meas : Fin 11 → Measurement α :=
  fun _ => ⟨0.3127, 0.3290, 100⟩

/-- An input whose first two luminances decrease: `5, 4, 6, 7, ..., 14`. -/
def dipped_meas : Fin 11 → Measurement α :=
  fun j => ⟨0.3127, 0.3290, if (j : Nat) = 0 then 5 else if (j : Nat) = 1 then 4 else (j : Nat) + 4⟩

/-! ### The entry rule in the words of the specification -/

/-- The target luminance `tY = (i/255)^2.2 * samples[10].Y`. -/
def spec_tY (pow : α → α → α) (samples : Fin 11 → Measurement α) (i : Nat) : α :=
  pow ((i : α) / 255) 2.2 * (samples 10).Y

/-- Segment `s` qualifies for `tY`: `samples[s].Y <= tY <= samples[s+1].Y`. -/
def spec_qualifies (samples : Fin 11 → Measurement α) (tY : α) (s : Fin 10) : Prop :=
  (samples s.castSucc).Y ≤ tY ∧ tY ≤ (samples s.succ).Y

/-- The index `s` is the smallest one in `0..9` that qualifies, or 0 when no
index qualifies. -/
def spec_segment (samples : Fin 11 → Measurement α) (tY : α) (s : Fin 10) : Prop :=
  (spec_qualifies samples tY s ∧ ∀ j : Fin 10, j < s → ¬ spec_qualifies samples tY j) ∨
  ((∀ j : Fin 10, ¬ spec_qualifies samples tY j) ∧ s = 0)

/-- The interpolated value `v`: `x0` if `|y1 - y0| < 1e-9`, else
`x0 + (tY - y0) * (x1 - x0) / (y1 - y0)`, with `x0 = 25.5 * s` and
`x1 = 25.5 * (s + 1)`. -/
def spec_v (samples : Fin 11 → Measurement α) (s : Fin 10) (tY : α) : α :=
  if |(samples s.succ).Y - (samples s.castSucc).Y| < 1e-9 then 25.5 * ((s : Nat) : α)
  else
    25.5 * ((s : Nat) : α) +
      (tY - (samples s.castSucc).Y) * (25.5 * (((s : Nat) : α) + 1) - 25.5 * ((s : Nat) : α)) /
        ((samples s.succ).Y - (samples s.castSucc).Y)

/-- The stored value `clamp(round_toward_zero(v), 0, 255)`. -/
def spec_entry (v : α) : Int :=
  max 0 (min 255 (if 0 ≤ v then ⌊v⌋ else ⌈v⌉))

end Gamma

end TVCalibration

/-!
# Closed-loop calibrator: `src/DisplayCalibration_with_i1d3/display_calibration_api.c`

`double` is an ordered field `α` with its floor function, `sqrt` of `math.h`
is a parameter and `HUGE_VAL` is the top element of `WithTop α`. An `int` is
an integer of `[INT_MIN, INT_MAX]`. Two operations of the step can leave that
range, and C leaves both undefined there: the conversion `(int)round (v)` of
a `double` outside the range, for which the model returns `INT_MIN`, the
result of the conversion instruction of x86-64, and the sum of a gain and an
increment, which the model reduces modulo `2 ^ 32` (two's complement). A
pointer is an `Option` (`none` is `NULL`). The outside world is a `Bench`: the
sensor transport of the driver and the list of gain triples written to the TV
(`Calibrator_set_tv_gain` prints them as `[HW SIM] Set Gain`). The
measurement function is a parameter of the calibrator, so that the sensor of
the driver and a mocked sensor can both be plugged in.
-/

namespace Calibration

/-- The record `CalibratedColorValue` of `display_calibration_api.h`. -/
structure CalibratedColorValue (α : Type) where
  x : α
  y : α
  Y : α
  X : α
  Z : α

/-- The record `Calibrator` of `display_calibration_api.h`. -/
structure Calibrator (α : Type) where
  target_x : α
  target_y : α
  current_gain : Fin 3 → Int
  best_gain : Fin 3 → Int
  min_dist : WithTop α
  r_sens : α
  g_sens : α
  tv_fd : Int

/-- The world outside the calibrator: the transport of the sensor and the
gain triples written to the TV so far, oldest first. -/
structure Bench where
  sensor : I1D3.World
  tv : List (Int × Int × Int)

/-- The call `usleep (us)` made by the calibrator. -/
def Bench.usleep (us : Nat) (e : Bench) : Bench :=
  { e with sensor := I1D3.usleep us e.sensor }

/-- The constant `INT_MIN` of `limits.h` (32-bit `int`). -/
def INT_MIN : Int := -2147483648

/-- The constant `INT_MAX` of `limits.h` (32-bit `int`). -/
def INT_MAX : Int := 2147483647

/-- The sum `a + b` of two `int` values. Outside the range of `int` the sum
is undefined in C; the model wraps it modulo `2 ^ 32` (two's complement). -/
def int_add (a b : Int) : Int :=
  (a + b + 2147483648) % 4294967296 - 2147483648

/-- The helper `clamp_gain (gain)`. -/
def clamp_gain (gain : Int) : Int :=
  if gain < 0 then 0 else if gain > 192 then 192 else gain

/-- The function `Calibrator_set_tv_gain (r, g, b)`: the triple is written to
the TV, followed by `usleep (50000)`. -/
def Calibrator_set_tv_gain (r g b : Int) (e : Bench) : Bench :=
  Bench.usleep 50000 { e with tv := e.tv ++ [(r, g, b)] }

section Double

variable {α : Type} [LinearOrderedField α] [FloorRing α]

/-- The fields written by `Calibrator_init` through a valid pointer. -/
def init_state (target_x target_y : α) (initial_r initial_g initial_b : Int) : Calibrator α where
  target_x := target_x
  target_y := target_y
  current_gain := ![clamp_gain initial_r, clamp_gain initial_g, clamp_gain initial_b]
  best_gain := ![clamp_gain initial_r, clamp_gain initial_g, clamp_gain initial_b]
  min_dist := ⊤
  r_sens := 0.0006
  g_sens := 0.0005
  tv_fd := -1

/-- The function `Calibrator_init (cal, target_x, target_y, initial_r,
initial_g, initial_b)`; returns the contents of `*cal` afterwards. -/
def Calibrator_init (cal : Option (Calibrator α)) (target_x target_y : α)
    (initial_r initial_g initial_b : Int) : Option (Calibrator α) :=
  match cal with
  | none => none
  | some _ => some (init_state target_x target_y initial_r initial_g initial_b)

/-- The contents of a result record that has not been written yet. -/
def blank_results : I1D3.i1d3_color_results α :=
  { X := 0, Y := 0, Z := 0, x := 0, y := 0, CCT := 0, L := 0, a := 0, b := 0 }

/-- The contents of a colour record that has not been written yet. -/
def blank_color : CalibratedColorValue α :=
  { x := 0, y := 0, Y := 0, X := 0, Z := 0 }

/-- The function `Calibrator_get_current_color_from_sensor (fd,
measured_color)`; returns the return value, the contents of
`*measured_color` afterwards and the new world. -/
def Calibrator_get_current_color_from_sensor (cbrt : α → α) (fd : Int)
    (measured_color : Option (CalibratedColorValue α)) (e : Bench) :
    Int × Option (CalibratedColorValue α) × Bench :=
  match measured_color with
  | none => (-1, none, e)
  | some c0 =>
    if fd < 0 then (-1, some c0, e)
    else
      match I1D3.i1d3_aio_measure cbrt fd (some blank_results) e.sensor with
      | (rc, i1d3_res, w) =>
        if rc.toInt ≠ 0 then (-1, some c0, { e with sensor := w })
        else
          (0, some { x := (i1d3_res.getD blank_results).x, y := (i1d3_res.getD blank_results).y,
                     Y := (i1d3_res.getD blank_results).Y, X := (i1d3_res.getD blank_results).X,
                     Z := (i1d3_res.getD blank_results).Z },
            { e with sensor := w })

/-- A measurement as the calibrator uses it: a local record is passed to
`Calibrator_get_current_color_from_sensor`, and the record counts only when
the return value is 0. -/
def i1d3_sensor (cbrt : α → α) (fd : Int) (e : Bench) :
    Option (CalibratedColorValue α) × Bench :=
  match Calibrator_get_current_color_from_sensor cbrt fd (some blank_color) e with
  | (rc, out, e2) => if rc ≠ 0 then (none, e2) else (out, e2)

/-- The function `Calibrator_check_sensitivity (cal, sensor_fd)`, with
`test_step = 15`; returns the return value, the contents of `*cal` afterwards
and the new world. -/
def Calibrator_check_sensitivity (measure : Int → Bench → Option (CalibratedColorValue α) × Bench)
    (cal : Option (Calibrator α)) (sensor_fd : Int) (e : Bench) :
    Int × Option (Calibrator α) × Bench :=
  match cal with
  | none => (-1, none, e)
  | some c =>
    if sensor_fd < 0 then (-1, some c, e)
    else
      match measure sensor_fd
          (Calibrator_set_tv_gain (c.current_gain 0) (c.current_gain 1) (c.current_gain 2) e) with
      | (none, e2) => (-1, some c, e2)
      | (some base_cv, e2) =>
        match measure sensor_fd
            (Calibrator_set_tv_gain (clamp_gain (c.current_gain 0 - 15)) (c.current_gain 1)
              (c.current_gain 2) e2) with
        | (none, e4) => (-1, some c, e4)
        | (some r_test_cv, e4) =>
          match measure sensor_fd
              (Calibrator_set_tv_gain (c.current_gain 0) (clamp_gain (c.current_gain 1 - 15))
                (c.current_gain 2) e4) with
          | (none, e6) => (-1, some { c with r_sens := |r_test_cv.x - base_cv.x| / 15 }, e6)
          | (some g_test_cv, e6) =>
            if |r_test_cv.x - base_cv.x| / 15 < 1e-7 ∨ |g_test_cv.y - base_cv.y| / 15 < 1e-7 then
              (0, some { c with r_sens := 0.0006, g_sens := 0.0005 },
                Bench.usleep 100000
                  (Calibrator_set_tv_gain (c.current_gain 0) (c.current_gain 1)
                    (c.current_gain 2) e6))
            else
              (0, some { c with r_sens := |r_test_cv.x - base_cv.x| / 15,
                                g_sens := |g_test_cv.y - base_cv.y| / 15 },
                Bench.usleep 100000
                  (Calibrator_set_tv_gain (c.current_gain 0) (c.current_gain 1)
                    (c.current_gain 2) e6))

/-- The value of `round (v)`: the nearest integer, halves away from zero. -/
def round_value (v : α) : Int :=
  if 0 ≤ v then ⌊v + 1 / 2⌋ else ⌈v - 1 / 2⌉

/-- The conversion `(int)round (v)`. For a value outside the range of `int`
the conversion is undefined in C; the model returns `INT_MIN` there, as the
conversion instruction of x86-64 does. -/
def round_to_int (v : α) : Int :=
  if INT_MIN ≤ round_value v ∧ round_value v ≤ INT_MAX then round_value v else INT_MIN

/-- The local `dx` of `Calibrator_perform_calibration_step`. -/
def step_dx (c : Calibrator α) (m : CalibratedColorValue α) : α :=
  c.target_x - m.x

/-- The local `dy` of `Calibrator_perform_calibration_step`. -/
def step_dy (c : Calibrator α) (m : CalibratedColorValue α) : α :=
  c.target_y - m.y

/-- The local `dist = sqrt (dx * dx + dy * dy)`. -/
def step_dist (sqrt : α → α) (c : Calibrator α) (m : CalibratedColorValue α) : α :=
  sqrt (step_dx c m * step_dx c m + step_dy c m * step_dy c m)

/-- Part 3 of the step: `if (dist < cal->min_dist)` the distance and the
current gain are recorded as the best ones. -/
def step_record_best (sqrt : α → α) (c : Calibrator α) (m : CalibratedColorValue α) :
    Calibrator α :=
  if (↑(step_dist sqrt c m) : WithTop α) < c.min_dist then
    { c with min_dist := (↑(step_dist sqrt c m) : WithTop α), best_gain := c.current_gain }
  else c

/-- The local `learning_rate = (dist > 0.005) ? 0.8 : 0.4`. -/
def step_learning_rate (sqrt : α → α) (c : Calibrator α) (m : CalibratedColorValue α) : α :=
  if step_dist sqrt c m > 0.005 then 0.8 else 0.4

/-- The local `adj_r`. -/
def step_adj_r (sqrt : α → α) (c : Calibrator α) (m : CalibratedColorValue α) : α :=
  (step_dx c m / (if c.r_sens > 1e-7 then c.r_sens else 1e-7)) * step_learning_rate sqrt c m

/-- The local `adj_g`. -/
def step_adj_g (sqrt : α → α) (c : Calibrator α) (m : CalibratedColorValue α) : α :=
  (step_dy c m / (if c.g_sens > 1e-7 then c.g_sens else 1e-7)) * step_learning_rate sqrt c m

/-- Part 5 of the step: the new contents of `cal->current_gain`. -/
def step_new_gain (sqrt : α → α) (c : Calibrator α) (m : CalibratedColorValue α) : Fin 3 → Int :=
  ![clamp_gain (int_add (c.current_gain 0) (round_to_int (step_adj_r sqrt c m))),
    clamp_gain (int_add (c.current_gain 1) (round_to_int (step_adj_g sqrt c m))),
    if step_dist sqrt c m > 0.01 then
      clamp_gain (int_add (c.current_gain 2)
        (round_to_int ((step_dx c m + step_dy c m) * 40)))
    else c.current_gain 2]

/-- Parts 2 to 5 of `Calibrator_perform_calibration_step`: the contents of
`*cal` after a step whose measurement was `m`. -/
def calibration_update (sqrt : α → α) (c : Calibrator α) (m : CalibratedColorValue α) :
    Calibrator α :=
  { step_record_best sqrt c m with current_gain := step_new_gain sqrt c m }

/-- The function `Calibrator_perform_calibration_step (cal, sensor_fd,
step_num)`; returns the return value, the contents of `*cal` afterwards and
the new world. The step number is only printed. -/
def Calibrator_perform_calibration_step
    (measure : Int → Bench → Option (CalibratedColorValue α) × Bench) (sqrt : α → α)
    (cal : Option (Calibrator α)) (sensor_fd : Int) (_step_num : Int) (e : Bench) :
    Int × Option (Calibrator α) × Bench :=
  match cal with
  | none => (-1, none, e)
  | some c =>
    match measure sensor_fd
        (Calibrator_set_tv_gain (c.current_gain 0) (c.current_gain 1) (c.current_gain 2) e) with
    | (none, e2) => (-1, some c, e2)
    | (some m, e2) =>
      (0, some (calibration_update sqrt c m),
        Bench.usleep 100000
          (Calibrator_set_tv_gain (step_new_gain sqrt c m 0) (step_new_gain sqrt c m 1)
            (step_new_gain sqrt c m 2) e2))

/-- Every channel of the current gain and of the best gain lies in
`[0, 192]`. -/
def gains_in_range (c : Calibrator α) : Prop :=
  ∀ k : Fin 3, (0 ≤ c.current_gain k ∧ c.current_gain k ≤ 192) ∧
    (0 ≤ c.best_gain k ∧ c.best_gain k ≤ 192)

/-! ## The calibration session of `main.c` -/

/-- The loop of `test_calibration_rgb_gain` (`main.c`, lines 156-161):
`for (i = ...; i <= num_steps; i++)` with `break` when a step does not return
0. The first argument is the number of iterations still allowed,
`num_steps - i + 1`; `cal` is the global record, whose address is never
`NULL`. -/
def calibration_loop (measure : Int → Bench → Option (CalibratedColorValue α) × Bench)
    (sqrt : α → α) (sensor_fd : Int) :
    Nat → Int → Calibrator α → Bench → Calibrator α × Bench
  | 0, _, c, e => (c, e)
  | r + 1, i, c, e =>
    if (Calibrator_perform_calibration_step measure sqrt (some c) sensor_fd i e).1 ≠ 0 then
      (((Calibrator_perform_calibration_step measure sqrt (some c) sensor_fd i e).2.1).getD c,
        (Calibrator_perform_calibration_step measure sqrt (some c) sensor_fd i e).2.2)
    else
      calibration_loop measure sqrt sensor_fd r (i + 1)
        (((Calibrator_perform_calibration_step measure sqrt (some c) sensor_fd i e).2.1).getD c)
        (Calibrator_perform_calibration_step measure sqrt (some c) sensor_fd i e).2.2

/-- The calibration run of `test_calibration_rgb_gain` (`main.c`, lines
147-161) on the global record `cal`: `Calibrator_init` with the target
`(0.3127, 0.3290)` and the current gains, `Calibrator_check_sensitivity`, and,
unless that failed, `num_steps` calibration steps. -/
def calibration_run (measure : Int → Bench → Option (CalibratedColorValue α) × Bench)
    (sqrt : α → α) (sensor_fd : Int) (num_steps : Nat) (cal : Calibrator α) (e : Bench) :
    Calibrator α × Bench :=
  if (Calibrator_check_sensitivity measure
      (Calibrator_init (some cal) 0.3127 0.3290 (cal.current_gain 0) (cal.current_gain 1)
        (cal.current_gain 2)) sensor_fd e).1 ≠ 0 then
    (((Calibrator_check_sensitivity measure
      (Calibrator_init (some cal) 0.3127 0.3290 (cal.current_gain 0) (cal.current_gain 1)
        (cal.current_gain 2)) sensor_fd e).2.1).getD cal,
     (Calibrator_check_sensitivity measure
      (Calibrator_init (some cal) 0.3127 0.3290 (cal.current_gain 0) (cal.current_gain 1)
        (cal.current_gain 2)) sensor_fd e).2.2)
  else
    calibration_loop measure sqrt sensor_fd num_steps 1
      (((Calibrator_check_sensitivity measure
        (Calibrator_init (some cal) 0.3127 0.3290 (cal.current_gain 0) (cal.current_gain 1)
          (cal.current_gain 2)) sensor_fd e).2.1).getD cal)
      (Calibrator_check_sensitivity measure
        (Calibrator_init (some cal) 0.3127 0.3290 (cal.current_gain 0) (cal.current_gain 1)
          (cal.current_gain 2)) sensor_fd e).2.2

/-! ## Sequences of calibrator calls -/

/-- A call of the calibrator API on one record after `Calibrator_init`. -/
inductive CalCall where
  | check_sensitivity (sensor_fd : Int)
  | calibration_step (sensor_fd : Int) (step_num : Int)

/-- The effect of one call on the record and the world. -/
def cal_call (measure : Int → Bench → Option (CalibratedColorValue α) × Bench) (sqrt : α → α)
    (s : Option (Calibrator α) × Bench) : CalCall → Option (Calibrator α) × Bench
  | CalCall.check_sensitivity fd => (Calibrator_check_sensitivity measure s.1 fd s.2).2
  | CalCall.calibration_step fd n => (Calibrator_perform_calibration_step measure sqrt s.1 fd n s.2).2

/-- The record and the world after a sequence of calls. -/
def cal_calls (measure : Int → Bench → Option (CalibratedColorValue α) × Bench) (sqrt : α → α)
    (calls : List CalCall) (s : Option (Calibrator α) × Bench) : Option (Calibrator α) × Bench :=
  calls.foldl (cal_call measure sqrt) s

/-- The record and the world after `n` calibration steps numbered `1..n`
that all returned 0; `none` if one of them did not. -/
def run_steps (measure : Int → Bench → Option (CalibratedColorValue α) × Bench) (sqrt : α → α)
    (sensor_fd : Int) (c0 : Calibrator α) (e0 : Bench) : Nat → Option (Calibrator α × Bench)
  | 0 => some (c0, e0)
  | n + 1 =>
    match run_steps measure sqrt sensor_fd c0 e0 n with
    | none => none
    | some (c, e) =>
      match Calibrator_perform_calibration_step measure sqrt (some c) sensor_fd (n + 1) e with
      | (rc, some c2, e2) => if rc = 0 then some (c2, e2) else none
      | (_, none, _) => none

/-- The Euclidean xy distance between the target and the measurement that a
step started from the record `c` in the world `e` takes; `none` if that
measurement fails. -/
def measured_dist (measure : Int → Bench → Option (CalibratedColorValue α) × Bench)
    (sqrt : α → α) (sensor_fd : Int) (c : Calibrator α) (e : Bench) : Option α :=
  match (measure sensor_fd
      (Calibrator_set_tv_gain (c.current_gain 0) (c.current_gain 1) (c.current_gain 2) e)).1 with
  | none => none
  | some m => some (sqrt ((c.target_x - m.x) * (c.target_x - m.x) +
      (c.target_y - m.y) * (c.target_y - m.y)))

/-! ## The simulated sensor of `src/DisplayCalibration/linux_c_cct_3_5.c` -/

/-- The record `ColorValue` of `linux_c_cct_3_5.c`. -/
structure ColorValue (α : Type) where
  x : α
  y : α
  z : α

/-- The function `get_color_value (r, g, b)` of `linux_c_cct_3_5.c`; the two
noise terms `((double)rand() / RAND_MAX - 0.5) * 0.0002` are the parameters
`noise_x` and `noise_y`. -/
def get_color_value (noise_x noise_y : α) (r g b : Int) : ColorValue α :=
  { x := 0.25 + (r : α) * 0.0004 + (g : α) * 0.0001 + (b : α) * 0.00005 + noise_x,
    y := 0.23 + (r : α) * 0.0001 + (g : α) * 0.0005 + (b : α) * 0.0001 + noise_y,
    z := 100.0 }

/-- The answer of the noise-free mocked sensor for the gains `(r, g, b)`:
`get_color_value` with both noise terms 0, its `z` stored as `Y`. -/
def mock_reading (r g b : Int) : CalibratedColorValue α :=
  { x := (get_color_value 0 0 r g b).x, y := (get_color_value 0 0 r g b).y,
    Y := (get_color_value 0 0 r g b).z, X := 0, Z := 0 }

/-- The noise-free mocked sensor: it never fails and answers for the gain
triple last written to the TV, or for `(0, 0, 0)` if nothing was written
yet. -/
def mock_sensor (_fd : Int) (e : Bench) : Option (CalibratedColorValue α) × Bench :=
  (some (mock_reading (e.tv.getLast?.getD (0, 0, 0)).1 (e.tv.getLast?.getD (0, 0, 0)).2.1
    (e.tv.getLast?.getD (0, 0, 0)).2.2), e)

/-- The record after a successful step on the mocked sensor, which answers for
the current gains. -/
def mock_update (sqrt : α → α) (c : Calibrator α) : Calibrator α :=
  calibration_update sqrt c
    (mock_reading (c.current_gain 0) (c.current_gain 1) (c.current_gain 2))

/-- The record of the convergence scenario while it runs: target
`(0.3127, 0.3290)`, sensitivities `0.0004` and `0.0005` as probed on the
mocked sensor, and current gains `(a, b, d)`. -/
def tracked (c : Calibrator α) (a b d : Int) : Prop :=
  c.target_x = 0.3127 ∧ c.target_y = 0.3290 ∧ c.r_sens = 0.0004 ∧ c.g_sens = 0.0005 ∧
    c.current_gain = ![a, b, d]

/-! ## The three measurements of the sensitivity probe -/

/-- The baseline measurement of `Calibrator_check_sensitivity`, taken after
the current gains have been written to the TV. -/
def probe_base (measure : Int → Bench → Option (CalibratedColorValue α) × Bench)
    (c : Calibrator α) (sensor_fd : Int) (e : Bench) : Option (CalibratedColorValue α) × Bench :=
  measure sensor_fd
    (Calibrator_set_tv_gain (c.current_gain 0) (c.current_gain 1) (c.current_gain 2) e)

/-- The red test measurement of `Calibrator_check_sensitivity`, taken after
the baseline with the red gain lowered by `test_step = 15`. -/
def probe_red (measure : Int → Bench → Option (CalibratedColorValue α) × Bench)
    (c : Calibrator α) (sensor_fd : Int) (e : Bench) : Option (CalibratedColorValue α) × Bench :=
  measure sensor_fd
    (Calibrator_set_tv_gain (clamp_gain (c.current_gain 0 - 15)) (c.current_gain 1)
      (c.current_gain 2) (probe_base measure c sensor_fd e).2)

/-- The green test measurement of `Calibrator_check_sensitivity`, taken after
the red test with the green gain lowered by `test_step = 15`. -/
def probe_green (measure : Int → Bench → Option (CalibratedColorValue α) × Bench)
    (c : Calibrator α) (sensor_fd : Int) (e : Bench) : Option (CalibratedColorValue α) × Bench :=
  measure sensor_fd
    (Calibrator_set_tv_gain (c.current_gain 0) (clamp_gain (c.current_gain 1 - 15))
      (c.current_gain 2) (probe_red measure c sensor_fd e).2)

/-! ## The step rule in the words of the specification -/

/-- The rounding of the specification: the nearest integer, halves away from
zero. -/
def spec_round (v : α) : Int :=
  if 0 ≤ v then round v else -round (-v)

/-- The clamp of the specification, `clamp (v, 0, 192)`. -/
def spec_clamp (v : Int) : Int :=
  max 0 (min 192 v)

/-- The learning rate of the specification: `0.8 if d > 0.005 else 0.4`. -/
def spec_alpha (d : α) : α :=
  if d > 0.005 then 0.8 else 0.4

end Double

/-- A test bench on which nothing has happened yet, with the sensor
transport `w`. -/
def freshBench (w : I1D3.World) : Bench :=
  { sensor := w, tv := [] }

/-- The colour record that `Calibrator_get_current_color_from_sensor` copies
from the result of the driver for the response `neutralReport`. -/
def neutral_color : CalibratedColorValue ℚ :=
  { x := (I1D3.measure_compute (fun t : ℚ => t) I1D3.neutralReport).x,
    y := (I1D3.measure_compute (fun t : ℚ => t) I1D3.neutralReport).y,
    Y := (I1D3.measure_compute (fun t : ℚ => t) I1D3.neutralReport).Y,
    X := (I1D3.measure_compute (fun t : ℚ => t) I1D3.neutralReport).X,
    Z := (I1D3.measure_compute (fun t : ℚ => t) I1D3.neutralReport).Z }

end Calibration

namespace I1D3

open i1d3_error_t i1d3_state_t

/-! ## Frame lemmas: what the transport functions leave unchanged -/

theorem i1d3_send_device_states (fd : Int) (buf : Option (List Nat)) (len : Int) (w : World) :
    (i1d3_send fd buf len w).2.device_states = w.device_states := by
  unfold i1d3_send
  split
  · rfl
  · dsimp only
    split_ifs <;> rfl

theorem i1d3_recv_device_states (fd : Int) (buf : Option (List Nat)) (maxlen : Int) (w : World) :
    (i1d3_recv fd buf maxlen w).2.2.device_states = w.device_states := by
  unfold i1d3_recv
  split
  · rfl
  · dsimp only
    split_ifs <;> rfl

theorem usleep_device_states (us : Nat) (w : World) :
    (usleep us w).device_states = w.device_states := rfl

theorem i1d3_get_state_congr (w w' : World) (h : w'.device_states = w.device_states) (fd : Int) :
    i1d3_get_state w' fd = i1d3_get_state w fd := by
  unfold i1d3_get_state
  rw [h]

theorem init_loop_device_states (fd : Int) (cs : List (Nat × Nat)) (w : World) :
    (i1d3_init_sequence_loop fd cs w).2.device_states = w.device_states := by
  induction cs generalizing w with
  | nil => rfl
  | cons c cs ih =>
    unfold i1d3_init_sequence_loop
    dsimp only
    split_ifs
    · exact i1d3_send_device_states _ _ _ _
    · rw [i1d3_recv_device_states, usleep_device_states, i1d3_send_device_states]
    · rw [ih, i1d3_recv_device_states, usleep_device_states, i1d3_send_device_states]

theorem init_fail_device_states (fd : Int) (w : World)
    (h : (i1d3_init_sequence fd w).1 ≠ I1D3_SUCCESS) :
    (i1d3_init_sequence fd w).2.device_states = w.device_states := by
  unfold i1d3_init_sequence at h ⊢
  split_ifs at h ⊢
  · rfl
  · rfl
  · dsimp only at h ⊢
    split at h
    · exact init_loop_device_states _ _ _
    · exact absurd rfl h

theorem unlock_fail_device_states (fd : Int) (key : Option (Nat × Nat)) (w : World)
    (h : (i1d3_unlock fd key w).1 ≠ I1D3_SUCCESS) :
    (i1d3_unlock fd key w).2.device_states = w.device_states := by
  unfold i1d3_unlock at h ⊢
  split at h
  · rfl
  · dsimp only at h ⊢
    split_ifs at h ⊢ <;>
      simp_all [i1d3_recv_device_states, i1d3_send_device_states]

theorem auto_loop_fail_device_states (fd : Int) (es : List i1d3_key_entry) (w : World)
    (h : (i1d3_auto_find_unlock_loop fd es w).1 ≠ some I1D3_SUCCESS) :
    (i1d3_auto_find_unlock_loop fd es w).2.device_states = w.device_states := by
  induction es generalizing w with
  | nil => rfl
  | cons e es ih =>
    unfold i1d3_auto_find_unlock_loop at h ⊢
    dsimp only at h ⊢
    split_ifs at h ⊢ with hs
    · exact absurd rfl h
    · rw [ih _ h, usleep_device_states, unlock_fail_device_states _ _ _ hs]

theorem auto_fail_device_states (fd : Int) (w : World)
    (h : (i1d3_auto_find_unlock fd w).1 ≠ I1D3_SUCCESS) :
    (i1d3_auto_find_unlock fd w).2.device_states = w.device_states := by
  unfold i1d3_auto_find_unlock at h ⊢
  split_ifs at h ⊢
  · rfl
  · rfl
  · dsimp only at h ⊢
    split at h
    · next e he =>
      apply auto_loop_fail_device_states
      rw [he]
      intro hc
      exact h (Option.some.inj hc)
    · next he =>
      apply auto_loop_fail_device_states
      rw [he]
      exact Option.noConfusion

/-! ## State guards -/

/-- C1: for a handle `fd ≥ 0` and non-null arguments, `i1d3_init_sequence`
returns `NotInitialized` (numerically -9) whenever the state is not Connected,
`i1d3_unlock` and `i1d3_auto_find_unlock` whenever it is not Initialized, and
`i1d3_aio_measure` whenever it is not Unlocked; in each case the world,
hence the trace of packets sent, is unchanged (and so is `*res`). -/
theorem wrong_state_returns_not_initialized {α : Type} [LinearOrderedField α]
    (cbrt : α → α) (fd : Int) (key : Nat × Nat) (r0 : i1d3_color_results α) (w : World)
    (hfd : 0 ≤ fd) :
    I1D3_ERROR_NOT_INITIALIZED.toInt = -9 ∧
    (i1d3_get_state w fd ≠ I1D3_STATE_CONNECTED →
      i1d3_init_sequence fd w = (I1D3_ERROR_NOT_INITIALIZED, w)) ∧
    (i1d3_get_state w fd ≠ I1D3_STATE_INITIALIZED →
      i1d3_unlock fd (some key) w = (I1D3_ERROR_NOT_INITIALIZED, w) ∧
      i1d3_auto_find_unlock fd w = (I1D3_ERROR_NOT_INITIALIZED, w)) ∧
    (i1d3_get_state w fd ≠ I1D3_STATE_UNLOCKED →
      i1d3_aio_measure cbrt fd (some r0) w = (I1D3_ERROR_NOT_INITIALIZED, some r0, w)) := by
  have hneg : ¬ fd < 0 := not_lt.mpr hfd
  refine ⟨rfl, ?_, ?_, ?_⟩
  · intro h
    simp [i1d3_init_sequence, hneg, h]
  · intro h
    constructor
    · simp [i1d3_unlock, hneg, h]
    · simp [i1d3_auto_find_unlock, hneg, h]
  · intro h
    simp [i1d3_aio_measure, hneg, h]

/-- Instance of C1: descriptor 3 has not been opened. -/
theorem wrong_state_returns_not_initialized_witness :
    (0 : Int) ≤ 3 ∧
    i1d3_get_state closedWorld 3 ≠ I1D3_STATE_CONNECTED ∧
    i1d3_get_state closedWorld 3 ≠ I1D3_STATE_INITIALIZED ∧
    i1d3_get_state closedWorld 3 ≠ I1D3_STATE_UNLOCKED ∧
    i1d3_init_sequence 3 closedWorld = (I1D3_ERROR_NOT_INITIALIZED, closedWorld) ∧
    i1d3_unlock 3 (some (0xe9622e9f, 0x8d63e133)) closedWorld
      = (I1D3_ERROR_NOT_INITIALIZED, closedWorld) ∧
    i1d3_auto_find_unlock 3 closedWorld = (I1D3_ERROR_NOT_INITIALIZED, closedWorld) ∧
    i1d3_aio_measure (fun t => t) 3 (some zeroResults) closedWorld
      = (I1D3_ERROR_NOT_INITIALIZED, some zeroResults, closedWorld) :=
  have h := wrong_state_returns_not_initialized (fun t : ℚ => t) 3 (0xe9622e9f, 0x8d63e133)
    zeroResults closedWorld (by decide)
  ⟨by decide, by decide, by decide, by decide, h.2.1 (by decide), (h.2.2.1 (by decide)).1,
    (h.2.2.1 (by decide)).2, h.2.2.2 (by decide)⟩

/-- C2: whenever `i1d3_init_sequence`, `i1d3_unlock` or
`i1d3_auto_find_unlock` returns anything other than `Success`, the state
recorded for every descriptor (in particular for the handle) is the state
before the call, whatever the transport did. -/
theorem failure_leaves_state_unchanged (fd : Int) (key : Option (Nat × Nat)) (w : World) :
    ((i1d3_init_sequence fd w).1 ≠ I1D3_SUCCESS →
      ∀ fd', i1d3_get_state (i1d3_init_sequence fd w).2 fd' = i1d3_get_state w fd') ∧
    ((i1d3_unlock fd key w).1 ≠ I1D3_SUCCESS →
      ∀ fd', i1d3_get_state (i1d3_unlock fd key w).2 fd' = i1d3_get_state w fd') ∧
    ((i1d3_auto_find_unlock fd w).1 ≠ I1D3_SUCCESS →
      ∀ fd', i1d3_get_state (i1d3_auto_find_unlock fd w).2 fd' = i1d3_get_state w fd') :=
  ⟨fun h fd' => i1d3_get_state_congr _ _ (init_fail_device_states fd w h) fd',
   fun h fd' => i1d3_get_state_congr _ _ (unlock_fail_device_states fd key w h) fd',
   fun h fd' => i1d3_get_state_congr _ _ (auto_fail_device_states fd w h) fd'⟩

/-- Instance of C2: the initialisation is interrupted by a failing third read,
and an unlock and a catalog search meet a device that never answers the
challenge; the state of descriptor 3 is as before. -/
theorem failure_leaves_state_unchanged_witness :
    (i1d3_init_sequence 3 thirdReadFails).1 ≠ I1D3_SUCCESS ∧
    (i1d3_unlock 3 (some (0xe9622e9f, 0x8d63e133)) deafWorld).1 ≠ I1D3_SUCCESS ∧
    (i1d3_auto_find_unlock 3 deafWorld).1 ≠ I1D3_SUCCESS ∧
    i1d3_get_state (i1d3_init_sequence 3 thirdReadFails).2 3 = I1D3_STATE_CONNECTED ∧
    i1d3_get_state (i1d3_unlock 3 (some (0xe9622e9f, 0x8d63e133)) deafWorld).2 3
      = I1D3_STATE_INITIALIZED ∧
    i1d3_get_state (i1d3_auto_find_unlock 3 deafWorld).2 3 = I1D3_STATE_INITIALIZED :=
  ⟨by decide, by decide, by decide,
   ((failure_leaves_state_unchanged 3 none thirdReadFails).1 (by decide) 3).trans (by decide),
   ((failure_leaves_state_unchanged 3 (some (0xe9622e9f, 0x8d63e133)) deafWorld).2.1
      (by decide) 3).trans (by decide),
   ((failure_leaves_state_unchanged 3 none deafWorld).2.2 (by decide) 3).trans (by decide)⟩


/-! ## The unlock computation -/

theorem getD_lt_of_forall_lt (buf : List Nat) (hb : ∀ b ∈ buf, b < 256) (i : Nat) :
    buf.getD i 0 < 256 := by
  rw [List.getD_eq_getElem?_getD]
  cases h : buf[i]? with
  | none => simp
  | some v => exact hb v (List.getElem?_mem h)

theorem xor_byte_lt (a b : Nat) (ha : a < 256) (hb : b < 256) : a ^^^ b < 256 :=
  Nat.xor_lt_two_pow (n := 8) ha hb

theorem pack_bytes_lt (a b c d : Nat) (ha : a < 256) (hb : b < 256) (hc : c < 256)
    (hd : d < 256) : (a <<< 24) ||| (b <<< 16) ||| (c <<< 8) ||| d < 2 ^ 32 := by
  have h1 : a <<< 24 < 2 ^ 32 := by rw [Nat.shiftLeft_eq]; omega
  have h2 : b <<< 16 < 2 ^ 32 := by rw [Nat.shiftLeft_eq]; omega
  have h3 : c <<< 8 < 2 ^ 32 := by rw [Nat.shiftLeft_eq]; omega
  have h4 : d < 2 ^ 32 := by omega
  exact Nat.or_lt_two_pow (Nat.or_lt_two_pow (Nat.or_lt_two_pow h1 h2) h3) h4

theorem range_eight : List.range 8 = [0, 1, 2, 3, 4, 5, 6, 7] := by decide

/-- C3 (evaluation at boundary scenario 1, Retail key, `sc = [1..8]`): the byte
sums of `nK0` and `nK1` are 485 and 505, so the sum of the claim is 1026 with
`s0 = 2`, `s1 = 4`; the driver's `uint8_t keySum` returns 229 and 249, its
`sum` is 514 and it uses `s0 = 2`, `s1 = 2`, and its `sr` differs from the
vector obtained with the untruncated `keySum` of `11d3.c`. -/
theorem scenario_one_s1_is_truncated :
    (unlock_compute scenarioChallenge retailKey).sc = [1, 2, 3, 4, 5, 6, 7, 8] ∧
    (unlock_compute scenarioChallenge retailKey).nK0 = 0x169dd161 ∧
    (unlock_compute scenarioChallenge retailKey).nK1 = 0x729c1ecd ∧
    0x61 + 0xd1 + 0x9d + 0x16 = 485 ∧ 0xcd + 0x1e + 0x9c + 0x72 = 505 ∧
    (1 + 2 + 3 + 4 + 5 + 6 + 7 + 8) + 485 + 505 = 1026 ∧
    1026 % 256 = 2 ∧ (1026 / 256) % 256 = 4 ∧
    keySum 0x169dd161 = 229 ∧ keySum 0x729c1ecd = 249 ∧
    (unlock_compute scenarioChallenge retailKey).sum = 514 ∧
    (unlock_compute scenarioChallenge retailKey).s0 = 2 ∧
    (unlock_compute scenarioChallenge retailKey).s1 = 2 ∧
    (unlock_compute scenarioChallenge retailKey).sr
      = [151, 9, 157, 157, 45, 169, 108, 89, 218, 172, 208, 23, 200, 131, 72, 18] ∧
    (unlock_compute_with keySum_linux scenarioChallenge retailKey).s1 = 4 ∧
    (unlock_compute_with keySum_linux scenarioChallenge retailKey).sr
      = [151, 7, 159, 157, 43, 169, 108, 87, 218, 170, 208, 21, 202, 133, 72, 18] := by
  decide

/-- C4: for a challenge response `buf` (bytes) and a key `(K0, K1)` (32-bit
words), with `c3 = buf[3]` and `sc[i] = c3 XOR buf[35+i]`, the driver forms
`ci0`, `ci1` by the stated permutation, `nK = (2^32 - K) mod 2^32`, and
`co = [nK0 - ci1, nK1 - ci0, ci1 * nK0, ci0 * nK1]`, all modulo `2^32`. -/
theorem unlock_words (buf : List Nat) (K0 K1 : Nat) (sc : Nat → Nat)
    (hb : ∀ b ∈ buf, b < 256) (hK0 : K0 < 2 ^ 32) (hK1 : K1 < 2 ^ 32)
    (hsc : ∀ i, sc i = buf.getD 3 0 ^^^ buf.getD (35 + i) 0) :
    (unlock_compute buf (K0, K1)).c3 = buf.getD 3 0 ∧
    (unlock_compute buf (K0, K1)).sc = [sc 0, sc 1, sc 2, sc 3, sc 4, sc 5, sc 6, sc 7] ∧
    (unlock_compute buf (K0, K1)).ci0
      = (sc 3 <<< 24) ||| (sc 0 <<< 16) ||| (sc 4 <<< 8) ||| sc 6 ∧
    (unlock_compute buf (K0, K1)).ci1
      = (sc 1 <<< 24) ||| (sc 7 <<< 16) ||| (sc 2 <<< 8) ||| sc 5 ∧
    (unlock_compute buf (K0, K1)).nK0 = (2 ^ 32 - K0) % 2 ^ 32 ∧
    (unlock_compute buf (K0, K1)).nK1 = (2 ^ 32 - K1) % 2 ^ 32 ∧
    (unlock_compute buf (K0, K1)).co.length = 4 ∧
    ((unlock_compute buf (K0, K1)).co.getD 0 0 : Int)
      = (((unlock_compute buf (K0, K1)).nK0 : Int)
          - ((unlock_compute buf (K0, K1)).ci1 : Int)) % 2 ^ 32 ∧
    ((unlock_compute buf (K0, K1)).co.getD 1 0 : Int)
      = (((unlock_compute buf (K0, K1)).nK1 : Int)
          - ((unlock_compute buf (K0, K1)).ci0 : Int)) % 2 ^ 32 ∧
    (unlock_compute buf (K0, K1)).co.getD 2 0
      = ((unlock_compute buf (K0, K1)).ci1 * (unlock_compute buf (K0, K1)).nK0) % 2 ^ 32 ∧
    (unlock_compute buf (K0, K1)).co.getD 3 0
      = ((unlock_compute buf (K0, K1)).ci0 * (unlock_compute buf (K0, K1)).nK1) % 2 ^ 32 := by
  generalize hl : unlock_compute buf (K0, K1) = l
  have hlt : ∀ i, sc i < 256 := fun i => by
    rw [hsc i]
    exact xor_byte_lt _ _ (getD_lt_of_forall_lt buf hb 3) (getD_lt_of_forall_lt buf hb (35 + i))
  have hscm : ∀ i, (buf.getD 3 0 ^^^ buf.getD (35 + i) 0) % 256 = sc i := fun i => by
    rw [← hsc i]
    exact Nat.mod_eq_of_lt (hlt i)
  have hl_sc : l.sc = [sc 0, sc 1, sc 2, sc 3, sc 4, sc 5, sc 6, sc 7] := by
    rw [← hl]
    show (List.range 8).map (fun i => (buf.getD 3 0 ^^^ buf.getD (35 + i) 0) % 256) = _
    rw [range_eight]
    simp only [List.map_cons, List.map_nil]
    rw [hscm 0, hscm 1, hscm 2, hscm 3, hscm 4, hscm 5, hscm 6, hscm 7]
  have hci0 : l.ci0 = (sc 3 <<< 24) ||| (sc 0 <<< 16) ||| (sc 4 <<< 8) ||| sc 6 := by
    have : l.ci0 = ((l.sc.getD 3 0 <<< 24) ||| (l.sc.getD 0 0 <<< 16) ||| (l.sc.getD 4 0 <<< 8)
        ||| l.sc.getD 6 0) % 2 ^ 32 := by rw [← hl]; rfl
    rw [this, hl_sc]
    exact Nat.mod_eq_of_lt (pack_bytes_lt _ _ _ _ (hlt 3) (hlt 0) (hlt 4) (hlt 6))
  have hci1 : l.ci1 = (sc 1 <<< 24) ||| (sc 7 <<< 16) ||| (sc 2 <<< 8) ||| sc 5 := by
    have : l.ci1 = ((l.sc.getD 1 0 <<< 24) ||| (l.sc.getD 7 0 <<< 16) ||| (l.sc.getD 2 0 <<< 8)
        ||| l.sc.getD 5 0) % 2 ^ 32 := by rw [← hl]; rfl
    rw [this, hl_sc]
    exact Nat.mod_eq_of_lt (pack_bytes_lt _ _ _ _ (hlt 1) (hlt 7) (hlt 2) (hlt 5))
  have hnK0 : l.nK0 = (2 ^ 32 - K0) % 2 ^ 32 := by
    have : l.nK0 = ((2 ^ 32 - 1 - K0 % 2 ^ 32) + 1) % 2 ^ 32 := by rw [← hl]; rfl
    omega
  have hnK1 : l.nK1 = (2 ^ 32 - K1) % 2 ^ 32 := by
    have : l.nK1 = ((2 ^ 32 - 1 - K1 % 2 ^ 32) + 1) % 2 ^ 32 := by rw [← hl]; rfl
    omega
  have hci0lt : l.ci0 < 2 ^ 32 := by
    rw [hci0]; exact pack_bytes_lt _ _ _ _ (hlt 3) (hlt 0) (hlt 4) (hlt 6)
  have hci1lt : l.ci1 < 2 ^ 32 := by
    rw [hci1]; exact pack_bytes_lt _ _ _ _ (hlt 1) (hlt 7) (hlt 2) (hlt 5)
  have hnK0lt : l.nK0 < 2 ^ 32 := by rw [hnK0]; omega
  have hnK1lt : l.nK1 < 2 ^ 32 := by rw [hnK1]; omega
  have hco : l.co = [ (l.nK0 + 2 ^ 32 - l.ci1) % 2 ^ 32, (l.nK1 + 2 ^ 32 - l.ci0) % 2 ^ 32,
      (l.ci1 * l.nK0) % 2 ^ 32, (l.ci0 * l.nK1) % 2 ^ 32 ] := by rw [← hl]; rfl
  refine ⟨by rw [← hl]; rfl, hl_sc, hci0, hci1, hnK0, hnK1, by rw [hco]; rfl, ?_, ?_,
    by rw [hco]; rfl, by rw [hco]; rfl⟩
  · rw [hco]
    show (((l.nK0 + 2 ^ 32 - l.ci1) % 2 ^ 32 : Nat) : Int) = _
    omega
  · rw [hco]
    show (((l.nK1 + 2 ^ 32 - l.ci0) % 2 ^ 32 : Nat) : Int) = _
    omega

/-- Instance of C4: the scenario challenge with the Retail key. -/
theorem unlock_words_witness :
    (∀ b ∈ scenarioChallenge, b < 256) ∧ 0xe9622e9f < 2 ^ 32 ∧ 0x8d63e133 < 2 ^ 32 ∧
    (unlock_compute scenarioChallenge (0xe9622e9f, 0x8d63e133)).ci0
      = ((0 ^^^ 4) <<< 24) ||| ((0 ^^^ 1) <<< 16) ||| ((0 ^^^ 5) <<< 8) ||| (0 ^^^ 7) ∧
    (unlock_compute scenarioChallenge (0xe9622e9f, 0x8d63e133)).nK0
      = (2 ^ 32 - 0xe9622e9f) % 2 ^ 32 :=
  have h := unlock_words scenarioChallenge 0xe9622e9f 0x8d63e133
    (fun i => scenarioChallenge.getD 3 0 ^^^ scenarioChallenge.getD (35 + i) 0)
    (by decide) (by decide) (by decide) (fun _ => rfl)
  ⟨by decide, by decide, by decide, h.2.2.1, h.2.2.2.2.1⟩

/-! ## The transport functions on an open, valid handle -/

theorem get_state_afterWrite (w : World) (fd' : Int) (pkt : List Nat) (fd : Int) :
    i1d3_get_state (w.afterWrite fd' pkt) fd = i1d3_get_state w fd := rfl

theorem get_state_afterRead (w : World) (fd' : Int) (maxlen : Int) (fd : Int) :
    i1d3_get_state (w.afterRead fd' maxlen) fd = i1d3_get_state w fd := rfl

theorem get_state_usleep (w : World) (us : Nat) (fd : Int) :
    i1d3_get_state (usleep us w) fd = i1d3_get_state w fd := rfl

theorem i1d3_send_ok (fd : Int) (b : List Nat) (w : World) (hfd : 0 ≤ fd)
    (hst : i1d3_get_state w fd ≠ I1D3_STATE_DISCONNECTED) :
    i1d3_send fd (some b) 64 w
      = (if w.writeRes w.nWrites ≠ 64 then -1 else 0, w.afterWrite fd (b.take 64)) := by
  have hneg : ¬ fd < 0 := not_lt.mpr hfd
  unfold i1d3_send
  simp only [hneg, hst, false_or, if_false]
  split_ifs <;> first | rfl | omega

theorem i1d3_recv_ok (fd : Int) (b : List Nat) (w : World) (hfd : 0 ≤ fd)
    (hst : i1d3_get_state w fd ≠ I1D3_STATE_DISCONNECTED) :
    i1d3_recv fd (some b) 64 w
      = (if sys_read_ret (w.readRes w.nReads) 64 < 0 then -1
          else sys_read_ret (w.readRes w.nReads) 64,
         sys_read_buf (w.readRes w.nReads) 64 b, w.afterRead fd 64) := by
  have hneg : ¬ fd < 0 := not_lt.mpr hfd
  unfold i1d3_recv
  simp only [hneg, hst, false_or, if_false]
  split_ifs <;> first | rfl | omega

theorem recv_ret_lt_iff (r : Int) : (if r < 0 then (-1 : Int) else r) < 64 ↔ r < 64 := by
  split_ifs <;> omega


theorem sentPackets_append (t u : List Event) :
    sentPackets (t ++ u) = sentPackets t ++ sentPackets u := by
  induction t with
  | nil => rfl
  | cons e t ih => cases e <;> simp [sentPackets, ih]

theorem sys_read_ret_full (data : List Nat) (h : 64 ≤ data.length) :
    sys_read_ret (some data) 64 = 64 := by
  simp [sys_read_ret, h]

theorem sys_read_ret_short (data : List Nat) (h : data.length < 64) :
    sys_read_ret (some data) 64 < 64 := by
  simp only [sys_read_ret]
  have : min data.length (64 : Int).toNat < 64 := lt_of_le_of_lt (min_le_left _ _) h
  omega

theorem map_mod_of_bytes (data : List Nat) (hb : ∀ b ∈ data, b < 256) :
    data.map (fun b => b % 256) = data := by
  induction data with
  | nil => rfl
  | cons a t ih =>
    simp only [List.map_cons]
    rw [ih (fun b hb' => hb b (List.mem_cons_of_mem _ hb')),
      Nat.mod_eq_of_lt (hb a (List.mem_cons_self _ _))]

theorem sys_read_buf_full (data buf : List Nat) (h : data.length = 64)
    (hb : ∀ b ∈ data, b < 256) (hbuf : buf.length = 64) :
    sys_read_buf (some data) 64 buf = data := by
  have h1 : min data.length (64 : Int).toNat = 64 := by simp [h]
  have h2 : List.take 64 data = data := List.take_of_length_le (le_of_eq h)
  have h3 : List.drop 64 buf = [] := List.drop_of_length_le (le_of_eq hbuf)
  simp only [sys_read_buf, h1, h2, h3, List.append_nil]
  exact map_mod_of_bytes data hb

theorem sys_read_buf_getD (data buf : List Nat) (i : Nat) (h : 64 ≤ data.length)
    (hi : i < 64) : (sys_read_buf (some data) 64 buf).getD i 0 = data.getD i 0 % 256 := by
  have h1 : min data.length (64 : Int).toNat = 64 := by simp [h]
  have hil : i < data.length := lt_of_lt_of_le hi h
  have h2 : i < ((List.take 64 data).map (fun b => b % 256)).length := by
    simp [List.length_take, h, hi]
  simp only [sys_read_buf, h1, List.getD_eq_getElem?_getD]
  rw [List.getElem?_append_left h2, List.getElem?_map, List.getElem?_take_of_lt hi,
    List.getElem?_eq_getElem hil]
  rfl

theorem unlock_challenge_packet_eq : unlock_challenge_packet = 0x99 :: List.replicate 63 0 := by
  decide

theorem range_sixteen :
    List.range 16 = [0, 1, 2, 3, 4, 5, 6, 7, 8, 9, 10, 11, 12, 13, 14, 15] := by decide

theorem unlock_response_packet_eq (l : unlock_locals) :
    unlock_response_packet l
      = [0x9A] ++ List.replicate 23 0
          ++ (List.range 16).map (fun i => (l.c2 ^^^ l.sr.getD i 0) % 256)
          ++ List.replicate 24 0 := by
  unfold unlock_response_packet
  rw [range_sixteen]
  simp only [List.replicate, List.foldl_cons, List.foldl_nil, List.map_cons, List.map_nil,
    List.set_cons_succ, List.set_cons_zero, Nat.reduceAdd, List.cons_append, List.nil_append]

theorem unlock_response_packet_length (l : unlock_locals) :
    (unlock_response_packet l).length = 64 := by
  rw [unlock_response_packet_eq]
  simp

theorem unlock_sr_bytes (co : List Nat) (s0 s1 : Nat) : ∀ b ∈ unlock_sr co s0 s1, b < 256 := by
  intro b hb
  simp only [unlock_sr, List.mem_cons, List.mem_singleton, List.not_mem_nil, or_false] at hb
  rcases hb with h | h | h | h | h | h | h | h | h | h | h | h | h | h | h | h <;>
    (rw [h]; exact Nat.mod_lt _ (by decide))

/-- The behaviour of `i1d3_unlock` on a valid handle in state Initialized,
branch by branch. -/
theorem i1d3_unlock_initialized (fd : Int) (key : Nat × Nat) (w : World) (hfd : 0 ≤ fd)
    (hst : i1d3_get_state w fd = I1D3_STATE_INITIALIZED) :
    i1d3_unlock fd (some key) w =
      if w.writeRes w.nWrites ≠ 64 then
        (I1D3_ERROR_OPEN_FAILED, w.afterWrite fd unlock_challenge_packet)
      else if sys_read_ret (w.readRes w.nReads) 64 < 64
          ∨ (sys_read_buf (w.readRes w.nReads) 64 unlock_challenge_packet).getD 1 0 ≠ 0x99 then
        (I1D3_ERROR_INVALID_RESPONSE, (w.afterWrite fd unlock_challenge_packet).afterRead fd 64)
      else if w.writeRes (w.nWrites + 1) ≠ 64 then
        (I1D3_ERROR_OPEN_FAILED,
          ((w.afterWrite fd unlock_challenge_packet).afterRead fd 64).afterWrite fd
            (unlock_response_packet
              (unlock_compute (sys_read_buf (w.readRes w.nReads) 64 unlock_challenge_packet) key)))
      else if sys_read_ret (w.readRes (w.nReads + 1)) 64 < 64 then
        (I1D3_ERROR_INVALID_RESPONSE,
          (((w.afterWrite fd unlock_challenge_packet).afterRead fd 64).afterWrite fd
            (unlock_response_packet
              (unlock_compute (sys_read_buf (w.readRes w.nReads) 64 unlock_challenge_packet) key))
            ).afterRead fd 64)
      else if (sys_read_buf (w.readRes (w.nReads + 1)) 64
          (unlock_response_packet
            (unlock_compute (sys_read_buf (w.readRes w.nReads) 64 unlock_challenge_packet) key))
          ).getD 2 0 = 0x77 then
        (I1D3_SUCCESS, i1d3_set_state fd I1D3_STATE_UNLOCKED
          ((((w.afterWrite fd unlock_challenge_packet).afterRead fd 64).afterWrite fd
            (unlock_response_packet
              (unlock_compute (sys_read_buf (w.readRes w.nReads) 64 unlock_challenge_packet) key))
            ).afterRead fd 64))
      else
        (I1D3_ERROR_UNLOCK_FAILED,
          (((w.afterWrite fd unlock_challenge_packet).afterRead fd 64).afterWrite fd
            (unlock_response_packet
              (unlock_compute (sys_read_buf (w.readRes w.nReads) 64 unlock_challenge_packet) key))
            ).afterRead fd 64) := by
  have hneg : ¬ fd < 0 := not_lt.mpr hfd
  have hd : i1d3_get_state w fd ≠ I1D3_STATE_DISCONNECTED := by rw [hst]; decide
  have htk : List.take 64 unlock_challenge_packet = unlock_challenge_packet := by decide
  have htk2 : ∀ l, List.take 64 (unlock_response_packet l) = unlock_response_packet l :=
    fun l => List.take_of_length_le (le_of_eq (unlock_response_packet_length l))
  have hs1 := i1d3_send_ok fd unlock_challenge_packet w hfd hd
  rw [htk] at hs1
  have hr1 := i1d3_recv_ok fd unlock_challenge_packet
    (w.afterWrite fd unlock_challenge_packet) hfd hd
  have hs2 := fun l => i1d3_send_ok fd (unlock_response_packet l)
    ((w.afterWrite fd unlock_challenge_packet).afterRead fd 64) hfd hd
  have hr2 := fun l => i1d3_recv_ok fd (unlock_response_packet l)
    (((w.afterWrite fd unlock_challenge_packet).afterRead fd 64).afterWrite fd
      (unlock_response_packet l)) hfd hd
  simp only [htk2] at hs2
  unfold i1d3_unlock
  simp only [hneg, hst, if_false, ne_eq, not_true_eq_false, hs1, hr1, hs2, hr2,
    recv_ret_lt_iff, i1d3_error_t.toInt]
  by_cases h1 : w.writeRes w.nWrites = 64
  · by_cases h2 : sys_read_ret (w.readRes w.nReads) 64 < 64
        ∨ (sys_read_buf (w.readRes w.nReads) 64 unlock_challenge_packet).getD 1 0 ≠ 0x99
    · have h2' := h2
      simp only [ne_eq] at h2'
      simp [h1, h2', World.afterWrite, World.afterRead]
    · have h2' := h2
      simp only [ne_eq] at h2'
      by_cases h3 : w.writeRes (w.nWrites + 1) = 64
      · simp [h1, h2', h3, World.afterWrite, World.afterRead]
      · simp [h1, h2', h3, World.afterWrite, World.afterRead]
  · simp [h1]

theorem set_state_trace (fd : Int) (s : i1d3_state_t) (w : World) :
    (i1d3_set_state fd s w).trace = w.trace := by
  unfold i1d3_set_state
  split_ifs <;> rfl

theorem get_state_set_state (fd : Int) (s : i1d3_state_t) (w : World) (hfd : 0 ≤ fd)
    (h256 : fd < 256) : i1d3_get_state (i1d3_set_state fd s w) fd = s := by
  have h1 : ¬ (fd < 0 ∨ fd ≥ 256) := by omega
  have h2 : fd ≥ 0 ∧ fd < 256 := ⟨hfd, h256⟩
  simp [i1d3_get_state, i1d3_set_state, h1, h2]

theorem lt_256_of_state (w : World) (fd : Int)
    (h : i1d3_get_state w fd ≠ I1D3_STATE_DISCONNECTED) : fd < 256 := by
  by_contra hc
  apply h
  unfold i1d3_get_state
  rw [if_pos (Or.inr (not_lt.mp hc))]

/-- C5: on a valid handle in state Initialized whose first `write` succeeds and
whose challenge response `data` (64 bytes, byte 1 = 0x99) is accepted,
`i1d3_unlock` hands exactly two packets to `write`, both of 64 bytes: the
challenge `[0x99, 0, ..., 0]`, and the response with byte 0 = 0x9A, bytes
24..39 = `c2 XOR sr[i]` (`c2 = data[2]`, `sr` the 16-byte vector computed from
`data` and the key) and 0 elsewhere. -/
theorem unlock_sends_challenge_and_response (fd : Int) (key : Nat × Nat) (w : World)
    (data : List Nat) (hfd : 0 ≤ fd) (hst : i1d3_get_state w fd = I1D3_STATE_INITIALIZED)
    (hw : w.writeRes w.nWrites = 64) (hr : w.readRes w.nReads = some data)
    (hlen : data.length = 64) (hb : ∀ b ∈ data, b < 256) (h99 : data.getD 1 0 = 0x99) :
    sentPackets (i1d3_unlock fd (some key) w).2.trace
      = sentPackets w.trace ++
        [ [0x99] ++ List.replicate 63 0,
          [0x9A] ++ List.replicate 23 0
            ++ (List.range 16).map
                (fun i => data.getD 2 0 ^^^ (unlock_compute data key).sr.getD i 0)
            ++ List.replicate 24 0 ] ∧
    (unlock_compute data key).sr.length = 16 ∧
    ([0x99] ++ List.replicate 63 0 : List Nat).length = 64 ∧
    ([0x9A] ++ List.replicate 23 0
        ++ (List.range 16).map
            (fun i => data.getD 2 0 ^^^ (unlock_compute data key).sr.getD i 0)
        ++ List.replicate 24 0).length = 64 := by
  have hbuf : sys_read_buf (some data) 64 unlock_challenge_packet = data :=
    sys_read_buf_full data _ hlen hb (by decide)
  have hret : sys_read_ret (some data) 64 = 64 := sys_read_ret_full data (le_of_eq hlen.symm)
  have hc2 : data.getD 2 0 < 256 := getD_lt_of_forall_lt data hb 2
  have hsr : ∀ i, (unlock_compute data key).sr.getD i 0 < 256 :=
    fun i => getD_lt_of_forall_lt _ (unlock_sr_bytes _ _ _) i
  have hmap : (List.range 16).map
        (fun i => ((unlock_compute data key).c2 ^^^ (unlock_compute data key).sr.getD i 0) % 256)
      = (List.range 16).map
        (fun i => data.getD 2 0 ^^^ (unlock_compute data key).sr.getD i 0) := by
    apply List.map_congr_left
    intro i _
    exact Nat.mod_eq_of_lt (xor_byte_lt _ _ hc2 (hsr i))
  have hpkt : unlock_response_packet (unlock_compute data key)
      = [0x9A] ++ List.replicate 23 0
          ++ (List.range 16).map
              (fun i => data.getD 2 0 ^^^ (unlock_compute data key).sr.getD i 0)
          ++ List.replicate 24 0 := by
    rw [unlock_response_packet_eq, hmap]
  refine ⟨?_, rfl, by simp, by simp⟩
  rw [i1d3_unlock_initialized fd key w hfd hst, hr, hbuf, hret, ← hpkt,
    unlock_challenge_packet_eq]
  simp only [hw, h99, ne_eq, not_true_eq_false, if_false, lt_self_iff_false, or_self]
  split_ifs <;>
    simp [set_state_trace, World.afterWrite, World.afterRead, sentPackets_append, sentPackets]

/-- Instance of C5: the scenario challenge and the Retail key. -/
theorem unlock_sends_challenge_and_response_witness :
    (0 : Int) ≤ 3 ∧ i1d3_get_state acceptingWorld 3 = I1D3_STATE_INITIALIZED ∧
    acceptingWorld.writeRes acceptingWorld.nWrites = 64 ∧
    acceptingWorld.readRes acceptingWorld.nReads = some scenarioChallenge ∧
    scenarioChallenge.length = 64 ∧ (∀ b ∈ scenarioChallenge, b < 256) ∧
    scenarioChallenge.getD 1 0 = 0x99 ∧
    sentPackets (i1d3_unlock 3 (some retailKey) acceptingWorld).2.trace
      = sentPackets acceptingWorld.trace ++
        [ [0x99] ++ List.replicate 63 0,
          [0x9A] ++ List.replicate 23 0
            ++ (List.range 16).map
                (fun i => scenarioChallenge.getD 2 0
                  ^^^ (unlock_compute scenarioChallenge retailKey).sr.getD i 0)
            ++ List.replicate 24 0 ] :=
  ⟨by decide, by decide, rfl, rfl, by decide, by decide, by decide,
   (unlock_sends_challenge_and_response 3 retailKey acceptingWorld scenarioChallenge
      (by decide) (by decide) rfl rfl (by decide) (by decide) (by decide)).1⟩

/-- C6: on a valid handle in state Initialized whose sends succeed,
`i1d3_unlock` returns `InvalidResponse` and sends nothing after the challenge
packet when the challenge read fails, is short, or has byte 1 different from
0x99; when the challenge is accepted and the final read returns 64 bytes, it
returns `Success` with the state set to Unlocked exactly when byte 2 of the
final response is 0x77, and `UnlockFailed` with the state still Initialized
for every other value of that byte. -/
theorem unlock_outcomes (fd : Int) (key : Nat × Nat) (w : World) (hfd : 0 ≤ fd)
    (hst : i1d3_get_state w fd = I1D3_STATE_INITIALIZED) (hw : w.writeRes w.nWrites = 64) :
    ((w.readRes w.nReads = none ∨
        ∃ data, w.readRes w.nReads = some data ∧
          (data.length < 64 ∨ data.getD 1 0 % 256 ≠ 0x99)) →
      (i1d3_unlock fd (some key) w).1 = I1D3_ERROR_INVALID_RESPONSE ∧
      sentPackets (i1d3_unlock fd (some key) w).2.trace
        = sentPackets w.trace ++ [[0x99] ++ List.replicate 63 0] ∧
      i1d3_get_state (i1d3_unlock fd (some key) w).2 fd = I1D3_STATE_INITIALIZED) ∧
    (∀ data1 data2 : List Nat,
      w.readRes w.nReads = some data1 → 64 ≤ data1.length → data1.getD 1 0 % 256 = 0x99 →
      w.writeRes (w.nWrites + 1) = 64 →
      w.readRes (w.nReads + 1) = some data2 → 64 ≤ data2.length →
      (((i1d3_unlock fd (some key) w).1 = I1D3_SUCCESS ∧
          i1d3_get_state (i1d3_unlock fd (some key) w).2 fd = I1D3_STATE_UNLOCKED)
        ↔ data2.getD 2 0 % 256 = 0x77) ∧
      (data2.getD 2 0 % 256 ≠ 0x77 →
        (i1d3_unlock fd (some key) w).1 = I1D3_ERROR_UNLOCK_FAILED ∧
        i1d3_get_state (i1d3_unlock fd (some key) w).2 fd = I1D3_STATE_INITIALIZED)) := by
  have hd : i1d3_get_state w fd ≠ I1D3_STATE_DISCONNECTED := by rw [hst]; decide
  have h256 : fd < 256 := lt_256_of_state w fd hd
  constructor
  · intro hbad
    have hcond : sys_read_ret (w.readRes w.nReads) 64 < 64
        ∨ (sys_read_buf (w.readRes w.nReads) 64 unlock_challenge_packet).getD 1 0 ≠ 0x99 := by
      rcases hbad with hn | ⟨data, hdata, hshort | hbyte⟩
      · left; rw [hn]; decide
      · left; rw [hdata]; exact sys_read_ret_short data hshort
      · rw [hdata]
        by_cases hl : data.length < 64
        · left; exact sys_read_ret_short data hl
        · right
          rw [sys_read_buf_getD data _ 1 (not_lt.mp hl) (by decide)]
          exact hbyte
    rw [i1d3_unlock_initialized fd key w hfd hst, unlock_challenge_packet_eq]
    rw [unlock_challenge_packet_eq] at hcond
    simp only [hw, ne_eq, not_true_eq_false, if_false, hcond, if_true]
    refine ⟨trivial, ?_, hst⟩
    simp [World.afterWrite, World.afterRead, sentPackets_append, sentPackets]
  · intro data1 data2 hr1 hl1 h99 hw2 hr2 hl2
    have hb1 : (sys_read_buf (some data1) 64 unlock_challenge_packet).getD 1 0 = 0x99 := by
      rw [sys_read_buf_getD data1 _ 1 hl1 (by decide)]; exact h99
    have hcond : ¬ (sys_read_ret (some data1) 64 < 64
        ∨ (sys_read_buf (some data1) 64 unlock_challenge_packet).getD 1 0 ≠ 0x99) := by
      rw [sys_read_ret_full data1 hl1, hb1]
      simp
    rw [i1d3_unlock_initialized fd key w hfd hst, hr1, hr2]
    simp only [hw, hw2, ne_eq, not_true_eq_false, if_false, hcond,
      sys_read_ret_full data2 hl2, lt_self_iff_false,
      sys_read_buf_getD data2 _ 2 hl2 (by decide : 2 < 64)]
    by_cases h77 : data2.getD 2 0 % 256 = 0x77
    · simp only [h77, if_true, not_true_eq_false, false_implies, and_true, iff_true, true_and]
      exact get_state_set_state fd _ _ hfd h256
    · simp only [h77, if_false, not_false_eq_true, true_implies, iff_false, not_and, true_and]
      exact ⟨fun h => absurd h (by decide), hst⟩

/-- Instance of C6: a device that answers the challenge request with zeros is
refused; one that answers with an accepted challenge and then with byte 2 =
0x77 is unlocked. -/
theorem unlock_outcomes_witness :
    (0 : Int) ≤ 3 ∧ i1d3_get_state deafWorld 3 = I1D3_STATE_INITIALIZED ∧
    i1d3_get_state acceptingWorld 3 = I1D3_STATE_INITIALIZED ∧
    (i1d3_unlock 3 (some retailKey) deafWorld).1 = I1D3_ERROR_INVALID_RESPONSE ∧
    (((i1d3_unlock 3 (some retailKey) acceptingWorld).1 = I1D3_SUCCESS ∧
        i1d3_get_state (i1d3_unlock 3 (some retailKey) acceptingWorld).2 3
          = I1D3_STATE_UNLOCKED)
      ↔ unlockAck.getD 2 0 % 256 = 0x77) :=
  ⟨by decide, by decide, by decide,
   ((unlock_outcomes 3 retailKey deafWorld (by decide) (by decide) rfl).1
      (Or.inr ⟨zeroReport, rfl, Or.inr (by decide)⟩)).1,
   ((unlock_outcomes 3 retailKey acceptingWorld (by decide) (by decide) rfl).2
      scenarioChallenge unlockAck rfl (by decide) (by decide) rfl rfl (by decide)).1⟩

/-! ## The catalog search -/

theorem attempt_zero (fd : Int) (k : Nat × Nat) (ks : List (Nat × Nat)) (w : World) :
    attempt fd (k :: ks) w 0 = i1d3_unlock fd (some k) w := rfl

theorem attempt_succ (fd : Int) (k : Nat × Nat) (ks : List (Nat × Nat)) (w : World) (j : Nat) :
    attempt fd (k :: ks) w (j + 1)
      = attempt fd ks (usleep I1D3_TIMEOUT_UNLOCK (i1d3_unlock fd (some k) w).2) j := rfl

theorem auto_loop_first_success (fd : Int) (es : List i1d3_key_entry) (w : World) (k : Nat)
    (hk : k < es.length)
    (hfail : ∀ j < k, (attempt fd (es.map (fun e => e.key)) w j).1 ≠ I1D3_SUCCESS)
    (hsucc : (attempt fd (es.map (fun e => e.key)) w k).1 = I1D3_SUCCESS) :
    i1d3_auto_find_unlock_loop fd es w
      = (some I1D3_SUCCESS, (attempt fd (es.map (fun e => e.key)) w k).2) := by
  induction es generalizing w k with
  | nil => exact absurd hk (Nat.not_lt_zero _)
  | cons e es ih =>
    unfold i1d3_auto_find_unlock_loop
    dsimp only
    cases k with
    | zero =>
      rw [List.map_cons, attempt_zero] at hsucc
      rw [if_pos hsucc]
      rfl
    | succ k =>
      have h0 := hfail 0 (Nat.succ_pos k)
      rw [List.map_cons, attempt_zero] at h0
      rw [if_neg h0]
      rw [ih _ k (Nat.lt_of_succ_lt_succ hk)
        (fun j hj => by
          have := hfail (j + 1) (Nat.succ_lt_succ hj)
          rwa [List.map_cons, attempt_succ] at this)
        (by rwa [List.map_cons, attempt_succ] at hsucc)]
      rfl

theorem auto_loop_all_fail (fd : Int) (es : List i1d3_key_entry) (w : World)
    (hfail : ∀ j < es.length, (attempt fd (es.map (fun e => e.key)) w j).1 ≠ I1D3_SUCCESS) :
    i1d3_auto_find_unlock_loop fd es w
      = (none, failedAttempts fd (es.map (fun e => e.key)) w) := by
  induction es generalizing w with
  | nil => rfl
  | cons e es ih =>
    unfold i1d3_auto_find_unlock_loop
    dsimp only
    have h0 := hfail 0 (Nat.succ_pos _)
    rw [List.map_cons, attempt_zero] at h0
    rw [if_neg h0]
    rw [ih _ (fun j hj => by
      have := hfail (j + 1) (Nat.succ_lt_succ hj)
      rwa [List.map_cons, attempt_succ] at this)]
    rfl

theorem first_success_or_all_fail (p : Nat → Prop) (n : Nat) :
    (∀ j < n, ¬ p j) ∨ ∃ k < n, (∀ j < k, ¬ p j) ∧ p k := by
  classical
  by_cases h : ∃ k, k < n ∧ p k
  · right
    refine ⟨Nat.find h, (Nat.find_spec h).1, ?_, (Nat.find_spec h).2⟩
    intro j hj hp
    exact Nat.find_min h hj ⟨lt_trans hj (Nat.find_spec h).1, hp⟩
  · left
    intro j hj hp
    exact h ⟨j, hj, hp⟩

/-- C7: on a valid handle in state Initialized, `i1d3_auto_find_unlock` tries
the eleven catalog keys Retail, Munki, OEM, NEC, Quato, HP, Wacom, TPA, Barco,
Crysta, Viewsonic with the listed values in this order: if attempt `k` is the
first to succeed, the call returns `Success` in the very world that attempt
produced (nothing is tried afterwards); it returns `UnlockFailed` exactly when
all eleven attempts fail. -/
theorem auto_find_unlock_tries_catalog_in_order (fd : Int) (w : World)
    (keys : List (Nat × Nat)) (hfd : 0 ≤ fd)
    (hst : i1d3_get_state w fd = I1D3_STATE_INITIALIZED)
    (hcat : keys =
      [ (0xe9622e9f, 0x8d63e133), (0xe01e6e0a, 0x257462de), (0xcaa62b2c, 0x30815b61),
        (0xa9119479, 0x5b168761), (0x160eb6ae, 0x14440e70), (0x291e41d7, 0x51937bdd),
        (0x1abfae03, 0xf25ac8e8), (0x828c43e9, 0xcbb8a8ed), (0xe8d1a980, 0xd146f7ad),
        (0x171ae295, 0x2e5c7664), (0x64d8c546, 0x4b24b4a7) ]) :
    I1D3_CODES.map (fun e => e.name)
      = ["Retail", "Munki", "OEM", "NEC", "Quato", "HP", "Wacom", "TPA", "Barco", "Crysta",
         "Viewsonic"] ∧
    I1D3_CODES.map (fun e => e.key) = keys ∧
    (∀ k < 11, (∀ j < k, (attempt fd keys w j).1 ≠ I1D3_SUCCESS) →
      (attempt fd keys w k).1 = I1D3_SUCCESS →
      i1d3_auto_find_unlock fd w = (I1D3_SUCCESS, (attempt fd keys w k).2)) ∧
    ((∀ j < 11, (attempt fd keys w j).1 ≠ I1D3_SUCCESS) →
      i1d3_auto_find_unlock fd w = (I1D3_ERROR_UNLOCK_FAILED, failedAttempts fd keys w)) ∧
    ((i1d3_auto_find_unlock fd w).1 = I1D3_ERROR_UNLOCK_FAILED
      ↔ ∀ j < 11, (attempt fd keys w j).1 ≠ I1D3_SUCCESS) := by
  have hneg : ¬ fd < 0 := not_lt.mpr hfd
  have hkeys : (I1D3_CODES.take 11).map (fun e => e.key) = keys := by rw [hcat]; decide
  have hlen : (I1D3_CODES.take 11).length = 11 := by decide
  have hA : ∀ k < 11, (∀ j < k, (attempt fd keys w j).1 ≠ I1D3_SUCCESS) →
      (attempt fd keys w k).1 = I1D3_SUCCESS →
      i1d3_auto_find_unlock fd w = (I1D3_SUCCESS, (attempt fd keys w k).2) := by
    intro k hk hfail hsucc
    have h := auto_loop_first_success fd (I1D3_CODES.take 11) w k (by rw [hlen]; exact hk)
      (by rw [hkeys]; exact hfail) (by rw [hkeys]; exact hsucc)
    rw [hkeys] at h
    unfold i1d3_auto_find_unlock
    simp only [hneg, hst, if_false, ne_eq, not_true_eq_false, h]
  have hB : (∀ j < 11, (attempt fd keys w j).1 ≠ I1D3_SUCCESS) →
      i1d3_auto_find_unlock fd w = (I1D3_ERROR_UNLOCK_FAILED, failedAttempts fd keys w) := by
    intro hfail
    have h := auto_loop_all_fail fd (I1D3_CODES.take 11) w
      (by rw [hlen, hkeys]; exact hfail)
    rw [hkeys] at h
    unfold i1d3_auto_find_unlock
    simp only [hneg, hst, if_false, ne_eq, not_true_eq_false, h]
  refine ⟨by decide, by rw [hcat]; decide, hA, hB, ?_, ?_⟩
  · intro hres
    rcases first_success_or_all_fail (fun j => (attempt fd keys w j).1 = I1D3_SUCCESS) 11
      with hall | ⟨k, hk, hfail, hsucc⟩
    · exact hall
    · rw [hA k hk hfail hsucc] at hres
      exact i1d3_error_t.noConfusion hres
  · intro hall
    rw [hB hall]

/-- Instance of C7: the device refuses the Retail and Munki keys and accepts
the OEM key, so the search stops in the world of the third attempt. -/
theorem auto_find_unlock_tries_catalog_in_order_witness :
    (0 : Int) ≤ 3 ∧ i1d3_get_state thirdKeyWorld 3 = I1D3_STATE_INITIALIZED ∧
    i1d3_auto_find_unlock 3 thirdKeyWorld
      = (I1D3_SUCCESS,
          (attempt 3
            [ (0xe9622e9f, 0x8d63e133), (0xe01e6e0a, 0x257462de), (0xcaa62b2c, 0x30815b61),
              (0xa9119479, 0x5b168761), (0x160eb6ae, 0x14440e70), (0x291e41d7, 0x51937bdd),
              (0x1abfae03, 0xf25ac8e8), (0x828c43e9, 0xcbb8a8ed), (0xe8d1a980, 0xd146f7ad),
              (0x171ae295, 0x2e5c7664), (0x64d8c546, 0x4b24b4a7) ] thirdKeyWorld 2).2) :=
  ⟨by decide, by decide,
   (auto_find_unlock_tries_catalog_in_order 3 thirdKeyWorld _ (by decide) (by decide)
      rfl).2.2.1 2 (by decide) (by decide) (by decide)⟩

theorem readCalls_append (t u : List Event) :
    readCalls (t ++ u) = readCalls t + readCalls u := by
  induction t with
  | nil => simp [readCalls]
  | cons e t ih =>
    cases e <;> simp [readCalls, ih]
    omega

theorem sys_read_ret_le (r : Option (List Nat)) : sys_read_ret r 64 ≤ 64 := by
  cases r with
  | none => decide
  | some data =>
    simp only [sys_read_ret]
    have : min data.length (64 : Int).toNat ≤ 64 := min_le_right _ _
    omega

/-! ## The initialisation sequence -/

theorem init_packet_length (c : Nat × Nat) : (init_packet c).length = 64 := by
  simp [init_packet]

theorem init_packet_eq (c : Nat × Nat) :
    init_packet c = [c.1 % 256, c.2 % 256] ++ List.replicate 62 0 := by
  unfold init_packet
  simp only [List.replicate, List.set_cons_succ, List.set_cons_zero, List.cons_append,
    List.nil_append]

/-- One iteration of the loop of `i1d3_init_sequence` on an open, valid handle. -/
theorem init_loop_cons (fd : Int) (c : Nat × Nat) (cs : List (Nat × Nat)) (w : World)
    (hfd : 0 ≤ fd) (hd : i1d3_get_state w fd ≠ I1D3_STATE_DISCONNECTED) :
    i1d3_init_sequence_loop fd (c :: cs) w =
      if w.writeRes w.nWrites ≠ 64 then
        (some I1D3_ERROR_OPEN_FAILED, w.afterWrite fd (init_packet c))
      else if sys_read_ret (w.readRes w.nReads) 64 < 64 then
        (some I1D3_ERROR_INVALID_RESPONSE, initRound fd c w)
      else i1d3_init_sequence_loop fd cs (initRound fd c w) := by
  have htk : List.take 64 (init_packet c) = init_packet c :=
    List.take_of_length_le (le_of_eq (init_packet_length c))
  have hs := i1d3_send_ok fd (init_packet c) w hfd hd
  rw [htk] at hs
  have hr := i1d3_recv_ok fd (init_packet c)
    (usleep I1D3_TIMEOUT_INIT (w.afterWrite fd (init_packet c))) hfd hd
  rw [i1d3_init_sequence_loop]
  simp only [hs, hr, recv_ret_lt_iff, i1d3_error_t.toInt]
  by_cases h1 : w.writeRes w.nWrites = 64
  · simp only [h1, ne_eq, not_true_eq_false, if_false]
    rfl
  · simp [h1]

theorem initRound_fields (fd : Int) (c : Nat × Nat) (w : World) :
    (initRound fd c w).nWrites = w.nWrites + 1 ∧ (initRound fd c w).nReads = w.nReads + 1 ∧
    (initRound fd c w).writeRes = w.writeRes ∧ (initRound fd c w).readRes = w.readRes ∧
    (initRound fd c w).device_states = w.device_states ∧
    (initRound fd c w).trace = w.trace ++ [Event.write fd (init_packet c),
      Event.usleep I1D3_TIMEOUT_INIT, Event.read fd 64] := by
  simp [initRound, usleep, World.afterWrite, World.afterRead]

theorem get_state_initRound (fd : Int) (c : Nat × Nat) (w : World) (fd' : Int) :
    i1d3_get_state (initRound fd c w) fd' = i1d3_get_state w fd' := rfl

/-- The loop when every write succeeds and every read is full. -/
theorem init_loop_all_full (fd : Int) (cs : List (Nat × Nat)) (w : World) (hfd : 0 ≤ fd)
    (hd : i1d3_get_state w fd ≠ I1D3_STATE_DISCONNECTED)
    (hw : ∀ j < cs.length, w.writeRes (w.nWrites + j) = 64)
    (hr : ∀ j < cs.length, sys_read_ret (w.readRes (w.nReads + j)) 64 = 64) :
    (i1d3_init_sequence_loop fd cs w).1 = none ∧
    (i1d3_init_sequence_loop fd cs w).2.trace
      = w.trace ++ cs.flatMap (fun c => [Event.write fd (init_packet c),
          Event.usleep I1D3_TIMEOUT_INIT, Event.read fd 64]) := by
  induction cs generalizing w with
  | nil => exact ⟨rfl, by simp [i1d3_init_sequence_loop]⟩
  | cons c cs ih =>
    have h0w : w.writeRes w.nWrites = 64 := hw 0 (Nat.succ_pos _)
    have h0r : sys_read_ret (w.readRes w.nReads) 64 = 64 := hr 0 (Nat.succ_pos _)
    obtain ⟨f1, f2, f3, f4, _, f6⟩ := initRound_fields fd c w
    rw [init_loop_cons fd c cs w hfd hd]
    simp only [h0w, h0r, ne_eq, not_true_eq_false, if_false, lt_self_iff_false]
    have := ih (initRound fd c w) hd
      (fun j hj => by
        rw [f1, f3, Nat.add_assoc, Nat.add_comm 1 j]
        exact hw (j + 1) (Nat.succ_lt_succ hj))
      (fun j hj => by
        rw [f2, f4, Nat.add_assoc, Nat.add_comm 1 j]
        exact hr (j + 1) (Nat.succ_lt_succ hj))
    refine ⟨this.1, ?_⟩
    rw [this.2, f6]
    simp

/-- The loop when read number `i` (counted from 0) is the first short one. -/
theorem init_loop_short_read (fd : Int) (cs : List (Nat × Nat)) (w : World) (i : Nat)
    (hfd : 0 ≤ fd) (hd : i1d3_get_state w fd ≠ I1D3_STATE_DISCONNECTED)
    (hi : i < cs.length)
    (hw : ∀ j ≤ i, w.writeRes (w.nWrites + j) = 64)
    (hr : ∀ j < i, sys_read_ret (w.readRes (w.nReads + j)) 64 = 64)
    (hs : sys_read_ret (w.readRes (w.nReads + i)) 64 < 64) :
    (i1d3_init_sequence_loop fd cs w).1 = some I1D3_ERROR_INVALID_RESPONSE ∧
    sentPackets (i1d3_init_sequence_loop fd cs w).2.trace
      = sentPackets w.trace ++ (cs.take (i + 1)).map init_packet ∧
    readCalls (i1d3_init_sequence_loop fd cs w).2.trace = readCalls w.trace + (i + 1) := by
  induction cs generalizing w i with
  | nil => exact absurd hi (Nat.not_lt_zero _)
  | cons c cs ih =>
    have h0w : w.writeRes w.nWrites = 64 := hw 0 (Nat.zero_le _)
    obtain ⟨f1, f2, f3, f4, _, f6⟩ := initRound_fields fd c w
    rw [init_loop_cons fd c cs w hfd hd]
    simp only [h0w, ne_eq, not_true_eq_false, if_false]
    cases i with
    | zero =>
      have hs' : sys_read_ret (w.readRes w.nReads) 64 < 64 := hs
      simp only [hs', if_true, f6]
      refine ⟨trivial, ?_, ?_⟩
      · simp [sentPackets_append, sentPackets]
      · simp [readCalls_append, readCalls]
    | succ i =>
      have h0r : sys_read_ret (w.readRes w.nReads) 64 = 64 := hr 0 (Nat.succ_pos _)
      simp only [h0r, lt_self_iff_false, if_false]
      have := ih (initRound fd c w) i hd (Nat.lt_of_succ_lt_succ hi)
        (fun j hj => by
          rw [f1, f3, Nat.add_assoc, Nat.add_comm 1 j]
          exact hw (j + 1) (Nat.succ_le_succ hj))
        (fun j hj => by
          rw [f2, f4, Nat.add_assoc, Nat.add_comm 1 j]
          exact hr (j + 1) (Nat.succ_lt_succ hj))
        (by
          rw [f2, f4, Nat.add_assoc, Nat.add_comm 1 i]
          exact hs)
      refine ⟨this.1, ?_, ?_⟩
      · rw [this.2.1, f6]
        simp [sentPackets_append, sentPackets]
      · rw [this.2.2, f6]
        simp [readCalls_append, readCalls]
        omega

/-- The loop returns `InvalidResponse` only after a short read. -/
theorem init_loop_invalid_response (fd : Int) (cs : List (Nat × Nat)) (w : World)
    (hfd : 0 ≤ fd) (hd : i1d3_get_state w fd ≠ I1D3_STATE_DISCONNECTED)
    (h : (i1d3_init_sequence_loop fd cs w).1 = some I1D3_ERROR_INVALID_RESPONSE) :
    ∃ i < cs.length, (∀ j ≤ i, w.writeRes (w.nWrites + j) = 64) ∧
      (∀ j < i, sys_read_ret (w.readRes (w.nReads + j)) 64 = 64) ∧
      sys_read_ret (w.readRes (w.nReads + i)) 64 < 64 := by
  induction cs generalizing w with
  | nil => exact absurd h (by simp [i1d3_init_sequence_loop])
  | cons c cs ih =>
    obtain ⟨f1, f2, f3, f4, _, _⟩ := initRound_fields fd c w
    rw [init_loop_cons fd c cs w hfd hd] at h
    by_cases h1 : w.writeRes w.nWrites = 64
    · simp only [h1, ne_eq, not_true_eq_false, if_false] at h
      by_cases h2 : sys_read_ret (w.readRes w.nReads) 64 < 64
      · refine ⟨0, Nat.succ_pos _, ?_, ?_, h2⟩
        · intro j hj
          rw [Nat.le_zero.mp hj]
          exact h1
        · intro j hj
          exact absurd hj (Nat.not_lt_zero _)
      · simp only [h2, if_false] at h
        have h2' : sys_read_ret (w.readRes w.nReads) 64 = 64 :=
          le_antisymm (sys_read_ret_le _) (not_lt.mp h2)
        obtain ⟨i, hi, hw, hr, hs⟩ := ih (initRound fd c w) hd h
        rw [f1, f3] at hw
        rw [f2, f4] at hr hs
        refine ⟨i + 1, Nat.succ_lt_succ hi, ?_, ?_, ?_⟩
        · intro j hj
          cases j with
          | zero => exact h1
          | succ j =>
            have := hw j (Nat.le_of_succ_le_succ hj)
            rwa [Nat.add_assoc, Nat.add_comm 1 j] at this
        · intro j hj
          cases j with
          | zero => exact h2'
          | succ j =>
            have := hr j (Nat.lt_of_succ_lt_succ hj)
            rwa [Nat.add_assoc, Nat.add_comm 1 j] at this
        · rwa [Nat.add_assoc, Nat.add_comm 1 i] at hs
    · simp [h1] at h

/-- C8: on a valid handle in state Connected, when the eight writes succeed
and the eight reads each return 64 bytes, `i1d3_init_sequence` returns
`Success`, leaves the state Initialized, and its system calls are exactly
eight rounds of write, `usleep (150000)`, read, the `k`-th packet carrying the
`k`-th opcode in bytes 0-1 and zeros in bytes 2..63 (so eight 64-byte packets
are sent and one read follows each of them). -/
theorem init_sequence_sends_eight_packets (fd : Int) (w : World) (hfd : 0 ≤ fd)
    (hst : i1d3_get_state w fd = I1D3_STATE_CONNECTED)
    (hw : ∀ j < 8, w.writeRes (w.nWrites + j) = 64)
    (hr : ∀ j < 8, sys_read_ret (w.readRes (w.nReads + j)) 64 = 64) :
    (i1d3_init_sequence fd w).1 = I1D3_SUCCESS ∧
    i1d3_get_state (i1d3_init_sequence fd w).2 fd = I1D3_STATE_INITIALIZED ∧
    (i1d3_init_sequence fd w).2.trace
      = w.trace ++ initRoundEvents fd (0x00, 0x01) ++ initRoundEvents fd (0x00, 0x10)
          ++ initRoundEvents fd (0x00, 0x11) ++ initRoundEvents fd (0x00, 0x12)
          ++ initRoundEvents fd (0x10, 0x00) ++ initRoundEvents fd (0x00, 0x31)
          ++ initRoundEvents fd (0x00, 0x13) ++ initRoundEvents fd (0x00, 0x20) ∧
    sentPackets (i1d3_init_sequence fd w).2.trace
      = sentPackets w.trace ++
        [ [0x00, 0x01] ++ List.replicate 62 0, [0x00, 0x10] ++ List.replicate 62 0,
          [0x00, 0x11] ++ List.replicate 62 0, [0x00, 0x12] ++ List.replicate 62 0,
          [0x10, 0x00] ++ List.replicate 62 0, [0x00, 0x31] ++ List.replicate 62 0,
          [0x00, 0x13] ++ List.replicate 62 0, [0x00, 0x20] ++ List.replicate 62 0 ] ∧
    readCalls (i1d3_init_sequence fd w).2.trace = readCalls w.trace + 8 := by
  have hneg : ¬ fd < 0 := not_lt.mpr hfd
  have hd : i1d3_get_state w fd ≠ I1D3_STATE_DISCONNECTED := by rw [hst]; decide
  have h256 : fd < 256 := lt_256_of_state w fd hd
  have hlen : (init_cmds.take 8).length = 8 := by decide
  obtain ⟨hl1, hl2⟩ := init_loop_all_full fd (init_cmds.take 8) w hfd hd
    (by rw [hlen]; exact hw) (by rw [hlen]; exact hr)
  have hres : i1d3_init_sequence fd w
      = (I1D3_SUCCESS, i1d3_set_state fd I1D3_STATE_INITIALIZED
          (i1d3_init_sequence_loop fd (init_cmds.take 8) w).2) := by
    unfold i1d3_init_sequence
    simp only [hneg, hst, if_false, ne_eq, not_true_eq_false, hl1]
  have htrace : (i1d3_init_sequence fd w).2.trace
      = w.trace ++ initRoundEvents fd (0x00, 0x01) ++ initRoundEvents fd (0x00, 0x10)
          ++ initRoundEvents fd (0x00, 0x11) ++ initRoundEvents fd (0x00, 0x12)
          ++ initRoundEvents fd (0x10, 0x00) ++ initRoundEvents fd (0x00, 0x31)
          ++ initRoundEvents fd (0x00, 0x13) ++ initRoundEvents fd (0x00, 0x20) := by
    rw [hres]
    simp only [set_state_trace, hl2]
    simp [init_cmds, init_packet_eq, initRoundEvents, I1D3_TIMEOUT_INIT]
  refine ⟨by rw [hres], ?_, htrace, ?_, ?_⟩
  · rw [hres]
    exact get_state_set_state fd _ _ hfd h256
  · rw [htrace]
    simp [sentPackets_append, sentPackets, initRoundEvents]
  · rw [htrace]
    simp [readCalls_append, readCalls, initRoundEvents]

/-- Instance of C8: a healthy transport on descriptor 3. -/
theorem init_sequence_sends_eight_packets_witness :
    (0 : Int) ≤ 3 ∧ i1d3_get_state healthyWorld 3 = I1D3_STATE_CONNECTED ∧
    (∀ j < 8, healthyWorld.writeRes (healthyWorld.nWrites + j) = 64) ∧
    (∀ j < 8, sys_read_ret (healthyWorld.readRes (healthyWorld.nReads + j)) 64 = 64) ∧
    (i1d3_init_sequence 3 healthyWorld).1 = I1D3_SUCCESS ∧
    i1d3_get_state (i1d3_init_sequence 3 healthyWorld).2 3 = I1D3_STATE_INITIALIZED ∧
    readCalls (i1d3_init_sequence 3 healthyWorld).2.trace = readCalls healthyWorld.trace + 8 :=
  have h := init_sequence_sends_eight_packets 3 healthyWorld (by decide) (by decide)
    (fun _ _ => rfl) (fun _ _ => rfl)
  ⟨by decide, by decide, fun _ _ => rfl, fun _ _ => rfl, h.1, h.2.1, h.2.2.2.2⟩

/-- C9: on a valid handle in state Connected, if read number `i + 1` (with
`i < 8`) is the first to return fewer than 64 bytes (a failing read returns
-1) and the writes up to it succeed, `i1d3_init_sequence` returns
`InvalidResponse` having sent exactly the first `i + 1` packets and made
`i + 1` reads, and the state is still Connected; conversely it returns
`InvalidResponse` only when some read `i + 1 ≤ 8` is short after full reads
and successful writes before it. -/
theorem init_sequence_short_read (fd : Int) (w : World) (hfd : 0 ≤ fd)
    (hst : i1d3_get_state w fd = I1D3_STATE_CONNECTED) :
    (∀ i < 8, (∀ j ≤ i, w.writeRes (w.nWrites + j) = 64) →
      (∀ j < i, sys_read_ret (w.readRes (w.nReads + j)) 64 = 64) →
      sys_read_ret (w.readRes (w.nReads + i)) 64 < 64 →
      (i1d3_init_sequence fd w).1 = I1D3_ERROR_INVALID_RESPONSE ∧
      sentPackets (i1d3_init_sequence fd w).2.trace
        = sentPackets w.trace ++
          (List.take (i + 1)
            [(0x00, 0x01), (0x00, 0x10), (0x00, 0x11), (0x00, 0x12),
             (0x10, 0x00), (0x00, 0x31), (0x00, 0x13), (0x00, 0x20)]).map
            (fun c : Nat × Nat => [c.1, c.2] ++ List.replicate 62 0) ∧
      readCalls (i1d3_init_sequence fd w).2.trace = readCalls w.trace + (i + 1) ∧
      i1d3_get_state (i1d3_init_sequence fd w).2 fd = I1D3_STATE_CONNECTED) ∧
    ((i1d3_init_sequence fd w).1 = I1D3_ERROR_INVALID_RESPONSE →
      ∃ i < 8, (∀ j ≤ i, w.writeRes (w.nWrites + j) = 64) ∧
        (∀ j < i, sys_read_ret (w.readRes (w.nReads + j)) 64 = 64) ∧
        sys_read_ret (w.readRes (w.nReads + i)) 64 < 64) := by
  have hneg : ¬ fd < 0 := not_lt.mpr hfd
  have hd : i1d3_get_state w fd ≠ I1D3_STATE_DISCONNECTED := by rw [hst]; decide
  have hlen : (init_cmds.take 8).length = 8 := by decide
  have hunf : i1d3_init_sequence fd w
      = match (i1d3_init_sequence_loop fd (init_cmds.take 8) w).1 with
        | some e => (e, (i1d3_init_sequence_loop fd (init_cmds.take 8) w).2)
        | none => (I1D3_SUCCESS, i1d3_set_state fd I1D3_STATE_INITIALIZED
            (i1d3_init_sequence_loop fd (init_cmds.take 8) w).2) := by
    unfold i1d3_init_sequence
    simp only [hneg, hst, if_false, ne_eq, not_true_eq_false]
  constructor
  · intro i hi hw hr hs
    obtain ⟨h1, h2, h3⟩ := init_loop_short_read fd (init_cmds.take 8) w i hfd hd
      (by rw [hlen]; exact hi) hw hr hs
    have hres : i1d3_init_sequence fd w
        = (I1D3_ERROR_INVALID_RESPONSE, (i1d3_init_sequence_loop fd (init_cmds.take 8) w).2) := by
      rw [hunf, h1]
    have hmap : (List.take (i + 1) (init_cmds.take 8)).map init_packet
        = (List.take (i + 1)
            [(0x00, 0x01), (0x00, 0x10), (0x00, 0x11), (0x00, 0x12),
             (0x10, 0x00), (0x00, 0x31), (0x00, 0x13), (0x00, 0x20)]).map
            (fun c : Nat × Nat => [c.1, c.2] ++ List.replicate 62 0) := by
      have hall : (init_cmds.take 8).map init_packet
          = [(0x00, 0x01), (0x00, 0x10), (0x00, 0x11), (0x00, 0x12),
             (0x10, 0x00), (0x00, 0x31), (0x00, 0x13), (0x00, 0x20)].map
            (fun c : Nat × Nat => [c.1, c.2] ++ List.replicate 62 0) := by decide
      rw [List.map_take, hall, List.map_take]
    refine ⟨by rw [hres], ?_, ?_, ?_⟩
    · rw [hres, ← hmap]
      exact h2
    · rw [hres]
      exact h3
    · rw [hres, i1d3_get_state_congr _ _ (init_loop_device_states fd _ w)]
      exact hst
  · intro hres
    rw [hunf] at hres
    have hloop : (i1d3_init_sequence_loop fd (init_cmds.take 8) w).1
        = some I1D3_ERROR_INVALID_RESPONSE := by
      cases hl : (i1d3_init_sequence_loop fd (init_cmds.take 8) w).1 with
      | none =>
        rw [hl] at hres
        exact i1d3_error_t.noConfusion hres
      | some e =>
        rw [hl] at hres
        exact congrArg some hres
    obtain ⟨i, hi, h⟩ := init_loop_invalid_response fd (init_cmds.take 8) w hfd hd hloop
    exact ⟨i, by rw [hlen] at hi; exact hi, h⟩

/-- Instance of C9: the third read fails, so three packets are sent. -/
theorem init_sequence_short_read_witness :
    (0 : Int) ≤ 3 ∧ i1d3_get_state thirdReadFails 3 = I1D3_STATE_CONNECTED ∧
    sys_read_ret (thirdReadFails.readRes (thirdReadFails.nReads + 2)) 64 < 64 ∧
    (i1d3_init_sequence 3 thirdReadFails).1 = I1D3_ERROR_INVALID_RESPONSE ∧
    sentPackets (i1d3_init_sequence 3 thirdReadFails).2.trace
      = sentPackets thirdReadFails.trace ++
        (List.take (2 + 1)
          [(0x00, 0x01), (0x00, 0x10), (0x00, 0x11), (0x00, 0x12),
           (0x10, 0x00), (0x00, 0x31), (0x00, 0x13), (0x00, 0x20)]).map
          (fun c : Nat × Nat => [c.1, c.2] ++ List.replicate 62 0) :=
  have h := (init_sequence_short_read 3 thirdReadFails (by decide) (by decide)).1 2
    (by decide) (fun _ _ => rfl) (by decide) (by decide)
  ⟨by decide, by decide, by decide, h.1, h.2.1⟩

/-! ## Measurement -/

/-- C10 (evaluation at the accepted response `blueReport`, where `bCnt = 3`
and `bClk = 48000000`, so `hz (bCnt, bClk) = 0.5`): the claimed result is
`X = 0.016668 * 0.5`, `Y = 0.000451 * 0.5`, `Z = 0.078830 * 0.5`, which is
what the earlier driver `11d3.c` computes; `i1d3_aio_measure` of
`i1d3_api.c` succeeds and returns `X = Y = Z = 0`, because it never reads
`bCnt` and evaluates `toHz (0, bClk)`. -/
theorem measure_drops_blue_count :
    blueReport.length = 64 ∧ blueReport.getD 1 0 = 0x04 ∧
    load_u32 blueReport 2 = 0 ∧ load_u32 blueReport 6 = 0 ∧ load_u32 blueReport 10 = 3 ∧
    load_u32 blueReport 22 = 48000000 ∧
    (toHz 3 48000000 : ℚ) = 0.5 ∧
    (i1d3_aio_measure (fun t : ℚ => t) 3 (some zeroResults) blueWorld).1 = I1D3_SUCCESS ∧
    (i1d3_aio_measure (fun t : ℚ => t) 3 (some zeroResults) blueWorld).2.1
      = some (measure_compute (fun t : ℚ => t) blueReport) ∧
    (measure_compute (fun t : ℚ => t) blueReport).X = 0 ∧
    (measure_compute (fun t : ℚ => t) blueReport).Y = 0 ∧
    (measure_compute (fun t : ℚ => t) blueReport).Z = 0 ∧
    (measure_compute_linux (fun t : ℚ => t) blueReport).X = 0.016668 * 0.5 ∧
    (measure_compute_linux (fun t : ℚ => t) blueReport).Y = 0.000451 * 0.5 ∧
    (measure_compute_linux (fun t : ℚ => t) blueReport).Z = 0.078830 * 0.5 ∧
    (0.078830 * 0.5 : ℚ) ≠ 0 := by
  have h2 : load_u32 blueReport 2 = 0 := by decide
  have h6 : load_u32 blueReport 6 = 0 := by decide
  have h10 : load_u32 blueReport 10 = 3 := by decide
  have h14 : load_u32 blueReport 14 = 48000000 := by decide
  have h18 : load_u32 blueReport 18 = 48000000 := by decide
  have h22 : load_u32 blueReport 22 = 48000000 := by decide
  refine ⟨by decide, by decide, h2, h6, h10, h22, ?_, rfl, rfl, ?_, ?_, ?_, ?_, ?_, ?_, ?_⟩
  · norm_num [toHz]
  · simp only [measure_compute, h2, h6, h14, h18, h22]
    norm_num [toHz]
  · simp only [measure_compute, h2, h6, h14, h18, h22]
    norm_num [toHz]
  · simp only [measure_compute, h2, h6, h14, h18, h22]
    norm_num [toHz]
  · simp only [measure_compute_linux, h2, h6, h10, h14, h18, h22]
    norm_num [toHz, MATRIX]
  · simp only [measure_compute_linux, h2, h6, h10, h14, h18, h22]
    norm_num [toHz, MATRIX]
  · simp only [measure_compute_linux, h2, h6, h10, h14, h18, h22]
    norm_num [toHz, MATRIX]
  · norm_num

/-! ## The measurement call -/

theorem measure_packet_eq :
    measure_packet = [0x04, 0x00, 0x9F, 0x24, 0x00, 0x00, 0x07, 0xE8, 0x03] ++ List.replicate 55 0 :=
  rfl

/-- The behaviour of `i1d3_aio_measure` on a valid handle in state Unlocked,
branch by branch. -/
theorem i1d3_aio_measure_unlocked {α : Type} [LinearOrderedField α] (cbrt : α → α)
    (fd : Int) (r0 : i1d3_color_results α) (w : World) (hfd : 0 ≤ fd)
    (hst : i1d3_get_state w fd = I1D3_STATE_UNLOCKED) :
    i1d3_aio_measure cbrt fd (some r0) w =
      if w.writeRes w.nWrites ≠ 64 then
        (I1D3_ERROR_OPEN_FAILED, some r0, w.afterWrite fd measure_packet)
      else if sys_read_ret (w.readRes w.nReads) 64 < 64
          ∨ (sys_read_buf (w.readRes w.nReads) 64 measure_packet).getD 1 0 ≠ 0x04 then
        (I1D3_ERROR_INVALID_RESPONSE, some r0,
          (usleep I1D3_TIMEOUT_MEASURE (w.afterWrite fd measure_packet)).afterRead fd 64)
      else
        (I1D3_SUCCESS,
          some (measure_compute cbrt (sys_read_buf (w.readRes w.nReads) 64 measure_packet)),
          (usleep I1D3_TIMEOUT_MEASURE (w.afterWrite fd measure_packet)).afterRead fd 64) := by
  have hneg : ¬ fd < 0 := not_lt.mpr hfd
  have hd : i1d3_get_state w fd ≠ I1D3_STATE_DISCONNECTED := by rw [hst]; decide
  have htk : List.take 64 measure_packet = measure_packet := by decide
  have hs := i1d3_send_ok fd measure_packet w hfd hd
  rw [htk] at hs
  have hr := i1d3_recv_ok fd measure_packet
    (usleep I1D3_TIMEOUT_MEASURE (w.afterWrite fd measure_packet)) hfd hd
  unfold i1d3_aio_measure
  simp only [hneg, hst, if_false, ne_eq, not_true_eq_false, hs, hr, recv_ret_lt_iff,
    i1d3_error_t.toInt]
  by_cases h1 : w.writeRes w.nWrites = 64
  · simp only [h1, not_true_eq_false, if_false]
    rfl
  · simp [h1]

/-- The scripted read is refused by `i1d3_aio_measure`: it fails, is short, or
delivers a byte 1 different from 0x04. -/
theorem measure_read_refused_iff (r : Option (List Nat)) :
    (sys_read_ret r 64 < 64 ∨ (sys_read_buf r 64 measure_packet).getD 1 0 ≠ 0x04)
      ↔ (r = none ∨ ∃ data, r = some data ∧
          (data.length < 64 ∨ data.getD 1 0 % 256 ≠ 0x04)) := by
  cases r with
  | none =>
    constructor
    · intro _; exact Or.inl rfl
    · intro _; left; decide
  | some data =>
    by_cases hl : data.length < 64
    · constructor
      · intro _; exact Or.inr ⟨data, rfl, Or.inl hl⟩
      · intro _; exact Or.inl (sys_read_ret_short data hl)
    · have hfull : sys_read_ret (some data) 64 = 64 := sys_read_ret_full data (not_lt.mp hl)
      rw [hfull, sys_read_buf_getD data _ 1 (not_lt.mp hl) (by decide)]
      constructor
      · rintro (h | h)
        · exact absurd h (lt_irrefl _)
        · exact Or.inr ⟨data, rfl, Or.inr h⟩
      · rintro (h | ⟨d, hd, h⟩)
        · exact Option.noConfusion h
        · cases hd
          rcases h with h | h
          · exact absurd h hl
          · exact Or.inr h

/-- C11: on a valid handle in state Unlocked whose `write` succeeds,
`i1d3_aio_measure` hands exactly one packet to `write`, the 64-byte command
`04 00 9F 24 00 00 07 E8 03` followed by zeros; it returns `InvalidResponse`
exactly when the read fails, returns fewer than 64 bytes, or delivers a
byte 1 different from 0x04, and `Success` otherwise. -/
theorem measure_sends_one_packet {α : Type} [LinearOrderedField α] (cbrt : α → α)
    (fd : Int) (r0 : i1d3_color_results α) (w : World) (hfd : 0 ≤ fd)
    (hst : i1d3_get_state w fd = I1D3_STATE_UNLOCKED) (hw : w.writeRes w.nWrites = 64) :
    sentPackets (i1d3_aio_measure cbrt fd (some r0) w).2.2.trace
      = sentPackets w.trace ++
        [[0x04, 0x00, 0x9F, 0x24, 0x00, 0x00, 0x07, 0xE8, 0x03] ++ List.replicate 55 0] ∧
    ([0x04, 0x00, 0x9F, 0x24, 0x00, 0x00, 0x07, 0xE8, 0x03] ++ List.replicate 55 0
      : List Nat).length = 64 ∧
    ((i1d3_aio_measure cbrt fd (some r0) w).1 = I1D3_ERROR_INVALID_RESPONSE
      ↔ (w.readRes w.nReads = none ∨ ∃ data, w.readRes w.nReads = some data ∧
          (data.length < 64 ∨ data.getD 1 0 % 256 ≠ 0x04))) ∧
    (¬ (w.readRes w.nReads = none ∨ ∃ data, w.readRes w.nReads = some data ∧
          (data.length < 64 ∨ data.getD 1 0 % 256 ≠ 0x04)) →
      (i1d3_aio_measure cbrt fd (some r0) w).1 = I1D3_SUCCESS) := by
  rw [i1d3_aio_measure_unlocked cbrt fd r0 w hfd hst, ← measure_read_refused_iff,
    ← measure_packet_eq]
  simp only [hw, ne_eq, not_true_eq_false, if_false]
  refine ⟨?_, by decide, ?_, ?_⟩
  · split_ifs <;>
      simp [usleep, World.afterWrite, World.afterRead, sentPackets_append, sentPackets]
  · split_ifs with h
    · exact ⟨fun _ => h, fun _ => rfl⟩
    · exact ⟨fun hc => hc.elim, fun hc => absurd hc h⟩
  · intro h
    rw [if_neg h]

/-- Instance of C11: an accepted response gives `Success`, a response whose
byte 1 is 0 gives `InvalidResponse`. -/
theorem measure_sends_one_packet_witness :
    (0 : Int) ≤ 3 ∧ i1d3_get_state redWorld 3 = I1D3_STATE_UNLOCKED ∧
    redWorld.writeRes redWorld.nWrites = 64 ∧
    sentPackets (i1d3_aio_measure (fun t : ℚ => t) 3 (some zeroResults) redWorld).2.2.trace
      = sentPackets redWorld.trace ++
        [[0x04, 0x00, 0x9F, 0x24, 0x00, 0x00, 0x07, 0xE8, 0x03] ++ List.replicate 55 0] ∧
    (i1d3_aio_measure (fun t : ℚ => t) 3 (some zeroResults) wrongOpcodeWorld).1
      = I1D3_ERROR_INVALID_RESPONSE :=
  ⟨by decide, by decide, rfl,
   (measure_sends_one_packet (fun t : ℚ => t) 3 zeroResults redWorld (by decide) (by decide)
      rfl).1,
   (measure_sends_one_packet (fun t : ℚ => t) 3 zeroResults wrongOpcodeWorld (by decide)
      (by decide) rfl).2.2.1.mpr (Or.inr ⟨zeroReport, rfl, Or.inr (by decide)⟩)⟩

/-- A successful `i1d3_aio_measure` stores the conversion of some response
buffer into `*res`. -/
theorem measure_success_result {α : Type} [LinearOrderedField α] (cbrt : α → α)
    (fd : Int) (res : Option (i1d3_color_results α)) (w : World)
    (h : (i1d3_aio_measure cbrt fd res w).1 = I1D3_SUCCESS) :
    ∃ buf, (i1d3_aio_measure cbrt fd res w).2.1 = some (measure_compute cbrt buf) := by
  unfold i1d3_aio_measure at h ⊢
  split at h
  · exact i1d3_error_t.noConfusion h
  · dsimp only at h ⊢
    split_ifs at h ⊢
    all_goals first
      | exact i1d3_error_t.noConfusion h
      | exact ⟨_, rfl⟩

/-- C12: for every successful `i1d3_aio_measure` the stored result has
`x = X/(X+Y+Z)` and `y = Y/(X+Y+Z)` when `X+Y+Z > 0`, and `x = y = 0`
otherwise. -/
theorem measure_chromaticity {α : Type} [LinearOrderedField α] (cbrt : α → α)
    (fd : Int) (res : Option (i1d3_color_results α)) (w : World)
    (h : (i1d3_aio_measure cbrt fd res w).1 = I1D3_SUCCESS) :
    ∃ r, (i1d3_aio_measure cbrt fd res w).2.1 = some r ∧
      (0 < r.X + r.Y + r.Z → r.x = r.X / (r.X + r.Y + r.Z) ∧ r.y = r.Y / (r.X + r.Y + r.Z)) ∧
      (¬ 0 < r.X + r.Y + r.Z → r.x = 0 ∧ r.y = 0) := by
  obtain ⟨buf, hbuf⟩ := measure_success_result cbrt fd res w h
  refine ⟨_, hbuf, ?_, ?_⟩
  · intro hpos
    simp only [measure_compute] at hpos ⊢
    simp only [gt_iff_lt, hpos, if_true, and_self]
  · intro hneg
    simp only [measure_compute] at hneg ⊢
    simp only [gt_iff_lt, hneg, if_false, and_self]

/-- Instance of C12: the response `redReport` (only the red channel counts). -/
theorem measure_chromaticity_witness :
    (i1d3_aio_measure (fun t : ℚ => t) 3 (some zeroResults) redWorld).1 = I1D3_SUCCESS ∧
    ∃ r, (i1d3_aio_measure (fun t : ℚ => t) 3 (some zeroResults) redWorld).2.1 = some r ∧
      (0 < r.X + r.Y + r.Z → r.x = r.X / (r.X + r.Y + r.Z) ∧ r.y = r.Y / (r.X + r.Y + r.Z)) ∧
      (¬ 0 < r.X + r.Y + r.Z → r.x = 0 ∧ r.y = 0) :=
  ⟨rfl, measure_chromaticity (fun t : ℚ => t) 3 (some zeroResults) redWorld rfl⟩

/-- C13 (the constant of the CCT polynomial): for every response buffer the
driver computes `CCT = 449 n^3 + 3525 n^2 + 6823.3 n + 5524.33` with
`n = (x - 0.3320)/(0.1858 - y)`, which is 4 more than the claimed polynomial
with constant 5520.33; the accepted response `neutralReport` gives a
successful measurement with `x = 0.3320`, `y` different from 0.1858 and
`CCT = 5524.33`, not 5520.33. -/
theorem cct_constant_is_5524 :
    (∀ (cbrt : ℚ → ℚ) (buf : List Nat),
      (measure_compute cbrt buf).CCT
        = 449 * (((measure_compute cbrt buf).x - 0.3320)
              / (0.1858 - (measure_compute cbrt buf).y)) ^ 3
          + 3525 * (((measure_compute cbrt buf).x - 0.3320)
              / (0.1858 - (measure_compute cbrt buf).y)) ^ 2
          + 6823.3 * (((measure_compute cbrt buf).x - 0.3320)
              / (0.1858 - (measure_compute cbrt buf).y))
          + 5520.33 + 4) ∧
    neutralReport.length = 64 ∧ neutralReport.getD 1 0 = 0x04 ∧
    load_u32 neutralReport 2 = 857679 ∧ load_u32 neutralReport 6 = 808580 ∧
    (i1d3_aio_measure (fun t : ℚ => t) 3 (some zeroResults) neutralWorld).1 = I1D3_SUCCESS ∧
    (i1d3_aio_measure (fun t : ℚ => t) 3 (some zeroResults) neutralWorld).2.1
      = some (measure_compute (fun t : ℚ => t) neutralReport) ∧
    (measure_compute (fun t : ℚ => t) neutralReport).x = 0.3320 ∧
    (measure_compute (fun t : ℚ => t) neutralReport).y ≠ 0.1858 ∧
    (measure_compute (fun t : ℚ => t) neutralReport).CCT = 5524.33 ∧
    (measure_compute_linux (fun t : ℚ => t) neutralReport).CCT = 5524.33 ∧
    (5524.33 : ℚ) ≠ 5520.33 := by
  have h2 : load_u32 neutralReport 2 = 857679 := by decide
  have h6 : load_u32 neutralReport 6 = 808580 := by decide
  have h10 : load_u32 neutralReport 10 = 0 := by decide
  have h14 : load_u32 neutralReport 14 = 48000000 := by decide
  have h18 : load_u32 neutralReport 18 = 48000000 := by decide
  have h22 : load_u32 neutralReport 22 = 48000000 := by decide
  refine ⟨?_, by decide, by decide, h2, h6, rfl, rfl, ?_, ?_, ?_, ?_, by norm_num⟩
  · intro cbrt buf
    simp only [measure_compute]
    ring
  · simp only [measure_compute, h2, h6, h14, h18, h22]
    norm_num [toHz, MATRIX]
  · simp only [measure_compute, h2, h6, h14, h18, h22]
    norm_num [toHz, MATRIX]
  · simp only [measure_compute, h2, h6, h14, h18, h22]
    norm_num [toHz, MATRIX]
  · simp only [measure_compute_linux, h2, h6, h10, h14, h18, h22]
    norm_num [toHz, MATRIX]

/-- C14: for every successful measurement (over the reals, `pow (t, 1.0/3.0)`
being the real cube root `t ^ (1/3)`), the Lab fields are
`L = 116 f(Y/100.0) - 16`, `a = 500 (f(X/96.42) - f(Y/100.0))`,
`b = 200 (f(Y/100.0) - f(Z/82.49))` with `f(t) = t^(1/3)` for `t > 0.008856`
and `7.787 t + 16/116` otherwise; `f` is the helper `labFunction`, `f(1) = 1`,
and a result with XYZ equal to the D50 white (96.42, 100.0, 82.49) has
`L = 100`, `a = 0`, `b = 0`. -/
theorem measure_lab_fields (fd : Int) (res : Option (i1d3_color_results ℝ)) (w : World)
    (f : ℝ → ℝ)
    (hf : ∀ t, f t = if t > 0.008856 then t ^ ((1 : ℝ) / 3) else 7.787 * t + 16 / 116)
    (h : (i1d3_aio_measure (fun t : ℝ => t ^ ((1 : ℝ) / 3)) fd res w).1 = I1D3_SUCCESS) :
    (∀ t, labFunction (fun t : ℝ => t ^ ((1 : ℝ) / 3)) t = f t) ∧ f 1 = 1 ∧
    ∃ r, (i1d3_aio_measure (fun t : ℝ => t ^ ((1 : ℝ) / 3)) fd res w).2.1 = some r ∧
      r.L = 116 * f (r.Y / 100.0) - 16 ∧
      r.a = 500 * (f (r.X / 96.42) - f (r.Y / 100.0)) ∧
      r.b = 200 * (f (r.Y / 100.0) - f (r.Z / 82.49)) ∧
      (r.X = 96.42 → r.Y = 100.0 → r.Z = 82.49 → r.L = 100 ∧ r.a = 0 ∧ r.b = 0) := by
  have hlab : ∀ t, labFunction (fun t : ℝ => t ^ ((1 : ℝ) / 3)) t = f t := by
    intro t
    rw [hf t]
    unfold labFunction
    split_ifs <;> norm_num
  have hf1 : f 1 = 1 := by
    rw [hf 1]
    norm_num
  obtain ⟨buf, hbuf⟩ := measure_success_result _ fd res w h
  have hL : (measure_compute (fun t : ℝ => t ^ ((1 : ℝ) / 3)) buf).L
      = 116 * f ((measure_compute (fun t : ℝ => t ^ ((1 : ℝ) / 3)) buf).Y / 100.0) - 16 := by
    rw [← hlab]
    simp only [measure_compute]
    norm_num
  have ha : (measure_compute (fun t : ℝ => t ^ ((1 : ℝ) / 3)) buf).a
      = 500 * (f ((measure_compute (fun t : ℝ => t ^ ((1 : ℝ) / 3)) buf).X / 96.42)
          - f ((measure_compute (fun t : ℝ => t ^ ((1 : ℝ) / 3)) buf).Y / 100.0)) := by
    rw [← hlab, ← hlab]
    simp only [measure_compute]
    norm_num
  have hb : (measure_compute (fun t : ℝ => t ^ ((1 : ℝ) / 3)) buf).b
      = 200 * (f ((measure_compute (fun t : ℝ => t ^ ((1 : ℝ) / 3)) buf).Y / 100.0)
          - f ((measure_compute (fun t : ℝ => t ^ ((1 : ℝ) / 3)) buf).Z / 82.49)) := by
    rw [← hlab, ← hlab]
    simp only [measure_compute]
    norm_num
  refine ⟨hlab, hf1, _, hbuf, hL, ha, hb, ?_⟩
  intro hX hY hZ
  rw [hL, ha, hb, hX, hY, hZ]
  have e1 : (100.0 : ℝ) / 100.0 = 1 := by norm_num
  have e2 : (96.42 : ℝ) / 96.42 = 1 := by norm_num
  have e3 : (82.49 : ℝ) / 82.49 = 1 := by norm_num
  rw [e1, e2, e3, hf1]
  norm_num

/-- Instance of C14: the successful measurement of `redReport`, computed over
the reals. -/
theorem measure_lab_fields_witness :
    (i1d3_aio_measure (fun t : ℝ => t ^ ((1 : ℝ) / 3)) 3
      (some ⟨0, 0, 0, 0, 0, 0, 0, 0, 0⟩) redWorld).1 = I1D3_SUCCESS ∧
    labFunction (fun t : ℝ => t ^ ((1 : ℝ) / 3)) 1 = 1 :=
  have h := measure_lab_fields 3 (some ⟨0, 0, 0, 0, 0, 0, 0, 0, 0⟩) redWorld
    (fun t => if t > 0.008856 then t ^ ((1 : ℝ) / 3) else 7.787 * t + 16 / 116)
    (fun _ => rfl) rfl
  ⟨rfl, (h.1 1).trans h.2.1⟩

theorem measure_device_states {α : Type} [LinearOrderedField α] (cbrt : α → α)
    (fd : Int) (res : Option (i1d3_color_results α)) (w : World) :
    (i1d3_aio_measure cbrt fd res w).2.2.device_states = w.device_states := by
  unfold i1d3_aio_measure
  split
  · rfl
  · dsimp only
    split_ifs <;>
      simp [i1d3_recv_device_states, i1d3_send_device_states, usleep_device_states]

/-- C15: for every handle, every starting state and every transport
behaviour, the state recorded for every descriptor (in particular the
handle) after `i1d3_aio_measure` is the state before it, whatever the call
returns. -/
theorem measure_keeps_state {α : Type} [LinearOrderedField α] (cbrt : α → α)
    (fd : Int) (res : Option (i1d3_color_results α)) (w : World) (fd' : Int) :
    i1d3_get_state (i1d3_aio_measure cbrt fd res w).2.2 fd' = i1d3_get_state w fd' :=
  i1d3_get_state_congr _ _ (measure_device_states cbrt fd res w) fd'

/-! ## Closing the device -/

/-- C16 (counterexample): descriptor 3 is Connected and the `close` system
call fails with -1; `i1d3_close` returns -1 and the state is still
Connected. -/
theorem close_failure_keeps_state :
    i1d3_get_state healthyWorld 3 = I1D3_STATE_CONNECTED ∧
    (i1d3_close 3 (-1) healthyWorld).1 = -1 ∧
    i1d3_get_state (i1d3_close 3 (-1) healthyWorld).2 3 = I1D3_STATE_CONNECTED ∧
    i1d3_get_state (i1d3_close 3 (-1) healthyWorld).2 3 ≠ I1D3_STATE_DISCONNECTED := by
  decide

/-- C16 (amended): for every handle in state Connected, Initialized or
Unlocked, an `i1d3_close` whose `close` system call succeeds returns 0 and
leaves the state Disconnected; when `close` fails the state is unchanged. -/
theorem close_disconnects (fd : Int) (w : World)
    (hst : i1d3_get_state w fd = I1D3_STATE_CONNECTED
      ∨ i1d3_get_state w fd = I1D3_STATE_INITIALIZED
      ∨ i1d3_get_state w fd = I1D3_STATE_UNLOCKED) :
    (i1d3_close fd 0 w).1 = 0 ∧
    i1d3_get_state (i1d3_close fd 0 w).2 fd = I1D3_STATE_DISCONNECTED ∧
    (∀ closeRes : Int, closeRes ≠ 0 →
      i1d3_get_state (i1d3_close fd closeRes w).2 fd = i1d3_get_state w fd) := by
  have hd : i1d3_get_state w fd ≠ I1D3_STATE_DISCONNECTED := by
    rcases hst with h | h | h <;> rw [h] <;> decide
  have h256 : fd < 256 := lt_256_of_state w fd hd
  have hfd : 0 ≤ fd := by
    by_contra hc
    apply hd
    unfold i1d3_get_state
    rw [if_pos (Or.inl (not_le.mp hc))]
  have hneg : ¬ fd < 0 := not_lt.mpr hfd
  refine ⟨?_, ?_, ?_⟩
  · simp [i1d3_close, hneg]
  · simp only [i1d3_close, hneg, if_false, if_true]
    exact get_state_set_state fd _ w hfd h256
  · intro closeRes hne
    simp [i1d3_close, hneg, hne]

/-- Instance of C16 (amended): descriptor 3 unlocked, `close` succeeds. -/
theorem close_disconnects_witness :
    i1d3_get_state redWorld 3 = I1D3_STATE_UNLOCKED ∧
    i1d3_get_state (i1d3_close 3 0 redWorld).2 3 = I1D3_STATE_DISCONNECTED :=
  ⟨by decide, (close_disconnects 3 redWorld (Or.inr (Or.inr (by decide)))).2.1⟩

/-! ## The state machine over sequences of calls -/

theorem toInt_eq_zero_iff (e : i1d3_error_t) : e.toInt = 0 ↔ e = I1D3_SUCCESS := by
  cases e <;> simp [i1d3_error_t.toInt]

theorem nonneg_of_state (w : World) (fd : Int)
    (h : i1d3_get_state w fd ≠ I1D3_STATE_DISCONNECTED) : 0 ≤ fd := by
  by_contra hc
  apply h
  unfold i1d3_get_state
  rw [if_pos (Or.inl (not_le.mp hc))]

theorem init_loop_not_success (fd : Int) (cs : List (Nat × Nat)) (w : World) :
    (i1d3_init_sequence_loop fd cs w).1 ≠ some I1D3_SUCCESS := by
  induction cs generalizing w with
  | nil => simp [i1d3_init_sequence_loop]
  | cons c cs ih =>
    unfold i1d3_init_sequence_loop
    dsimp only
    split_ifs
    · simp
    · simp
    · exact ih _

/-- A successful `i1d3_init_sequence` starts in Connected and ends in
Initialized. -/
theorem init_success_states (fd : Int) (w : World)
    (h : (i1d3_init_sequence fd w).1 = I1D3_SUCCESS) :
    i1d3_get_state w fd = I1D3_STATE_CONNECTED ∧
    i1d3_get_state (i1d3_init_sequence fd w).2 fd = I1D3_STATE_INITIALIZED := by
  by_cases h1 : fd < 0
  · simp [i1d3_init_sequence, h1] at h
  · by_cases hst : i1d3_get_state w fd = I1D3_STATE_CONNECTED
    · have hd : i1d3_get_state w fd ≠ I1D3_STATE_DISCONNECTED := by rw [hst]; decide
      refine ⟨hst, ?_⟩
      unfold i1d3_init_sequence at h ⊢
      simp only [h1, hst, if_false, ne_eq, not_true_eq_false] at h ⊢
      split at h
      · next e he =>
        exact absurd (by rw [he]; exact congrArg some h)
          (init_loop_not_success fd (init_cmds.take 8) w)
      · exact get_state_set_state fd _ _ (not_lt.mp h1) (lt_256_of_state w fd hd)
    · simp [i1d3_init_sequence, h1, hst] at h

/-- A successful `i1d3_unlock` starts in Initialized and ends in Unlocked. -/
theorem unlock_success_states (fd : Int) (key : Option (Nat × Nat)) (w : World)
    (h : (i1d3_unlock fd key w).1 = I1D3_SUCCESS) :
    i1d3_get_state w fd = I1D3_STATE_INITIALIZED ∧
    i1d3_get_state (i1d3_unlock fd key w).2 fd = I1D3_STATE_UNLOCKED := by
  cases key with
  | none => exact i1d3_error_t.noConfusion h
  | some k =>
    by_cases h1 : fd < 0
    · simp [i1d3_unlock, h1] at h
    · by_cases h2 : i1d3_get_state w fd = I1D3_STATE_INITIALIZED
      · have hd : i1d3_get_state w fd ≠ I1D3_STATE_DISCONNECTED := by rw [h2]; decide
        refine ⟨h2, ?_⟩
        rw [i1d3_unlock_initialized fd k w (not_lt.mp h1) h2] at h ⊢
        split_ifs at h ⊢
        all_goals first
          | exact i1d3_error_t.noConfusion h
          | exact get_state_set_state fd _ _ (not_lt.mp h1) (lt_256_of_state w fd hd)
      · simp [i1d3_unlock, h1, h2] at h

theorem auto_loop_success_state (fd : Int) (es : List i1d3_key_entry) (w : World)
    (h : (i1d3_auto_find_unlock_loop fd es w).1 = some I1D3_SUCCESS) :
    i1d3_get_state (i1d3_auto_find_unlock_loop fd es w).2 fd = I1D3_STATE_UNLOCKED := by
  induction es generalizing w with
  | nil => simp [i1d3_auto_find_unlock_loop] at h
  | cons e es ih =>
    unfold i1d3_auto_find_unlock_loop at h ⊢
    dsimp only at h ⊢
    split_ifs at h ⊢ with hs
    · exact (unlock_success_states fd _ w hs).2
    · exact ih _ h

/-- A successful `i1d3_auto_find_unlock` starts in Initialized and ends in
Unlocked. -/
theorem auto_success_states (fd : Int) (w : World)
    (h : (i1d3_auto_find_unlock fd w).1 = I1D3_SUCCESS) :
    i1d3_get_state w fd = I1D3_STATE_INITIALIZED ∧
    i1d3_get_state (i1d3_auto_find_unlock fd w).2 fd = I1D3_STATE_UNLOCKED := by
  by_cases h1 : fd < 0
  · simp [i1d3_auto_find_unlock, h1] at h
  · by_cases hst : i1d3_get_state w fd = I1D3_STATE_INITIALIZED
    · refine ⟨hst, ?_⟩
      unfold i1d3_auto_find_unlock at h ⊢
      simp only [h1, hst, if_false, ne_eq, not_true_eq_false] at h ⊢
      split at h
      · next e he =>
        have he' : (i1d3_auto_find_unlock_loop fd (I1D3_CODES.take 11) w).1
            = some I1D3_SUCCESS := by rw [he]; exact congrArg some h
        exact auto_loop_success_state fd _ w he'
      · exact i1d3_error_t.noConfusion h
    · simp [i1d3_auto_find_unlock, h1, hst] at h

/-- A successful `i1d3_aio_measure` is made in state Unlocked. -/
theorem measure_success_state {α : Type} [LinearOrderedField α] (cbrt : α → α)
    (fd : Int) (res : Option (i1d3_color_results α)) (w : World)
    (h : (i1d3_aio_measure cbrt fd res w).1 = I1D3_SUCCESS) :
    i1d3_get_state w fd = I1D3_STATE_UNLOCKED := by
  cases res with
  | none => exact i1d3_error_t.noConfusion h
  | some r0 =>
    by_contra hc
    by_cases h1 : fd < 0
    · simp [i1d3_aio_measure, h1] at h
    · simp [i1d3_aio_measure, h1, hc] at h

/-- What one driver call can do to the state of its handle. -/
theorem call_step_transition {α : Type} [LinearOrderedField α] (cbrt : α → α) (fd : Int)
    (c : Call α) (w : World) :
    i1d3_get_state (call_step cbrt fd c w).2 fd = i1d3_get_state w fd ∨
    (i1d3_get_state w fd = I1D3_STATE_CONNECTED ∧
      i1d3_get_state (call_step cbrt fd c w).2 fd = I1D3_STATE_INITIALIZED ∧
      c.isInit = true ∧ (call_step cbrt fd c w).1 = 0) ∨
    (i1d3_get_state w fd = I1D3_STATE_INITIALIZED ∧
      i1d3_get_state (call_step cbrt fd c w).2 fd = I1D3_STATE_UNLOCKED ∧
      c.isUnlock = true ∧ (call_step cbrt fd c w).1 = 0) := by
  cases c with
  | init_sequence =>
    by_cases h : (i1d3_init_sequence fd w).1 = I1D3_SUCCESS
    · right; left
      exact ⟨(init_success_states fd w h).1, (init_success_states fd w h).2, rfl,
        (toInt_eq_zero_iff _).mpr h⟩
    · left
      exact i1d3_get_state_congr _ _ (init_fail_device_states fd w h) fd
  | unlock key =>
    by_cases h : (i1d3_unlock fd key w).1 = I1D3_SUCCESS
    · right; right
      exact ⟨(unlock_success_states fd key w h).1, (unlock_success_states fd key w h).2, rfl,
        (toInt_eq_zero_iff _).mpr h⟩
    · left
      exact i1d3_get_state_congr _ _ (unlock_fail_device_states fd key w h) fd
  | auto_find_unlock =>
    by_cases h : (i1d3_auto_find_unlock fd w).1 = I1D3_SUCCESS
    · right; right
      exact ⟨(auto_success_states fd w h).1, (auto_success_states fd w h).2, rfl,
        (toInt_eq_zero_iff _).mpr h⟩
    · left
      exact i1d3_get_state_congr _ _ (auto_fail_device_states fd w h) fd
  | aio_measure res =>
    left
    exact i1d3_get_state_congr _ _ (measure_device_states cbrt fd res w) fd
  | send buf len =>
    left
    exact i1d3_get_state_congr _ _ (i1d3_send_device_states fd buf len w) fd
  | recv buf maxlen =>
    left
    exact i1d3_get_state_congr _ _ (i1d3_recv_device_states fd buf maxlen w) fd

/-- The step from call `n` to call `n + 1` of a sequence. -/
theorem stateAt_step {α : Type} [LinearOrderedField α] (cbrt : α → α) (fd : Int)
    (cs : List (Call α)) (w : World) (n : Nat) :
    stateAt cbrt fd cs w (n + 1) = stateAt cbrt fd cs w n ∨
    (stateAt cbrt fd cs w n = I1D3_STATE_CONNECTED ∧
      stateAt cbrt fd cs w (n + 1) = I1D3_STATE_INITIALIZED ∧
      ∃ c, cs[n]? = some c ∧ c.isInit = true ∧ resultAt cbrt fd cs w n = some 0) ∨
    (stateAt cbrt fd cs w n = I1D3_STATE_INITIALIZED ∧
      stateAt cbrt fd cs w (n + 1) = I1D3_STATE_UNLOCKED ∧
      ∃ c, cs[n]? = some c ∧ c.isUnlock = true ∧ resultAt cbrt fd cs w n = some 0) := by
  unfold stateAt resultAt
  cases hc : cs[n]? with
  | none =>
    left
    simp only [worldAt, hc]
  | some c =>
    simp only [worldAt, hc]
    rcases call_step_transition cbrt fd c (worldAt cbrt fd cs w n) with h | h | h
    · exact Or.inl h
    · exact Or.inr (Or.inl ⟨h.1, h.2.1, c, rfl, h.2.2.1, congrArg some h.2.2.2⟩)
    · exact Or.inr (Or.inr ⟨h.1, h.2.1, c, rfl, h.2.2.1, congrArg some h.2.2.2⟩)

/-- If the handle is Unlocked after `n` calls and was not at the start, one of
the first `n` calls was a successful unlock made in state Initialized. -/
theorem unlocked_after_unlock {α : Type} [LinearOrderedField α] (cbrt : α → α) (fd : Int)
    (cs : List (Call α)) (w : World) (h0 : i1d3_get_state w fd ≠ I1D3_STATE_UNLOCKED)
    (n : Nat) (hn : stateAt cbrt fd cs w n = I1D3_STATE_UNLOCKED) :
    ∃ j < n, stateAt cbrt fd cs w j = I1D3_STATE_INITIALIZED ∧
      ∃ c, cs[j]? = some c ∧ c.isUnlock = true ∧ resultAt cbrt fd cs w j = some 0 := by
  induction n with
  | zero => exact absurd hn h0
  | succ n ih =>
    by_cases hprev : stateAt cbrt fd cs w n = I1D3_STATE_UNLOCKED
    · obtain ⟨j, hj, h⟩ := ih hprev
      exact ⟨j, Nat.lt_succ_of_lt hj, h⟩
    · rcases stateAt_step cbrt fd cs w n with h | h | h
      · exact absurd (h ▸ hn) hprev
      · rw [h.2.1] at hn
        exact i1d3_state_t.noConfusion hn
      · exact ⟨n, Nat.lt_succ_self n, h.1, h.2.2⟩

/-- If the handle is Initialized after `n` calls and was Connected at the
start, one of the first `n` calls was a successful `i1d3_init_sequence`. -/
theorem initialized_after_init {α : Type} [LinearOrderedField α] (cbrt : α → α) (fd : Int)
    (cs : List (Call α)) (w : World) (h0 : i1d3_get_state w fd = I1D3_STATE_CONNECTED)
    (n : Nat) (hn : stateAt cbrt fd cs w n = I1D3_STATE_INITIALIZED) :
    ∃ i < n, ∃ c, cs[i]? = some c ∧ c.isInit = true ∧ resultAt cbrt fd cs w i = some 0 := by
  induction n with
  | zero =>
    have : stateAt cbrt fd cs w 0 = I1D3_STATE_CONNECTED := h0
    rw [this] at hn
    exact i1d3_state_t.noConfusion hn
  | succ n ih =>
    by_cases hprev : stateAt cbrt fd cs w n = I1D3_STATE_INITIALIZED
    · obtain ⟨i, hi, h⟩ := ih hprev
      exact ⟨i, Nat.lt_succ_of_lt hi, h⟩
    · rcases stateAt_step cbrt fd cs w n with h | h | h
      · exact absurd (h ▸ hn) hprev
      · exact ⟨n, Nat.lt_succ_self n, h.2.2⟩
      · rw [h.2.1] at hn
        exact i1d3_state_t.noConfusion hn

/-- C17: over every sequence `cs` of driver calls on one handle (no close),
with any transport behaviour, the state never moves backwards and advances by
at most one state per call; it changes only from Connected to Initialized by
an `i1d3_init_sequence` that returns 0, or from Initialized to Unlocked by an
unlock call that returns 0; hence, on a handle opened in state Connected, an
`i1d3_aio_measure` that returns 0 comes after an `i1d3_init_sequence` that
returned 0 followed by an unlock call that returned 0. -/
theorem state_never_goes_back {α : Type} [LinearOrderedField α] (cbrt : α → α) (fd : Int)
    (cs : List (Call α)) (w : World) :
    (∀ n, (stateAt cbrt fd cs w n).toNat ≤ (stateAt cbrt fd cs w (n + 1)).toNat ∧
      (stateAt cbrt fd cs w (n + 1)).toNat ≤ (stateAt cbrt fd cs w n).toNat + 1) ∧
    (∀ n, stateAt cbrt fd cs w (n + 1) ≠ stateAt cbrt fd cs w n →
      (stateAt cbrt fd cs w n = I1D3_STATE_CONNECTED ∧
        stateAt cbrt fd cs w (n + 1) = I1D3_STATE_INITIALIZED ∧
        ∃ c, cs[n]? = some c ∧ c.isInit = true ∧ resultAt cbrt fd cs w n = some 0) ∨
      (stateAt cbrt fd cs w n = I1D3_STATE_INITIALIZED ∧
        stateAt cbrt fd cs w (n + 1) = I1D3_STATE_UNLOCKED ∧
        ∃ c, cs[n]? = some c ∧ c.isUnlock = true ∧ resultAt cbrt fd cs w n = some 0)) ∧
    (i1d3_get_state w fd = I1D3_STATE_CONNECTED →
      ∀ k c, cs[k]? = some c → c.isMeasure = true → resultAt cbrt fd cs w k = some 0 →
        ∃ i j, i < j ∧ j < k ∧
          (∃ ci, cs[i]? = some ci ∧ ci.isInit = true ∧ resultAt cbrt fd cs w i = some 0) ∧
          (∃ cj, cs[j]? = some cj ∧ cj.isUnlock = true ∧
            resultAt cbrt fd cs w j = some 0)) := by
  refine ⟨?_, ?_, ?_⟩
  · intro n
    rcases stateAt_step cbrt fd cs w n with h | h | h
    · rw [h]
      exact ⟨le_refl _, Nat.le_succ _⟩
    · rw [h.1, h.2.1]
      decide
    · rw [h.1, h.2.1]
      decide
  · intro n hne
    rcases stateAt_step cbrt fd cs w n with h | h | h
    · exact absurd h hne
    · exact Or.inl h
    · exact Or.inr h
  · intro h0 k c hc hm hres
    have hU : stateAt cbrt fd cs w k = I1D3_STATE_UNLOCKED := by
      cases c with
      | aio_measure res =>
        simp only [resultAt, hc, call_step, Option.some.injEq] at hres
        exact measure_success_state cbrt fd res _ ((toInt_eq_zero_iff _).mp hres)
      | init_sequence => exact Bool.noConfusion hm
      | unlock key => exact Bool.noConfusion hm
      | auto_find_unlock => exact Bool.noConfusion hm
      | send buf len => exact Bool.noConfusion hm
      | recv buf maxlen => exact Bool.noConfusion hm
    obtain ⟨j, hj, hI, hcj⟩ := unlocked_after_unlock cbrt fd cs w
      (by rw [h0]; decide) k hU
    obtain ⟨i, hi, hci⟩ := initialized_after_init cbrt fd cs w h0 j hI
    exact ⟨i, j, hi, hj, hci, hcj⟩

/-- Instance of C17: the session `init_sequence`, `auto_find_unlock`,
`aio_measure` on descriptor 3, in which every call returns 0. -/
theorem state_never_goes_back_witness :
    i1d3_get_state sessionWorld 3 = I1D3_STATE_CONNECTED ∧
    resultAt (fun t : ℚ => t) 3 sessionCalls sessionWorld 2 = some 0 ∧
    ∃ i j, i < j ∧ j < 2 ∧
      (∃ ci, sessionCalls[i]? = some ci ∧ ci.isInit = true ∧
        resultAt (fun t : ℚ => t) 3 sessionCalls sessionWorld i = some 0) ∧
      (∃ cj, sessionCalls[j]? = some cj ∧ cj.isUnlock = true ∧
        resultAt (fun t : ℚ => t) 3 sessionCalls sessionWorld j = some 0) :=
  ⟨by decide, rfl,
   (state_never_goes_back (fun t : ℚ => t) 3 sessionCalls sessionWorld).2.2 (by decide)
      2 (Call.aio_measure (some zeroResults)) rfl rfl rfl⟩

/-! ## The two drivers compared -/

/-- C35 (evaluation at the Retail key and the challenge response of boundary
scenario 1): the response packet built by `i1d3_unlock` of `i1d3_api.c` and
the one built by `i1d3_unlock` of `11d3.c` differ in bytes 25, 26, 28, 31,
33, 35, 36 and 37, the bytes that carry `s1`: the `uint8_t keySum` gives
`s1 = 2`, the untruncated lambda `s1 = 4`. -/
theorem unlock_packets_differ :
    unlock_response_packet (unlock_compute scenarioChallenge retailKey) =
      [0x9A, 0, 0, 0, 0, 0, 0, 0, 0, 0, 0, 0, 0, 0, 0, 0, 0, 0, 0, 0, 0, 0, 0, 0,
       151, 9, 157, 157, 45, 169, 108, 89, 218, 172, 208, 23, 200, 131, 72, 18,
       0, 0, 0, 0, 0, 0, 0, 0, 0, 0, 0, 0, 0, 0, 0, 0, 0, 0, 0, 0, 0, 0, 0, 0] ∧
    unlock_response_packet (unlock_compute_with keySum_linux scenarioChallenge retailKey) =
      [0x9A, 0, 0, 0, 0, 0, 0, 0, 0, 0, 0, 0, 0, 0, 0, 0, 0, 0, 0, 0, 0, 0, 0, 0,
       151, 7, 159, 157, 43, 169, 108, 87, 218, 170, 208, 21, 202, 133, 72, 18,
       0, 0, 0, 0, 0, 0, 0, 0, 0, 0, 0, 0, 0, 0, 0, 0, 0, 0, 0, 0, 0, 0, 0, 0] ∧
    unlock_response_packet (unlock_compute scenarioChallenge retailKey) ≠
      unlock_response_packet (unlock_compute_with keySum_linux scenarioChallenge retailKey) := by
  have h1 : unlock_response_packet (unlock_compute scenarioChallenge retailKey) =
      [0x9A, 0, 0, 0, 0, 0, 0, 0, 0, 0, 0, 0, 0, 0, 0, 0, 0, 0, 0, 0, 0, 0, 0, 0,
       151, 9, 157, 157, 45, 169, 108, 89, 218, 172, 208, 23, 200, 131, 72, 18,
       0, 0, 0, 0, 0, 0, 0, 0, 0, 0, 0, 0, 0, 0, 0, 0, 0, 0, 0, 0, 0, 0, 0, 0] := by
    decide
  have h2 : unlock_response_packet
      (unlock_compute_with keySum_linux scenarioChallenge retailKey) =
      [0x9A, 0, 0, 0, 0, 0, 0, 0, 0, 0, 0, 0, 0, 0, 0, 0, 0, 0, 0, 0, 0, 0, 0, 0,
       151, 7, 159, 157, 43, 169, 108, 87, 218, 170, 208, 21, 202, 133, 72, 18,
       0, 0, 0, 0, 0, 0, 0, 0, 0, 0, 0, 0, 0, 0, 0, 0, 0, 0, 0, 0, 0, 0, 0, 0] := by
    decide
  refine ⟨h1, h2, ?_⟩
  rw [h1, h2]
  decide

/-! ## Descriptors above the state table -/

theorem get_state_large (w : World) (fd : Int) (hfd : 256 ≤ fd) :
    i1d3_get_state w fd = I1D3_STATE_DISCONNECTED := by
  unfold i1d3_get_state
  rw [if_pos (Or.inr hfd)]

theorem set_state_large (w : World) (fd : Int) (st : i1d3_state_t) (hfd : 256 ≤ fd) :
    i1d3_set_state fd st w = w := by
  unfold i1d3_set_state
  rw [if_neg (fun h => absurd h.2 (not_lt.mpr hfd))]

/-- C39: for a descriptor `fd >= 256` the state reported by `i1d3_get_state`
is Disconnected in every world, hence after any sequence of driver calls; a
successful `i1d3_open` that returns such a descriptor records nothing; and
`i1d3_send`, `i1d3_recv` (with a buffer and a positive length),
`i1d3_init_sequence`, `i1d3_unlock` (with a key) and `i1d3_aio_measure` (with
a result record) all return `NotInitialized` and leave the world as it
was. -/
theorem large_descriptor_not_tracked {α : Type} [LinearOrderedField α] (cbrt : α → α)
    (fd : Int) (w : World) (path : String) (errno : Int) (buf : List Nat) (len : Int)
    (key : Nat × Nat) (r0 : i1d3_color_results α) (cs : List (Call α)) (n : Nat)
    (hfd : 256 ≤ fd) (hlen : 0 < len) :
    i1d3_get_state w fd = I1D3_STATE_DISCONNECTED ∧
    i1d3_get_state (worldAt cbrt fd cs w n) fd = I1D3_STATE_DISCONNECTED ∧
    i1d3_open (some path) fd errno w = (fd, w) ∧
    i1d3_get_state (i1d3_open (some path) fd errno w).2 fd = I1D3_STATE_DISCONNECTED ∧
    i1d3_send fd (some buf) len w = (I1D3_ERROR_NOT_INITIALIZED.toInt, w) ∧
    i1d3_recv fd (some buf) len w = (I1D3_ERROR_NOT_INITIALIZED.toInt, buf, w) ∧
    i1d3_init_sequence fd w = (I1D3_ERROR_NOT_INITIALIZED, w) ∧
    i1d3_unlock fd (some key) w = (I1D3_ERROR_NOT_INITIALIZED, w) ∧
    i1d3_aio_measure cbrt fd (some r0) w = (I1D3_ERROR_NOT_INITIALIZED, some r0, w) := by
  have hneg : ¬ fd < 0 := by omega
  have hlen2 : ¬ len ≤ 0 := by omega
  have hst := get_state_large w fd hfd
  refine ⟨hst, get_state_large _ fd hfd, ?_, get_state_large _ fd hfd, ?_, ?_, ?_, ?_, ?_⟩
  · simp [i1d3_open, hneg, set_state_large w fd _ hfd]
  · simp [i1d3_send, hneg, hlen2, hst]
  · simp [i1d3_recv, hneg, hlen2, hst]
  · simp [i1d3_init_sequence, hneg, hst]
  · simp [i1d3_unlock, hneg, hst]
  · simp [i1d3_aio_measure, hneg, hst]

/-- C39 at descriptor 256 in a world where descriptor 3 is unlocked. -/
theorem large_descriptor_not_tracked_witness :
    (256 : Int) ≤ 256 ∧ (0 : Int) < 64 ∧
    i1d3_open (some "/dev/hidraw0") 256 0 neutralWorld = (256, neutralWorld) ∧
    i1d3_send 256 (some measure_packet) 64 neutralWorld =
      (I1D3_ERROR_NOT_INITIALIZED.toInt, neutralWorld) ∧
    i1d3_init_sequence 256 neutralWorld = (I1D3_ERROR_NOT_INITIALIZED, neutralWorld) ∧
    i1d3_aio_measure (fun t : ℚ => t) 256 (some zeroResults) neutralWorld =
      (I1D3_ERROR_NOT_INITIALIZED, some zeroResults, neutralWorld) :=
  have h := large_descriptor_not_tracked (fun t : ℚ => t) 256 neutralWorld "/dev/hidraw0" 0
    measure_packet 64 retailKey zeroResults [] 0 (by decide) (by decide)
  ⟨by decide, by decide, h.2.2.1, h.2.2.2.2.1, h.2.2.2.2.2.2.1, h.2.2.2.2.2.2.2.2⟩

end I1D3

namespace TVCalibration

section Gamut

variable {α : Type} [LinearOrderedField α]

theorem det_3x3_eq_det (m : Matrix (Fin 3) (Fin 3) α) : det_3x3 m = m.det := by
  rw [Matrix.det_fin_three]
  unfold det_3x3
  ring

/-- An inversion that is not rejected returns a left inverse. -/
theorem invert_matrix_3x3_spec (m : Matrix (Fin 3) (Fin 3) α) (h : ¬ |det_3x3 m| < 1e-12) :
    ∃ inv, invert_matrix_3x3 m = some inv ∧ inv * m = 1 := by
  have hd : det_3x3 m ≠ 0 := by
    intro h0
    apply h
    rw [h0, abs_zero]
    norm_num
  refine ⟨_, if_neg h, ?_⟩
  have hdef : det_3x3 m = m 0 0 * (m 1 1 * m 2 2 - m 1 2 * m 2 1) -
      m 0 1 * (m 1 0 * m 2 2 - m 1 2 * m 2 0) + m 0 2 * (m 1 0 * m 2 1 - m 1 1 * m 2 0) := rfl
  generalize det_3x3 m = d at hd hdef
  ext i j
  fin_cases i <;> fin_cases j <;>
    simp [Matrix.mul_apply, Fin.sum_univ_three] <;> field_simp <;>
    first | (rw [hdef]; ring) | ring

theorem gamut_scaling_eq_mulVec (M_inv : Matrix (Fin 3) (Fin 3) α) (W : Fin 3 → α) :
    gamut_scaling M_inv W = M_inv.mulVec W := by
  ext i
  simp [gamut_scaling, Matrix.mulVec, Matrix.dotProduct, Fin.sum_univ_three]

theorem gamut_product_eq_mul (T M : Matrix (Fin 3) (Fin 3) α) : gamut_product T M = T * M := by
  ext i j
  simp [gamut_product, Matrix.mul_apply, Fin.sum_univ_three]

/-- When neither inversion is rejected, the result times `M_curr` is
`M_target`, for the scaling vector `S` that solves `M_primaries S = W_XYZ`. -/
theorem set_tv_gamut_mul_current (measured : Fin 4 → Measurement α) (S : Fin 3 → α)
    (hP : 1e-12 ≤ |(gamut_primaries measured).det|)
    (hS : (gamut_primaries measured).mulVec S = gamut_white measured)
    (hM : 1e-12 ≤ |(gamut_current (gamut_primaries measured) S).det|) :
    (set_tv_gamut measured).matrix * gamut_current (gamut_primaries measured) S = M_target := by
  obtain ⟨Pinv, hPinv, hleft⟩ := invert_matrix_3x3_spec (gamut_primaries measured)
    (by rw [det_3x3_eq_det]; exact not_lt.mpr hP)
  have hS' : gamut_scaling Pinv (gamut_white measured) = S := by
    rw [gamut_scaling_eq_mulVec, ← hS, Matrix.mulVec_mulVec, hleft, Matrix.one_mulVec]
  obtain ⟨Minv, hMinv, hleft2⟩ := invert_matrix_3x3_spec
    (gamut_current (gamut_primaries measured) S)
    (by rw [det_3x3_eq_det]; exact not_lt.mpr hM)
  unfold set_tv_gamut
  rw [hPinv]
  dsimp only
  rw [hS', hMinv]
  dsimp only
  rw [gamut_product_eq_mul, Matrix.mul_assoc, hleft2, Matrix.mul_one]

/-- C18: for four measurements with non-zero `y`, let `P` have column
`i = (x_i/y_i, 1, (1-x_i-y_i)/y_i)`, let `S` solve `P S = Wxyz`, let `M_curr`
have column `j` = column `j` of `P` times `S[j]`; when neither inversion is
rejected (`|det P| ≥ 1e-12`, `|det M_curr| ≥ 1e-12`), `set_tv_gamut` returns,
in exact arithmetic, the matrix `C` with `C * M_curr = M_target` (BT.709). -/
theorem set_tv_gamut_maps_current_to_target (measured : Fin 4 → Measurement α)
    (P M_curr : Matrix (Fin 3) (Fin 3) α) (S Wxyz : Fin 3 → α)
    (hy : ∀ i, (measured i).y ≠ 0)
    (hP : ∀ i : Fin 3, P 0 i = (measured i.castSucc).x / (measured i.castSucc).y ∧ P 1 i = 1 ∧
      P 2 i = (1 - (measured i.castSucc).x - (measured i.castSucc).y) / (measured i.castSucc).y)
    (hW : Wxyz = ![(measured 3).x * (measured 3).Y / (measured 3).y, (measured 3).Y,
      (1 - (measured 3).x - (measured 3).y) * (measured 3).Y / (measured 3).y])
    (hS : P.mulVec S = Wxyz)
    (hM : ∀ i j, M_curr i j = P i j * S j)
    (hdetP : 1e-12 ≤ |P.det|) (hdetM : 1e-12 ≤ |M_curr.det|) :
    (set_tv_gamut measured).matrix * M_curr
      = Matrix.of ![![0.4124, 0.3576, 0.1805], ![0.2126, 0.7152, 0.0722],
          ![0.0193, 0.1192, 0.9505]] := by
  have _ := hy
  have hPeq : P = gamut_primaries measured := by
    ext r i
    fin_cases r
    · exact (hP i).1
    · exact (hP i).2.1
    · exact (hP i).2.2
  have hWeq : Wxyz = gamut_white measured := hW
  have hMeq : M_curr = gamut_current (gamut_primaries measured) S := by
    ext r j
    rw [hM r j, hPeq]
    rfl
  rw [hPeq] at hdetP hS
  rw [hMeq] at hdetM
  rw [hWeq] at hS
  rw [hMeq]
  exact set_tv_gamut_mul_current measured S hdetP hS hdetM

/-- Instance of C18: BT.709 primaries with a white for which `S = (1, 1, 1)`,
so that `M_curr = P`. -/
theorem set_tv_gamut_maps_current_to_target_witness :
    (∀ i, (unit_scaling_meas i).y ≠ 0) ∧
    (1e-12 : ℚ) ≤ |(Matrix.of ![![(64 : ℚ) / 33, 1 / 2, 5 / 2], ![1, 1, 1],
      ![1 / 11, 1 / 6, 79 / 6]]).det| ∧
    (set_tv_gamut unit_scaling_meas).matrix
        * Matrix.of ![![(64 : ℚ) / 33, 1 / 2, 5 / 2], ![1, 1, 1], ![1 / 11, 1 / 6, 79 / 6]]
      = Matrix.of ![![0.4124, 0.3576, 0.1805], ![0.2126, 0.7152, 0.0722],
          ![0.0193, 0.1192, 0.9505]] := by
  have hy : ∀ i, (unit_scaling_meas i).y ≠ 0 := by
    intro i
    fin_cases i <;> simp [unit_scaling_meas] <;> norm_num
  have hdet : (1e-12 : ℚ) ≤ |(Matrix.of ![![(64 : ℚ) / 33, 1 / 2, 5 / 2], ![1, 1, 1],
      ![1 / 11, 1 / 6, 79 / 6]]).det| := by
    rw [Matrix.det_fin_three]
    simp
    norm_num [abs_of_pos]
  refine ⟨hy, hdet, ?_⟩
  exact set_tv_gamut_maps_current_to_target unit_scaling_meas
    (Matrix.of ![![(64 : ℚ) / 33, 1 / 2, 5 / 2], ![1, 1, 1], ![1 / 11, 1 / 6, 79 / 6]])
    (Matrix.of ![![(64 : ℚ) / 33, 1 / 2, 5 / 2], ![1, 1, 1], ![1 / 11, 1 / 6, 79 / 6]])
    ![1, 1, 1] ![163 / 33, 3, 443 / 33] hy
    (by
      have h2 : Fin.castSucc (2 : Fin 3) = (2 : Fin 4) := rfl
      intro i
      fin_cases i <;> simp [unit_scaling_meas, h2] <;> norm_num)
    (by
      ext i
      fin_cases i <;> simp [unit_scaling_meas] <;> norm_num)
    (by
      ext i
      fin_cases i <;> simp [Matrix.mulVec, Matrix.dotProduct, Fin.sum_univ_three] <;> norm_num)
    (by
      intro i j
      fin_cases i <;> fin_cases j <;> simp)
    hdet hdet

end Gamut

/-- The result of `set_tv_gamut` on the example data of `main`, in exact
arithmetic: `M_target` times the inverse of `M_curr`. -/
theorem set_tv_gamut_gamut_meas :
    (set_tv_gamut gamut_meas).matrix
      = M_target * Matrix.of ![
          ![(12831 : ℚ) / 395900, -329 / 21400, -987 / 197950],
          ![-851781 / 87881000, 1648619 / 87881000, 36519 / 87881000],
          ![141 / 253460, -517 / 253460, 141 / 13340]] := by
  have h2 : Fin.castSucc (2 : Fin 3) = (2 : Fin 4) := rfl
  have hPm : gamut_primaries gamut_meas
      = Matrix.of ![![(64 : ℚ) / 33, 1 / 2, 5 / 2], ![1, 1, 1], ![1 / 11, 1 / 6, 79 / 6]] := by
    ext i j
    fin_cases i <;> fin_cases j <;> simp [gamut_primaries, gamut_meas, h2] <;> norm_num
  have hMm : gamut_current (gamut_primaries gamut_meas)
        ![(1741960 : ℚ) / 81921, 17576200 / 245763, 253460 / 35109]
      = Matrix.of ![
          ![(10135040 : ℚ) / 245763, 8788100 / 245763, 633650 / 35109],
          ![1741960 / 81921, 17576200 / 245763, 253460 / 35109],
          ![158360 / 81921, 8788100 / 737289, 10011670 / 105327]] := by
    rw [hPm]
    ext i j
    fin_cases i <;> fin_cases j <;> simp [gamut_current] <;> norm_num
  have hP : (1e-12 : ℚ) ≤ |(gamut_primaries gamut_meas).det| := by
    rw [hPm, Matrix.det_fin_three]
    simp
    norm_num [abs_of_pos]
  have hS : (gamut_primaries gamut_meas).mulVec
        ![(1741960 : ℚ) / 81921, 17576200 / 245763, 253460 / 35109]
      = gamut_white gamut_meas := by
    rw [hPm]
    ext i
    fin_cases i <;>
      simp [gamut_white, gamut_meas, Matrix.mulVec, Matrix.dotProduct, Fin.sum_univ_three] <;>
      norm_num
  have hM : (1e-12 : ℚ) ≤ |(gamut_current (gamut_primaries gamut_meas)
      ![(1741960 : ℚ) / 81921, 17576200 / 245763, 253460 / 35109]).det| := by
    rw [hMm, Matrix.det_fin_three]
    simp
    norm_num [abs_of_pos]
  have hmul := set_tv_gamut_mul_current gamut_meas _ hP hS hM
  have hinv : gamut_current (gamut_primaries gamut_meas)
        ![(1741960 : ℚ) / 81921, 17576200 / 245763, 253460 / 35109]
      * Matrix.of ![
          ![(12831 : ℚ) / 395900, -329 / 21400, -987 / 197950],
          ![-851781 / 87881000, 1648619 / 87881000, 36519 / 87881000],
          ![141 / 253460, -517 / 253460, 141 / 13340]] = 1 := by
    rw [hMm]
    ext i j
    fin_cases i <;> fin_cases j <;> simp [Matrix.mul_apply, Fin.sum_univ_three] <;> norm_num
  rw [← hmul, Matrix.mul_assoc, hinv, Matrix.mul_one]

/-- C19 (counterexample): on the example data of `main` (BT.709 primaries and
D65 white with `Y = 100`) the entry `[0][0]` of the returned matrix is
about 0.01, so the matrix is not within 1e-3 of the identity. -/
theorem set_tv_gamut_bt709_not_identity :
    (set_tv_gamut gamut_meas).matrix 0 0 = 11603343589786581 / 1160316131465000000 ∧
    ¬ (∀ i j, |(set_tv_gamut gamut_meas).matrix i j - (1 : Matrix (Fin 3) (Fin 3) ℚ) i j|
        ≤ 1e-3) := by
  have h00 : (set_tv_gamut gamut_meas).matrix 0 0
      = 11603343589786581 / 1160316131465000000 := by
    rw [set_tv_gamut_gamut_meas]
    simp [M_target, Matrix.mul_apply, Fin.sum_univ_three]
    norm_num
  refine ⟨h00, ?_⟩
  intro h
  have := h 0 0
  rw [h00] at this
  norm_num [abs_le] at this

/-- C19 (amended): on the example data of `main` the returned matrix `C` is
the identity divided by the white luminance 100, up to the rounding of
`M_target`: every entry of `100 C` is within 1e-3 of the corresponding entry
of the identity, and the squared Frobenius distance of `100 C` from the
identity is below `(1e-2)^2`. -/
theorem set_tv_gamut_bt709_scaled_identity :
    (∀ i j, |100 * (set_tv_gamut gamut_meas).matrix i j - (1 : Matrix (Fin 3) (Fin 3) ℚ) i j|
      ≤ 1e-3) ∧
    (∑ i, ∑ j, (100 * (set_tv_gamut gamut_meas).matrix i j
        - (1 : Matrix (Fin 3) (Fin 3) ℚ) i j) ^ 2) < (1e-2) ^ 2 := by
  rw [set_tv_gamut_gamut_meas]
  constructor
  · intro i j
    fin_cases i <;> fin_cases j <;>
      simp [M_target, Matrix.mul_apply, Fin.sum_univ_three] <;> norm_num [abs_le]
  · simp [M_target, Matrix.mul_apply, Fin.sum_univ_three]
    norm_num

/-! ## Gamma table -/

section Gamma

variable {α : Type} [LinearOrderedField α] [FloorRing α]

theorem double_to_int_of_nonneg {v : α} (h : 0 ≤ v) : double_to_int v = ⌊v⌋ := by
  simp [double_to_int, h]

/-- Clamping before the conversion to `int` gives the same integer as clamping
after it. -/
theorem double_to_int_clamp (v : α) :
    double_to_int (max 0 (min 255 v)) = spec_entry v := by
  unfold spec_entry
  rw [double_to_int_of_nonneg (le_max_left _ _)]
  by_cases h0 : 0 ≤ v
  · rw [if_pos h0]
    by_cases h1 : v ≤ 255
    · rw [min_eq_right h1, max_eq_right h0]
      have hf0 : (0 : Int) ≤ ⌊v⌋ := Int.floor_nonneg.mpr h0
      have hf1 : ⌊v⌋ ≤ (255 : Int) := by
        have : ⌊v⌋ ≤ ⌊(255 : α)⌋ := Int.floor_le_floor h1
        simpa using this
      rw [min_eq_right hf1, max_eq_right hf0]
    · have h1 : (255 : α) ≤ v := le_of_lt (not_le.mp h1)
      rw [min_eq_left h1, max_eq_right (by norm_num : (0 : α) ≤ 255)]
      have hf1 : (255 : Int) ≤ ⌊v⌋ := by
        have : ⌊(255 : α)⌋ ≤ ⌊v⌋ := Int.floor_le_floor h1
        simpa using this
      rw [min_eq_left hf1]
      have : ⌊(255 : α)⌋ = 255 := by simp
      rw [this]; rfl
  · rw [if_neg h0]
    have hv : v ≤ 0 := le_of_lt (not_le.mp h0)
    have hm : min 255 v ≤ 0 := le_trans (min_le_right _ _) hv
    rw [max_eq_left hm]
    have hc : ⌈v⌉ ≤ (0 : Int) := by
      have : ⌈v⌉ ≤ ⌈(0 : α)⌉ := Int.ceil_le_ceil hv
      simpa using this
    rw [min_eq_right (le_trans hc (by norm_num)), max_eq_left hc]
    simp

theorem spec_entry_bounds (v : α) : 0 ≤ spec_entry v ∧ spec_entry v ≤ 255 := by
  unfold spec_entry
  exact ⟨le_max_left _ _, max_le (by norm_num) (min_le_left _ _)⟩

omit [FloorRing α] in
/-- The segment search returns the first qualifying index. -/
theorem gamma_find_seg_first (steps : Fin 11 → Measurement α) (tY : α) (j : Fin 10)
    (hj : spec_qualifies steps tY j) :
    spec_qualifies steps tY (gamma_find_seg steps tY) ∧
      ∀ k : Fin 10, k < gamma_find_seg steps tY → ¬ spec_qualifies steps tY k := by
  unfold gamma_find_seg
  have hsome : (Fin.find fun j : Fin 10 =>
      tY ≥ (steps j.castSucc).Y ∧ tY ≤ (steps j.succ).Y).isSome :=
    Fin.isSome_find_iff.mpr ⟨j, hj.1, hj.2⟩
  obtain ⟨s, hs⟩ := Option.isSome_iff_exists.mp hsome
  rw [hs, Option.getD_some]
  refine ⟨⟨(Fin.find_spec _ hs).1, (Fin.find_spec _ hs).2⟩, ?_⟩
  intro k hk hq
  exact Fin.find_min hs hk ⟨hq.1, hq.2⟩

omit [FloorRing α] in
/-- The segment search returns 0 when no index qualifies. -/
theorem gamma_find_seg_default (steps : Fin 11 → Measurement α) (tY : α)
    (h : ∀ j : Fin 10, ¬ spec_qualifies steps tY j) : gamma_find_seg steps tY = 0 := by
  unfold gamma_find_seg
  have hnone : (Fin.find fun j : Fin 10 =>
      tY ≥ (steps j.castSucc).Y ∧ tY ≤ (steps j.succ).Y) = none :=
    Fin.find_eq_none_iff.mpr fun j hq => h j ⟨hq.1, hq.2⟩
  rw [hnone, Option.getD_none]

omit [FloorRing α] in
theorem spec_segment_find_seg (steps : Fin 11 → Measurement α) (tY : α) :
    spec_segment steps tY (gamma_find_seg steps tY) := by
  by_cases h : ∃ j, spec_qualifies steps tY j
  · obtain ⟨j, hj⟩ := h
    exact Or.inl (gamma_find_seg_first steps tY j hj)
  · have h' : ∀ j : Fin 10, ¬ spec_qualifies steps tY j := fun j hj => h ⟨j, hj⟩
    exact Or.inr ⟨h', gamma_find_seg_default steps tY h'⟩

omit [FloorRing α] in
theorem spec_segment_unique (steps : Fin 11 → Measurement α) (tY : α) (s : Fin 10)
    (hs : spec_segment steps tY s) : s = gamma_find_seg steps tY := by
  rcases hs with ⟨hq, hmin⟩ | ⟨hnone, h0⟩
  · obtain ⟨hq', hmin'⟩ := gamma_find_seg_first steps tY s hq
    rcases lt_trichotomy s (gamma_find_seg steps tY) with h | h | h
    · exact absurd hq (hmin' s h)
    · exact h
    · exact absurd hq' (hmin _ h)
  · rw [h0, gamma_find_seg_default steps tY hnone]

omit [FloorRing α] in
theorem gamma_target_Y_eq_spec (pow : α → α → α) (steps : Fin 11 → Measurement α) (i : Nat) :
    gamma_target_Y pow steps i = spec_tY pow steps i := by
  unfold gamma_target_Y spec_tY
  norm_num

omit [FloorRing α] in
theorem gamma_corrected_val_eq_spec (steps : Fin 11 → Measurement α) (s : Fin 10) (tY : α) :
    gamma_corrected_val steps s tY = spec_v steps s tY := by
  unfold gamma_corrected_val spec_v
  split_ifs
  · ring
  · push_cast; ring

theorem gamma_entry_eq_spec (pow : α → α → α) (steps : Fin 11 → Measurement α) (i : Nat) :
    gamma_entry pow steps i =
      spec_entry (spec_v steps (gamma_find_seg steps (spec_tY pow steps i)) (spec_tY pow steps i)) := by
  unfold gamma_entry
  rw [double_to_int_clamp, gamma_target_Y_eq_spec, gamma_corrected_val_eq_spec]

/-- C21: for every 11-sample input and every index `i` in `0..255`, the entry
`table[i]` produced by `set_tv_gamma` satisfies `0 <= table[i] <= 255`. -/
theorem set_tv_gamma_entries_in_range (pow : α → α → α) (steps : Fin 11 → Measurement α)
    (i : Fin 256) :
    0 ≤ (set_tv_gamma pow steps).entries i ∧ (set_tv_gamma pow steps).entries i ≤ 255 := by
  show 0 ≤ gamma_entry pow steps i ∧ gamma_entry pow steps i ≤ 255
  rw [gamma_entry_eq_spec]
  exact spec_entry_bounds _

/-- C23: for an input in which all eleven samples have `Y = 100`, every entry
of the table produced by `set_tv_gamma` is 0, the entry at `i = 255`
included. -/
theorem set_tv_gamma_flat (pow : α → α → α) (steps : Fin 11 → Measurement α)
    (h : ∀ j, (steps j).Y = 100) (i : Fin 256) : (set_tv_gamma pow steps).entries i = 0 := by
  show gamma_entry pow steps i = 0
  rw [gamma_entry_eq_spec]
  have hseg : gamma_find_seg steps (spec_tY pow steps i) = 0 := by
    by_cases hq : ∃ j, spec_qualifies steps (spec_tY pow steps i) j
    · obtain ⟨j, hj⟩ := hq
      obtain ⟨-, hmin⟩ := gamma_find_seg_first steps _ j hj
      by_contra hne
      have hpos : (0 : Fin 10) < gamma_find_seg steps (spec_tY pow steps i) :=
        Fin.pos_iff_ne_zero.mpr hne
      refine hmin 0 hpos ?_
      unfold spec_qualifies at hj ⊢
      rw [h, h] at hj ⊢
      exact hj
    · exact gamma_find_seg_default steps _ fun j hj => hq ⟨j, hj⟩
  rw [hseg]
  unfold spec_v
  rw [h, h, sub_self, abs_zero, if_pos (by norm_num)]
  norm_num [spec_entry]

/-- C23 at the flat input over the reals, with the real power function. -/
theorem set_tv_gamma_flat_witness :
    (∀ j, ((flat_meas : Fin 11 → Measurement ℝ) j).Y = 100) ∧
      (set_tv_gamma (fun x y : ℝ => x ^ y) flat_meas).entries 255 = 0 :=
  ⟨fun _ => rfl, set_tv_gamma_flat _ _ (fun _ => rfl) 255⟩

/-- C30: with `tY = (i/255)^2.2 * samples[10].Y`, a segment index as the
specification describes it exists (the smallest qualifying index, or 0 when
none qualifies), and for every such index `s` the stored entry is the
truncation toward zero of `v`, clamped to `[0, 255]`, where `v = x0` if
`|y1 - y0| < 1e-9` and `v = x0 + (tY - y0) * (x1 - x0) / (y1 - y0)`
otherwise. -/
theorem set_tv_gamma_entry_rule (pow : α → α → α) (samples : Fin 11 → Measurement α)
    (i : Fin 256) :
    (∃ s, spec_segment samples (spec_tY pow samples i) s) ∧
      ∀ s, spec_segment samples (spec_tY pow samples i) s →
        (set_tv_gamma pow samples).entries i = spec_entry (spec_v samples s (spec_tY pow samples i)) := by
  refine ⟨⟨_, spec_segment_find_seg samples _⟩, ?_⟩
  intro s hs
  show gamma_entry pow samples i = _
  rw [gamma_entry_eq_spec, spec_segment_unique samples _ s hs]

end Gamma

/-! ### The real power function with exponent 2.2 -/

section GammaReal

theorem rpow_gamma_pow_five (x : ℝ) (hx : 0 ≤ x) : (x ^ (2.2 : ℝ)) ^ 5 = x ^ 11 := by
  rw [← Real.rpow_natCast (x ^ (2.2 : ℝ)) 5, ← Real.rpow_mul hx, ← Real.rpow_natCast x 11]
  norm_num

theorem rpow_gamma_lower (x lo : ℝ) (hx : 0 ≤ x) (h : lo ^ 5 ≤ x ^ 11) : lo ≤ x ^ (2.2 : ℝ) := by
  have hy : 0 ≤ x ^ (2.2 : ℝ) := Real.rpow_nonneg hx _
  rw [← rpow_gamma_pow_five x hx] at h
  exact le_of_pow_le_pow_left₀ (by norm_num) hy h

theorem rpow_gamma_upper (x hi : ℝ) (hx : 0 ≤ x) (hhi : 0 ≤ hi) (h : x ^ 11 ≤ hi ^ 5) :
    x ^ (2.2 : ℝ) ≤ hi := by
  rw [← rpow_gamma_pow_five x hx] at h
  exact le_of_pow_le_pow_left₀ (by norm_num) hhi h

/-- The tangent of `t ^ 2.2` at `c` lies below the curve. -/
theorem rpow_gamma_tangent (c t : ℝ) (hc : 0 < c) (ht : 0 ≤ t) :
    c ^ (2.2 : ℝ) * (1 - 2.2) + 2.2 * c ^ (2.2 : ℝ) / c * t ≤ t ^ (2.2 : ℝ) := by
  have hs : -1 ≤ t / c - 1 := by
    have := div_nonneg ht hc.le
    linarith
  have hp : (1 : ℝ) ≤ 2.2 := by norm_num
  have hb := one_add_mul_self_le_rpow_one_add hs hp
  have hcp : 0 < c ^ (2.2 : ℝ) := Real.rpow_pos_of_pos hc _
  have hdiv : (1 + (t / c - 1)) ^ (2.2 : ℝ) = t ^ (2.2 : ℝ) / c ^ (2.2 : ℝ) := by
    rw [show 1 + (t / c - 1) = t / c by ring, Real.div_rpow ht hc.le]
  rw [hdiv, le_div_iff₀ hcp] at hb
  have : c ^ (2.2 : ℝ) * (1 - 2.2) + 2.2 * c ^ (2.2 : ℝ) / c * t =
      (1 + 2.2 * (t / c - 1)) * c ^ (2.2 : ℝ) := by
    field_simp; ring
  rw [this]; exact hb

/-- The chord of `t ^ 2.2` between `a` and `b` lies above the curve. -/
theorem rpow_gamma_chord (a b t : ℝ) (ha : 0 ≤ a) (hat : a ≤ t) (htb : t ≤ b) (hab : a < b) :
    (t ^ (2.2 : ℝ) - a ^ (2.2 : ℝ)) * (b - a) ≤ (t - a) * (b ^ (2.2 : ℝ) - a ^ (2.2 : ℝ)) := by
  have hp : (1 : ℝ) ≤ 2.2 := by norm_num
  have hconv := convexOn_rpow hp
  have hba : 0 < b - a := sub_pos.mpr hab
  have h1 : 0 ≤ (b - t) / (b - a) := div_nonneg (sub_nonneg.mpr htb) hba.le
  have h2 : 0 ≤ (t - a) / (b - a) := div_nonneg (sub_nonneg.mpr hat) hba.le
  have h := hconv.2 (Set.mem_Ici.mpr ha) (Set.mem_Ici.mpr (le_trans ha hab.le)) h1 h2
    (by field_simp)
  have hpt : (b - t) / (b - a) * a + (t - a) / (b - a) * b = t := by
    field_simp; ring
  simp only [smul_eq_mul] at h
  rw [hpt] at h
  have h4 := mul_le_mul_of_nonneg_right h hba.le
  have h3 : ((b - t) / (b - a) * a ^ (2.2 : ℝ) + (t - a) / (b - a) * b ^ (2.2 : ℝ)) * (b - a) =
      (b - t) * a ^ (2.2 : ℝ) + (t - a) * b ^ (2.2 : ℝ) := by
    field_simp
  rw [h3] at h4
  linarith

theorem rpow_gamma_le_iff (x y : ℝ) (hx : 0 ≤ x) (hy : 0 ≤ y) :
    x ^ (2.2 : ℝ) ≤ y ^ (2.2 : ℝ) ↔ x ≤ y :=
  Real.rpow_le_rpow_iff hx hy (by norm_num)

end GammaReal

/-! ### The table of the ideal 2.2 ramp -/

section GammaIdeal

theorem gamma_meas_Y (j : Fin 11) :
    (gamma_meas (fun x y : ℝ => x ^ y) j).Y = (((j : Nat) : ℝ) / 10) ^ (2.2 : ℝ) * 100 := by
  simp only [gamma_meas]
  norm_num

theorem gamma_meas_tY (i : Nat) :
    spec_tY (fun x y : ℝ => x ^ y) (gamma_meas (fun x y : ℝ => x ^ y)) i =
      ((i : ℝ) / 255) ^ (2.2 : ℝ) * 100 := by
  simp only [spec_tY, gamma_meas_Y]
  have h10 : (((10 : Fin 11) : Nat) : ℝ) / 10 = 1 := by
    rw [show ((10 : Fin 11) : Nat) = 10 from rfl]
    norm_num
  rw [h10, Real.one_rpow, one_mul]

theorem gamma_meas_qualifies_iff (i : Nat) (j : Fin 10) :
    spec_qualifies (gamma_meas (fun x y : ℝ => x ^ y)) (((i : ℝ) / 255) ^ (2.2 : ℝ) * 100) j ↔
      ((j : Nat) : ℝ) / 10 ≤ (i : ℝ) / 255 ∧ (i : ℝ) / 255 ≤ (((j : Nat) : ℝ) + 1) / 10 := by
  unfold spec_qualifies
  rw [gamma_meas_Y, gamma_meas_Y]
  simp only [Fin.coe_castSucc, Fin.val_succ, Nat.cast_add, Nat.cast_one]
  have hi : (0 : ℝ) ≤ (i : ℝ) / 255 := by positivity
  have hj : (0 : ℝ) ≤ ((j : Nat) : ℝ) / 10 := by positivity
  have hj1 : (0 : ℝ) ≤ (((j : Nat) : ℝ) + 1) / 10 := by positivity
  rw [mul_le_mul_right (by norm_num : (0 : ℝ) < 100),
    mul_le_mul_right (by norm_num : (0 : ℝ) < 100),
    rpow_gamma_le_iff _ _ hj hi, rpow_gamma_le_iff _ _ hi hj1]

/-- For `i <= 255` the segment found for the ideal ramp contains `i / 255`. -/
theorem gamma_meas_seg_bounds (i : Nat) (hi : i ≤ 255) (s : Fin 10)
    (hs : s = gamma_find_seg (gamma_meas (fun x y : ℝ => x ^ y))
      (((i : ℝ) / 255) ^ (2.2 : ℝ) * 100)) :
    ((s : Nat) : ℝ) / 10 ≤ (i : ℝ) / 255 ∧ (i : ℝ) / 255 ≤ (((s : Nat) : ℝ) + 1) / 10 := by
  have hj : ∃ j : Fin 10, 255 * (j : Nat) ≤ 10 * i ∧ 10 * i ≤ 255 * ((j : Nat) + 1) := by
    refine ⟨⟨min (10 * i / 255) 9, by omega⟩, ?_⟩
    show 255 * min (10 * i / 255) 9 ≤ 10 * i ∧ 10 * i ≤ 255 * (min (10 * i / 255) 9 + 1)
    omega
  obtain ⟨j, hj1, hj2⟩ := hj
  have hq : spec_qualifies (gamma_meas (fun x y : ℝ => x ^ y))
      (((i : ℝ) / 255) ^ (2.2 : ℝ) * 100) j := by
    rw [gamma_meas_qualifies_iff]
    have h1 : (255 : ℝ) * ((j : Nat) : ℝ) ≤ 10 * (i : ℝ) := by exact_mod_cast hj1
    have h2 : (10 : ℝ) * (i : ℝ) ≤ 255 * (((j : Nat) : ℝ) + 1) := by exact_mod_cast hj2
    constructor
    · rw [div_le_div_iff (by norm_num) (by norm_num)]; linarith
    · rw [div_le_div_iff (by norm_num) (by norm_num)]; linarith
  have hf := (gamma_find_seg_first _ _ j hq).1
  rw [← hs, gamma_meas_qualifies_iff] at hf
  exact hf

/-- The interpolated value on a segment of the ideal ramp whose end points
differ by at least `1e-9`. -/
theorem gamma_meas_spec_v (s : Fin 10) (T : ℝ)
    (h : ¬ |(gamma_meas (fun x y : ℝ => x ^ y) s.succ).Y -
      (gamma_meas (fun x y : ℝ => x ^ y) s.castSucc).Y| < 1e-9) :
    spec_v (gamma_meas (fun x y : ℝ => x ^ y)) s (T * 100) =
      25.5 * ((s : Nat) : ℝ) + (T - (((s : Nat) : ℝ) / 10) ^ (2.2 : ℝ)) * 25.5 /
        (((((s : Nat) : ℝ) + 1) / 10) ^ (2.2 : ℝ) - (((s : Nat) : ℝ) / 10) ^ (2.2 : ℝ)) := by
  unfold spec_v
  rw [if_neg h]
  rw [gamma_meas_Y, gamma_meas_Y]
  simp only [Fin.coe_castSucc, Fin.val_succ, Nat.cast_add, Nat.cast_one]
  have hlt : (((s : Nat) : ℝ) / 10) ^ (2.2 : ℝ) < ((((s : Nat) : ℝ) + 1) / 10) ^ (2.2 : ℝ) :=
    Real.rpow_lt_rpow (by positivity) (by linarith) (by norm_num)
  have hne : ((((s : Nat) : ℝ) + 1) / 10) ^ (2.2 : ℝ) - (((s : Nat) : ℝ) / 10) ^ (2.2 : ℝ) ≠ 0 :=
    ne_of_gt (sub_pos.mpr hlt)
  have hne2 : ((((s : Nat) : ℝ) + 1) / 10) ^ (2.2 : ℝ) * 100 -
      (((s : Nat) : ℝ) / 10) ^ (2.2 : ℝ) * 100 ≠ 0 := by
    intro h0; apply hne; linarith
  rw [add_right_inj, div_eq_div_iff hne2 hne]
  ring

/-- On the ideal ramp the interpolated value never exceeds `i`. -/
theorem gamma_meas_v_le (i : Nat) (s : Fin 10)
    (h1 : ((s : Nat) : ℝ) / 10 ≤ (i : ℝ) / 255)
    (h2 : (i : ℝ) / 255 ≤ (((s : Nat) : ℝ) + 1) / 10) :
    spec_v (gamma_meas (fun x y : ℝ => x ^ y)) s (((i : ℝ) / 255) ^ (2.2 : ℝ) * 100) ≤ i := by
  by_cases h : |(gamma_meas (fun x y : ℝ => x ^ y) s.succ).Y -
      (gamma_meas (fun x y : ℝ => x ^ y) s.castSucc).Y| < 1e-9
  · unfold spec_v
    rw [if_pos h]
    rw [div_le_div_iff (by norm_num) (by norm_num)] at h1
    linarith
  · rw [gamma_meas_spec_v s _ h]
    have hlt : (((s : Nat) : ℝ) / 10) ^ (2.2 : ℝ) < ((((s : Nat) : ℝ) + 1) / 10) ^ (2.2 : ℝ) :=
      Real.rpow_lt_rpow (by positivity) (by linarith) (by norm_num)
    have hpos := sub_pos.mpr hlt
    have hch := rpow_gamma_chord (((s : Nat) : ℝ) / 10) ((((s : Nat) : ℝ) + 1) / 10)
      ((i : ℝ) / 255) (by positivity) h1 h2 (by linarith)
    have hba : (((s : Nat) : ℝ) + 1) / 10 - ((s : Nat) : ℝ) / 10 = 1 / 10 := by ring
    rw [hba] at hch
    have hle : (((i : ℝ) / 255) ^ (2.2 : ℝ) - (((s : Nat) : ℝ) / 10) ^ (2.2 : ℝ)) * 25.5 /
        (((((s : Nat) : ℝ) + 1) / 10) ^ (2.2 : ℝ) - (((s : Nat) : ℝ) / 10) ^ (2.2 : ℝ)) ≤
        255 * ((i : ℝ) / 255 - ((s : Nat) : ℝ) / 10) := by
      rw [div_le_iff₀ hpos]
      nlinarith
    have : (255 : ℝ) * ((i : ℝ) / 255 - ((s : Nat) : ℝ) / 10) = i - 25.5 * ((s : Nat) : ℝ) := by
      ring
    linarith

/-- On the ideal ramp the interpolated value is at least the left end `x0`
of its segment. -/
theorem gamma_meas_v_ge_x0 (i : Nat) (s : Fin 10)
    (h1 : ((s : Nat) : ℝ) / 10 ≤ (i : ℝ) / 255) :
    25.5 * ((s : Nat) : ℝ) ≤
      spec_v (gamma_meas (fun x y : ℝ => x ^ y)) s (((i : ℝ) / 255) ^ (2.2 : ℝ) * 100) := by
  by_cases h : |(gamma_meas (fun x y : ℝ => x ^ y) s.succ).Y -
      (gamma_meas (fun x y : ℝ => x ^ y) s.castSucc).Y| < 1e-9
  · unfold spec_v
    rw [if_pos h]
  · rw [gamma_meas_spec_v s _ h]
    have hlt : (((s : Nat) : ℝ) / 10) ^ (2.2 : ℝ) < ((((s : Nat) : ℝ) + 1) / 10) ^ (2.2 : ℝ) :=
      Real.rpow_lt_rpow (by positivity) (by linarith) (by norm_num)
    have hmono : (((s : Nat) : ℝ) / 10) ^ (2.2 : ℝ) ≤ ((i : ℝ) / 255) ^ (2.2 : ℝ) :=
      Real.rpow_le_rpow (by positivity) h1 (by norm_num)
    have : 0 ≤ (((i : ℝ) / 255) ^ (2.2 : ℝ) - (((s : Nat) : ℝ) / 10) ^ (2.2 : ℝ)) * 25.5 /
        (((((s : Nat) : ℝ) + 1) / 10) ^ (2.2 : ℝ) - (((s : Nat) : ℝ) / 10) ^ (2.2 : ℝ)) :=
      div_nonneg (mul_nonneg (sub_nonneg.mpr hmono) (by norm_num)) (sub_pos.mpr hlt).le
    linarith

end GammaIdeal

/-! ### Lower bound of the ideal table: tangent lines and rational brackets -/

section GammaLower

/-- Numerical data of segment `k` of the ideal ramp: its end points differ by
at least `1e-9`, and a tangent point `c` whose tangent, compared with the
line `255 t - 8`, is on the right side at both ends of the segment. -/
theorem gamma_meas_segment_data (k : Nat) (hk : k < 10) :
    ∃ c : ℝ, 0 < c ∧
      1e-9 ≤ (((k : ℝ) + 1) / 10) ^ (2.2 : ℝ) * 100 - ((k : ℝ) / 10) ^ (2.2 : ℝ) * 100 ∧
      0 ≤ 25.5 * (1 - 2.2 + 2.2 * ((k : ℝ) / 10) / c) * c ^ (2.2 : ℝ) -
          25.5 * ((k : ℝ) / 10) ^ (2.2 : ℝ) +
          8 * ((((k : ℝ) + 1) / 10) ^ (2.2 : ℝ) - ((k : ℝ) / 10) ^ (2.2 : ℝ)) ∧
      0 ≤ 25.5 * (1 - 2.2 + 2.2 * (((k : ℝ) + 1) / 10) / c) * c ^ (2.2 : ℝ) -
          25.5 * ((k : ℝ) / 10) ^ (2.2 : ℝ) -
          17.5 * ((((k : ℝ) + 1) / 10) ^ (2.2 : ℝ) - ((k : ℝ) / 10) ^ (2.2 : ℝ)) := by
  interval_cases k <;> simp only [Nat.cast_ofNat, Nat.cast_zero, Nat.cast_one]
  · refine ⟨(1 : ℝ) / 20, by norm_num, ?_⟩
    have hA : ((0 : ℝ) / 10) ^ (2.2 : ℝ) = 0 := by rw [zero_div]; exact Real.zero_rpow (by norm_num)
    have hA1 : (0 : ℝ) ≤ ((0 : ℝ) / 10) ^ (2.2 : ℝ) := le_of_eq hA.symm
    have hA2 : ((0 : ℝ) / 10) ^ (2.2 : ℝ) ≤ 0 := le_of_eq hA
    have hB1 : (63 : ℝ) / 10000 ≤ (((0 : ℝ) + 1) / 10) ^ (2.2 : ℝ) :=
      rpow_gamma_lower _ _ (by norm_num) (by norm_num)
    have hB2 : (((0 : ℝ) + 1) / 10) ^ (2.2 : ℝ) ≤ (631 : ℝ) / 100000 :=
      rpow_gamma_upper _ _ (by norm_num) (by norm_num) (by norm_num)
    have hC1 : (137 : ℝ) / 100000 ≤ ((1 : ℝ) / 20) ^ (2.2 : ℝ) :=
      rpow_gamma_lower _ _ (by norm_num) (by norm_num)
    have hC2 : ((1 : ℝ) / 20) ^ (2.2 : ℝ) ≤ (69 : ℝ) / 50000 :=
      rpow_gamma_upper _ _ (by norm_num) (by norm_num) (by norm_num)
    have ea : (25.5 : ℝ) * (1 - 2.2 + 2.2 * ((0 : ℝ) / 10) / ((1 : ℝ) / 20)) = (-153 : ℝ) / 5 := by
      norm_num
    have eb : (25.5 : ℝ) * (1 - 2.2 + 2.2 * (((0 : ℝ) + 1) / 10) / ((1 : ℝ) / 20)) = (408 : ℝ) / 5 := by
      norm_num
    rw [ea, eb]
    generalize ((0 : ℝ) / 10) ^ (2.2 : ℝ) = A at hA1 hA2 ⊢
    generalize (((0 : ℝ) + 1) / 10) ^ (2.2 : ℝ) = B at hB1 hB2 ⊢
    generalize ((1 : ℝ) / 20) ^ (2.2 : ℝ) = C at hC1 hC2 ⊢
    refine ⟨?_, ?_, ?_⟩ <;> linarith only [hA1, hA2, hB1, hB2, hC1, hC2]
  · refine ⟨(3 : ℝ) / 20, by norm_num, ?_⟩
    have hA1 : (63 : ℝ) / 10000 ≤ ((1 : ℝ) / 10) ^ (2.2 : ℝ) :=
      rpow_gamma_lower _ _ (by norm_num) (by norm_num)
    have hA2 : ((1 : ℝ) / 10) ^ (2.2 : ℝ) ≤ (631 : ℝ) / 100000 :=
      rpow_gamma_upper _ _ (by norm_num) (by norm_num) (by norm_num)
    have hB1 : (2899 : ℝ) / 100000 ≤ (((1 : ℝ) + 1) / 10) ^ (2.2 : ℝ) :=
      rpow_gamma_lower _ _ (by norm_num) (by norm_num)
    have hB2 : (((1 : ℝ) + 1) / 10) ^ (2.2 : ℝ) ≤ (29 : ℝ) / 1000 :=
      rpow_gamma_upper _ _ (by norm_num) (by norm_num) (by norm_num)
    have hC1 : (1539 : ℝ) / 100000 ≤ ((3 : ℝ) / 20) ^ (2.2 : ℝ) :=
      rpow_gamma_lower _ _ (by norm_num) (by norm_num)
    have hC2 : ((3 : ℝ) / 20) ^ (2.2 : ℝ) ≤ (77 : ℝ) / 5000 :=
      rpow_gamma_upper _ _ (by norm_num) (by norm_num) (by norm_num)
    have ea : (25.5 : ℝ) * (1 - 2.2 + 2.2 * ((1 : ℝ) / 10) / ((3 : ℝ) / 20)) = (34 : ℝ) / 5 := by
      norm_num
    have eb : (25.5 : ℝ) * (1 - 2.2 + 2.2 * (((1 : ℝ) + 1) / 10) / ((3 : ℝ) / 20)) = (221 : ℝ) / 5 := by
      norm_num
    rw [ea, eb]
    generalize ((1 : ℝ) / 10) ^ (2.2 : ℝ) = A at hA1 hA2 ⊢
    generalize (((1 : ℝ) + 1) / 10) ^ (2.2 : ℝ) = B at hB1 hB2 ⊢
    generalize ((3 : ℝ) / 20) ^ (2.2 : ℝ) = C at hC1 hC2 ⊢
    refine ⟨?_, ?_, ?_⟩ <;> linarith only [hA1, hA2, hB1, hB2, hC1, hC2]
  · refine ⟨(1 : ℝ) / 4, by norm_num, ?_⟩
    have hA1 : (2899 : ℝ) / 100000 ≤ ((2 : ℝ) / 10) ^ (2.2 : ℝ) :=
      rpow_gamma_lower _ _ (by norm_num) (by norm_num)
    have hA2 : ((2 : ℝ) / 10) ^ (2.2 : ℝ) ≤ (29 : ℝ) / 1000 :=
      rpow_gamma_upper _ _ (by norm_num) (by norm_num) (by norm_num)
    have hB1 : (3537 : ℝ) / 50000 ≤ (((2 : ℝ) + 1) / 10) ^ (2.2 : ℝ) :=
      rpow_gamma_lower _ _ (by norm_num) (by norm_num)
    have hB2 : (((2 : ℝ) + 1) / 10) ^ (2.2 : ℝ) ≤ (283 : ℝ) / 4000 :=
      rpow_gamma_upper _ _ (by norm_num) (by norm_num) (by norm_num)
    have hC1 : (148 : ℝ) / 3125 ≤ ((1 : ℝ) / 4) ^ (2.2 : ℝ) :=
      rpow_gamma_lower _ _ (by norm_num) (by norm_num)
    have hC2 : ((1 : ℝ) / 4) ^ (2.2 : ℝ) ≤ (4737 : ℝ) / 100000 :=
      rpow_gamma_upper _ _ (by norm_num) (by norm_num) (by norm_num)
    have ea : (25.5 : ℝ) * (1 - 2.2 + 2.2 * ((2 : ℝ) / 10) / ((1 : ℝ) / 4)) = (357 : ℝ) / 25 := by
      norm_num
    have eb : (25.5 : ℝ) * (1 - 2.2 + 2.2 * (((2 : ℝ) + 1) / 10) / ((1 : ℝ) / 4)) = (918 : ℝ) / 25 := by
      norm_num
    rw [ea, eb]
    generalize ((2 : ℝ) / 10) ^ (2.2 : ℝ) = A at hA1 hA2 ⊢
    generalize (((2 : ℝ) + 1) / 10) ^ (2.2 : ℝ) = B at hB1 hB2 ⊢
    generalize ((1 : ℝ) / 4) ^ (2.2 : ℝ) = C at hC1 hC2 ⊢
    refine ⟨?_, ?_, ?_⟩ <;> linarith only [hA1, hA2, hB1, hB2, hC1, hC2]
  · refine ⟨(7 : ℝ) / 20, by norm_num, ?_⟩
    have hA1 : (3537 : ℝ) / 50000 ≤ ((3 : ℝ) / 10) ^ (2.2 : ℝ) :=
      rpow_gamma_lower _ _ (by norm_num) (by norm_num)
    have hA2 : ((3 : ℝ) / 10) ^ (2.2 : ℝ) ≤ (283 : ℝ) / 4000 :=
      rpow_gamma_upper _ _ (by norm_num) (by norm_num) (by norm_num)
    have hB1 : (333 : ℝ) / 2500 ≤ (((3 : ℝ) + 1) / 10) ^ (2.2 : ℝ) :=
      rpow_gamma_lower _ _ (by norm_num) (by norm_num)
    have hB2 : (((3 : ℝ) + 1) / 10) ^ (2.2 : ℝ) ≤ (13321 : ℝ) / 100000 :=
      rpow_gamma_upper _ _ (by norm_num) (by norm_num) (by norm_num)
    have hC1 : (993 : ℝ) / 10000 ≤ ((7 : ℝ) / 20) ^ (2.2 : ℝ) :=
      rpow_gamma_lower _ _ (by norm_num) (by norm_num)
    have hC2 : ((7 : ℝ) / 20) ^ (2.2 : ℝ) ≤ (9931 : ℝ) / 100000 :=
      rpow_gamma_upper _ _ (by norm_num) (by norm_num) (by norm_num)
    have ea : (25.5 : ℝ) * (1 - 2.2 + 2.2 * ((3 : ℝ) / 10) / ((7 : ℝ) / 20)) = (612 : ℝ) / 35 := by
      norm_num
    have eb : (25.5 : ℝ) * (1 - 2.2 + 2.2 * (((3 : ℝ) + 1) / 10) / ((7 : ℝ) / 20)) = (1173 : ℝ) / 35 := by
      norm_num
    rw [ea, eb]
    generalize ((3 : ℝ) / 10) ^ (2.2 : ℝ) = A at hA1 hA2 ⊢
    generalize (((3 : ℝ) + 1) / 10) ^ (2.2 : ℝ) = B at hB1 hB2 ⊢
    generalize ((7 : ℝ) / 20) ^ (2.2 : ℝ) = C at hC1 hC2 ⊢
    refine ⟨?_, ?_, ?_⟩ <;> linarith only [hA1, hA2, hB1, hB2, hC1, hC2]
  · refine ⟨(9 : ℝ) / 20, by norm_num, ?_⟩
    have hA1 : (333 : ℝ) / 2500 ≤ ((4 : ℝ) / 10) ^ (2.2 : ℝ) :=
      rpow_gamma_lower _ _ (by norm_num) (by norm_num)
    have hA2 : ((4 : ℝ) / 10) ^ (2.2 : ℝ) ≤ (13321 : ℝ) / 100000 :=
      rpow_gamma_upper _ _ (by norm_num) (by norm_num) (by norm_num)
    have hB1 : (21763 : ℝ) / 100000 ≤ (((4 : ℝ) + 1) / 10) ^ (2.2 : ℝ) :=
      rpow_gamma_lower _ _ (by norm_num) (by norm_num)
    have hB2 : (((4 : ℝ) + 1) / 10) ^ (2.2 : ℝ) ≤ (5441 : ℝ) / 25000 :=
      rpow_gamma_upper _ _ (by norm_num) (by norm_num) (by norm_num)
    have hC1 : (17261 : ℝ) / 100000 ≤ ((9 : ℝ) / 20) ^ (2.2 : ℝ) :=
      rpow_gamma_lower _ _ (by norm_num) (by norm_num)
    have hC2 : ((9 : ℝ) / 20) ^ (2.2 : ℝ) ≤ (8631 : ℝ) / 50000 :=
      rpow_gamma_upper _ _ (by norm_num) (by norm_num) (by norm_num)
    have ea : (25.5 : ℝ) * (1 - 2.2 + 2.2 * ((4 : ℝ) / 10) / ((9 : ℝ) / 20)) = (289 : ℝ) / 15 := by
      norm_num
    have eb : (25.5 : ℝ) * (1 - 2.2 + 2.2 * (((4 : ℝ) + 1) / 10) / ((9 : ℝ) / 20)) = (476 : ℝ) / 15 := by
      norm_num
    rw [ea, eb]
    generalize ((4 : ℝ) / 10) ^ (2.2 : ℝ) = A at hA1 hA2 ⊢
    generalize (((4 : ℝ) + 1) / 10) ^ (2.2 : ℝ) = B at hB1 hB2 ⊢
    generalize ((9 : ℝ) / 20) ^ (2.2 : ℝ) = C at hC1 hC2 ⊢
    refine ⟨?_, ?_, ?_⟩ <;> linarith only [hA1, hA2, hB1, hB2, hC1, hC2]
  · refine ⟨(11 : ℝ) / 20, by norm_num, ?_⟩
    have hA1 : (21763 : ℝ) / 100000 ≤ ((5 : ℝ) / 10) ^ (2.2 : ℝ) :=
      rpow_gamma_lower _ _ (by norm_num) (by norm_num)
    have hA2 : ((5 : ℝ) / 10) ^ (2.2 : ℝ) ≤ (5441 : ℝ) / 25000 :=
      rpow_gamma_upper _ _ (by norm_num) (by norm_num) (by norm_num)
    have hB1 : (32503 : ℝ) / 100000 ≤ (((5 : ℝ) + 1) / 10) ^ (2.2 : ℝ) :=
      rpow_gamma_lower _ _ (by norm_num) (by norm_num)
    have hB2 : (((5 : ℝ) + 1) / 10) ^ (2.2 : ℝ) ≤ (4063 : ℝ) / 12500 :=
      rpow_gamma_upper _ _ (by norm_num) (by norm_num) (by norm_num)
    have hC1 : (671 : ℝ) / 2500 ≤ ((11 : ℝ) / 20) ^ (2.2 : ℝ) :=
      rpow_gamma_lower _ _ (by norm_num) (by norm_num)
    have hC2 : ((11 : ℝ) / 20) ^ (2.2 : ℝ) ≤ (26841 : ℝ) / 100000 :=
      rpow_gamma_upper _ _ (by norm_num) (by norm_num) (by norm_num)
    have ea : (25.5 : ℝ) * (1 - 2.2 + 2.2 * ((5 : ℝ) / 10) / ((11 : ℝ) / 20)) = (102 : ℝ) / 5 := by
      norm_num
    have eb : (25.5 : ℝ) * (1 - 2.2 + 2.2 * (((5 : ℝ) + 1) / 10) / ((11 : ℝ) / 20)) = (153 : ℝ) / 5 := by
      norm_num
    rw [ea, eb]
    generalize ((5 : ℝ) / 10) ^ (2.2 : ℝ) = A at hA1 hA2 ⊢
    generalize (((5 : ℝ) + 1) / 10) ^ (2.2 : ℝ) = B at hB1 hB2 ⊢
    generalize ((11 : ℝ) / 20) ^ (2.2 : ℝ) = C at hC1 hC2 ⊢
    refine ⟨?_, ?_, ?_⟩ <;> linarith only [hA1, hA2, hB1, hB2, hC1, hC2]
  · refine ⟨(13 : ℝ) / 20, by norm_num, ?_⟩
    have hA1 : (32503 : ℝ) / 100000 ≤ ((6 : ℝ) / 10) ^ (2.2 : ℝ) :=
      rpow_gamma_lower _ _ (by norm_num) (by norm_num)
    have hA2 : ((6 : ℝ) / 10) ^ (2.2 : ℝ) ≤ (4063 : ℝ) / 12500 :=
      rpow_gamma_upper _ _ (by norm_num) (by norm_num) (by norm_num)
    have hB1 : (22813 : ℝ) / 50000 ≤ (((6 : ℝ) + 1) / 10) ^ (2.2 : ℝ) :=
      rpow_gamma_lower _ _ (by norm_num) (by norm_num)
    have hB2 : (((6 : ℝ) + 1) / 10) ^ (2.2 : ℝ) ≤ (45627 : ℝ) / 100000 :=
      rpow_gamma_upper _ _ (by norm_num) (by norm_num) (by norm_num)
    have hC1 : (19381 : ℝ) / 50000 ≤ ((13 : ℝ) / 20) ^ (2.2 : ℝ) :=
      rpow_gamma_lower _ _ (by norm_num) (by norm_num)
    have hC2 : ((13 : ℝ) / 20) ^ (2.2 : ℝ) ≤ (38763 : ℝ) / 100000 :=
      rpow_gamma_upper _ _ (by norm_num) (by norm_num) (by norm_num)
    have ea : (25.5 : ℝ) * (1 - 2.2 + 2.2 * ((6 : ℝ) / 10) / ((13 : ℝ) / 20)) = (1377 : ℝ) / 65 := by
      norm_num
    have eb : (25.5 : ℝ) * (1 - 2.2 + 2.2 * (((6 : ℝ) + 1) / 10) / ((13 : ℝ) / 20)) = (1938 : ℝ) / 65 := by
      norm_num
    rw [ea, eb]
    generalize ((6 : ℝ) / 10) ^ (2.2 : ℝ) = A at hA1 hA2 ⊢
    generalize (((6 : ℝ) + 1) / 10) ^ (2.2 : ℝ) = B at hB1 hB2 ⊢
    generalize ((13 : ℝ) / 20) ^ (2.2 : ℝ) = C at hC1 hC2 ⊢
    refine ⟨?_, ?_, ?_⟩ <;> linarith only [hA1, hA2, hB1, hB2, hC1, hC2]
  · refine ⟨(3 : ℝ) / 4, by norm_num, ?_⟩
    have hA1 : (22813 : ℝ) / 50000 ≤ ((7 : ℝ) / 10) ^ (2.2 : ℝ) :=
      rpow_gamma_lower _ _ (by norm_num) (by norm_num)
    have hA2 : ((7 : ℝ) / 10) ^ (2.2 : ℝ) ≤ (45627 : ℝ) / 100000 :=
      rpow_gamma_upper _ _ (by norm_num) (by norm_num) (by norm_num)
    have hB1 : (30603 : ℝ) / 50000 ≤ (((7 : ℝ) + 1) / 10) ^ (2.2 : ℝ) :=
      rpow_gamma_lower _ _ (by norm_num) (by norm_num)
    have hB2 : (((7 : ℝ) + 1) / 10) ^ (2.2 : ℝ) ≤ (61207 : ℝ) / 100000 :=
      rpow_gamma_upper _ _ (by norm_num) (by norm_num) (by norm_num)
    have hC1 : (3319 : ℝ) / 6250 ≤ ((3 : ℝ) / 4) ^ (2.2 : ℝ) :=
      rpow_gamma_lower _ _ (by norm_num) (by norm_num)
    have hC2 : ((3 : ℝ) / 4) ^ (2.2 : ℝ) ≤ (10621 : ℝ) / 20000 :=
      rpow_gamma_upper _ _ (by norm_num) (by norm_num) (by norm_num)
    have ea : (25.5 : ℝ) * (1 - 2.2 + 2.2 * ((7 : ℝ) / 10) / ((3 : ℝ) / 4)) = (544 : ℝ) / 25 := by
      norm_num
    have eb : (25.5 : ℝ) * (1 - 2.2 + 2.2 * (((7 : ℝ) + 1) / 10) / ((3 : ℝ) / 4)) = (731 : ℝ) / 25 := by
      norm_num
    rw [ea, eb]
    generalize ((7 : ℝ) / 10) ^ (2.2 : ℝ) = A at hA1 hA2 ⊢
    generalize (((7 : ℝ) + 1) / 10) ^ (2.2 : ℝ) = B at hB1 hB2 ⊢
    generalize ((3 : ℝ) / 4) ^ (2.2 : ℝ) = C at hC1 hC2 ⊢
    refine ⟨?_, ?_, ?_⟩ <;> linarith only [hA1, hA2, hB1, hB2, hC1, hC2]
  · refine ⟨(17 : ℝ) / 20, by norm_num, ?_⟩
    have hA1 : (30603 : ℝ) / 50000 ≤ ((8 : ℝ) / 10) ^ (2.2 : ℝ) :=
      rpow_gamma_lower _ _ (by norm_num) (by norm_num)
    have hA2 : ((8 : ℝ) / 10) ^ (2.2 : ℝ) ≤ (61207 : ℝ) / 100000 :=
      rpow_gamma_upper _ _ (by norm_num) (by norm_num) (by norm_num)
    have hB1 : (79311 : ℝ) / 100000 ≤ (((8 : ℝ) + 1) / 10) ^ (2.2 : ℝ) :=
      rpow_gamma_lower _ _ (by norm_num) (by norm_num)
    have hB2 : (((8 : ℝ) + 1) / 10) ^ (2.2 : ℝ) ≤ (4957 : ℝ) / 6250 :=
      rpow_gamma_upper _ _ (by norm_num) (by norm_num) (by norm_num)
    have hC1 : (69939 : ℝ) / 100000 ≤ ((17 : ℝ) / 20) ^ (2.2 : ℝ) :=
      rpow_gamma_lower _ _ (by norm_num) (by norm_num)
    have hC2 : ((17 : ℝ) / 20) ^ (2.2 : ℝ) ≤ (3497 : ℝ) / 5000 :=
      rpow_gamma_upper _ _ (by norm_num) (by norm_num) (by norm_num)
    have ea : (25.5 : ℝ) * (1 - 2.2 + 2.2 * ((8 : ℝ) / 10) / ((17 : ℝ) / 20)) = (111 : ℝ) / 5 := by
      norm_num
    have eb : (25.5 : ℝ) * (1 - 2.2 + 2.2 * (((8 : ℝ) + 1) / 10) / ((17 : ℝ) / 20)) = (144 : ℝ) / 5 := by
      norm_num
    rw [ea, eb]
    generalize ((8 : ℝ) / 10) ^ (2.2 : ℝ) = A at hA1 hA2 ⊢
    generalize (((8 : ℝ) + 1) / 10) ^ (2.2 : ℝ) = B at hB1 hB2 ⊢
    generalize ((17 : ℝ) / 20) ^ (2.2 : ℝ) = C at hC1 hC2 ⊢
    refine ⟨?_, ?_, ?_⟩ <;> linarith only [hA1, hA2, hB1, hB2, hC1, hC2]
  · refine ⟨(19 : ℝ) / 20, by norm_num, ?_⟩
    have hA1 : (79311 : ℝ) / 100000 ≤ ((9 : ℝ) / 10) ^ (2.2 : ℝ) :=
      rpow_gamma_lower _ _ (by norm_num) (by norm_num)
    have hA2 : ((9 : ℝ) / 10) ^ (2.2 : ℝ) ≤ (4957 : ℝ) / 6250 :=
      rpow_gamma_upper _ _ (by norm_num) (by norm_num) (by norm_num)
    have hB : (((9 : ℝ) + 1) / 10) ^ (2.2 : ℝ) = 1 := by norm_num
    have hB1 : (1 : ℝ) ≤ (((9 : ℝ) + 1) / 10) ^ (2.2 : ℝ) := le_of_eq hB.symm
    have hB2 : (((9 : ℝ) + 1) / 10) ^ (2.2 : ℝ) ≤ 1 := le_of_eq hB
    have hC1 : (5583 : ℝ) / 6250 ≤ ((19 : ℝ) / 20) ^ (2.2 : ℝ) :=
      rpow_gamma_lower _ _ (by norm_num) (by norm_num)
    have hC2 : ((19 : ℝ) / 20) ^ (2.2 : ℝ) ≤ (89329 : ℝ) / 100000 :=
      rpow_gamma_upper _ _ (by norm_num) (by norm_num) (by norm_num)
    have ea : (25.5 : ℝ) * (1 - 2.2 + 2.2 * ((9 : ℝ) / 10) / ((19 : ℝ) / 20)) = (2142 : ℝ) / 95 := by
      norm_num
    have eb : (25.5 : ℝ) * (1 - 2.2 + 2.2 * (((9 : ℝ) + 1) / 10) / ((19 : ℝ) / 20)) = (2703 : ℝ) / 95 := by
      norm_num
    rw [ea, eb]
    generalize ((9 : ℝ) / 10) ^ (2.2 : ℝ) = A at hA1 hA2 ⊢
    generalize (((9 : ℝ) + 1) / 10) ^ (2.2 : ℝ) = B at hB1 hB2 ⊢
    generalize ((19 : ℝ) / 20) ^ (2.2 : ℝ) = C at hC1 hC2 ⊢
    refine ⟨?_, ?_, ?_⟩ <;> linarith only [hA1, hA2, hB1, hB2, hC1, hC2]

end GammaLower

section GammaBounds

/-- On the ideal ramp the interpolated value is at least `i - 8`. -/
theorem gamma_meas_v_ge (i : Nat) (s : Fin 10)
    (h1 : ((s : Nat) : ℝ) / 10 ≤ (i : ℝ) / 255)
    (h2 : (i : ℝ) / 255 ≤ (((s : Nat) : ℝ) + 1) / 10) :
    (i : ℝ) - 8 ≤
      spec_v (gamma_meas (fun x y : ℝ => x ^ y)) s (((i : ℝ) / 255) ^ (2.2 : ℝ) * 100) := by
  obtain ⟨c, hc, hgap, hLa, hLb⟩ := gamma_meas_segment_data s s.isLt
  have hne : ¬ |(gamma_meas (fun x y : ℝ => x ^ y) s.succ).Y -
      (gamma_meas (fun x y : ℝ => x ^ y) s.castSucc).Y| < 1e-9 := by
    rw [gamma_meas_Y, gamma_meas_Y]
    simp only [Fin.coe_castSucc, Fin.val_succ, Nat.cast_add, Nat.cast_one]
    exact not_lt.mpr (le_trans hgap (le_abs_self _))
  rw [gamma_meas_spec_v s _ hne]
  have hT := rpow_gamma_tangent c ((i : ℝ) / 255) hc (by positivity)
  have hpos : 0 < ((((s : Nat) : ℝ) + 1) / 10) ^ (2.2 : ℝ) - (((s : Nat) : ℝ) / 10) ^ (2.2 : ℝ) := by
    have : (0 : ℝ) < 1e-9 := by norm_num
    linarith only [hgap, this]
  generalize ((((s : Nat) : ℝ) + 1) / 10) ^ (2.2 : ℝ) = B at *
  generalize (((s : Nat) : ℝ) / 10) ^ (2.2 : ℝ) = A at *
  generalize c ^ (2.2 : ℝ) = C at *
  generalize ((i : ℝ) / 255) ^ (2.2 : ℝ) = T at *
  have hu0 : 0 ≤ 10 * (i : ℝ) / 255 - ((s : Nat) : ℝ) := by linarith only [h1]
  have hu1 : 0 ≤ 1 - (10 * (i : ℝ) / 255 - ((s : Nat) : ℝ)) := by linarith only [h2]
  have key : (T - A) * 25.5 - ((i : ℝ) - 8 - 25.5 * ((s : Nat) : ℝ)) * (B - A) =
      25.5 * (T - (C * (1 - 2.2) + 2.2 * C / c * ((i : ℝ) / 255))) +
      (1 - (10 * (i : ℝ) / 255 - ((s : Nat) : ℝ))) *
        (25.5 * (1 - 2.2 + 2.2 * (((s : Nat) : ℝ) / 10) / c) * C - 25.5 * A + 8 * (B - A)) +
      (10 * (i : ℝ) / 255 - ((s : Nat) : ℝ)) *
        (25.5 * (1 - 2.2 + 2.2 * ((((s : Nat) : ℝ) + 1) / 10) / c) * C - 25.5 * A -
          17.5 * (B - A)) := by
    ring
  have hnn : 0 ≤ (T - A) * 25.5 - ((i : ℝ) - 8 - 25.5 * ((s : Nat) : ℝ)) * (B - A) := by
    rw [key]
    have t1 : 0 ≤ 25.5 * (T - (C * (1 - 2.2) + 2.2 * C / c * ((i : ℝ) / 255))) :=
      mul_nonneg (by norm_num) (sub_nonneg.mpr hT)
    exact add_nonneg (add_nonneg t1 (mul_nonneg hu1 hLa)) (mul_nonneg hu0 hLb)
  have hdiv : (i : ℝ) - 8 - 25.5 * ((s : Nat) : ℝ) ≤ (T - A) * 25.5 / (B - A) := by
    rw [le_div_iff₀ hpos]
    linarith only [hnn]
  linarith only [hdiv]

/-- The stored entry is at most `n` when the interpolated value is. -/
theorem spec_entry_le (v : ℝ) (n : Nat) (h : v ≤ n) : spec_entry v ≤ n := by
  unfold spec_entry
  refine max_le (by positivity) (le_trans (min_le_right _ _) ?_)
  split_ifs with h0
  · have : ⌊v⌋ ≤ ⌊(n : ℝ)⌋ := Int.floor_le_floor h
    simpa using this
  · have h0 : v ≤ 0 := le_of_lt (not_le.mp h0)
    have : ⌈v⌉ ≤ ⌈(0 : ℝ)⌉ := Int.ceil_le_ceil h0
    have h3 : ⌈v⌉ ≤ 0 := by simpa using this
    exact le_trans h3 (by positivity)

/-- The stored entry is at least `m` when the interpolated value is, for an
integer `m <= 255`. -/
theorem le_spec_entry (v : ℝ) (m : Int) (h : (m : ℝ) ≤ v) (hm : m ≤ 255) : m ≤ spec_entry v := by
  unfold spec_entry
  by_cases hm0 : m ≤ 0
  · exact le_trans hm0 (le_max_left _ _)
  · have hm0 : 0 < m := not_le.mp hm0
    have hv : 0 ≤ v := le_trans (by exact_mod_cast hm0.le) h
    rw [if_pos hv]
    exact le_trans (le_min hm (Int.le_floor.mpr h)) (le_max_right _ _)

/-- The stored entry is at most `n` when the interpolated value is below
`n + 1`. -/
theorem spec_entry_le_of_lt (v : ℝ) (n : Nat) (h : v < (n : ℝ) + 1) : spec_entry v ≤ n := by
  unfold spec_entry
  refine max_le (by positivity) (le_trans (min_le_right _ _) ?_)
  split_ifs with h0
  · have : ⌊v⌋ < (n : Int) + 1 := Int.floor_lt.mpr (by push_cast; exact h)
    omega
  · have h0 : v ≤ 0 := le_of_lt (not_le.mp h0)
    have : ⌈v⌉ ≤ ⌈(0 : ℝ)⌉ := Int.ceil_le_ceil h0
    have h3 : ⌈v⌉ ≤ 0 := by simpa using this
    exact le_trans h3 (by positivity)

/-- The end points of every segment of the ideal ramp differ by at least
`1e-9`. -/
theorem gamma_meas_gap (s : Fin 10) :
    ¬ |(gamma_meas (fun x y : ℝ => x ^ y) s.succ).Y -
      (gamma_meas (fun x y : ℝ => x ^ y) s.castSucc).Y| < 1e-9 := by
  obtain ⟨c, -, hgap, -, -⟩ := gamma_meas_segment_data s s.isLt
  rw [gamma_meas_Y, gamma_meas_Y]
  simp only [Fin.coe_castSucc, Fin.val_succ, Nat.cast_add, Nat.cast_one]
  exact not_lt.mpr (le_trans hgap (le_abs_self _))

/-- The entry of the ideal table at `i <= 255`: the stored value of the
interpolation on a segment that contains `i / 255`. -/
theorem gamma_meas_entry (i : Nat) (hi : i ≤ 255) :
    ∃ s : Fin 10, (((s : Nat) : ℝ) / 10 ≤ (i : ℝ) / 255 ∧
        (i : ℝ) / 255 ≤ (((s : Nat) : ℝ) + 1) / 10) ∧
      gamma_entry (fun x y : ℝ => x ^ y) (gamma_meas (fun x y : ℝ => x ^ y)) i =
        spec_entry (spec_v (gamma_meas (fun x y : ℝ => x ^ y)) s
          (((i : ℝ) / 255) ^ (2.2 : ℝ) * 100)) := by
  refine ⟨gamma_find_seg (gamma_meas (fun x y : ℝ => x ^ y))
    (((i : ℝ) / 255) ^ (2.2 : ℝ) * 100), gamma_meas_seg_bounds i hi _ rfl, ?_⟩
  rw [gamma_entry_eq_spec, gamma_meas_tY]

end GammaBounds

section GammaClaims

/-- C24: for the ideal-gamma input `samples[i].Y = (i/10)^2.2 * 100` the
table stays within eight code values of the identity, from below:
`i - 8 <= table[i] <= i` for every `i` in `0..255`. -/
theorem set_tv_gamma_ideal_near_identity (i : Fin 256) :
    ((i : Nat) : Int) - 8 ≤
        (set_tv_gamma (fun x y : ℝ => x ^ y) (gamma_meas (fun x y : ℝ => x ^ y))).entries i ∧
      (set_tv_gamma (fun x y : ℝ => x ^ y) (gamma_meas (fun x y : ℝ => x ^ y))).entries i ≤
        ((i : Nat) : Int) := by
  have hi : (i : Nat) ≤ 255 := Nat.lt_succ_iff.mp i.isLt
  obtain ⟨s, ⟨h1, h2⟩, he⟩ := gamma_meas_entry i hi
  show ((i : Nat) : Int) - 8 ≤ gamma_entry _ _ i ∧ gamma_entry _ _ i ≤ ((i : Nat) : Int)
  rw [he]
  constructor
  · refine le_spec_entry _ _ ?_ (by omega)
    have := gamma_meas_v_ge i s h1 h2
    push_cast
    exact this
  · exact spec_entry_le _ _ (gamma_meas_v_le i s h1 h2)

/-- C24, as first stated (`|table[i] - i| <= 1`), fails at `i = 13`: the
ideal table stores 5 there. -/
theorem set_tv_gamma_ideal_entry_13 :
    (set_tv_gamma (fun x y : ℝ => x ^ y) (gamma_meas (fun x y : ℝ => x ^ y))).entries 13 = 5 := by
  obtain ⟨s, ⟨h1, h2⟩, he⟩ := gamma_meas_entry 13 (by norm_num)
  show gamma_entry _ _ 13 = 5
  rw [he]
  have hs : (s : Nat) = 0 := by
    have h : (((s : Nat) : ℝ)) < 1 := by
      rw [div_le_div_iff (by norm_num) (by norm_num)] at h1
      push_cast at h1
      linarith only [h1]
    have : (s : Nat) < 1 := by exact_mod_cast h
    omega
  rw [gamma_meas_spec_v s _ (gamma_meas_gap s), hs]
  have hA : (((0 : Nat) : ℝ) / 10) ^ (2.2 : ℝ) = 0 := by
    rw [Nat.cast_zero, zero_div]; exact Real.zero_rpow (by norm_num)
  have hB1 : (6309 : ℝ) / 1000000 ≤ ((((0 : Nat) : ℝ) + 1) / 10) ^ (2.2 : ℝ) :=
    rpow_gamma_lower _ _ (by norm_num) (by norm_num)
  have hB2 : ((((0 : Nat) : ℝ) + 1) / 10) ^ (2.2 : ℝ) ≤ (631 : ℝ) / 100000 :=
    rpow_gamma_upper _ _ (by norm_num) (by norm_num) (by norm_num)
  have hT1 : (1433 : ℝ) / 1000000 ≤ (((13 : Nat) : ℝ) / 255) ^ (2.2 : ℝ) :=
    rpow_gamma_lower _ _ (by norm_num) (by norm_num)
  have hT2 : (((13 : Nat) : ℝ) / 255) ^ (2.2 : ℝ) ≤ (717 : ℝ) / 500000 :=
    rpow_gamma_upper _ _ (by norm_num) (by norm_num) (by norm_num)
  rw [hA]
  generalize ((((0 : Nat) : ℝ) + 1) / 10) ^ (2.2 : ℝ) = B at hB1 hB2 ⊢
  generalize (((13 : Nat) : ℝ) / 255) ^ (2.2 : ℝ) = T at hT1 hT2 ⊢
  have hB : 0 < B - 0 := by linarith only [hB1]
  apply le_antisymm
  · refine spec_entry_le_of_lt _ 5 ?_
    have : (T - 0) * 25.5 / (B - 0) < 6 := by
      rw [div_lt_iff₀ hB]
      linarith only [hT2, hB1]
    push_cast
    linarith only [this]
  · refine le_spec_entry _ 5 ?_ (by norm_num)
    have : 5 ≤ (T - 0) * 25.5 / (B - 0) := by
      rw [le_div_iff₀ hB]
      linarith only [hT1, hB2]
    push_cast
    linarith only [this]

/-- C25: for the ideal-gamma input `samples[i].Y = (i/10)^2.2 * 100`,
`table[0] = 0`, `table[128]` is 127 or 128, and `table[255]` is 254 or 255. -/
theorem set_tv_gamma_ideal_landmarks :
    (set_tv_gamma (fun x y : ℝ => x ^ y) (gamma_meas (fun x y : ℝ => x ^ y))).entries 0 = 0 ∧
    ((set_tv_gamma (fun x y : ℝ => x ^ y) (gamma_meas (fun x y : ℝ => x ^ y))).entries 128 = 127 ∨
      (set_tv_gamma (fun x y : ℝ => x ^ y) (gamma_meas (fun x y : ℝ => x ^ y))).entries 128 = 128) ∧
    ((set_tv_gamma (fun x y : ℝ => x ^ y) (gamma_meas (fun x y : ℝ => x ^ y))).entries 255 = 254 ∨
      (set_tv_gamma (fun x y : ℝ => x ^ y) (gamma_meas (fun x y : ℝ => x ^ y))).entries 255 = 255) := by
  refine ⟨?_, ?_, ?_⟩
  · obtain ⟨s, ⟨h1, h2⟩, he⟩ := gamma_meas_entry 0 (by norm_num)
    show gamma_entry _ _ 0 = 0
    rw [he]
    exact le_antisymm (spec_entry_le _ 0 (gamma_meas_v_le 0 s h1 h2)) (spec_entry_bounds _).1
  · obtain ⟨s, ⟨h1, h2⟩, he⟩ := gamma_meas_entry 128 (by norm_num)
    show gamma_entry _ _ 128 = 127 ∨ gamma_entry _ _ 128 = 128
    rw [he]
    have hs : 5 ≤ (s : Nat) := by
      have h : (4 : ℝ) < ((s : Nat) : ℝ) := by
        rw [div_le_div_iff (by norm_num) (by norm_num)] at h2
        push_cast at h2
        linarith only [h2]
      have : 4 < (s : Nat) := by exact_mod_cast h
      omega
    have hx0 := gamma_meas_v_ge_x0 128 s h1
    have hs' : (5 : ℝ) ≤ ((s : Nat) : ℝ) := by exact_mod_cast hs
    have hlo : (127 : Int) ≤ spec_entry (spec_v (gamma_meas (fun x y : ℝ => x ^ y)) s
        ((((128 : Nat) : ℝ) / 255) ^ (2.2 : ℝ) * 100)) := by
      refine le_spec_entry _ 127 ?_ (by norm_num)
      push_cast
      linarith only [hx0, hs']
    have hhi := spec_entry_le _ 128 (gamma_meas_v_le 128 s h1 h2)
    have e : ((128 : Nat) : Int) = 128 := rfl
    rw [e] at hhi
    omega
  · obtain ⟨s, ⟨h1, h2⟩, he⟩ := gamma_meas_entry 255 (by norm_num)
    show gamma_entry _ _ 255 = 254 ∨ gamma_entry _ _ 255 = 255
    rw [he]
    right
    have hs : (s : Nat) = 9 := by
      have h : (8 : ℝ) < ((s : Nat) : ℝ) := by
        rw [div_le_div_iff (by norm_num) (by norm_num)] at h2
        push_cast at h2
        linarith only [h2]
      have : 8 < (s : Nat) := by exact_mod_cast h
      have := s.isLt
      omega
    rw [gamma_meas_spec_v s _ (gamma_meas_gap s), hs]
    have hlt : (((9 : Nat) : ℝ) / 10) ^ (2.2 : ℝ) < ((((9 : Nat) : ℝ) + 1) / 10) ^ (2.2 : ℝ) :=
      Real.rpow_lt_rpow (by positivity) (by norm_num) (by norm_num)
    have hT : (((255 : Nat) : ℝ) / 255) ^ (2.2 : ℝ) = ((((9 : Nat) : ℝ) + 1) / 10) ^ (2.2 : ℝ) := by
      norm_num
    rw [hT, mul_div_cancel_left₀ _ (ne_of_gt (sub_pos.mpr hlt))]
    have hv : (25.5 : ℝ) * ((9 : Nat) : ℝ) + 25.5 = ((255 : Nat) : ℝ) := by norm_num
    rw [hv]
    apply le_antisymm
    · exact_mod_cast spec_entry_le _ 255 (le_refl _)
    · exact le_spec_entry _ 255 (by push_cast; norm_num) (by norm_num)

end GammaClaims

section GammaFirstEntry

/-- The target luminance of index 0 is 0, because `pow (0, 2.2) = 0`. -/
theorem spec_tY_zero (steps : Fin 11 → Measurement ℝ) :
    spec_tY (fun x y : ℝ => x ^ y) steps 0 = 0 := by
  unfold spec_tY
  show (((0 : Nat) : ℝ) / 255) ^ (2.2 : ℝ) * (steps 10).Y = 0
  rw [Nat.cast_zero, zero_div, Real.zero_rpow (by norm_num), zero_mul]

theorem steps_zero_le (steps : Fin 11 → Measurement ℝ)
    (hmono : ∀ j : Fin 10, (steps j.castSucc).Y ≤ (steps j.succ).Y) (j : Fin 11) :
    (steps 0).Y ≤ (steps j).Y := by
  induction j using Fin.induction with
  | zero => exact le_refl _
  | succ j ih => exact le_trans ih (hmono j)

/-- The ideal ramp starts at a non-negative luminance. -/
theorem gamma_meas_nonneg : 0 ≤ (gamma_meas (fun x y : ℝ => x ^ y) 0).Y := by
  rw [gamma_meas_Y]
  positivity

/-- The ideal ramp is non-decreasing. -/
theorem gamma_meas_mono (j : Fin 10) :
    (gamma_meas (fun x y : ℝ => x ^ y) j.castSucc).Y ≤
      (gamma_meas (fun x y : ℝ => x ^ y) j.succ).Y := by
  rw [gamma_meas_Y, gamma_meas_Y]
  simp only [Fin.coe_castSucc, Fin.val_succ, Nat.cast_add, Nat.cast_one]
  have h : (((j : Nat) : ℝ) / 10) ^ (2.2 : ℝ) ≤ ((((j : Nat) : ℝ) + 1) / 10) ^ (2.2 : ℝ) :=
    Real.rpow_le_rpow (by positivity) (by linarith) (by norm_num)
  linarith

/-- C22, as first stated (`table[0] = 0` for every input), fails for the
input with luminances `5, 4, 6, 7, ..., 14`: no segment contains the target
0, segment 0 is used, and the extrapolation stores 127. -/
theorem set_tv_gamma_dipped_first_entry :
    (set_tv_gamma (fun x y : ℝ => x ^ y) dipped_meas).entries 0 = 127 := by
  show gamma_entry _ _ 0 = 127
  rw [gamma_entry_eq_spec, spec_tY_zero]
  have hseg : gamma_find_seg (dipped_meas : Fin 11 → Measurement ℝ) 0 = 0 := by
    refine gamma_find_seg_default _ _ fun j hj => ?_
    have h : (dipped_meas j.castSucc : Measurement ℝ).Y ≤ 0 := hj.1
    have hpos : 0 < (dipped_meas j.castSucc : Measurement ℝ).Y := by
      unfold dipped_meas
      dsimp only
      split_ifs <;> positivity
    exact absurd h (not_le.mpr hpos)
  rw [hseg]
  have hv : spec_v (dipped_meas : Fin 11 → Measurement ℝ) 0 0 = 127.5 := by
    have h0 : (dipped_meas (0 : Fin 10).castSucc : Measurement ℝ).Y = 5 := by
      simp [dipped_meas]
    have h1 : (dipped_meas (0 : Fin 10).succ : Measurement ℝ).Y = 4 := by
      simp [dipped_meas]
    unfold spec_v
    rw [h0, h1]
    norm_num
  rw [hv]
  unfold spec_entry
  have hf : ⌊(127.5 : ℝ)⌋ = 127 := by
    rw [Int.floor_eq_iff]
    norm_num
  rw [if_pos (by norm_num), hf]
  rfl

/-- C22: for every 11-sample input whose luminances are non-negative and
non-decreasing (`0 <= samples[0].Y <= samples[1].Y <= ... <= samples[10].Y`),
the table produced by `set_tv_gamma` has `table[0] = 0`. -/
theorem set_tv_gamma_first_entry (steps : Fin 11 → Measurement ℝ) (h0 : 0 ≤ (steps 0).Y)
    (hmono : ∀ j : Fin 10, (steps j.castSucc).Y ≤ (steps j.succ).Y) :
    (set_tv_gamma (fun x y : ℝ => x ^ y) steps).entries 0 = 0 := by
  show gamma_entry _ _ 0 = 0
  rw [gamma_entry_eq_spec, spec_tY_zero]
  have hseg : gamma_find_seg steps 0 = 0 := by
    by_cases hq : ∃ j, spec_qualifies steps 0 j
    · obtain ⟨j, hj⟩ := hq
      obtain ⟨-, hmin⟩ := gamma_find_seg_first steps 0 j hj
      by_contra hne
      refine hmin 0 (Fin.pos_iff_ne_zero.mpr hne) ⟨?_, ?_⟩
      · exact le_trans (steps_zero_le steps hmono j.castSucc) hj.1
      · exact le_trans h0 (hmono 0)
    · exact gamma_find_seg_default steps _ fun j hj => hq ⟨j, hj⟩
  rw [hseg]
  refine le_antisymm ?_ (spec_entry_bounds _).1
  refine spec_entry_le _ 0 ?_
  have hd : 0 ≤ (steps (0 : Fin 10).succ).Y - (steps (0 : Fin 10).castSucc).Y :=
    sub_nonneg.mpr (hmono 0)
  have hy0 : 0 ≤ (steps (0 : Fin 10).castSucc).Y := h0
  unfold spec_v
  split_ifs with hflat
  · norm_num
  · have hq : (0 - (steps (0 : Fin 10).castSucc).Y) *
        (25.5 * ((((0 : Fin 10) : Nat) : ℝ) + 1) - 25.5 * (((0 : Fin 10) : Nat) : ℝ)) /
        ((steps (0 : Fin 10).succ).Y - (steps (0 : Fin 10).castSucc).Y) ≤ 0 := by
      refine div_nonpos_of_nonpos_of_nonneg (mul_nonpos_of_nonpos_of_nonneg ?_ ?_) hd
      · linarith only [hy0]
      · norm_num
    have hx : (25.5 : ℝ) * (((0 : Fin 10) : Nat) : ℝ) = 0 := by norm_num
    rw [Nat.cast_zero]
    linarith only [hq, hx]

/-- C22 at the ideal ramp of `main`. -/
theorem set_tv_gamma_first_entry_witness :
    (0 ≤ (gamma_meas (fun x y : ℝ => x ^ y) 0).Y ∧
      ∀ j : Fin 10, (gamma_meas (fun x y : ℝ => x ^ y) j.castSucc).Y ≤
        (gamma_meas (fun x y : ℝ => x ^ y) j.succ).Y) ∧
    (set_tv_gamma (fun x y : ℝ => x ^ y) (gamma_meas (fun x y : ℝ => x ^ y))).entries 0 = 0 :=
  ⟨⟨gamma_meas_nonneg, gamma_meas_mono⟩,
    set_tv_gamma_first_entry _ gamma_meas_nonneg gamma_meas_mono⟩

end GammaFirstEntry

/-! ## The white point and the luminances -/

section GamutWhite

variable {α : Type} [LinearOrderedField α]

theorem gamut_current_mulVec_one (P : Matrix (Fin 3) (Fin 3) α) (S : Fin 3 → α) :
    (gamut_current P S).mulVec (fun _ => 1) = P.mulVec S := by
  ext i
  simp [gamut_current, Matrix.mulVec, Matrix.dotProduct, Fin.sum_univ_three]

theorem M_target_mulVec_one :
    (M_target : Matrix (Fin 3) (Fin 3) α).mulVec (fun _ => 1) = ![0.9505, 1.0000, 1.0890] := by
  ext i
  fin_cases i <;>
    simp [M_target, Matrix.mulVec, Matrix.dotProduct, Fin.sum_univ_three] <;> norm_num

theorem gamut_primaries_scale_white (k : α) (measured : Fin 4 → Measurement α) :
    gamut_primaries (scale_white k measured) = gamut_primaries measured := by
  have h : ∀ i : Fin 3, scale_white k measured i.castSucc = measured i.castSucc := by
    intro i
    unfold scale_white
    rw [if_neg]
    fin_cases i <;> decide
  ext r i
  fin_cases r <;> simp [gamut_primaries, h]

theorem gamut_white_scale_white (k : α) (measured : Fin 4 → Measurement α) :
    gamut_white (scale_white k measured) = k • gamut_white measured := by
  have h : scale_white k measured 3 = ⟨(measured 3).x, (measured 3).y, k * (measured 3).Y⟩ := by
    unfold scale_white
    rw [if_pos rfl]
  ext i
  fin_cases i <;> simp [gamut_white, h] <;> ring

theorem gamut_current_smul (k : α) (P : Matrix (Fin 3) (Fin 3) α) (S : Fin 3 → α) :
    gamut_current P (k • S) = k • gamut_current P S := by
  ext r j
  simp [gamut_current]
  ring

/-- When the first inversion is accepted and the second one rejected,
`set_tv_gamut` returns the zero matrix; `S` is the scaling vector that solves
`M_primaries S = W_XYZ`. -/
theorem set_tv_gamut_second_rejected (measured : Fin 4 → Measurement α) (S : Fin 3 → α)
    (hP : 1e-12 ≤ |(gamut_primaries measured).det|)
    (hS : (gamut_primaries measured).mulVec S = gamut_white measured)
    (hM : |(gamut_current (gamut_primaries measured) S).det| < 1e-12) :
    (set_tv_gamut measured).matrix = 0 := by
  obtain ⟨Pinv, hPinv, hleft⟩ := invert_matrix_3x3_spec (gamut_primaries measured)
    (by rw [det_3x3_eq_det]; exact not_lt.mpr hP)
  have hS2 : gamut_scaling Pinv (gamut_white measured) = S := by
    rw [gamut_scaling_eq_mulVec, ← hS, Matrix.mulVec_mulVec, hleft, Matrix.one_mulVec]
  have hrej : invert_matrix_3x3 (gamut_current (gamut_primaries measured) S) = none :=
    if_pos (by rw [det_3x3_eq_det]; exact hM)
  unfold set_tv_gamut
  rw [hPinv]
  dsimp only
  rw [hS2, hrej]

/-- C36: when neither inversion is rejected, the matrix `C` returned by
`set_tv_gamut` maps the measured white `Wxyz` to the target white
`M_target * (1, 1, 1) = (0.9505, 1.0000, 1.0890)`; and if the input with the
white luminance multiplied by `k > 0` is not rejected either, its matrix is
`C` with every entry divided by `k`. Here `S` is the solution of
`P S = Wxyz`, and the second inversion is that of `M_curr`, the columns of
`P` scaled by `S`. -/
theorem set_tv_gamut_maps_white (measured : Fin 4 → Measurement α) (S Wxyz : Fin 3 → α) (k : α)
    (hW : Wxyz = ![(measured 3).x * (measured 3).Y / (measured 3).y, (measured 3).Y,
      (1 - (measured 3).x - (measured 3).y) * (measured 3).Y / (measured 3).y])
    (hP : 1e-12 ≤ |(gamut_primaries measured).det|)
    (hS : (gamut_primaries measured).mulVec S = Wxyz)
    (hM : 1e-12 ≤ |(gamut_current (gamut_primaries measured) S).det|)
    (hk : 0 < k)
    (hMk : 1e-12 ≤ |(gamut_current (gamut_primaries measured) (k • S)).det|) :
    (set_tv_gamut measured).matrix.mulVec Wxyz = ![0.9505, 1.0000, 1.0890] ∧
    ∀ i j, (set_tv_gamut (scale_white k measured)).matrix i j =
      (set_tv_gamut measured).matrix i j / k := by
  have hWeq : Wxyz = gamut_white measured := hW
  rw [hWeq] at hS
  have hC := set_tv_gamut_mul_current measured S hP hS hM
  constructor
  · have hWS : gamut_white measured =
        (gamut_current (gamut_primaries measured) S).mulVec (fun _ => 1) := by
      rw [gamut_current_mulVec_one, hS]
    rw [hWeq, hWS, Matrix.mulVec_mulVec, hC, M_target_mulVec_one]
  · have hPk : 1e-12 ≤ |(gamut_primaries (scale_white k measured)).det| := by
      rw [gamut_primaries_scale_white]; exact hP
    have hSk : (gamut_primaries (scale_white k measured)).mulVec (k • S) =
        gamut_white (scale_white k measured) := by
      rw [gamut_primaries_scale_white, gamut_white_scale_white, Matrix.mulVec_smul, hS]
    have hMk2 : 1e-12 ≤ |(gamut_current (gamut_primaries (scale_white k measured))
        (k • S)).det| := by
      rw [gamut_primaries_scale_white]; exact hMk
    have hCk := set_tv_gamut_mul_current (scale_white k measured) (k • S) hPk hSk hMk2
    rw [gamut_primaries_scale_white, gamut_current_smul] at hCk
    have hdet : IsUnit (gamut_current (gamut_primaries measured) S).det := by
      rw [isUnit_iff_ne_zero]
      intro h0
      rw [h0, abs_zero] at hM
      norm_num at hM
    have heq : k • (set_tv_gamut (scale_white k measured)).matrix =
        (set_tv_gamut measured).matrix := by
      have h1 : (k • (set_tv_gamut (scale_white k measured)).matrix) *
          gamut_current (gamut_primaries measured) S =
          (set_tv_gamut measured).matrix * gamut_current (gamut_primaries measured) S := by
        rw [hC, Matrix.smul_mul, ← Matrix.mul_smul, hCk]
      have h2 := congrArg (fun X => X * (gamut_current (gamut_primaries measured) S)⁻¹) h1
      simp only [Matrix.mul_nonsing_inv_cancel_right _ _ hdet] at h2
      exact h2
    intro i j
    rw [← heq]
    simp [Matrix.smul_apply]
    field_simp

/-- C36 on the BT.709 primaries with the white `(163/705, 33/235, 3)`, for
which `S = (1, 1, 1)`, and `k = 2`. -/
theorem set_tv_gamut_maps_white_witness :
    (1e-12 : ℚ) ≤ |(gamut_primaries unit_scaling_meas).det| ∧
    (gamut_primaries unit_scaling_meas).mulVec ![1, 1, 1] = ![163 / 33, 3, 443 / 33] ∧
    (0 : ℚ) < 2 ∧
    (set_tv_gamut unit_scaling_meas).matrix.mulVec ![163 / 33, 3, 443 / 33] =
      ![0.9505, 1.0000, 1.0890] ∧
    (set_tv_gamut (scale_white 2 unit_scaling_meas)).matrix 0 0 =
      (set_tv_gamut unit_scaling_meas).matrix 0 0 / 2 := by
  have h2 : Fin.castSucc (2 : Fin 3) = (2 : Fin 4) := rfl
  have hPm : gamut_primaries unit_scaling_meas =
      Matrix.of ![![(64 : ℚ) / 33, 1 / 2, 5 / 2], ![1, 1, 1], ![1 / 11, 1 / 6, 79 / 6]] := by
    ext i j
    fin_cases i <;> fin_cases j <;> simp [gamut_primaries, unit_scaling_meas, h2] <;> norm_num
  have hdet : (1e-12 : ℚ) ≤ |(gamut_primaries unit_scaling_meas).det| := by
    rw [hPm, Matrix.det_fin_three]
    simp
    norm_num [abs_of_pos]
  have hS : (gamut_primaries unit_scaling_meas).mulVec ![1, 1, 1] = ![163 / 33, 3, 443 / 33] := by
    rw [hPm]
    ext i
    fin_cases i <;> simp [Matrix.mulVec, Matrix.dotProduct, Fin.sum_univ_three] <;> norm_num
  have hcur : ∀ c : ℚ, gamut_current (gamut_primaries unit_scaling_meas) (c • ![1, 1, 1]) =
      c • gamut_primaries unit_scaling_meas := by
    intro c
    ext i j
    fin_cases j <;> simp [gamut_current] <;> ring
  have hM1 : (1e-12 : ℚ) ≤ |(gamut_current (gamut_primaries unit_scaling_meas) ![1, 1, 1]).det| := by
    have := hcur 1
    rw [one_smul, one_smul] at this
    rw [this]
    exact hdet
  have hM2 : (1e-12 : ℚ) ≤
      |(gamut_current (gamut_primaries unit_scaling_meas) ((2 : ℚ) • ![1, 1, 1])).det| := by
    rw [hcur 2, hPm, Matrix.det_fin_three]
    simp
    norm_num [abs_of_pos]
  have h := set_tv_gamut_maps_white unit_scaling_meas ![1, 1, 1] ![163 / 33, 3, 443 / 33] 2
    (by
      ext i
      fin_cases i <;> simp [unit_scaling_meas] <;> norm_num)
    hdet hS hM1 (by norm_num) hM2
  exact ⟨hdet, hS, by norm_num, h.1, h.2 0 0⟩

/-- C36, as first stated, fails on the BT.709 primaries with the white
`(163/705, 33/235, 3)` for `k = 1e-5`: neither inversion is rejected for the
input itself (`det P = det M_curr = 415/22`), so its matrix `C` is not zero,
but with the white luminance multiplied by `1e-5` the determinant of
`M_curr` becomes `1e-15 * 415/22 < 1e-12`, the second inversion is rejected
and the result is the zero matrix, not `C` divided by `1e-5`. -/
theorem set_tv_gamut_small_white_rejected :
    (1e-12 : ℚ) ≤ |(gamut_primaries unit_scaling_meas).det| ∧
    (gamut_primaries unit_scaling_meas).mulVec ![1, 1, 1] = gamut_white unit_scaling_meas ∧
    (1e-12 : ℚ) ≤ |(gamut_current (gamut_primaries unit_scaling_meas) ![1, 1, 1]).det| ∧
    (0 : ℚ) < 1e-5 ∧
    |(gamut_current (gamut_primaries unit_scaling_meas) ((1e-5 : ℚ) • ![1, 1, 1])).det| <
      1e-12 ∧
    (set_tv_gamut (scale_white 1e-5 unit_scaling_meas)).matrix = 0 ∧
    (set_tv_gamut unit_scaling_meas).matrix ≠ 0 ∧
    ¬ ∀ i j, (set_tv_gamut (scale_white 1e-5 unit_scaling_meas)).matrix i j =
      (set_tv_gamut unit_scaling_meas).matrix i j / 1e-5 := by
  have h2 : Fin.castSucc (2 : Fin 3) = (2 : Fin 4) := rfl
  have hPm : gamut_primaries unit_scaling_meas =
      Matrix.of ![![(64 : ℚ) / 33, 1 / 2, 5 / 2], ![1, 1, 1], ![1 / 11, 1 / 6, 79 / 6]] := by
    ext i j
    fin_cases i <;> fin_cases j <;> simp [gamut_primaries, unit_scaling_meas, h2] <;> norm_num
  have hdet : (1e-12 : ℚ) ≤ |(gamut_primaries unit_scaling_meas).det| := by
    rw [hPm, Matrix.det_fin_three]
    simp
    norm_num [abs_of_pos]
  have hW : gamut_white unit_scaling_meas = ![163 / 33, 3, 443 / 33] := by
    ext i
    fin_cases i <;> simp [gamut_white, unit_scaling_meas] <;> norm_num
  have hS : (gamut_primaries unit_scaling_meas).mulVec ![1, 1, 1] =
      gamut_white unit_scaling_meas := by
    rw [hW, hPm]
    ext i
    fin_cases i <;> simp [Matrix.mulVec, Matrix.dotProduct, Fin.sum_univ_three] <;> norm_num
  have hcur : ∀ c : ℚ, gamut_current (gamut_primaries unit_scaling_meas) (c • ![1, 1, 1]) =
      c • gamut_primaries unit_scaling_meas := by
    intro c
    ext i j
    fin_cases j <;> simp [gamut_current] <;> ring
  have hM1 : (1e-12 : ℚ) ≤ |(gamut_current (gamut_primaries unit_scaling_meas) ![1, 1, 1]).det| := by
    have := hcur 1
    rw [one_smul, one_smul] at this
    rw [this]
    exact hdet
  have hMk : |(gamut_current (gamut_primaries unit_scaling_meas)
      ((1e-5 : ℚ) • ![1, 1, 1])).det| < 1e-12 := by
    rw [hcur, hPm, Matrix.det_fin_three]
    simp
    norm_num [abs_of_pos]
  have hzero : (set_tv_gamut (scale_white 1e-5 unit_scaling_meas)).matrix = 0 := by
    apply set_tv_gamut_second_rejected (scale_white 1e-5 unit_scaling_meas)
      ((1e-5 : ℚ) • ![1, 1, 1])
    · rw [gamut_primaries_scale_white]
      exact hdet
    · rw [gamut_primaries_scale_white, gamut_white_scale_white, Matrix.mulVec_smul, hS]
    · rw [gamut_primaries_scale_white]
      exact hMk
  have hC := set_tv_gamut_mul_current unit_scaling_meas ![1, 1, 1] hdet hS hM1
  have hne : (set_tv_gamut unit_scaling_meas).matrix ≠ 0 := by
    intro h0
    rw [h0, Matrix.zero_mul] at hC
    have h00 := congrFun (congrFun hC 0) 0
    simp [M_target] at h00
    norm_num at h00
  refine ⟨hdet, hS, hM1, by norm_num, hMk, hzero, hne, ?_⟩
  intro hall
  apply hne
  ext i j
  have hij := hall i j
  rw [hzero] at hij
  simp only [Matrix.zero_apply] at hij ⊢
  have hk : (1e-5 : ℚ) ≠ 0 := by norm_num
  have := (div_eq_zero_iff.mp hij.symm).resolve_right hk
  exact this

/-- C37: two inputs that agree on the chromaticity `(x, y)` of the three
primaries and on the whole white measurement give the same matrix, whatever
the luminances `Y` of the primaries are. -/
theorem set_tv_gamut_ignores_primary_luminance (m1 m2 : Fin 4 → Measurement α)
    (hx : ∀ i : Fin 3, (m1 i.castSucc).x = (m2 i.castSucc).x)
    (hy : ∀ i : Fin 3, (m1 i.castSucc).y = (m2 i.castSucc).y)
    (hw : m1 3 = m2 3) :
    set_tv_gamut m1 = set_tv_gamut m2 := by
  have hP : gamut_primaries m1 = gamut_primaries m2 := by
    ext r i
    fin_cases r <;> simp [gamut_primaries, hx, hy]
  have hW : gamut_white m1 = gamut_white m2 := by
    unfold gamut_white
    rw [hw]
  unfold set_tv_gamut
  rw [hP, hW]

end GamutWhite

/-- C37 on the example data of `main` and the same data with the primaries'
luminances set to 0. -/
theorem set_tv_gamut_ignores_primary_luminance_witness :
    (∀ i : Fin 3, (gamut_meas i.castSucc).x = (dark_primaries_meas i.castSucc).x) ∧
    (∀ i : Fin 3, (gamut_meas i.castSucc).y = (dark_primaries_meas i.castSucc).y) ∧
    gamut_meas 3 = dark_primaries_meas 3 ∧
    (gamut_meas 0).Y ≠ (dark_primaries_meas 0).Y ∧
    set_tv_gamut gamut_meas = set_tv_gamut dark_primaries_meas := by
  have h2 : Fin.castSucc (2 : Fin 3) = (2 : Fin 4) := rfl
  have hx : ∀ i : Fin 3, (gamut_meas i.castSucc).x = (dark_primaries_meas i.castSucc).x := by
    intro i
    fin_cases i <;> simp [gamut_meas, dark_primaries_meas, h2]
  have hy : ∀ i : Fin 3, (gamut_meas i.castSucc).y = (dark_primaries_meas i.castSucc).y := by
    intro i
    fin_cases i <;> simp [gamut_meas, dark_primaries_meas, h2]
  have hw : gamut_meas 3 = dark_primaries_meas 3 := by
    simp [gamut_meas, dark_primaries_meas]
  exact ⟨hx, hy, hw, by norm_num [gamut_meas, dark_primaries_meas],
    set_tv_gamut_ignores_primary_luminance gamut_meas dark_primaries_meas hx hy hw⟩

/-! ### Monotone tables -/

section GammaMonotone

theorem spec_entry_mono (v1 v2 : ℝ) (h : v1 ≤ v2) : spec_entry v1 ≤ spec_entry v2 := by
  rw [← double_to_int_clamp, ← double_to_int_clamp,
    double_to_int_of_nonneg (le_max_left _ _), double_to_int_of_nonneg (le_max_left _ _)]
  exact Int.floor_le_floor (max_le_max (le_refl _) (min_le_min (le_refl _) h))

theorem steps_le_of_le (steps : Fin 11 → Measurement ℝ)
    (hmono : ∀ j : Fin 10, (steps j.castSucc).Y ≤ (steps j.succ).Y) (b : Fin 11) :
    ∀ a : Fin 11, a ≤ b → (steps a).Y ≤ (steps b).Y := by
  induction b using Fin.induction with
  | zero =>
    intro a ha
    have : a = 0 := Fin.le_zero_iff.mp ha
    rw [this]
  | succ j ih =>
    intro a ha
    rcases ha.lt_or_eq with hlt | heq
    · exact le_trans (ih a (Fin.le_castSucc_iff.mpr hlt)) (hmono j)
    · rw [heq]

/-- A target between the first and the last sample lies in some segment. -/
theorem exists_qualifying_segment (steps : Fin 11 → Measurement ℝ) (t : ℝ)
    (h0 : (steps 0).Y ≤ t) (h10 : t ≤ (steps 10).Y) : ∃ j, spec_qualifies steps t j := by
  by_contra hno
  have hall : ∀ j : Fin 11, (steps j).Y ≤ t ∧ (j ≠ 0 → (steps j).Y < t) := by
    intro j
    induction j using Fin.induction with
    | zero => exact ⟨h0, fun h => absurd rfl h⟩
    | succ j ih =>
      have hlt : (steps j.succ).Y < t := by
        by_contra hge
        exact hno ⟨j, ih.1, not_lt.mp hge⟩
      exact ⟨hlt.le, fun _ => hlt⟩
  have h := (hall 10).2 (by decide)
  exact absurd h10 (not_le.mpr h)

/-- On a segment with increasing end points that contains the target, the
interpolated value lies between the ends `x0` and `x1` of the segment. -/
theorem spec_v_of_qualifies (steps : Fin 11 → Measurement ℝ) (t : ℝ) (s : Fin 10)
    (hgap : (steps s.castSucc).Y + 1e-9 ≤ (steps s.succ).Y) (hq : spec_qualifies steps t s) :
    spec_v steps s t = 25.5 * ((s : Nat) : ℝ) +
        (t - (steps s.castSucc).Y) * 25.5 / ((steps s.succ).Y - (steps s.castSucc).Y) ∧
    25.5 * ((s : Nat) : ℝ) ≤ spec_v steps s t ∧
    spec_v steps s t ≤ 25.5 * (((s : Nat) : ℝ) + 1) := by
  have hd : (1e-9 : ℝ) ≤ (steps s.succ).Y - (steps s.castSucc).Y := by linarith only [hgap]
  have hpos : 0 < (steps s.succ).Y - (steps s.castSucc).Y :=
    lt_of_lt_of_le (by norm_num) hd
  have hnf : ¬ |(steps s.succ).Y - (steps s.castSucc).Y| < 1e-9 :=
    not_lt.mpr (le_trans hd (le_abs_self _))
  have hv : spec_v steps s t = 25.5 * ((s : Nat) : ℝ) +
      (t - (steps s.castSucc).Y) * 25.5 / ((steps s.succ).Y - (steps s.castSucc).Y) := by
    unfold spec_v
    rw [if_neg hnf]
    congr 2
    ring
  have hq0 : 0 ≤ (t - (steps s.castSucc).Y) * 25.5 /
      ((steps s.succ).Y - (steps s.castSucc).Y) :=
    div_nonneg (mul_nonneg (sub_nonneg.mpr hq.1) (by norm_num)) hpos.le
  have hq1 : (t - (steps s.castSucc).Y) * 25.5 /
      ((steps s.succ).Y - (steps s.castSucc).Y) ≤ 25.5 := by
    rw [div_le_iff₀ hpos]
    have := hq.2
    nlinarith
  refine ⟨hv, ?_, ?_⟩
  · rw [hv]; linarith only [hq0]
  · rw [hv]; linarith only [hq1]

/-- For increasing samples the interpolated value, taken on the segment the
search finds, is a non-decreasing function of the target luminance, as far
as the stored entry is concerned. -/
theorem spec_entry_find_seg_mono (steps : Fin 11 → Measurement ℝ)
    (hinc : ∀ j : Fin 10, (steps j.castSucc).Y + 1e-9 ≤ (steps j.succ).Y) (t1 t2 : ℝ)
    (h12 : t1 ≤ t2) (h2 : t2 ≤ (steps 10).Y) :
    spec_entry (spec_v steps (gamma_find_seg steps t1) t1) ≤
      spec_entry (spec_v steps (gamma_find_seg steps t2) t2) := by
  have hmono : ∀ j : Fin 10, (steps j.castSucc).Y ≤ (steps j.succ).Y := by
    intro j
    have := hinc j
    have h9 : (0 : ℝ) < 1e-9 := by norm_num
    linarith only [this, h9]
  by_cases h1 : (steps 0).Y ≤ t1
  · obtain ⟨j1, hj1⟩ := exists_qualifying_segment steps t1 h1 (le_trans h12 h2)
    obtain ⟨j2, hj2⟩ := exists_qualifying_segment steps t2 (le_trans h1 h12) h2
    obtain ⟨hq1, hmin1⟩ := gamma_find_seg_first steps t1 j1 hj1
    obtain ⟨hq2, -⟩ := gamma_find_seg_first steps t2 j2 hj2
    generalize gamma_find_seg steps t1 = s1 at hq1 hmin1 ⊢
    generalize gamma_find_seg steps t2 = s2 at hq2 ⊢
    obtain ⟨hv1, -, hu1⟩ := spec_v_of_qualifies steps t1 s1 (hinc s1) hq1
    obtain ⟨hv2, hl2, -⟩ := spec_v_of_qualifies steps t2 s2 (hinc s2) hq2
    apply spec_entry_mono
    have hle : s1 ≤ s2 := by
      by_contra hnot
      have hlt : s2 < s1 := not_le.mp hnot
      have hidx : s2.succ ≤ s1.castSucc := by
        rw [Fin.le_def]
        have := Fin.lt_def.mp hlt
        simp only [Fin.val_succ, Fin.coe_castSucc]
        omega
      have hY := steps_le_of_le steps hmono s1.castSucc s2.succ hidx
      have ht : t1 = (steps s2.succ).Y :=
        le_antisymm (le_trans h12 hq2.2) (le_trans hY hq1.1)
      refine hmin1 s2 hlt ⟨?_, ?_⟩
      · rw [ht]; exact hmono s2
      · rw [ht]
    rcases hle.lt_or_eq with hlt | heq
    · have hn : (s1 : Nat) + 1 ≤ (s2 : Nat) := Fin.lt_def.mp hlt
      have hr : ((s1 : Nat) : ℝ) + 1 ≤ ((s2 : Nat) : ℝ) := by exact_mod_cast hn
      linarith only [hu1, hl2, hr]
    · subst heq
      rw [hv1, hv2]
      have hpos : 0 < (steps s1.succ).Y - (steps s1.castSucc).Y := by
        have := hinc s1
        have h9 : (0 : ℝ) < 1e-9 := by norm_num
        linarith only [this, h9]
      have : (t1 - (steps s1.castSucc).Y) * 25.5 / ((steps s1.succ).Y - (steps s1.castSucc).Y) ≤
          (t2 - (steps s1.castSucc).Y) * 25.5 / ((steps s1.succ).Y - (steps s1.castSucc).Y) := by
        apply div_le_div_of_nonneg_right _ hpos.le
        linarith only [h12]
      linarith only [this]
  · have hlt : t1 < (steps 0).Y := not_le.mp h1
    have hseg : gamma_find_seg steps t1 = 0 := by
      refine gamma_find_seg_default steps t1 fun j hj => ?_
      have := steps_le_of_le steps hmono j.castSucc 0 (Fin.zero_le _)
      exact absurd (lt_of_lt_of_le hlt (le_trans this hj.1)) (lt_irrefl _)
    rw [hseg]
    refine le_trans (spec_entry_le _ 0 ?_) (by exact_mod_cast (spec_entry_bounds _).1)
    have hpos : 0 < (steps (0 : Fin 10).succ).Y - (steps (0 : Fin 10).castSucc).Y := by
      have := hinc 0
      have h9 : (0 : ℝ) < 1e-9 := by norm_num
      linarith only [this, h9]
    have hnf : ¬ |(steps (0 : Fin 10).succ).Y - (steps (0 : Fin 10).castSucc).Y| < 1e-9 := by
      have := hinc 0
      exact not_lt.mpr (le_trans (by linarith only [this]) (le_abs_self _))
    unfold spec_v
    rw [if_neg hnf]
    have hy0 : t1 - (steps (0 : Fin 10).castSucc).Y ≤ 0 := by
      have : (steps (0 : Fin 10).castSucc).Y = (steps 0).Y := rfl
      linarith only [hlt, this]
    have hq : (t1 - (steps (0 : Fin 10).castSucc).Y) *
        (25.5 * ((((0 : Fin 10) : Nat) : ℝ) + 1) - 25.5 * (((0 : Fin 10) : Nat) : ℝ)) /
        ((steps (0 : Fin 10).succ).Y - (steps (0 : Fin 10).castSucc).Y) ≤ 0 := by
      refine div_nonpos_of_nonpos_of_nonneg (mul_nonpos_of_nonpos_of_nonneg hy0 ?_) hpos.le
      norm_num
    have hx : (25.5 : ℝ) * (((0 : Fin 10) : Nat) : ℝ) = 0 := by norm_num
    rw [Nat.cast_zero]
    linarith only [hq, hx]

/-- C38: for every 11-sample input whose luminances increase by at least
`1e-9` from each sample to the next and start at `samples[0].Y >= 0`, the
table produced by `set_tv_gamma` is non-decreasing: `table[i] <= table[i+1]`
for every `i` in `0..254`. -/
theorem set_tv_gamma_monotone (steps : Fin 11 → Measurement ℝ) (i : Fin 255)
    (h0 : 0 ≤ (steps 0).Y)
    (hinc : ∀ j : Fin 10, (steps j.castSucc).Y + 1e-9 ≤ (steps j.succ).Y) :
    (set_tv_gamma (fun x y : ℝ => x ^ y) steps).entries i.castSucc ≤
      (set_tv_gamma (fun x y : ℝ => x ^ y) steps).entries i.succ := by
  show gamma_entry _ steps ((i : Nat)) ≤ gamma_entry _ steps ((i : Nat) + 1)
  rw [gamma_entry_eq_spec, gamma_entry_eq_spec]
  have hmono : ∀ j : Fin 10, (steps j.castSucc).Y ≤ (steps j.succ).Y := by
    intro j
    have := hinc j
    have h9 : (0 : ℝ) < 1e-9 := by norm_num
    linarith only [this, h9]
  have h10 : 0 ≤ (steps 10).Y := le_trans h0 (steps_le_of_le steps hmono 10 0 (Fin.zero_le _))
  have hi : ((i : Nat) : ℝ) + 1 ≤ 255 := by
    have := i.isLt
    have h : (i : Nat) + 1 ≤ 255 := this
    exact_mod_cast h
  have hp : (((i : Nat) : ℝ) / 255) ^ (2.2 : ℝ) ≤ ((((i : Nat) + 1 : Nat) : ℝ) / 255) ^ (2.2 : ℝ) := by
    apply Real.rpow_le_rpow (by positivity) _ (by norm_num)
    push_cast
    apply div_le_div_of_nonneg_right _ (by norm_num)
    linarith only []
  have hp1 : ((((i : Nat) + 1 : Nat) : ℝ) / 255) ^ (2.2 : ℝ) ≤ 1 := by
    apply Real.rpow_le_one (by positivity) _ (by norm_num)
    push_cast
    rw [div_le_one (by norm_num)]
    exact hi
  apply spec_entry_find_seg_mono steps hinc
  · unfold spec_tY
    exact mul_le_mul_of_nonneg_right hp h10
  · unfold spec_tY
    calc ((((i : Nat) + 1 : Nat) : ℝ) / 255) ^ (2.2 : ℝ) * (steps 10).Y
        ≤ 1 * (steps 10).Y := mul_le_mul_of_nonneg_right hp1 h10
      _ = (steps 10).Y := one_mul _

/-- The ideal ramp increases by at least `1e-9` from each sample to the
next. -/
theorem gamma_meas_increasing (j : Fin 10) :
    (gamma_meas (fun x y : ℝ => x ^ y) j.castSucc).Y + 1e-9 ≤
      (gamma_meas (fun x y : ℝ => x ^ y) j.succ).Y := by
  obtain ⟨c, -, hgap, -, -⟩ := gamma_meas_segment_data j j.isLt
  rw [gamma_meas_Y, gamma_meas_Y]
  simp only [Fin.coe_castSucc, Fin.val_succ, Nat.cast_add, Nat.cast_one]
  linarith only [hgap]

/-- C38 on the ideal ramp of `main`, at `i = 128`. -/
theorem set_tv_gamma_monotone_witness :
    0 ≤ (gamma_meas (fun x y : ℝ => x ^ y) 0).Y ∧
    (∀ j : Fin 10, (gamma_meas (fun x y : ℝ => x ^ y) j.castSucc).Y + 1e-9 ≤
      (gamma_meas (fun x y : ℝ => x ^ y) j.succ).Y) ∧
    (set_tv_gamma (fun x y : ℝ => x ^ y) (gamma_meas (fun x y : ℝ => x ^ y))).entries
        (Fin.castSucc (128 : Fin 255)) ≤
      (set_tv_gamma (fun x y : ℝ => x ^ y) (gamma_meas (fun x y : ℝ => x ^ y))).entries
        (Fin.succ (128 : Fin 255)) :=
  ⟨gamma_meas_nonneg, gamma_meas_increasing,
    set_tv_gamma_monotone _ 128 gamma_meas_nonneg gamma_meas_increasing⟩

end GammaMonotone

end TVCalibration

/-!
# Closed-loop calibrator: theorems
-/

namespace Calibration

section Double

variable {α : Type} [LinearOrderedField α] [FloorRing α]

/-! ## Gains stay in range -/

theorem clamp_gain_range (g : Int) : 0 ≤ clamp_gain g ∧ clamp_gain g ≤ 192 := by
  unfold clamp_gain
  split_ifs <;> omega

omit [FloorRing α] in
theorem init_state_in_range (tx ty : α) (r g b : Int) :
    gains_in_range (init_state tx ty r g b) := by
  intro k
  fin_cases k <;> simp [init_state, clamp_gain_range]

/-- A call of `Calibrator_check_sensitivity` through a valid pointer changes
at most `r_sens` and `g_sens`. -/
theorem check_sensitivity_frame
    (measure : Int → Bench → Option (CalibratedColorValue α) × Bench) (c : Calibrator α)
    (fd : Int) (e : Bench) :
    ∃ c2, (Calibrator_check_sensitivity measure (some c) fd e).2.1 = some c2 ∧
      c2.current_gain = c.current_gain ∧ c2.best_gain = c.best_gain ∧
      c2.min_dist = c.min_dist ∧ c2.target_x = c.target_x ∧ c2.target_y = c.target_y := by
  unfold Calibrator_check_sensitivity
  dsimp only
  split_ifs
  · exact ⟨c, rfl, rfl, rfl, rfl, rfl, rfl⟩
  · split
    · exact ⟨c, rfl, rfl, rfl, rfl, rfl, rfl⟩
    · split
      · exact ⟨c, rfl, rfl, rfl, rfl, rfl, rfl⟩
      · split
        · exact ⟨_, rfl, rfl, rfl, rfl, rfl, rfl⟩
        · split_ifs
          · exact ⟨_, rfl, rfl, rfl, rfl, rfl, rfl⟩
          · exact ⟨_, rfl, rfl, rfl, rfl, rfl, rfl⟩

/-- A step whose measurement fails returns -1 and leaves the record as it
was. -/
theorem step_of_failed_measurement
    (measure : Int → Bench → Option (CalibratedColorValue α) × Bench) (sqrt : α → α)
    (c : Calibrator α) (fd i : Int) (e : Bench)
    (h : (measure fd (Calibrator_set_tv_gain (c.current_gain 0) (c.current_gain 1)
      (c.current_gain 2) e)).1 = none) :
    Calibrator_perform_calibration_step measure sqrt (some c) fd i e =
      (-1, some c, (measure fd (Calibrator_set_tv_gain (c.current_gain 0) (c.current_gain 1)
        (c.current_gain 2) e)).2) := by
  unfold Calibrator_perform_calibration_step
  dsimp only
  generalize measure fd (Calibrator_set_tv_gain (c.current_gain 0) (c.current_gain 1)
    (c.current_gain 2) e) = p at h
  obtain ⟨m, e2⟩ := p
  cases m with
  | none => rfl
  | some m => exact absurd h (by simp)

/-- A step whose measurement succeeds returns 0 and updates the record. -/
theorem step_of_measurement
    (measure : Int → Bench → Option (CalibratedColorValue α) × Bench) (sqrt : α → α)
    (c : Calibrator α) (fd i : Int) (e : Bench) (m : CalibratedColorValue α)
    (h : (measure fd (Calibrator_set_tv_gain (c.current_gain 0) (c.current_gain 1)
      (c.current_gain 2) e)).1 = some m) :
    (Calibrator_perform_calibration_step measure sqrt (some c) fd i e).1 = 0 ∧
    (Calibrator_perform_calibration_step measure sqrt (some c) fd i e).2.1 =
      some (calibration_update sqrt c m) := by
  unfold Calibrator_perform_calibration_step
  dsimp only
  generalize measure fd (Calibrator_set_tv_gain (c.current_gain 0) (c.current_gain 1)
    (c.current_gain 2) e) = p at h
  obtain ⟨m2, e2⟩ := p
  cases m2 with
  | none => exact absurd h (by simp)
  | some m2 =>
    have hm : m2 = m := by simpa using h
    subst hm
    exact ⟨rfl, rfl⟩

theorem step_new_gain_range (sqrt : α → α) (c : Calibrator α) (m : CalibratedColorValue α)
    (hc : gains_in_range c) (k : Fin 3) :
    0 ≤ step_new_gain sqrt c m k ∧ step_new_gain sqrt c m k ≤ 192 := by
  unfold step_new_gain
  fin_cases k
  · exact clamp_gain_range _
  · exact clamp_gain_range _
  · show 0 ≤ (if step_dist sqrt c m > 0.01 then _ else _) ∧
      (if step_dist sqrt c m > 0.01 then _ else _) ≤ 192
    split_ifs
    · exact clamp_gain_range _
    · exact (hc 2).1

theorem calibration_update_in_range (sqrt : α → α) (c : Calibrator α)
    (m : CalibratedColorValue α) (hc : gains_in_range c) :
    gains_in_range (calibration_update sqrt c m) := by
  intro k
  refine ⟨step_new_gain_range sqrt c m hc k, ?_⟩
  show 0 ≤ (step_record_best sqrt c m).best_gain k ∧ (step_record_best sqrt c m).best_gain k ≤ 192
  unfold step_record_best
  split_ifs
  · exact (hc k).1
  · exact (hc k).2

theorem cal_call_in_range (measure : Int → Bench → Option (CalibratedColorValue α) × Bench)
    (sqrt : α → α) (call : CalCall) (c : Calibrator α) (e : Bench) (hc : gains_in_range c) :
    ∃ c2, (cal_call measure sqrt (some c, e) call).1 = some c2 ∧ gains_in_range c2 := by
  cases call with
  | check_sensitivity fd =>
    obtain ⟨c2, h, hg, hb, -⟩ := check_sensitivity_frame measure c fd e
    refine ⟨c2, h, fun k => ?_⟩
    rw [hg, hb]
    exact hc k
  | calibration_step fd n =>
    show ∃ c2, (Calibrator_perform_calibration_step measure sqrt (some c) fd n e).2.1 = some c2 ∧ _
    cases hm : (measure fd (Calibrator_set_tv_gain (c.current_gain 0) (c.current_gain 1)
      (c.current_gain 2) e)).1 with
    | none =>
      rw [step_of_failed_measurement measure sqrt c fd n e hm]
      exact ⟨c, rfl, hc⟩
    | some m =>
      exact ⟨_, (step_of_measurement measure sqrt c fd n e m hm).2,
        calibration_update_in_range sqrt c m hc⟩

/-- C26: after `Calibrator_init` with any integer initial gains, followed by
any sequence of `Calibrator_check_sensitivity` and
`Calibrator_perform_calibration_step` calls with an arbitrary measurement
function, every channel of the current gain and of the best gain lies in
`[0, 192]`. -/
theorem gains_always_in_range (measure : Int → Bench → Option (CalibratedColorValue α) × Bench)
    (sqrt : α → α) (cal : Calibrator α) (target_x target_y : α) (r g b : Int)
    (calls : List CalCall) (e : Bench) :
    ∃ c, (cal_calls measure sqrt calls
        (Calibrator_init (some cal) target_x target_y r g b, e)).1 = some c ∧
      gains_in_range c := by
  have key : ∀ (calls : List CalCall) (c : Calibrator α) (e : Bench), gains_in_range c →
      ∃ c2, (cal_calls measure sqrt calls (some c, e)).1 = some c2 ∧ gains_in_range c2 := by
    intro calls
    induction calls with
    | nil => intro c e hc; exact ⟨c, rfl, hc⟩
    | cons call rest ih =>
      intro c e hc
      obtain ⟨c2, h2, hc2⟩ := cal_call_in_range measure sqrt call c e hc
      have hs : cal_call measure sqrt (some c, e) call =
          (some c2, (cal_call measure sqrt (some c, e) call).2) := by
        rw [← h2]
      show ∃ c3, (List.foldl (cal_call measure sqrt)
        (cal_call measure sqrt (some c, e) call) rest).1 = some c3 ∧ _
      rw [hs]
      exact ih c2 _ hc2
  exact key calls _ e (init_state_in_range target_x target_y r g b)

/-! ## A failed measurement ends the session -/

/-- C29: if the measurement inside `Calibrator_perform_calibration_step`
fails, the step returns -1 with every field of the record unchanged, and the
session loop stops there: it returns the record as it was and the world as
the failed measurement left it. -/
theorem failed_measurement_ends_session
    (measure : Int → Bench → Option (CalibratedColorValue α) × Bench) (sqrt : α → α)
    (c : Calibrator α) (fd i : Int) (e : Bench)
    (h : (measure fd (Calibrator_set_tv_gain (c.current_gain 0) (c.current_gain 1)
      (c.current_gain 2) e)).1 = none) :
    Calibrator_perform_calibration_step measure sqrt (some c) fd i e =
      (-1, some c, (measure fd (Calibrator_set_tv_gain (c.current_gain 0) (c.current_gain 1)
        (c.current_gain 2) e)).2) ∧
    ∀ r : Nat, calibration_loop measure sqrt fd (r + 1) i c e =
      (c, (measure fd (Calibrator_set_tv_gain (c.current_gain 0) (c.current_gain 1)
        (c.current_gain 2) e)).2) := by
  have hs := step_of_failed_measurement measure sqrt c fd i e h
  refine ⟨hs, fun r => ?_⟩
  unfold calibration_loop
  rw [hs]
  simp

end Double

section Double

variable {α : Type} [LinearOrderedField α] [FloorRing α]

/-! ## The best distance is the running minimum -/

theorem calibration_update_min_dist (sqrt : α → α) (c : Calibrator α)
    (m : CalibratedColorValue α) :
    ((↑(step_dist sqrt c m) : WithTop α) < c.min_dist ∧
      (calibration_update sqrt c m).min_dist = ↑(step_dist sqrt c m) ∧
      (calibration_update sqrt c m).best_gain = c.current_gain) ∨
    (¬ (↑(step_dist sqrt c m) : WithTop α) < c.min_dist ∧
      (calibration_update sqrt c m).min_dist = c.min_dist ∧
      (calibration_update sqrt c m).best_gain = c.best_gain) := by
  by_cases h : (↑(step_dist sqrt c m) : WithTop α) < c.min_dist
  · left
    refine ⟨h, ?_, ?_⟩
    · show (step_record_best sqrt c m).min_dist = _
      unfold step_record_best
      rw [if_pos h]
    · show (step_record_best sqrt c m).best_gain = _
      unfold step_record_best
      rw [if_pos h]
  · right
    refine ⟨h, ?_, ?_⟩
    · show (step_record_best sqrt c m).min_dist = _
      unfold step_record_best
      rw [if_neg h]
    · show (step_record_best sqrt c m).best_gain = _
      unfold step_record_best
      rw [if_neg h]

theorem calibration_update_min_dist_le (sqrt : α → α) (c : Calibrator α)
    (m : CalibratedColorValue α) :
    (calibration_update sqrt c m).min_dist ≤ c.min_dist ∧
      (calibration_update sqrt c m).min_dist ≤ ↑(step_dist sqrt c m) := by
  rcases calibration_update_min_dist sqrt c m with ⟨h, hm, -⟩ | ⟨h, hm, -⟩
  · rw [hm]; exact ⟨le_of_lt h, le_refl _⟩
  · rw [hm]; exact ⟨le_refl _, not_lt.mp h⟩

/-- One more successful step: the record before it, the measurement taken
and the record after it. -/
theorem run_steps_succ (measure : Int → Bench → Option (CalibratedColorValue α) × Bench)
    (sqrt : α → α) (fd : Int) (c0 : Calibrator α) (e0 : Bench) (n : Nat) (c2 : Calibrator α)
    (e2 : Bench) (h : run_steps measure sqrt fd c0 e0 (n + 1) = some (c2, e2)) :
    ∃ c e m, run_steps measure sqrt fd c0 e0 n = some (c, e) ∧
      measured_dist measure sqrt fd c e = some (step_dist sqrt c m) ∧
      c2 = calibration_update sqrt c m := by
  rw [run_steps] at h
  cases hr : run_steps measure sqrt fd c0 e0 n with
  | none => rw [hr] at h; exact absurd h (by simp)
  | some p =>
    obtain ⟨c, e⟩ := p
    rw [hr] at h
    dsimp only at h
    cases hm : (measure fd (Calibrator_set_tv_gain (c.current_gain 0) (c.current_gain 1)
      (c.current_gain 2) e)).1 with
    | none =>
      rw [step_of_failed_measurement measure sqrt c fd _ e hm] at h
      exact absurd h (by simp)
    | some m =>
      obtain ⟨h1, h2⟩ := step_of_measurement measure sqrt c fd ((n : Int) + 1) e m hm
      refine ⟨c, e, m, rfl, ?_, ?_⟩
      · unfold measured_dist
        rw [hm]
        rfl
      · generalize Calibrator_perform_calibration_step measure sqrt (some c) fd
          ((n : Int) + 1) e = q at h h1 h2
        obtain ⟨rc, oc, e3⟩ := q
        dsimp only at h1 h2
        subst h1 h2
        simp at h
        exact h.1.symm

/-- C27: after `Calibrator_init` and `n >= 1` successful steps, `min_dist` is
the distance `d k` measured by one of the steps, no step measured a smaller
distance and no earlier step measured the same one, `best_gain` is the gain
triple that was in effect at that step, and `min_dist` never increases from
one step to the next. -/
theorem min_dist_is_running_minimum
    (measure : Int → Bench → Option (CalibratedColorValue α) × Bench) (sqrt : α → α)
    (fd : Int) (target_x target_y : α) (r g b : Int) (e0 : Bench) (n : Nat)
    (cn : Calibrator α) (en : Bench) (hn : 1 ≤ n)
    (hrun : run_steps measure sqrt fd (init_state target_x target_y r g b) e0 n = some (cn, en)) :
    (∃ k ck ek dk, k < n ∧
      run_steps measure sqrt fd (init_state target_x target_y r g b) e0 k = some (ck, ek) ∧
      measured_dist measure sqrt fd ck ek = some dk ∧
      cn.min_dist = ↑dk ∧ cn.best_gain = ck.current_gain ∧
      ∀ j cj ej dj, j < n →
        run_steps measure sqrt fd (init_state target_x target_y r g b) e0 j = some (cj, ej) →
        measured_dist measure sqrt fd cj ej = some dj → dk ≤ dj ∧ (j < k → dk < dj)) ∧
    (∀ j cj ej cj2 ej2, j < n →
      run_steps measure sqrt fd (init_state target_x target_y r g b) e0 j = some (cj, ej) →
      run_steps measure sqrt fd (init_state target_x target_y r g b) e0 (j + 1) = some (cj2, ej2) →
      cj2.min_dist ≤ cj.min_dist) := by
  constructor
  · have key : ∀ (n : Nat) (cn : Calibrator α) (en : Bench),
        run_steps measure sqrt fd (init_state target_x target_y r g b) e0 n = some (cn, en) →
        (n = 0 ∧ cn.min_dist = ⊤) ∨
        ∃ k ck ek dk, k < n ∧
          run_steps measure sqrt fd (init_state target_x target_y r g b) e0 k = some (ck, ek) ∧
          measured_dist measure sqrt fd ck ek = some dk ∧
          cn.min_dist = ↑dk ∧ cn.best_gain = ck.current_gain ∧
          ∀ j cj ej dj, j < n →
            run_steps measure sqrt fd (init_state target_x target_y r g b) e0 j = some (cj, ej) →
            measured_dist measure sqrt fd cj ej = some dj → dk ≤ dj ∧ (j < k → dk < dj) := by
      intro n
      induction n with
      | zero =>
        intro cn en h
        left
        rw [run_steps] at h
        simp only [Option.some.injEq, Prod.mk.injEq] at h
        rw [← h.1]
        exact ⟨rfl, rfl⟩
      | succ n ih =>
        intro c2 e2 h
        right
        obtain ⟨c, e, m, hr, hd, hc2⟩ := run_steps_succ measure sqrt fd _ e0 n c2 e2 h
        rcases calibration_update_min_dist sqrt c m with ⟨hlt, hmin, hbest⟩ | ⟨hge, hmin, hbest⟩
        · refine ⟨n, c, e, step_dist sqrt c m, Nat.lt_succ_self n, hr, hd, ?_, ?_, ?_⟩
          · rw [hc2, hmin]
          · rw [hc2, hbest]
          · intro j cj ej dj hj hrj hdj
            rcases Nat.lt_succ_iff_lt_or_eq.mp hj with hjn | hjn
            · rcases ih c e hr with ⟨h0, -⟩ | ⟨k, ck, ek, dk, hk, hrk, hdk, hmk, -, hall⟩
              · omega
              · have h1 := (hall j cj ej dj hjn hrj hdj).1
                rw [hmk] at hlt
                have h2 : step_dist sqrt c m < dk := WithTop.coe_lt_coe.mp hlt
                exact ⟨le_of_lt (lt_of_lt_of_le h2 h1), fun _ => lt_of_lt_of_le h2 h1⟩
            · subst hjn
              rw [hr] at hrj
              simp only [Option.some.injEq, Prod.mk.injEq] at hrj
              rw [← hrj.1, ← hrj.2, hd] at hdj
              simp only [Option.some.injEq] at hdj
              rw [← hdj]
              exact ⟨le_refl _, fun hlt2 => absurd hlt2 (lt_irrefl _)⟩
        · rcases ih c e hr with ⟨-, htop⟩ | ⟨k, ck, ek, dk, hk, hrk, hdk, hmk, hbk, hall⟩
          · rw [htop] at hge
            exact absurd (WithTop.coe_lt_top _) hge
          · refine ⟨k, ck, ek, dk, Nat.lt_succ_of_lt hk, hrk, hdk, ?_, ?_, ?_⟩
            · rw [hc2, hmin, hmk]
            · rw [hc2, hbest, hbk]
            · intro j cj ej dj hj hrj hdj
              rcases Nat.lt_succ_iff_lt_or_eq.mp hj with hjn | hjn
              · exact hall j cj ej dj hjn hrj hdj
              · subst hjn
                rw [hr] at hrj
                simp only [Option.some.injEq, Prod.mk.injEq] at hrj
                rw [← hrj.1, ← hrj.2, hd] at hdj
                simp only [Option.some.injEq] at hdj
                rw [← hdj]
                rw [hmk] at hge
                have h2 : dk ≤ step_dist sqrt c m := not_lt.mp fun h3 =>
                  hge (WithTop.coe_lt_coe.mpr h3)
                exact ⟨h2, fun hlt2 => absurd hlt2 (by omega)⟩
    rcases key n cn en hrun with ⟨h0, -⟩ | h
    · omega
    · exact h
  · intro j cj ej cj2 ej2 _ hrj hrj2
    obtain ⟨c, e, m, hr, -, hc2⟩ := run_steps_succ measure sqrt fd _ e0 j cj2 ej2 hrj2
    rw [hrj] at hr
    simp only [Option.some.injEq, Prod.mk.injEq] at hr
    rw [hc2, ← hr.1]
    exact (calibration_update_min_dist_le sqrt cj m).1

end Double

/-- C29 on a sensor whose descriptor is not open: the measurement of the
first step fails, the step returns -1 and a 20-step session returns the
record it started from. -/
theorem failed_measurement_ends_session_witness :
    (i1d3_sensor (fun t : ℚ => t) 3
      (Calibrator_set_tv_gain ((init_state (0.3127 : ℚ) 0.3290 192 192 192).current_gain 0)
        ((init_state (0.3127 : ℚ) 0.3290 192 192 192).current_gain 1)
        ((init_state (0.3127 : ℚ) 0.3290 192 192 192).current_gain 2)
        (freshBench I1D3.closedWorld))).1 = none ∧
    (Calibrator_perform_calibration_step (i1d3_sensor (fun t : ℚ => t)) (fun t => t)
      (some (init_state (0.3127 : ℚ) 0.3290 192 192 192)) 3 1
      (freshBench I1D3.closedWorld)).1 = -1 ∧
    (calibration_loop (i1d3_sensor (fun t : ℚ => t)) (fun t => t) 3 20 1
      (init_state (0.3127 : ℚ) 0.3290 192 192 192) (freshBench I1D3.closedWorld)).1 =
      init_state (0.3127 : ℚ) 0.3290 192 192 192 := by
  have h : (i1d3_sensor (fun t : ℚ => t) 3
      (Calibrator_set_tv_gain ((init_state (0.3127 : ℚ) 0.3290 192 192 192).current_gain 0)
        ((init_state (0.3127 : ℚ) 0.3290 192 192 192).current_gain 1)
        ((init_state (0.3127 : ℚ) 0.3290 192 192 192).current_gain 2)
        (freshBench I1D3.closedWorld))).1 = none := rfl
  have hw := failed_measurement_ends_session (i1d3_sensor (fun t : ℚ => t)) (fun t => t)
    (init_state (0.3127 : ℚ) 0.3290 192 192 192) 3 1 (freshBench I1D3.closedWorld) h
  refine ⟨h, ?_, ?_⟩
  · rw [hw.1]
  · rw [hw.2 19]

/-- C27 on the mocked sensor over the reals, one step from the gains
`(192, 192, 192)`: the step succeeds and `min_dist` is the distance it
measured. -/
theorem min_dist_is_running_minimum_witness :
    ∃ cn en dk, 1 ≤ 1 ∧
      run_steps mock_sensor Real.sqrt 3 (init_state (0.3127 : ℝ) 0.3290 192 192 192)
        (freshBench I1D3.neutralWorld) 1 = some (cn, en) ∧
      measured_dist mock_sensor Real.sqrt 3 (init_state (0.3127 : ℝ) 0.3290 192 192 192)
        (freshBench I1D3.neutralWorld) = some dk ∧
      cn.min_dist = ↑dk := by
  have hrun : run_steps mock_sensor Real.sqrt 3 (init_state (0.3127 : ℝ) 0.3290 192 192 192)
      (freshBench I1D3.neutralWorld) 1 = some
        ((Calibrator_perform_calibration_step mock_sensor Real.sqrt
          (some (init_state (0.3127 : ℝ) 0.3290 192 192 192)) 3 1
          (freshBench I1D3.neutralWorld)).2.1.getD (init_state (0.3127 : ℝ) 0.3290 192 192 192),
         (Calibrator_perform_calibration_step mock_sensor Real.sqrt
          (some (init_state (0.3127 : ℝ) 0.3290 192 192 192)) 3 1
          (freshBench I1D3.neutralWorld)).2.2) := rfl
  obtain ⟨⟨k, ck, ek, dk, hk, hrk, hdk, hm, -⟩, -⟩ :=
    min_dist_is_running_minimum mock_sensor Real.sqrt 3 (0.3127 : ℝ) 0.3290 192 192 192
      (freshBench I1D3.neutralWorld) 1 _ _ (le_refl 1) hrun
  have hk0 : k = 0 := by omega
  subst hk0
  have h0 : ck = init_state (0.3127 : ℝ) 0.3290 192 192 192 ∧
      ek = freshBench I1D3.neutralWorld := by
    rw [run_steps] at hrk
    simp only [Option.some.injEq, Prod.mk.injEq] at hrk
    exact ⟨hrk.1.symm, hrk.2.symm⟩
  rw [h0.1, h0.2] at hdk
  exact ⟨_, _, dk, le_refl 1, hrun, hdk, hm⟩

/-! ## Convergence on the mocked sensor -/

section Mock

variable {α : Type} [LinearOrderedField α] [FloorRing α]

omit [FloorRing α] in
theorem mock_sensor_after_write (fd r g b : Int) (e : Bench) :
    (mock_sensor fd (Calibrator_set_tv_gain r g b e) :
        Option (CalibratedColorValue α) × Bench) =
      (some (mock_reading r g b), Calibrator_set_tv_gain r g b e) := by
  unfold mock_sensor Calibrator_set_tv_gain Bench.usleep
  simp

theorem mock_step (sqrt : α → α) (c : Calibrator α) (fd i : Int) (e : Bench) :
    (Calibrator_perform_calibration_step mock_sensor sqrt (some c) fd i e).1 = 0 ∧
    (Calibrator_perform_calibration_step mock_sensor sqrt (some c) fd i e).2.1 =
      some (mock_update sqrt c) :=
  step_of_measurement mock_sensor sqrt c fd i e _ (by rw [mock_sensor_after_write])

theorem mock_loop (sqrt : α → α) (fd : Int) (n : Nat) :
    ∀ (i : Int) (c : Calibrator α) (e : Bench),
      (calibration_loop mock_sensor sqrt fd n i c e).1 = (mock_update sqrt)^[n] c := by
  induction n with
  | zero => intro i c e; rfl
  | succ n ih =>
    intro i c e
    obtain ⟨h1, h2⟩ := mock_step sqrt c fd i e
    rw [calibration_loop, if_neg (by rw [h1]; simp), h2, Option.getD_some, ih,
      Function.iterate_succ_apply]

theorem mock_iterate_min_dist_le (sqrt : α → α) (n : Nat) :
    ∀ c : Calibrator α, ((mock_update sqrt)^[n] c).min_dist ≤ c.min_dist := by
  induction n with
  | zero => intro c; exact le_refl _
  | succ n ih =>
    intro c
    rw [Function.iterate_succ_apply]
    exact le_trans (ih _) (calibration_update_min_dist_le sqrt c _).1

theorem round_value_eq (v : α) (n : Int) (h : |v - (n : α)| < 1 / 2) : round_value v = n := by
  obtain ⟨h1, h2⟩ := abs_lt.mp h
  unfold round_value
  split_ifs
  · rw [Int.floor_eq_iff]
    constructor <;> linarith
  · rw [Int.ceil_eq_iff]
    constructor <;> linarith

theorem round_to_int_eq (v : α) (n : Int) (h : |v - (n : α)| < 1 / 2)
    (hn : INT_MIN ≤ n ∧ n ≤ INT_MAX) : round_to_int v = n := by
  unfold round_to_int
  rw [round_value_eq v n h, if_pos hn]

theorem int_add_eq (a b : Int) (h : INT_MIN ≤ a + b ∧ a + b ≤ INT_MAX) :
    int_add a b = a + b := by
  unfold INT_MIN INT_MAX at h
  unfold int_add
  omega

theorem calibration_update_frame (sqrt : α → α) (c : Calibrator α)
    (m : CalibratedColorValue α) :
    (calibration_update sqrt c m).target_x = c.target_x ∧
    (calibration_update sqrt c m).target_y = c.target_y ∧
    (calibration_update sqrt c m).r_sens = c.r_sens ∧
    (calibration_update sqrt c m).g_sens = c.g_sens ∧
    (calibration_update sqrt c m).current_gain = step_new_gain sqrt c m := by
  unfold calibration_update step_record_best
  split_ifs <;> exact ⟨rfl, rfl, rfl, rfl, rfl⟩

end Mock

section MockReal

theorem mock_step_dx (c : Calibrator ℝ) (a b d : Int) (h : tracked c a b d) :
    step_dx c (mock_reading (c.current_gain 0) (c.current_gain 1) (c.current_gain 2)) =
      0.3127 - (0.25 + (a : ℝ) * 0.0004 + (b : ℝ) * 0.0001 + (d : ℝ) * 0.00005) := by
  obtain ⟨htx, -, -, -, hg⟩ := h
  unfold step_dx
  rw [htx, hg]
  simp [mock_reading, get_color_value]

theorem mock_step_dy (c : Calibrator ℝ) (a b d : Int) (h : tracked c a b d) :
    step_dy c (mock_reading (c.current_gain 0) (c.current_gain 1) (c.current_gain 2)) =
      0.3290 - (0.23 + (a : ℝ) * 0.0001 + (b : ℝ) * 0.0005 + (d : ℝ) * 0.0001) := by
  obtain ⟨-, hty, -, -, hg⟩ := h
  unfold step_dy
  rw [hty, hg]
  simp [mock_reading, get_color_value]

/-- A step on the mocked sensor at a distance above 0.01: learning rate 0.8,
all three gains move. -/
theorem mock_update_far (c : Calibrator ℝ) (a b d na nb nd : Int) (dx dy : ℝ)
    (h : tracked c a b d)
    (hdx : 0.3127 - (0.25 + (a : ℝ) * 0.0004 + (b : ℝ) * 0.0001 + (d : ℝ) * 0.00005) = dx)
    (hdy : 0.3290 - (0.23 + (a : ℝ) * 0.0001 + (b : ℝ) * 0.0005 + (d : ℝ) * 0.0001) = dy)
    (hfar : 0.0001 < dx * dx + dy * dy)
    (ha : |dx / 0.0004 * 0.8 - (na : ℝ)| < 1 / 2)
    (hb : |dy / 0.0005 * 0.8 - (nb : ℝ)| < 1 / 2)
    (hd : |(dx + dy) * 40 - (nd : ℝ)| < 1 / 2)
    (hna : INT_MIN ≤ na ∧ na ≤ INT_MAX) (hnb : INT_MIN ≤ nb ∧ nb ≤ INT_MAX)
    (hnd : INT_MIN ≤ nd ∧ nd ≤ INT_MAX) :
    tracked (mock_update Real.sqrt c) (clamp_gain (int_add a na)) (clamp_gain (int_add b nb))
      (clamp_gain (int_add d nd)) := by
  have hsx := mock_step_dx c a b d h
  have hsy := mock_step_dy c a b d h
  rw [hdx] at hsx
  rw [hdy] at hsy
  obtain ⟨htx, hty, hrs, hgs, hg⟩ := h
  obtain ⟨f1, f2, f3, f4, f5⟩ := calibration_update_frame Real.sqrt c
    (mock_reading (c.current_gain 0) (c.current_gain 1) (c.current_gain 2))
  refine ⟨f1.trans htx, f2.trans hty, f3.trans hrs, f4.trans hgs, ?_⟩
  show (calibration_update Real.sqrt c _).current_gain = _
  rw [f5]
  have hdist : step_dist Real.sqrt c
      (mock_reading (c.current_gain 0) (c.current_gain 1) (c.current_gain 2)) =
      Real.sqrt (dx * dx + dy * dy) := by
    unfold step_dist
    rw [hsx, hsy]
  have h01 : (0.01 : ℝ) < Real.sqrt (dx * dx + dy * dy) := by
    rw [Real.lt_sqrt (by norm_num)]
    norm_num
    linarith only [hfar]
  have hlr : step_learning_rate Real.sqrt c
      (mock_reading (c.current_gain 0) (c.current_gain 1) (c.current_gain 2)) = 0.8 := by
    unfold step_learning_rate
    rw [hdist, if_pos (by linarith only [h01])]
  have hr : round_to_int (step_adj_r Real.sqrt c
      (mock_reading (c.current_gain 0) (c.current_gain 1) (c.current_gain 2))) = na := by
    unfold step_adj_r
    rw [hsx, hlr, hrs, if_pos (by norm_num)]
    exact round_to_int_eq _ _ ha hna
  have hgr : round_to_int (step_adj_g Real.sqrt c
      (mock_reading (c.current_gain 0) (c.current_gain 1) (c.current_gain 2))) = nb := by
    unfold step_adj_g
    rw [hsy, hlr, hgs, if_pos (by norm_num)]
    exact round_to_int_eq _ _ hb hnb
  unfold step_new_gain
  rw [hr, hgr, hdist, if_pos h01, hsx, hsy, round_to_int_eq _ _ hd hnd, hg]
  rfl

/-- A step on the mocked sensor at a distance of at most 0.005: learning rate
0.4, the blue gain stays. -/
theorem mock_update_near (c : Calibrator ℝ) (a b d na nb : Int) (dx dy : ℝ)
    (h : tracked c a b d)
    (hdx : 0.3127 - (0.25 + (a : ℝ) * 0.0004 + (b : ℝ) * 0.0001 + (d : ℝ) * 0.00005) = dx)
    (hdy : 0.3290 - (0.23 + (a : ℝ) * 0.0001 + (b : ℝ) * 0.0005 + (d : ℝ) * 0.0001) = dy)
    (hnear : dx * dx + dy * dy ≤ 0.000025)
    (ha : |dx / 0.0004 * 0.4 - (na : ℝ)| < 1 / 2)
    (hb : |dy / 0.0005 * 0.4 - (nb : ℝ)| < 1 / 2)
    (hna : INT_MIN ≤ na ∧ na ≤ INT_MAX) (hnb : INT_MIN ≤ nb ∧ nb ≤ INT_MAX) :
    tracked (mock_update Real.sqrt c) (clamp_gain (int_add a na)) (clamp_gain (int_add b nb))
      d := by
  have hsx := mock_step_dx c a b d h
  have hsy := mock_step_dy c a b d h
  rw [hdx] at hsx
  rw [hdy] at hsy
  obtain ⟨htx, hty, hrs, hgs, hg⟩ := h
  obtain ⟨f1, f2, f3, f4, f5⟩ := calibration_update_frame Real.sqrt c
    (mock_reading (c.current_gain 0) (c.current_gain 1) (c.current_gain 2))
  refine ⟨f1.trans htx, f2.trans hty, f3.trans hrs, f4.trans hgs, ?_⟩
  show (calibration_update Real.sqrt c _).current_gain = _
  rw [f5]
  have hdist : step_dist Real.sqrt c
      (mock_reading (c.current_gain 0) (c.current_gain 1) (c.current_gain 2)) =
      Real.sqrt (dx * dx + dy * dy) := by
    unfold step_dist
    rw [hsx, hsy]
  have h005 : Real.sqrt (dx * dx + dy * dy) ≤ 0.005 := by
    rw [Real.sqrt_le_left (by norm_num)]
    norm_num
    linarith only [hnear]
  have hlr : step_learning_rate Real.sqrt c
      (mock_reading (c.current_gain 0) (c.current_gain 1) (c.current_gain 2)) = 0.4 := by
    unfold step_learning_rate
    rw [hdist, if_neg (not_lt.mpr h005)]
  have hr : round_to_int (step_adj_r Real.sqrt c
      (mock_reading (c.current_gain 0) (c.current_gain 1) (c.current_gain 2))) = na := by
    unfold step_adj_r
    rw [hsx, hlr, hrs, if_pos (by norm_num)]
    exact round_to_int_eq _ _ ha hna
  have hgr : round_to_int (step_adj_g Real.sqrt c
      (mock_reading (c.current_gain 0) (c.current_gain 1) (c.current_gain 2))) = nb := by
    unfold step_adj_g
    rw [hsy, hlr, hgs, if_pos (by norm_num)]
    exact round_to_int_eq _ _ hb hnb
  unfold step_new_gain
  rw [hr, hgr, hdist, if_neg (not_lt.mpr (le_trans h005 (by norm_num))), hg]
  rfl

/-- The distance measured by a step on the mocked sensor bounds `min_dist`
after it. -/
theorem mock_update_min_dist_lt (c : Calibrator ℝ) (a b d : Int) (dx dy bound : ℝ)
    (h : tracked c a b d)
    (hdx : 0.3127 - (0.25 + (a : ℝ) * 0.0004 + (b : ℝ) * 0.0001 + (d : ℝ) * 0.00005) = dx)
    (hdy : 0.3290 - (0.23 + (a : ℝ) * 0.0001 + (b : ℝ) * 0.0005 + (d : ℝ) * 0.0001) = dy)
    (hb : 0 < bound) (hlt : dx * dx + dy * dy < bound ^ 2) :
    (mock_update Real.sqrt c).min_dist < (↑bound : WithTop ℝ) := by
  have hsx := mock_step_dx c a b d h
  have hsy := mock_step_dy c a b d h
  rw [hdx] at hsx
  rw [hdy] at hsy
  have hdist : step_dist Real.sqrt c
      (mock_reading (c.current_gain 0) (c.current_gain 1) (c.current_gain 2)) < bound := by
    unfold step_dist
    rw [hsx, hsy, Real.sqrt_lt' hb]
    exact hlt
  exact lt_of_le_of_lt (calibration_update_min_dist_le Real.sqrt c _).2
    (WithTop.coe_lt_coe.mpr hdist)

end MockReal

section Convergence

/-- The sensitivity probe on the mocked sensor from the gains
`(192, 192, 192)` succeeds and measures the sensitivities `0.0004` and
`0.0005`. -/
theorem mock_check_sensitivity (fd : Int) (hfd : 0 ≤ fd) (e : Bench) :
    (Calibrator_check_sensitivity mock_sensor
      (some (init_state (0.3127 : ℝ) 0.3290 192 192 192)) fd e).1 = 0 ∧
    ∃ c, (Calibrator_check_sensitivity mock_sensor
      (some (init_state (0.3127 : ℝ) 0.3290 192 192 192)) fd e).2.1 = some c ∧
      tracked c 192 192 192 := by
  have hx : |(mock_reading (clamp_gain (192 - 15)) 192 192 : CalibratedColorValue ℝ).x -
      (mock_reading 192 192 192 : CalibratedColorValue ℝ).x| / 15 = 0.0004 := by
    have hc : clamp_gain (192 - 15) = 177 := by decide
    rw [hc]
    simp only [mock_reading, get_color_value]
    rw [abs_of_nonpos (by norm_num)]
    norm_num
  have hy : |(mock_reading 192 (clamp_gain (192 - 15)) 192 : CalibratedColorValue ℝ).y -
      (mock_reading 192 192 192 : CalibratedColorValue ℝ).y| / 15 = 0.0005 := by
    have hc : clamp_gain (192 - 15) = 177 := by decide
    rw [hc]
    simp only [mock_reading, get_color_value]
    rw [abs_of_nonpos (by norm_num)]
    norm_num
  have hg : (init_state (0.3127 : ℝ) 0.3290 192 192 192).current_gain = ![192, 192, 192] := by
    simp [init_state, clamp_gain]
  have h0 : (init_state (0.3127 : ℝ) 0.3290 192 192 192).current_gain 0 = 192 := by rw [hg]; rfl
  have h1 : (init_state (0.3127 : ℝ) 0.3290 192 192 192).current_gain 1 = 192 := by rw [hg]; rfl
  have h2 : (init_state (0.3127 : ℝ) 0.3290 192 192 192).current_gain 2 = 192 := by rw [hg]; rfl
  unfold Calibrator_check_sensitivity
  simp only [if_neg (not_lt.mpr hfd), mock_sensor_after_write, h0, h1, h2, hx, hy]
  rw [if_neg (by norm_num)]
  exact ⟨rfl, _, rfl, rfl, rfl, rfl, rfl, hg⟩

/-- C28: with the noise-free mocked sensor, target `(0.3127, 0.3290)` and
initial gains `(192, 192, 192)`, one sensitivity probe followed by 20
calibration steps ends with `min_dist < 1e-3`. -/
theorem mock_session_converges (fd : Int) (hfd : 0 ≤ fd) (e : Bench) :
    (calibration_run mock_sensor Real.sqrt fd 20
      (init_state (0.3127 : ℝ) 0.3290 192 192 192) e).1.min_dist < (↑(1e-3 : ℝ) : WithTop ℝ) := by
  have hinit : Calibrator_init (some (init_state (0.3127 : ℝ) 0.3290 192 192 192)) 0.3127 0.3290
      ((init_state (0.3127 : ℝ) 0.3290 192 192 192).current_gain 0)
      ((init_state (0.3127 : ℝ) 0.3290 192 192 192).current_gain 1)
      ((init_state (0.3127 : ℝ) 0.3290 192 192 192).current_gain 2) =
      some (init_state (0.3127 : ℝ) 0.3290 192 192 192) := by
    simp [Calibrator_init, init_state, clamp_gain]
  obtain ⟨hrc, c0, hc0, t0⟩ := mock_check_sensitivity fd hfd e
  unfold calibration_run
  rw [hinit, if_neg (by rw [hrc]; simp), hc0, Option.getD_some, mock_loop]
  have t1 := mock_update_far c0 192 192 192 (-86) (-57) (-3) (-429 / 10000) (-177 / 5000) t0
    (by norm_num) (by norm_num) (by norm_num)
    (by rw [abs_lt]; constructor <;> norm_num)
    (by rw [abs_lt]; constructor <;> norm_num)
    (by rw [abs_lt]; constructor <;> norm_num)
    (by decide) (by decide) (by decide)
  have e1 : clamp_gain (int_add 192 (-86)) = 106 := by decide
  have e2 : clamp_gain (int_add 192 (-57)) = 135 := by decide
  have e3 : clamp_gain (int_add 192 (-3)) = 189 := by decide
  rw [e1, e2, e3] at t1
  have t2 := mock_update_near _ 106 135 189 (-3) 2 (-53 / 20000) (1 / 500) t1
    (by norm_num) (by norm_num) (by norm_num)
    (by rw [abs_lt]; constructor <;> norm_num)
    (by rw [abs_lt]; constructor <;> norm_num)
    (by decide) (by decide)
  have e4 : clamp_gain (int_add 106 (-3)) = 103 := by decide
  have e5 : clamp_gain (int_add 135 2) = 137 := by decide
  rw [e4, e5] at t2
  have t3 := mock_update_near _ 103 137 189 (-2) 1 (-33 / 20000) (13 / 10000) t2
    (by norm_num) (by norm_num) (by norm_num)
    (by rw [abs_lt]; constructor <;> norm_num)
    (by rw [abs_lt]; constructor <;> norm_num)
    (by decide) (by decide)
  have e6 : clamp_gain (int_add 103 (-2)) = 101 := by decide
  have e7 : clamp_gain (int_add 137 1) = 138 := by decide
  rw [e6, e7] at t3
  have t4 := mock_update_near _ 101 138 189 (-1) 1 (-19 / 20000) (1 / 1000) t3
    (by norm_num) (by norm_num) (by norm_num)
    (by rw [abs_lt]; constructor <;> norm_num)
    (by rw [abs_lt]; constructor <;> norm_num)
    (by decide) (by decide)
  have e8 : clamp_gain (int_add 101 (-1)) = 100 := by decide
  have e9 : clamp_gain (int_add 138 1) = 139 := by decide
  rw [e8, e9] at t4
  have t5 := mock_update_min_dist_lt _ 100 139 189 (-13 / 20000) (3 / 5000) 1e-3 t4
    (by norm_num) (by norm_num) (by norm_num) (by norm_num)
  have hsplit : (mock_update Real.sqrt)^[20] c0 =
      (mock_update Real.sqrt)^[15] (mock_update Real.sqrt (mock_update Real.sqrt
        (mock_update Real.sqrt (mock_update Real.sqrt (mock_update Real.sqrt c0))))) := rfl
  rw [hsplit]
  exact lt_of_le_of_lt (mock_iterate_min_dist_le Real.sqrt 15 _) t5

/-- C28 on descriptor 3 and a fresh bench. -/
theorem mock_session_converges_witness :
    (0 : Int) ≤ 3 ∧
    (calibration_run mock_sensor Real.sqrt 3 20
      (init_state (0.3127 : ℝ) 0.3290 192 192 192)
      (freshBench I1D3.neutralWorld)).1.min_dist < (↑(1e-3 : ℝ) : WithTop ℝ) :=
  ⟨by decide, mock_session_converges 3 (by decide) (freshBench I1D3.neutralWorld)⟩

end Convergence

/-! ## The sensitivity probe -/

section Probe

variable {α : Type} [LinearOrderedField α]

/-- The outcome of `Calibrator_check_sensitivity` when the handle is valid
and its three measurements succeed. -/
theorem check_sensitivity_success
    (measure : Int → Bench → Option (CalibratedColorValue α) × Bench) (c : Calibrator α)
    (fd : Int) (e : Bench) (B R G : CalibratedColorValue α) (hfd : 0 ≤ fd)
    (hB : (probe_base measure c fd e).1 = some B)
    (hR : (probe_red measure c fd e).1 = some R)
    (hG : (probe_green measure c fd e).1 = some G) :
    Calibrator_check_sensitivity measure (some c) fd e =
      (0,
        some (if |R.x - B.x| / 15 < 1e-7 ∨ |G.y - B.y| / 15 < 1e-7 then
          { c with r_sens := 0.0006, g_sens := 0.0005 }
        else { c with r_sens := |R.x - B.x| / 15, g_sens := |G.y - B.y| / 15 }),
        Bench.usleep 100000
          (Calibrator_set_tv_gain (c.current_gain 0) (c.current_gain 1) (c.current_gain 2)
            (probe_green measure c fd e).2)) := by
  unfold probe_green probe_red probe_base at *
  unfold Calibrator_check_sensitivity
  simp only [if_neg (not_lt.mpr hfd)]
  generalize measure fd (Calibrator_set_tv_gain (c.current_gain 0) (c.current_gain 1)
    (c.current_gain 2) e) = p1 at hB hR hG ⊢
  obtain ⟨m1, e2⟩ := p1
  simp only at hB hR hG ⊢
  subst hB
  simp only
  generalize measure fd (Calibrator_set_tv_gain (clamp_gain (c.current_gain 0 - 15))
    (c.current_gain 1) (c.current_gain 2) e2) = p2 at hR hG ⊢
  obtain ⟨m2, e4⟩ := p2
  simp only at hR hG ⊢
  subst hR
  simp only
  generalize measure fd (Calibrator_set_tv_gain (c.current_gain 0)
    (clamp_gain (c.current_gain 1 - 15)) (c.current_gain 2) e4) = p3 at hG ⊢
  obtain ⟨m3, e6⟩ := p3
  simp only at hG ⊢
  subst hG
  simp only
  split_ifs <;> rfl

theorem set_tv_gain_tv (r g b : Int) (e : Bench) :
    (Calibrator_set_tv_gain r g b e).tv = e.tv ++ [(r, g, b)] := rfl

theorem usleep_tv (us : Nat) (e : Bench) : (Bench.usleep us e).tv = e.tv := rfl

theorem clamp_gain_sub (g : Int) (h0 : 0 ≤ g) (h1 : g ≤ 192) :
    clamp_gain (g - 15) = max (g - 15) 0 := by
  unfold clamp_gain
  rw [max_def]
  split_ifs <;> omega

/-- C32: after a successful `Calibrator_check_sensitivity` with baseline
measurement `B`, red test measurement `R` and green test measurement `G`, if
`|R.x - B.x| / 15 >= 1e-7` and `|G.y - B.y| / 15 >= 1e-7` then `r_sens` and
`g_sens` are exactly these two quotients; otherwise both are replaced by the
defaults `r_sens = 6e-4` and `g_sens = 5e-4`. -/
theorem check_sensitivity_values
    (measure : Int → Bench → Option (CalibratedColorValue α) × Bench) (c : Calibrator α)
    (fd : Int) (e : Bench) (B R G : CalibratedColorValue α) (hfd : 0 ≤ fd)
    (hB : (probe_base measure c fd e).1 = some B)
    (hR : (probe_red measure c fd e).1 = some R)
    (hG : (probe_green measure c fd e).1 = some G) :
    ∃ c2, (Calibrator_check_sensitivity measure (some c) fd e).1 = 0 ∧
      (Calibrator_check_sensitivity measure (some c) fd e).2.1 = some c2 ∧
      (1e-7 ≤ |R.x - B.x| / 15 ∧ 1e-7 ≤ |G.y - B.y| / 15 →
        c2.r_sens = |R.x - B.x| / 15 ∧ c2.g_sens = |G.y - B.y| / 15) ∧
      (¬ (1e-7 ≤ |R.x - B.x| / 15 ∧ 1e-7 ≤ |G.y - B.y| / 15) →
        c2.r_sens = 6e-4 ∧ c2.g_sens = 5e-4) := by
  rw [check_sensitivity_success measure c fd e B R G hfd hB hR hG]
  refine ⟨_, rfl, rfl, ?_, ?_⟩
  · intro h
    rw [if_neg (by
      intro hlt
      rcases hlt with hlt | hlt
      · exact absurd h.1 (not_le.mpr hlt)
      · exact absurd h.2 (not_le.mpr hlt))]
    exact ⟨rfl, rfl⟩
  · intro h
    rw [if_pos (by
      by_contra hn
      rw [not_or, not_lt, not_lt] at hn
      exact h hn)]
    constructor <;> norm_num

/-- The world after `Calibrator_check_sensitivity` on a valid handle when the
three measurements succeed and the sensor never touches the TV. -/
theorem check_sensitivity_bench
    (measure : Int → Bench → Option (CalibratedColorValue α) × Bench) (c : Calibrator α)
    (fd : Int) (e : Bench) (B R G : CalibratedColorValue α) (hfd : 0 ≤ fd)
    (hB : (probe_base measure c fd e).1 = some B)
    (hR : (probe_red measure c fd e).1 = some R)
    (hG : (probe_green measure c fd e).1 = some G)
    (hframe : ∀ fd2 e2, (measure fd2 e2).2.tv = e2.tv) :
    ∃ c2, Calibrator_check_sensitivity measure (some c) fd e =
        (0, some c2, Bench.usleep 100000
          (Calibrator_set_tv_gain (c.current_gain 0) (c.current_gain 1) (c.current_gain 2)
            (probe_green measure c fd e).2)) ∧
      c2.current_gain = c.current_gain ∧ c2.best_gain = c.best_gain ∧
      c2.min_dist = c.min_dist ∧
      (Calibrator_check_sensitivity measure (some c) fd e).2.2.tv =
        e.tv ++ [(c.current_gain 0, c.current_gain 1, c.current_gain 2),
          (clamp_gain (c.current_gain 0 - 15), c.current_gain 1, c.current_gain 2),
          (c.current_gain 0, clamp_gain (c.current_gain 1 - 15), c.current_gain 2),
          (c.current_gain 0, c.current_gain 1, c.current_gain 2)] := by
  have hs := check_sensitivity_success measure c fd e B R G hfd hB hR hG
  refine ⟨_, hs, ?_, ?_, ?_, ?_⟩
  · split_ifs <;> rfl
  · split_ifs <;> rfl
  · split_ifs <;> rfl
  · rw [hs]
    show (Bench.usleep 100000 _).tv = _
    rw [usleep_tv, set_tv_gain_tv]
    unfold probe_green
    rw [hframe, set_tv_gain_tv]
    unfold probe_red
    rw [hframe, set_tv_gain_tv]
    unfold probe_base
    rw [hframe, set_tv_gain_tv]
    simp

/-- The sensor of the driver never writes to the TV. -/
theorem i1d3_sensor_tv (cbrt : α → α) (fd : Int) (e : Bench) :
    (i1d3_sensor cbrt fd e).2.tv = e.tv := by
  unfold i1d3_sensor Calibrator_get_current_color_from_sensor
  dsimp only
  split_ifs <;> rfl

/-- C33: for gains `g = (gR, gG, gB)` in `[0, 192]`, a valid handle and a
sensor whose three measurements succeed (the baseline `B`, the red test `R`
and the green test `G`) and which does not write to the TV,
`Calibrator_check_sensitivity` returns 0, writes to the TV exactly the four
triples `g`, `(max (gR - 15, 0), gG, gB)`, `(gR, max (gG - 15, 0), gB)`, `g`
in that order, takes exactly three measurements (the baseline, the red test
and the green test, after the first, second and third write), and leaves the
current gain, the best gain and `min_dist` unchanged. -/
theorem check_sensitivity_effects
    (measure : Int → Bench → Option (CalibratedColorValue α) × Bench) (c : Calibrator α)
    (fd : Int) (e : Bench) (B R G : CalibratedColorValue α) (hc : gains_in_range c)
    (hfd : 0 ≤ fd)
    (hB : (probe_base measure c fd e).1 = some B)
    (hR : (probe_red measure c fd e).1 = some R)
    (hG : (probe_green measure c fd e).1 = some G)
    (hframe : ∀ fd2 e2, (measure fd2 e2).2.tv = e2.tv) :
    ∃ c2, (Calibrator_check_sensitivity measure (some c) fd e).1 = 0 ∧
      (Calibrator_check_sensitivity measure (some c) fd e).2.1 = some c2 ∧
      (Calibrator_check_sensitivity measure (some c) fd e).2.2.tv =
        e.tv ++ [(c.current_gain 0, c.current_gain 1, c.current_gain 2),
          (max (c.current_gain 0 - 15) 0, c.current_gain 1, c.current_gain 2),
          (c.current_gain 0, max (c.current_gain 1 - 15) 0, c.current_gain 2),
          (c.current_gain 0, c.current_gain 1, c.current_gain 2)] ∧
      (Calibrator_check_sensitivity measure (some c) fd e).2.2 =
        Bench.usleep 100000
          (Calibrator_set_tv_gain (c.current_gain 0) (c.current_gain 1) (c.current_gain 2)
            (measure fd
              (Calibrator_set_tv_gain (c.current_gain 0) (max (c.current_gain 1 - 15) 0)
                (c.current_gain 2)
                (measure fd
                  (Calibrator_set_tv_gain (max (c.current_gain 0 - 15) 0) (c.current_gain 1)
                    (c.current_gain 2)
                    (measure fd
                      (Calibrator_set_tv_gain (c.current_gain 0) (c.current_gain 1)
                        (c.current_gain 2) e)).2)).2)).2) ∧
      c2.current_gain = c.current_gain ∧ c2.best_gain = c.best_gain ∧
      c2.min_dist = c.min_dist := by
  obtain ⟨c2, hs, h1, h2, h3, htv⟩ :=
    check_sensitivity_bench measure c fd e B R G hfd hB hR hG hframe
  have hr := clamp_gain_sub (c.current_gain 0) (hc 0).1.1 (hc 0).1.2
  have hg := clamp_gain_sub (c.current_gain 1) (hc 1).1.1 (hc 1).1.2
  refine ⟨c2, ?_, ?_, ?_, ?_, h1, h2, h3⟩
  · rw [hs]
  · rw [hs]
  · rw [htv, hr, hg]
  · rw [hs]
    show Bench.usleep 100000 _ = _
    unfold probe_green probe_red probe_base
    rw [hr, hg]

end Probe

theorem neutral_read_buf :
    I1D3.sys_read_ret (some I1D3.neutralReport) 64 = 64 ∧
    I1D3.sys_read_buf (some I1D3.neutralReport) 64 I1D3.measure_packet = I1D3.neutralReport := by
  decide

/-- A measurement by the sensor of the driver on descriptor 3, when the
descriptor is unlocked, every write is complete and every read delivers
`neutralReport`: it succeeds with `neutral_color` and leaves the device in
the same condition. -/
theorem neutral_measure (e : Bench)
    (hst : I1D3.i1d3_get_state e.sensor 3 = I1D3.i1d3_state_t.I1D3_STATE_UNLOCKED)
    (hw : ∀ k, e.sensor.writeRes k = 64)
    (hr : ∀ k, e.sensor.readRes k = some I1D3.neutralReport) :
    (i1d3_sensor (fun t : ℚ => t) 3 e).1 = some neutral_color ∧
    I1D3.i1d3_get_state (i1d3_sensor (fun t : ℚ => t) 3 e).2.sensor 3 =
      I1D3.i1d3_state_t.I1D3_STATE_UNLOCKED ∧
    (∀ k, (i1d3_sensor (fun t : ℚ => t) 3 e).2.sensor.writeRes k = 64) ∧
    (∀ k, (i1d3_sensor (fun t : ℚ => t) 3 e).2.sensor.readRes k = some I1D3.neutralReport) := by
  have hm := I1D3.i1d3_aio_measure_unlocked (fun t : ℚ => t) 3 blank_results e.sensor
    (by decide) hst
  rw [hw, hr, neutral_read_buf.1, neutral_read_buf.2] at hm
  simp only [ne_eq, not_true_eq_false, if_false, lt_self_iff_false, false_or] at hm
  have hb : I1D3.neutralReport.getD 1 0 = 0x04 := by decide
  rw [hb] at hm
  simp only [not_true_eq_false, if_false] at hm
  unfold i1d3_sensor Calibrator_get_current_color_from_sensor
  simp only [hm]
  exact ⟨rfl, hst, hw, hr⟩

/-- The three measurements of `Calibrator_check_sensitivity` succeed on the
sensor of the driver when descriptor 3 is unlocked, every write is complete
and the device answers every request with `neutralReport`. -/
theorem neutral_probes_succeed (c : Calibrator ℚ) (e : Bench)
    (hst : I1D3.i1d3_get_state e.sensor 3 = I1D3.i1d3_state_t.I1D3_STATE_UNLOCKED)
    (hw : ∀ k, e.sensor.writeRes k = 64)
    (hr : ∀ k, e.sensor.readRes k = some I1D3.neutralReport) :
    (probe_base (i1d3_sensor (fun t : ℚ => t)) c 3 e).1 = some neutral_color ∧
    (probe_red (i1d3_sensor (fun t : ℚ => t)) c 3 e).1 = some neutral_color ∧
    (probe_green (i1d3_sensor (fun t : ℚ => t)) c 3 e).1 = some neutral_color := by
  unfold probe_green probe_red probe_base
  obtain ⟨b1, b2, b3, b4⟩ := neutral_measure
    (Calibrator_set_tv_gain (c.current_gain 0) (c.current_gain 1) (c.current_gain 2) e)
    hst hw hr
  generalize i1d3_sensor (fun t : ℚ => t) 3
    (Calibrator_set_tv_gain (c.current_gain 0) (c.current_gain 1) (c.current_gain 2) e) = p1
    at b1 b2 b3 b4 ⊢
  obtain ⟨m1, e2⟩ := p1
  obtain ⟨r1, r2, r3, r4⟩ := neutral_measure
    (Calibrator_set_tv_gain (clamp_gain (c.current_gain 0 - 15)) (c.current_gain 1)
      (c.current_gain 2) e2)
    b2 b3 b4
  generalize i1d3_sensor (fun t : ℚ => t) 3
    (Calibrator_set_tv_gain (clamp_gain (c.current_gain 0 - 15)) (c.current_gain 1)
      (c.current_gain 2) e2) = p2 at r1 r2 r3 r4 ⊢
  obtain ⟨m2, e4⟩ := p2
  obtain ⟨g1, -⟩ := neutral_measure
    (Calibrator_set_tv_gain (c.current_gain 0) (clamp_gain (c.current_gain 1 - 15))
      (c.current_gain 2) e4)
    r2 r3 r4
  exact ⟨b1, r1, g1⟩

/-- C33, as first stated, fails for the gains `(10, 10, 10)` on the sensor of
the driver (descriptor 3 unlocked, the device answers with `neutralReport`):
the probe returns 0 and the triples written for the red and the green test
are `(0, 10, 10)` and `(10, 0, 10)`, not `(-5, 10, 10)` and `(10, -5, 10)`,
because the lowered gain goes through `clamp_gain`. -/
theorem check_sensitivity_low_gains :
    gains_in_range (init_state (0.3127 : ℚ) 0.3290 10 10 10) ∧
    (Calibrator_check_sensitivity (i1d3_sensor (fun t : ℚ => t))
      (some (init_state (0.3127 : ℚ) 0.3290 10 10 10)) 3
      (freshBench I1D3.neutralWorld)).1 = 0 ∧
    (Calibrator_check_sensitivity (i1d3_sensor (fun t : ℚ => t))
      (some (init_state (0.3127 : ℚ) 0.3290 10 10 10)) 3
      (freshBench I1D3.neutralWorld)).2.2.tv =
      [(10, 10, 10), (0, 10, 10), (10, 0, 10), (10, 10, 10)] ∧
    [(10, 10, 10), (0, 10, 10), (10, 0, 10), (10, 10, 10)] ≠
      [((10 : Int), (10 : Int), (10 : Int)), (10 - 15, 10, 10), (10, 10 - 15, 10),
        (10, 10, 10)] := by
  obtain ⟨hB, hR, hG⟩ := neutral_probes_succeed (init_state (0.3127 : ℚ) 0.3290 10 10 10)
    (freshBench I1D3.neutralWorld) (by decide) (fun _ => rfl) (fun _ => rfl)
  obtain ⟨c2, hs, -, -, -, htv⟩ := check_sensitivity_bench (i1d3_sensor (fun t : ℚ => t))
    (init_state (0.3127 : ℚ) 0.3290 10 10 10) 3 (freshBench I1D3.neutralWorld)
    neutral_color neutral_color neutral_color (by decide) hB hR hG (i1d3_sensor_tv _)
  refine ⟨init_state_in_range _ _ _ _ _, ?_, ?_, by decide⟩
  · rw [hs]
  · rw [htv]
    decide

/-- C32 on the mocked sensor from the gains `(192, 192, 192)`: the three
measurements succeed and the probe returns 0. -/
theorem check_sensitivity_values_witness :
    (0 : Int) ≤ 3 ∧
    (probe_base mock_sensor (init_state (0.3127 : ℚ) 0.3290 192 192 192) 3
      (freshBench I1D3.neutralWorld)).1 = some (mock_reading 192 192 192) ∧
    (probe_red mock_sensor (init_state (0.3127 : ℚ) 0.3290 192 192 192) 3
      (freshBench I1D3.neutralWorld)).1 = some (mock_reading 177 192 192) ∧
    (probe_green mock_sensor (init_state (0.3127 : ℚ) 0.3290 192 192 192) 3
      (freshBench I1D3.neutralWorld)).1 = some (mock_reading 192 177 192) ∧
    (Calibrator_check_sensitivity mock_sensor (some (init_state (0.3127 : ℚ) 0.3290 192 192 192)) 3
      (freshBench I1D3.neutralWorld)).1 = 0 := by
  have hB : (probe_base mock_sensor (init_state (0.3127 : ℚ) 0.3290 192 192 192) 3
      (freshBench I1D3.neutralWorld)).1 = some (mock_reading 192 192 192) := rfl
  have hR : (probe_red mock_sensor (init_state (0.3127 : ℚ) 0.3290 192 192 192) 3
      (freshBench I1D3.neutralWorld)).1 = some (mock_reading 177 192 192) := rfl
  have hG : (probe_green mock_sensor (init_state (0.3127 : ℚ) 0.3290 192 192 192) 3
      (freshBench I1D3.neutralWorld)).1 = some (mock_reading 192 177 192) := rfl
  obtain ⟨c2, h0, -⟩ := check_sensitivity_values mock_sensor
    (init_state (0.3127 : ℚ) 0.3290 192 192 192) 3 (freshBench I1D3.neutralWorld) _ _ _
    (by decide) hB hR hG
  exact ⟨by decide, hB, hR, hG, h0⟩

/-- C33 on the sensor of the driver (descriptor 3 unlocked, the device
answers every request with `neutralReport`) from the gains `(192, 192, 192)`:
the three measurements succeed, and the TV receives `(192, 192, 192)`,
`(177, 192, 192)`, `(192, 177, 192)`, `(192, 192, 192)`. -/
theorem check_sensitivity_effects_witness :
    gains_in_range (init_state (0.3127 : ℚ) 0.3290 192 192 192) ∧ (0 : Int) ≤ 3 ∧
    (probe_base (i1d3_sensor (fun t : ℚ => t)) (init_state (0.3127 : ℚ) 0.3290 192 192 192) 3
      (freshBench I1D3.neutralWorld)).1 = some neutral_color ∧
    (probe_red (i1d3_sensor (fun t : ℚ => t)) (init_state (0.3127 : ℚ) 0.3290 192 192 192) 3
      (freshBench I1D3.neutralWorld)).1 = some neutral_color ∧
    (probe_green (i1d3_sensor (fun t : ℚ => t)) (init_state (0.3127 : ℚ) 0.3290 192 192 192) 3
      (freshBench I1D3.neutralWorld)).1 = some neutral_color ∧
    (∀ (fd2 : Int) (e2 : Bench),
      (i1d3_sensor (fun t : ℚ => t) fd2 e2).2.tv = e2.tv) ∧
    (Calibrator_check_sensitivity (i1d3_sensor (fun t : ℚ => t))
      (some (init_state (0.3127 : ℚ) 0.3290 192 192 192)) 3
      (freshBench I1D3.neutralWorld)).1 = 0 ∧
    (Calibrator_check_sensitivity (i1d3_sensor (fun t : ℚ => t))
      (some (init_state (0.3127 : ℚ) 0.3290 192 192 192)) 3
      (freshBench I1D3.neutralWorld)).2.2.tv =
      [(192, 192, 192), (177, 192, 192), (192, 177, 192), (192, 192, 192)] := by
  obtain ⟨hB, hR, hG⟩ := neutral_probes_succeed (init_state (0.3127 : ℚ) 0.3290 192 192 192)
    (freshBench I1D3.neutralWorld) (by decide) (fun _ => rfl) (fun _ => rfl)
  obtain ⟨c2, h0, -, htv, -⟩ := check_sensitivity_effects (i1d3_sensor (fun t : ℚ => t))
    (init_state (0.3127 : ℚ) 0.3290 192 192 192) 3 (freshBench I1D3.neutralWorld)
    neutral_color neutral_color neutral_color
    (init_state_in_range _ _ _ _ _) (by decide) hB hR hG (i1d3_sensor_tv _)
  refine ⟨init_state_in_range _ _ _ _ _, by decide, hB, hR, hG, i1d3_sensor_tv _, h0, ?_⟩
  rw [htv]
  decide

/-! ## One calibration step -/

theorem step_max_eq {α : Type} [LinearOrderedField α] (s : α) :
    (if s > 1e-7 then s else 1e-7) = max s 1e-7 := by
  rw [max_def]
  split_ifs with ha hb hb
  · exact absurd ha (not_lt.mpr hb)
  · rfl
  · rfl
  · exact absurd (not_lt.mp ha) hb

/-- The local `adj_r` in the words of the specification. -/
theorem step_adj_r_eq_spec {α : Type} [LinearOrderedField α] (sqrt : α → α)
    (c : Calibrator α) (m : CalibratedColorValue α) :
    step_adj_r sqrt c m =
      spec_alpha (sqrt ((c.target_x - m.x) ^ 2 + (c.target_y - m.y) ^ 2)) *
        (c.target_x - m.x) / max c.r_sens 1e-7 := by
  have hsd : step_dist sqrt c m = sqrt ((c.target_x - m.x) ^ 2 + (c.target_y - m.y) ^ 2) := by
    unfold step_dist step_dx step_dy
    congr 1
    ring
  unfold step_adj_r step_learning_rate spec_alpha
  rw [hsd, step_max_eq]
  unfold step_dx
  ring

/-- The local `adj_g` in the words of the specification. -/
theorem step_adj_g_eq_spec {α : Type} [LinearOrderedField α] (sqrt : α → α)
    (c : Calibrator α) (m : CalibratedColorValue α) :
    step_adj_g sqrt c m =
      spec_alpha (sqrt ((c.target_x - m.x) ^ 2 + (c.target_y - m.y) ^ 2)) *
        (c.target_y - m.y) / max c.g_sens 1e-7 := by
  have hsd : step_dist sqrt c m = sqrt ((c.target_x - m.x) ^ 2 + (c.target_y - m.y) ^ 2) := by
    unfold step_dist step_dx step_dy
    congr 1
    ring
  unfold step_adj_g step_learning_rate spec_alpha
  rw [hsd, step_max_eq]
  unfold step_dy
  ring

section Step

variable {α : Type} [LinearOrderedField α] [FloorRing α]

/-- The world after a successful step: the write of the current gains, the
measurement, the write of the new gains and `usleep (100000)`. -/
theorem step_bench (measure : Int → Bench → Option (CalibratedColorValue α) × Bench)
    (sqrt : α → α) (c : Calibrator α) (fd i : Int) (e : Bench) (m : CalibratedColorValue α)
    (h : (measure fd (Calibrator_set_tv_gain (c.current_gain 0) (c.current_gain 1)
      (c.current_gain 2) e)).1 = some m) :
    (Calibrator_perform_calibration_step measure sqrt (some c) fd i e).2.2 =
      Bench.usleep 100000
        (Calibrator_set_tv_gain (step_new_gain sqrt c m 0) (step_new_gain sqrt c m 1)
          (step_new_gain sqrt c m 2)
          (measure fd (Calibrator_set_tv_gain (c.current_gain 0) (c.current_gain 1)
            (c.current_gain 2) e)).2) := by
  unfold Calibrator_perform_calibration_step
  dsimp only
  generalize measure fd (Calibrator_set_tv_gain (c.current_gain 0) (c.current_gain 1)
    (c.current_gain 2) e) = p at h
  obtain ⟨m2, e2⟩ := p
  cases m2 with
  | none => exact absurd h (by simp)
  | some m2 =>
    have hm : m2 = m := by simpa using h
    subst hm
    rfl

/-- C34: a successful call of `Calibrator_perform_calibration_step` issues
exactly one sensor measurement and exactly two TV gain writes: the current
gains before the measurement and the updated gains after it (the sensor does
not write to the TV). -/
theorem step_one_measurement_two_writes
    (measure : Int → Bench → Option (CalibratedColorValue α) × Bench) (sqrt : α → α)
    (c : Calibrator α) (fd i : Int) (e : Bench) (m : CalibratedColorValue α)
    (hm : (measure fd (Calibrator_set_tv_gain (c.current_gain 0) (c.current_gain 1)
      (c.current_gain 2) e)).1 = some m)
    (hframe : ∀ fd2 e2, (measure fd2 e2).2.tv = e2.tv) :
    ∃ c2, (Calibrator_perform_calibration_step measure sqrt (some c) fd i e).1 = 0 ∧
      (Calibrator_perform_calibration_step measure sqrt (some c) fd i e).2.1 = some c2 ∧
      (Calibrator_perform_calibration_step measure sqrt (some c) fd i e).2.2 =
        Bench.usleep 100000
          (Calibrator_set_tv_gain (c2.current_gain 0) (c2.current_gain 1) (c2.current_gain 2)
            (measure fd (Calibrator_set_tv_gain (c.current_gain 0) (c.current_gain 1)
              (c.current_gain 2) e)).2) ∧
      (Calibrator_perform_calibration_step measure sqrt (some c) fd i e).2.2.tv =
        e.tv ++ [(c.current_gain 0, c.current_gain 1, c.current_gain 2),
          (c2.current_gain 0, c2.current_gain 1, c2.current_gain 2)] := by
  obtain ⟨h1, h2⟩ := step_of_measurement measure sqrt c fd i e m hm
  have hb := step_bench measure sqrt c fd i e m hm
  have hg : (calibration_update sqrt c m).current_gain = step_new_gain sqrt c m :=
    (calibration_update_frame sqrt c m).2.2.2.2
  refine ⟨_, h1, h2, ?_, ?_⟩
  · rw [hb, hg]
  · rw [hb, hg, usleep_tv, set_tv_gain_tv, hframe, set_tv_gain_tv]
    simp

theorem round_value_eq_spec (v : α) : round_value v = spec_round v := by
  unfold round_value spec_round
  split_ifs
  · rw [round_eq]
  · rw [round_eq, ← Int.ceil_neg]
    congr 1
    ring

/-- The conversion `(int)round (v)` gives the rounding of the specification
when that value is in the range of `int`. -/
theorem round_to_int_eq_spec (v : α) (h : INT_MIN ≤ spec_round v ∧ spec_round v ≤ INT_MAX) :
    round_to_int v = spec_round v := by
  unfold round_to_int
  rw [round_value_eq_spec, if_pos h]

/-- The conversion `(int)round (v)` of a value whose rounding is above
`INT_MAX` gives `INT_MIN` in the model. -/
theorem round_to_int_above (v : α) (h : INT_MAX < spec_round v) : round_to_int v = INT_MIN := by
  unfold round_to_int
  rw [round_value_eq_spec, if_neg (fun hh => absurd hh.2 (not_le.mpr h))]

theorem clamp_gain_eq_spec (g : Int) : clamp_gain g = spec_clamp g := by
  unfold clamp_gain spec_clamp
  split_ifs <;> omega

/-- The update rule in the words of the specification, for steps whose three
increments, added to a gain of `[0, 192]`, stay in the range of `int` (an
increment between `INT_MIN` and `INT_MAX - 192`): the step returns 0 and sets
`gR` to
`clamp (gR + round (alpha * dx / max (rs, 1e-7)), 0, 192)`, `gG` to
`clamp (gG + round (alpha * dy / max (gs, 1e-7)), 0, 192)`, and `gB` to
`clamp (gB + round ((dx + dy) * 40), 0, 192)` when `d > 0.01`; when
`d <= 0.01` the blue gain is unchanged. -/
theorem step_update_rule_in_range
    (measure : Int → Bench → Option (CalibratedColorValue α) × Bench)
    (sqrt : α → α) (c : Calibrator α) (fd i : Int) (e : Bench) (m : CalibratedColorValue α)
    (dx dy d : α) (hc : gains_in_range c)
    (hm : (measure fd (Calibrator_set_tv_gain (c.current_gain 0) (c.current_gain 1)
      (c.current_gain 2) e)).1 = some m)
    (hdx : dx = c.target_x - m.x) (hdy : dy = c.target_y - m.y)
    (hd : d = sqrt (dx ^ 2 + dy ^ 2))
    (hr : INT_MIN ≤ spec_round (spec_alpha d * dx / max c.r_sens 1e-7) ∧
      spec_round (spec_alpha d * dx / max c.r_sens 1e-7) ≤ INT_MAX - 192)
    (hg : INT_MIN ≤ spec_round (spec_alpha d * dy / max c.g_sens 1e-7) ∧
      spec_round (spec_alpha d * dy / max c.g_sens 1e-7) ≤ INT_MAX - 192)
    (hb : d > 0.01 → INT_MIN ≤ spec_round ((dx + dy) * 40) ∧
      spec_round ((dx + dy) * 40) ≤ INT_MAX - 192) :
    ∃ c2, (Calibrator_perform_calibration_step measure sqrt (some c) fd i e).1 = 0 ∧
      (Calibrator_perform_calibration_step measure sqrt (some c) fd i e).2.1 = some c2 ∧
      c2.current_gain 0 =
        spec_clamp (c.current_gain 0 + spec_round (spec_alpha d * dx / max c.r_sens 1e-7)) ∧
      c2.current_gain 1 =
        spec_clamp (c.current_gain 1 + spec_round (spec_alpha d * dy / max c.g_sens 1e-7)) ∧
      (d > 0.01 →
        c2.current_gain 2 = spec_clamp (c.current_gain 2 + spec_round ((dx + dy) * 40))) ∧
      (d ≤ 0.01 → c2.current_gain 2 = c.current_gain 2) := by
  obtain ⟨h1, h2⟩ := step_of_measurement measure sqrt c fd i e m hm
  have hgn : (calibration_update sqrt c m).current_gain = step_new_gain sqrt c m :=
    (calibration_update_frame sqrt c m).2.2.2.2
  have hsx : step_dx c m = dx := hdx.symm
  have hsy : step_dy c m = dy := hdy.symm
  have hsd : step_dist sqrt c m = d := by
    unfold step_dist
    rw [hsx, hsy, hd]
    congr 1
    ring
  have hra : step_adj_r sqrt c m = spec_alpha d * dx / max c.r_sens 1e-7 := by
    rw [step_adj_r_eq_spec, hd, hdx, hdy]
  have hga : step_adj_g sqrt c m = spec_alpha d * dy / max c.g_sens 1e-7 := by
    rw [step_adj_g_eq_spec, hd, hdx, hdy]
  have hsum : ∀ (a n : Int), 0 ≤ a → a ≤ 192 → INT_MIN ≤ n → n ≤ INT_MAX - 192 →
      clamp_gain (int_add a n) = spec_clamp (a + n) := by
    intro a n h0 h192 hlo hhi
    rw [int_add_eq a n (by unfold INT_MIN INT_MAX at *; omega), clamp_gain_eq_spec]
  refine ⟨_, h1, h2, ?_, ?_, ?_, ?_⟩
  · rw [hgn]
    show clamp_gain (int_add (c.current_gain 0) (round_to_int (step_adj_r sqrt c m))) = _
    rw [hra, round_to_int_eq_spec _ ⟨hr.1, by unfold INT_MAX at *; omega⟩]
    exact hsum _ _ (hc 0).1.1 (hc 0).1.2 hr.1 hr.2
  · rw [hgn]
    show clamp_gain (int_add (c.current_gain 1) (round_to_int (step_adj_g sqrt c m))) = _
    rw [hga, round_to_int_eq_spec _ ⟨hg.1, by unfold INT_MAX at *; omega⟩]
    exact hsum _ _ (hc 1).1.1 (hc 1).1.2 hg.1 hg.2
  · intro hfar
    rw [hgn]
    show (if step_dist sqrt c m > 0.01 then
      clamp_gain (int_add (c.current_gain 2)
        (round_to_int ((step_dx c m + step_dy c m) * 40)))
      else c.current_gain 2) = _
    rw [hsd, if_pos hfar, hsx, hsy,
      round_to_int_eq_spec _ ⟨(hb hfar).1, by have := (hb hfar).2; unfold INT_MAX at *; omega⟩]
    exact hsum _ _ (hc 2).1.1 (hc 2).1.2 (hb hfar).1 (hb hfar).2
  · intro hnear
    rw [hgn]
    show (if step_dist sqrt c m > 0.01 then
      clamp_gain (int_add (c.current_gain 2)
        (round_to_int ((step_dx c m + step_dy c m) * 40)))
      else c.current_gain 2) = _
    rw [hsd, if_neg (not_lt.mpr hnear)]

end Step

/-- C34, as first stated (one gain write per step), fails for the first step
on the mocked sensor: the step returns 0 and has written two gain triples to
the TV. -/
theorem step_writes_twice :
    (Calibrator_perform_calibration_step mock_sensor Real.sqrt
      (some (init_state (0.3127 : ℝ) 0.3290 192 192 192)) 3 1
      (freshBench I1D3.neutralWorld)).1 = 0 ∧
    (Calibrator_perform_calibration_step mock_sensor Real.sqrt
      (some (init_state (0.3127 : ℝ) 0.3290 192 192 192)) 3 1
      (freshBench I1D3.neutralWorld)).2.2.tv.length = 2 := by
  have hm : (mock_sensor 3 (Calibrator_set_tv_gain
      ((init_state (0.3127 : ℝ) 0.3290 192 192 192).current_gain 0)
      ((init_state (0.3127 : ℝ) 0.3290 192 192 192).current_gain 1)
      ((init_state (0.3127 : ℝ) 0.3290 192 192 192).current_gain 2)
      (freshBench I1D3.neutralWorld)) : Option (CalibratedColorValue ℝ) × Bench).1 =
      some (mock_reading 192 192 192) := rfl
  refine ⟨(step_of_measurement mock_sensor Real.sqrt _ 3 1 _ _ hm).1, ?_⟩
  rw [step_bench mock_sensor Real.sqrt _ 3 1 _ _ hm]
  rfl

/-- C34 on the mocked sensor over the reals, first step from the gains
`(192, 192, 192)`. -/
theorem step_one_measurement_two_writes_witness :
    (mock_sensor 3 (Calibrator_set_tv_gain
      ((init_state (0.3127 : ℝ) 0.3290 192 192 192).current_gain 0)
      ((init_state (0.3127 : ℝ) 0.3290 192 192 192).current_gain 1)
      ((init_state (0.3127 : ℝ) 0.3290 192 192 192).current_gain 2)
      (freshBench I1D3.neutralWorld)) : Option (CalibratedColorValue ℝ) × Bench).1 =
      some (mock_reading 192 192 192) ∧
    (∀ (fd2 : Int) (e2 : Bench),
      (mock_sensor fd2 e2 : Option (CalibratedColorValue ℝ) × Bench).2.tv = e2.tv) ∧
    (Calibrator_perform_calibration_step mock_sensor Real.sqrt
      (some (init_state (0.3127 : ℝ) 0.3290 192 192 192)) 3 1
      (freshBench I1D3.neutralWorld)).1 = 0 := by
  obtain ⟨c2, h0, -⟩ := step_one_measurement_two_writes mock_sensor Real.sqrt
    (init_state (0.3127 : ℝ) 0.3290 192 192 192) 3 1 (freshBench I1D3.neutralWorld)
    (mock_reading 192 192 192) rfl (fun _ _ => rfl)
  exact ⟨rfl, fun _ _ => rfl, h0⟩

/-- The update rule on the mocked sensor over the reals, first step from the
gains `(192, 192, 192)`: the increments are -57, -57 and -3. -/
theorem step_update_rule_in_range_witness :
    gains_in_range (init_state (0.3127 : ℝ) 0.3290 192 192 192) ∧
    (mock_sensor 3 (Calibrator_set_tv_gain
      ((init_state (0.3127 : ℝ) 0.3290 192 192 192).current_gain 0)
      ((init_state (0.3127 : ℝ) 0.3290 192 192 192).current_gain 1)
      ((init_state (0.3127 : ℝ) 0.3290 192 192 192).current_gain 2)
      (freshBench I1D3.neutralWorld)) : Option (CalibratedColorValue ℝ) × Bench).1 =
      some (mock_reading 192 192 192) ∧
    (Calibrator_perform_calibration_step mock_sensor Real.sqrt
      (some (init_state (0.3127 : ℝ) 0.3290 192 192 192)) 3 1
      (freshBench I1D3.neutralWorld)).1 = 0 := by
  have hx : (0.3127 : ℝ) - (mock_reading 192 192 192 : CalibratedColorValue ℝ).x =
      -429 / 10000 := by
    simp [mock_reading, get_color_value]
    norm_num
  have hy : (0.3290 : ℝ) - (mock_reading 192 192 192 : CalibratedColorValue ℝ).y =
      -177 / 5000 := by
    simp [mock_reading, get_color_value]
    norm_num
  have hfar : (0.01 : ℝ) < Real.sqrt ((-429 / 10000 : ℝ) ^ 2 + (-177 / 5000 : ℝ) ^ 2) := by
    rw [Real.lt_sqrt (by norm_num)]
    norm_num
  have ha : spec_alpha (Real.sqrt ((-429 / 10000 : ℝ) ^ 2 + (-177 / 5000 : ℝ) ^ 2)) = 0.8 := by
    unfold spec_alpha
    rw [if_pos (by linarith only [hfar])]
  have hmax1 : max (0.0006 : ℝ) 1e-7 = 0.0006 := max_eq_left (by norm_num)
  have hmax2 : max (0.0005 : ℝ) 1e-7 = 0.0005 := max_eq_left (by norm_num)
  have e1 : spec_round ((0.8 : ℝ) * (-429 / 10000) / 0.0006) = -57 := by
    rw [← round_value_eq_spec]
    exact round_value_eq _ _ (by rw [abs_lt]; constructor <;> norm_num)
  have e2 : spec_round ((0.8 : ℝ) * (-177 / 5000) / 0.0005) = -57 := by
    rw [← round_value_eq_spec]
    exact round_value_eq _ _ (by rw [abs_lt]; constructor <;> norm_num)
  have e3 : spec_round (((-429 / 10000 : ℝ) + -177 / 5000) * 40) = -3 := by
    rw [← round_value_eq_spec]
    exact round_value_eq _ _ (by rw [abs_lt]; constructor <;> norm_num)
  have hr : INT_MIN ≤ spec_round
        (spec_alpha (Real.sqrt ((-429 / 10000 : ℝ) ^ 2 + (-177 / 5000 : ℝ) ^ 2)) *
          (-429 / 10000) / max (0.0006 : ℝ) 1e-7) ∧
      spec_round
        (spec_alpha (Real.sqrt ((-429 / 10000 : ℝ) ^ 2 + (-177 / 5000 : ℝ) ^ 2)) *
          (-429 / 10000) / max (0.0006 : ℝ) 1e-7) ≤ INT_MAX - 192 := by
    rw [ha, hmax1, e1]
    decide
  have hg : INT_MIN ≤ spec_round
        (spec_alpha (Real.sqrt ((-429 / 10000 : ℝ) ^ 2 + (-177 / 5000 : ℝ) ^ 2)) *
          (-177 / 5000) / max (0.0005 : ℝ) 1e-7) ∧
      spec_round
        (spec_alpha (Real.sqrt ((-429 / 10000 : ℝ) ^ 2 + (-177 / 5000 : ℝ) ^ 2)) *
          (-177 / 5000) / max (0.0005 : ℝ) 1e-7) ≤ INT_MAX - 192 := by
    rw [ha, hmax2, e2]
    decide
  obtain ⟨c2, h0, -⟩ := step_update_rule_in_range mock_sensor Real.sqrt
    (init_state (0.3127 : ℝ) 0.3290 192 192 192) 3 1 (freshBench I1D3.neutralWorld)
    (mock_reading 192 192 192) (-429 / 10000) (-177 / 5000) _
    (init_state_in_range _ _ _ _ _) rfl hx.symm hy.symm rfl hr hg
    (by
      intro _
      rw [e3]
      decide)
  exact ⟨init_state_in_range _ _ _ _ _, rfl, h0⟩

/-- C31 fails on the sensor of the driver for the accepted response
`tinySumReport` (`rCnt = 968`, `gCnt = 11369`, for which `X + Y + Z` is
`1/2000000` and the chromaticity `x = -107618251`), from the gains
`(192, 192, 192)` with the default sensitivities: the step returns 0, the red
increment `round (0.8 * dx / 0.0006)` is `143491001750`, above `INT_MAX`, and
the step leaves the red gain at 0, where the rule of the claim gives
`clamp (192 + 143491001750, 0, 192) = 192`. -/
theorem step_increment_overflows :
    gains_in_range (init_state (0.3127 : ℝ) 0.3290 192 192 192) ∧
    ∃ m c2,
      (i1d3_sensor (fun t : ℝ => t ^ ((1 : ℝ) / 3)) 3
        (Calibrator_set_tv_gain 192 192 192 (freshBench I1D3.tinySumWorld))).1 = some m ∧
      m.x = -107618251 ∧ m.y = 206194633 / 2 ∧
      (Calibrator_perform_calibration_step (i1d3_sensor (fun t : ℝ => t ^ ((1 : ℝ) / 3)))
        Real.sqrt (some (init_state (0.3127 : ℝ) 0.3290 192 192 192)) 3 1
        (freshBench I1D3.tinySumWorld)).1 = 0 ∧
      (Calibrator_perform_calibration_step (i1d3_sensor (fun t : ℝ => t ^ ((1 : ℝ) / 3)))
        Real.sqrt (some (init_state (0.3127 : ℝ) 0.3290 192 192 192)) 3 1
        (freshBench I1D3.tinySumWorld)).2.1 = some c2 ∧
      c2.current_gain 0 = 0 ∧
      spec_round (spec_alpha (Real.sqrt ((0.3127 - m.x) ^ 2 + (0.3290 - m.y) ^ 2)) *
        (0.3127 - m.x) / max 0.0006 1e-7) = 143491001750 ∧
      INT_MAX < 143491001750 ∧
      spec_clamp (192 + 143491001750) = 192 := by
  have h2 : I1D3.load_u32 I1D3.tinySumReport 2 = 968 := by decide
  have h6 : I1D3.load_u32 I1D3.tinySumReport 6 = 11369 := by decide
  have h14 : I1D3.load_u32 I1D3.tinySumReport 14 = 48000000 := by decide
  have h18 : I1D3.load_u32 I1D3.tinySumReport 18 = 48000000 := by decide
  have h22 : I1D3.load_u32 I1D3.tinySumReport 22 = 48000000 := by decide
  have hx : (I1D3.measure_compute (fun t : ℝ => t ^ ((1 : ℝ) / 3)) I1D3.tinySumReport).x =
      -107618251 := by
    simp only [I1D3.measure_compute, h2, h6, h14, h18, h22]
    norm_num [I1D3.toHz, I1D3.MATRIX]
  have hy : (I1D3.measure_compute (fun t : ℝ => t ^ ((1 : ℝ) / 3)) I1D3.tinySumReport).y =
      206194633 / 2 := by
    simp only [I1D3.measure_compute, h2, h6, h14, h18, h22]
    norm_num [I1D3.toHz, I1D3.MATRIX]
  have hm : (i1d3_sensor (fun t : ℝ => t ^ ((1 : ℝ) / 3)) 3
      (Calibrator_set_tv_gain ((init_state (0.3127 : ℝ) 0.3290 192 192 192).current_gain 0)
        ((init_state (0.3127 : ℝ) 0.3290 192 192 192).current_gain 1)
        ((init_state (0.3127 : ℝ) 0.3290 192 192 192).current_gain 2)
        (freshBench I1D3.tinySumWorld))).1 =
      some { x := (I1D3.measure_compute (fun t : ℝ => t ^ ((1 : ℝ) / 3)) I1D3.tinySumReport).x,
             y := (I1D3.measure_compute (fun t : ℝ => t ^ ((1 : ℝ) / 3)) I1D3.tinySumReport).y,
             Y := (I1D3.measure_compute (fun t : ℝ => t ^ ((1 : ℝ) / 3)) I1D3.tinySumReport).Y,
             X := (I1D3.measure_compute (fun t : ℝ => t ^ ((1 : ℝ) / 3)) I1D3.tinySumReport).X,
             Z := (I1D3.measure_compute (fun t : ℝ => t ^ ((1 : ℝ) / 3)) I1D3.tinySumReport).Z } :=
    rfl
  obtain ⟨s1, s2⟩ := step_of_measurement (i1d3_sensor (fun t : ℝ => t ^ ((1 : ℝ) / 3))) Real.sqrt
    (init_state (0.3127 : ℝ) 0.3290 192 192 192) 3 1 (freshBench I1D3.tinySumWorld) _ hm
  have hfar : (0.005 : ℝ) <
      Real.sqrt (((0.3127 : ℝ) - -107618251) ^ 2 + ((0.3290 : ℝ) - 206194633 / 2) ^ 2) := by
    rw [Real.lt_sqrt (by norm_num)]
    norm_num
  have hal : spec_alpha
      (Real.sqrt (((0.3127 : ℝ) - -107618251) ^ 2 + ((0.3290 : ℝ) - 206194633 / 2) ^ 2)) =
      0.8 := by
    unfold spec_alpha
    rw [if_pos hfar]
  have hmax : max (0.0006 : ℝ) 1e-7 = 0.0006 := max_eq_left (by norm_num)
  have hround : spec_round ((0.8 : ℝ) * ((0.3127 : ℝ) - -107618251) / 0.0006) =
      143491001750 := by
    rw [← round_value_eq_spec]
    exact round_value_eq _ _ (by rw [abs_lt]; constructor <;> norm_num)
  have hspec : spec_round (spec_alpha
      (Real.sqrt (((0.3127 : ℝ) - -107618251) ^ 2 + ((0.3290 : ℝ) - 206194633 / 2) ^ 2)) *
      ((0.3127 : ℝ) - -107618251) / max 0.0006 1e-7) = 143491001750 := by
    rw [hal, hmax, hround]
  refine ⟨init_state_in_range _ _ _ _ _, _, _, hm, hx, hy, s1, s2, ?_, ?_, by decide, by decide⟩
  · rw [(calibration_update_frame Real.sqrt _ _).2.2.2.2]
    show clamp_gain (int_add 192 (round_to_int (step_adj_r Real.sqrt _ _))) = 0
    rw [round_to_int_above]
    · decide
    · rw [step_adj_r_eq_spec]
      show INT_MAX < spec_round (spec_alpha (Real.sqrt (((0.3127 : ℝ) - _) ^ 2 +
        ((0.3290 : ℝ) - _) ^ 2)) * ((0.3127 : ℝ) - _) / max (0.0006 : ℝ) 1e-7)
      rw [hx, hy, hspec]
      decide
  · rw [hx, hy]
    exact hspec

end Calibration
